import Mathlib

/-!
Sync-type LCD timing generator built from chained DMA descriptors.

Shallow embedding of `disp.h`, `disp_sync_pdma.c` and `disp_sync_gdma.c`
(sync configuration, `CONFIG_LCD_PANEL_USE_DE_ONLY` not defined) and the
properties of the descriptor chain builder, the stage classification and the
completion handler.

Conventions of the embedding.

* C `uint32_t` values are natural numbers; every operation that can leave the
  range is followed by an explicit reduction modulo `2^32` (`toU32`).
  C `int` values are integers, with `toInt32` where the code stores into an `int`.
* The descriptor array `s_sDscLCD` is a list of descriptors (one entry per
  `DSCT_T` / `S_CMDBUF` slot of the C array, in memory order).  A pointer into
  the array (`next`, `s_head`, `s_end`) is the index of the slot it points to,
  and the cast `(uint32_t)p` of such a pointer is `addr_s_sDscLCD + sizeof * p`.
* `m_dscV[v].m_dscH[h]` is slot `evHStageCNT * v + h`.
-/

set_option autoImplicit false

namespace Disp

/-! ## Machine integers -/

/-- Conversion of an integer to the 32-bit C type `int` (two's-complement wrap-around). -/
def toInt32 (x : Int) : Int := (x + 2147483648) % 4294967296 - 2147483648

/-- Conversion of an integer to `uint32_t`. -/
def toU32 (x : Int) : Nat := (x % 4294967296).toNat

/-! ## disp.h -/

/-- The configuration macros of `disp.h`, together with the addresses that the
headers of the device and the linker fix and that the sources at hand do not
contain (`EBI_BANK0_BASE_ADDR`, `EBI_MAX_SIZE`, and the addresses of the
objects `s_u32DummyData`, `s_sDscLCD` and `g_au8FrameBuf`). -/
structure Config where
  EBI_BANK0_BASE_ADDR : Nat
  EBI_MAX_SIZE : Nat
  addr_s_u32DummyData : Nat
  addr_s_sDscLCD : Nat
  addr_g_au8FrameBuf : Nat
  CONFIG_DISP_EBI : Nat
  CONFIG_DISP_VPW_ACTIVE_LOW : Nat
  CONFIG_DISP_HPW_ACTIVE_LOW : Nat
  CONFIG_DISP_DE_ACTIVE_LOW : Nat
  CONFIG_DISP_VSYNC_BITIDX : Nat
  CONFIG_DISP_HSYNC_BITIDX : Nat
  CONFIG_DISP_DE_BITIDX : Nat
  CONFIG_TIMING_HACT : Nat
  CONFIG_TIMING_VACT : Nat
  CONFIG_TIMING_HBP : Nat
  CONFIG_TIMING_HFP : Nat
  CONFIG_TIMING_HPW : Nat
  CONFIG_TIMING_VBP : Nat
  CONFIG_TIMING_VFP : Nat
  CONFIG_TIMING_VPW : Nat

/-- The values that `disp.h` ships (`CONFIG_DISP_EBI` is `EBI_BANK0`, bank 0), for
given platform addresses. -/
def shipped (ebiBase ebiMax dummy dsc fb : Nat) : Config :=
  { EBI_BANK0_BASE_ADDR := ebiBase
    EBI_MAX_SIZE := ebiMax
    addr_s_u32DummyData := dummy
    addr_s_sDscLCD := dsc
    addr_g_au8FrameBuf := fb
    CONFIG_DISP_EBI := 0
    CONFIG_DISP_VPW_ACTIVE_LOW := 1
    CONFIG_DISP_HPW_ACTIVE_LOW := 1
    CONFIG_DISP_DE_ACTIVE_LOW := 0
    CONFIG_DISP_VSYNC_BITIDX := 1
    CONFIG_DISP_HSYNC_BITIDX := 2
    CONFIG_DISP_DE_BITIDX := 8
    CONFIG_TIMING_HACT := 480
    CONFIG_TIMING_VACT := 272
    CONFIG_TIMING_HBP := 30
    CONFIG_TIMING_HFP := 5
    CONFIG_TIMING_HPW := 41
    CONFIG_TIMING_VBP := 2
    CONFIG_TIMING_VFP := 27
    CONFIG_TIMING_VPW := 10 }

/-- A small timing table (1/1/1/2 lines, 1/1/1/3 pixels) with the shipped polarities. -/
def tiny : Config :=
  { EBI_BANK0_BASE_ADDR := 1610612736
    EBI_MAX_SIZE := 1048576
    addr_s_u32DummyData := 536870912
    addr_s_sDscLCD := 536871936
    addr_g_au8FrameBuf := 536936448
    CONFIG_DISP_EBI := 0
    CONFIG_DISP_VPW_ACTIVE_LOW := 1
    CONFIG_DISP_HPW_ACTIVE_LOW := 1
    CONFIG_DISP_DE_ACTIVE_LOW := 0
    CONFIG_DISP_VSYNC_BITIDX := 1
    CONFIG_DISP_HSYNC_BITIDX := 2
    CONFIG_DISP_DE_BITIDX := 8
    CONFIG_TIMING_HACT := 3
    CONFIG_TIMING_VACT := 2
    CONFIG_TIMING_HBP := 1
    CONFIG_TIMING_HFP := 1
    CONFIG_TIMING_HPW := 1
    CONFIG_TIMING_VBP := 1
    CONFIG_TIMING_VFP := 1
    CONFIG_TIMING_VPW := 1 }

/-- `CONFIG_DISP_VSYNC_BITMASK`: `(1<<CONFIG_DISP_VSYNC_BITIDX)`. -/
def CONFIG_DISP_VSYNC_BITMASK (c : Config) : Int := (2 ^ c.CONFIG_DISP_VSYNC_BITIDX : Nat)

/-- `CONFIG_DISP_HSYNC_BITMASK`: `(1<<CONFIG_DISP_HSYNC_BITIDX)`. -/
def CONFIG_DISP_HSYNC_BITMASK (c : Config) : Int := (2 ^ c.CONFIG_DISP_HSYNC_BITIDX : Nat)

/-- `CONFIG_DISP_DE_BITMASK`: `(1<<CONFIG_DISP_DE_BITIDX)`. -/
def CONFIG_DISP_DE_BITMASK (c : Config) : Int := (2 ^ c.CONFIG_DISP_DE_BITIDX : Nat)

/-- `CONFIG_DISP_VSYNC_ACTIVE`: the signed offset that asserts VSYNC. -/
def CONFIG_DISP_VSYNC_ACTIVE (c : Config) : Int :=
  if c.CONFIG_DISP_VPW_ACTIVE_LOW ≠ 0 then -1 * CONFIG_DISP_VSYNC_BITMASK c
  else CONFIG_DISP_VSYNC_BITMASK c

/-- `CONFIG_DISP_HSYNC_ACTIVE`: the signed offset that asserts HSYNC. -/
def CONFIG_DISP_HSYNC_ACTIVE (c : Config) : Int :=
  if c.CONFIG_DISP_HPW_ACTIVE_LOW ≠ 0 then -1 * CONFIG_DISP_HSYNC_BITMASK c
  else CONFIG_DISP_HSYNC_BITMASK c

/-- `CONFIG_DISP_DE_ACTIVE`: the signed offset that asserts DE. -/
def CONFIG_DISP_DE_ACTIVE (c : Config) : Int :=
  if c.CONFIG_DISP_DE_ACTIVE_LOW ≠ 0 then -1 * CONFIG_DISP_DE_BITMASK c
  else CONFIG_DISP_DE_BITMASK c

/-- `CONFIG_DISP_EBI_ADDR`: the bank address with every active-low line held high
(an `unsigned long` sum). -/
def CONFIG_DISP_EBI_ADDR (c : Config) : Nat :=
  (c.EBI_BANK0_BASE_ADDR + c.CONFIG_DISP_EBI * c.EBI_MAX_SIZE
    + c.CONFIG_DISP_VPW_ACTIVE_LOW * 2 ^ c.CONFIG_DISP_VSYNC_BITIDX
    + c.CONFIG_DISP_HPW_ACTIVE_LOW * 2 ^ c.CONFIG_DISP_HSYNC_BITIDX
    + c.CONFIG_DISP_DE_ACTIVE_LOW * 2 ^ c.CONFIG_DISP_DE_BITIDX) % 4294967296

/-- The enumeration `E_HSTAGE` (without its counter `evHStageCNT`). -/
inductive E_HSTAGE where
  | evHStageHFP
  | evHStageHSYNC
  | evHStageHBP
  | evHStageHACT
  deriving DecidableEq, Repr

/-- The enumeration `E_VSTAGE` (without its counter `evVStageCNT`). -/
inductive E_VSTAGE where
  | evVStageVFP
  | evVStageVSYNC
  | evVStageVBP
  | evVStageVACT
  deriving DecidableEq, Repr

/-- The enumerator `evHStageCNT`. -/
def evHStageCNT : Nat := 4

/-- The enumerator `evVStageCNT`. -/
def evVStageCNT : Nat := 4

/-- The integer value of an `E_HSTAGE` enumerator. -/
def E_HSTAGE.val : E_HSTAGE → Nat
  | .evHStageHFP => 0
  | .evHStageHSYNC => 1
  | .evHStageHBP => 2
  | .evHStageHACT => 3

/-- The integer value of an `E_VSTAGE` enumerator. -/
def E_VSTAGE.val : E_VSTAGE → Nat
  | .evVStageVFP => 0
  | .evVStageVSYNC => 1
  | .evVStageVBP => 2
  | .evVStageVACT => 3

/-- The `E_HSTAGE` enumerator of an integer value below `evHStageCNT`. -/
def E_HSTAGE.ofVal : Nat → E_HSTAGE
  | 0 => .evHStageHFP
  | 1 => .evHStageHSYNC
  | 2 => .evHStageHBP
  | _ => .evHStageHACT

/-- The values `0 .. evVStageCNT-1` in the order in which `for (i = 0; i < evVStageCNT; i++)`
visits them. -/
def vStages : List E_VSTAGE :=
  [.evVStageVFP, .evVStageVSYNC, .evVStageVBP, .evVStageVACT]

/-- `CONFIG_VRAM_BUF_SIZE`. -/
def CONFIG_VRAM_BUF_SIZE (c : Config) : Nat := c.CONFIG_TIMING_HACT * c.CONFIG_TIMING_VACT * 2

/-- `DEF_TOTAL_VLINES` of the sync configuration. -/
def DEF_TOTAL_VLINES (c : Config) : Nat :=
  c.CONFIG_TIMING_VPW + c.CONFIG_TIMING_VBP + c.CONFIG_TIMING_VACT + c.CONFIG_TIMING_VFP

/-- `DEF_VACT_INDEX` of the sync configuration. -/
def DEF_VACT_INDEX (c : Config) : Nat :=
  c.CONFIG_TIMING_VFP + c.CONFIG_TIMING_VPW + c.CONFIG_TIMING_VBP

/-- The table `s_au32HTiming` (the same in both files). -/
def s_au32HTiming (c : Config) : E_HSTAGE → Nat
  | .evHStageHFP => c.CONFIG_TIMING_HFP
  | .evHStageHSYNC => c.CONFIG_TIMING_HPW
  | .evHStageHBP => c.CONFIG_TIMING_HBP
  | .evHStageHACT => c.CONFIG_TIMING_HACT

/-- The table `s_au32VTiming` (the same in both files). -/
def s_au32VTiming (c : Config) : E_VSTAGE → Nat
  | .evVStageVFP => c.CONFIG_TIMING_VFP
  | .evVStageVSYNC => c.CONFIG_TIMING_VPW
  | .evVStageVBP => c.CONFIG_TIMING_VBP
  | .evVStageVACT => c.CONFIG_TIMING_VACT

/-- The number of descriptor slots of `s_sDscLCD`:
`sizeof(s_sDscLCD) / sizeof(DSCT_T)`, resp. `sizeof(s_sDscLCD) / sizeof(S_CMDBUF)`. -/
def dscSlots (c : Config) : Nat := evHStageCNT * DEF_TOTAL_VLINES c

/-- The pointer `s_head`: slot 0. -/
def s_head : Nat := 0

/-- The pointer `s_end`: `s_head + (sizeof(s_sDscLCD) / sizeof(descriptor) - 1)`, the last
slot of the array (of an array with at least one line). -/
def s_end (c : Config) : Nat := s_head + (dscSlots c - 1)

/-- The slot of `m_dscV[v].m_dscH[h]`. -/
def slotOf (v : Nat) (h : E_HSTAGE) : Nat := evHStageCNT * v + h.val

/-- The start of the cumulative range of a vertical stage: the sum of the durations
of the stages before it, in the order VFP, VSYNC, VBP, VACT. -/
def stageStart (c : Config) : E_VSTAGE → Nat
  | .evVStageVFP => 0
  | .evVStageVSYNC => c.CONFIG_TIMING_VFP
  | .evVStageVBP => c.CONFIG_TIMING_VFP + c.CONFIG_TIMING_VPW
  | .evVStageVACT => c.CONFIG_TIMING_VFP + c.CONFIG_TIMING_VPW + c.CONFIG_TIMING_VBP

namespace Pdma

/-- The loop of `get_current_vstage` (disp_sync_pdma.c) over the stages still to visit,
`sum` being the running total held in an `int`. Falling out of the loop is `return 0`. -/
def get_current_vstage_loop (c : Config) (i32LineIdx : Int) : List E_VSTAGE → Int → E_VSTAGE
  | [], _ => E_VSTAGE.evVStageVFP
  | i :: rest, sum =>
    let sum1 := toInt32 (sum + (s_au32VTiming c i : Int))
    if i32LineIdx < sum1 then i else get_current_vstage_loop c i32LineIdx rest sum1

/-- Function `get_current_vstage` of disp_sync_pdma.c. -/
def get_current_vstage (c : Config) (i32LineIdx : Int) : E_VSTAGE :=
  get_current_vstage_loop c i32LineIdx vStages 0

end Pdma

namespace Gdma

/-- The loop of `get_current_vstage` (disp_sync_gdma.c) over the stages still to visit,
`sum` being the running total held in an `int`. Falling out of the loop is `return 0`. -/
def get_current_vstage_loop (c : Config) (i32LineIdx : Int) : List E_VSTAGE → Int → E_VSTAGE
  | [], _ => E_VSTAGE.evVStageVFP
  | i :: rest, sum =>
    let sum1 := toInt32 (sum + (s_au32VTiming c i : Int))
    if i32LineIdx < sum1 then i else get_current_vstage_loop c i32LineIdx rest sum1

/-- Function `get_current_vstage` of disp_sync_gdma.c. -/
def get_current_vstage (c : Config) (i32LineIdx : Int) : E_VSTAGE :=
  get_current_vstage_loop c i32LineIdx vStages 0

end Gdma

/-! ## Module state shared by both backends -/

/-- The file-scope variables of a backend: the descriptor array `s_sDscLCD` (slots of
type `D`), the requested buffer `s_pu16BufAddr` and the callback pointer `s_DispBlankCb`
(`0` is `NULL`).  Two observation fields are added to them: `patchStores` counts the
stores that the completion handler makes into `s_sDscLCD`, and `blankCalls` lists the
calls `s_DispBlankCb(arg)` made so far as pairs (function pointer, argument), the most
recent first.  The callback itself is code outside the module, which reaches these
variables through `disp_set_vrambufaddr`, `disp_get_vrambufaddr` and `disp_set_blankcb` only. -/
structure DispState (D : Type) where
  s_sDscLCD : List D
  s_pu16BufAddr : Nat
  s_DispBlankCb : Nat
  patchStores : Nat
  blankCalls : List (Nat × Nat)

/-- Function `disp_set_vrambufaddr` (the same in both files). -/
def disp_set_vrambufaddr {D : Type} (pvBufAddr : Nat) (s : DispState D) : DispState D :=
  { s with s_pu16BufAddr := pvBufAddr }

/-- Function `disp_get_vrambufaddr` (the same in both files). -/
def disp_get_vrambufaddr {D : Type} (s : DispState D) : Nat := s.s_pu16BufAddr

/-- Function `disp_set_blankcb` (the same in both files). -/
def disp_set_blankcb {D : Type} (f : Nat) (s : DispState D) : DispState D :=
  { s with s_DispBlankCb := f }

/-- The values `0 .. evHStageCNT-1` in the order in which
`for (evH = 0; evH < evHStageCNT; evH++)` visits them. -/
def hStages : List E_HSTAGE :=
  [.evHStageHFP, .evHStageHSYNC, .evHStageHBP, .evHStageHACT]

/-- The pointer step `pu16Buf + n` on a `uint16_t *` held in a 32-bit register. -/
def u16PtrAdd (p n : Nat) : Nat := (p + 2 * n) % 4294967296

/-! ## disp_sync_pdma.c -/

namespace Pdma

/-- Modelled from the spec: the enumeration `nu_pdma_memctrl_t` of the PDMA library
(pdma_lib, not among the sources), restricted to the two values the builder uses: the
source-address increment flag off or on, the destination address always fixed. -/
inductive nu_pdma_memctrl_t where
  | eMemCtl_SrcFix_DstFix
  | eMemCtl_SrcInc_DstFix
  deriving DecidableEq, Repr

/-- Modelled from the spec: the control word `CTL` of a PDMA descriptor, whose bit layout
the device header (not among the sources) fixes, as the record of the fields the spec
lists for a descriptor: transfer unit width, transfer count, the address increment
policy, and the bit `TBINTDIS` that disables the transfer-done interrupt of the entry. -/
structure CTL_T where
  TXWIDTH : Nat
  TXCNT : Nat
  memctrl : nu_pdma_memctrl_t
  TBINTDIS : Bool
  deriving DecidableEq, Repr

/-- Modelled from the spec: the descriptor type `DSCT_T` of the device header (not among the
sources), with the four words `CTL`, `SA`, `DA`, `NEXT` that `disp_pdma_dsc_dump` prints:
control, source address, destination address and link pointer. -/
structure DSCT_T where
  CTL : CTL_T
  SA : Nat
  DA : Nat
  NEXT : Nat
  deriving DecidableEq, Repr

/-- A descriptor slot of the zero-initialised static array. -/
def DSCT_T.zero : DSCT_T :=
  { CTL := { TXWIDTH := 0, TXCNT := 0, memctrl := .eMemCtl_SrcFix_DstFix, TBINTDIS := false }
    SA := 0, DA := 0, NEXT := 0 }

/-- The store `d.NEXT = v`. -/
def DSCT_T.setNEXT (d : DSCT_T) (v : Nat) : DSCT_T := { d with NEXT := v }

/-- The store `d.SA = v`. -/
def DSCT_T.setSA (d : DSCT_T) (v : Nat) : DSCT_T := { d with SA := v }

/-- The store `d.CTL &= ~PDMA_DSCT_CTL_TBINTDIS_Msk`. -/
def DSCT_T.clrTBINTDIS (d : DSCT_T) : DSCT_T := { d with CTL := { d.CTL with TBINTDIS := false } }

/-- Modelled from the spec: the size in bytes of `DSCT_T` (four 32-bit words). -/
def sizeof_DSCT_T : Nat := 16

/-- The value `(uint32_t)p` of a pointer `p` to slot `p` of `s_sDscLCD`. -/
def ptrVal (c : Config) (p : Nat) : Nat := c.addr_s_sDscLCD + sizeof_DSCT_T * p

/-- Modelled from the spec: `nu_pdma_m2m_desc_setup` of the PDMA library (pdma_lib, not
among the sources) fills one descriptor with the fields the spec lists: source and
destination address, unit width, transfer count, increment policy, the link to the next
descriptor, and, when its last argument is non-zero, the interrupt of the entry disabled. -/
def nu_pdma_m2m_desc_setup (u32DataWidth u32AddrSrc u32AddrDst u32XferCount : Nat)
    (evMemCtrl : nu_pdma_memctrl_t) (next : Nat) (u32BeSilent : Nat) : DSCT_T :=
  { CTL := { TXWIDTH := u32DataWidth, TXCNT := u32XferCount, memctrl := evMemCtrl,
             TBINTDIS := decide (u32BeSilent ≠ 0) }
    SA := u32AddrSrc, DA := u32AddrDst, NEXT := next }

/-- The local variables of `disp_pdma_dsc_init` that live across loop iterations: the
array being written, the pointer `next` and the pointer `pu16Buf`. -/
structure BuildState where
  dsc : List DSCT_T
  next : Nat
  pu16Buf : Nat

/-- The values that the `switch (evV)` of `disp_pdma_dsc_init` leaves in
`u32AddrSrc`, `u32AddrDst`, `evMemCtrl` and `pu16Buf`. -/
structure Locals where
  u32AddrSrc : Nat
  u32AddrDst : Nat
  evMemCtrl : nu_pdma_memctrl_t
  pu16Buf : Nat

/-- The `switch (evV)` of `disp_pdma_dsc_init`, entered with `u32AddrSrc = &s_u32DummyData`
and `evMemCtrl = eMemCtl_SrcFix_DstFix`. -/
def dsc_switch (c : Config) (evV : E_VSTAGE) (evH : E_HSTAGE) (pu16Buf : Nat) : Locals :=
  match evV with
  | .evVStageVSYNC =>
    { u32AddrSrc := c.addr_s_u32DummyData
      u32AddrDst :=
        if evH = .evHStageHSYNC then
          toU32 (CONFIG_DISP_EBI_ADDR c + CONFIG_DISP_VSYNC_ACTIVE c + CONFIG_DISP_HSYNC_ACTIVE c)
        else toU32 (CONFIG_DISP_EBI_ADDR c + CONFIG_DISP_VSYNC_ACTIVE c)
      evMemCtrl := .eMemCtl_SrcFix_DstFix
      pu16Buf := pu16Buf }
  | .evVStageVBP =>
    { u32AddrSrc := c.addr_s_u32DummyData
      u32AddrDst :=
        if evH = .evHStageHSYNC then toU32 (CONFIG_DISP_EBI_ADDR c + CONFIG_DISP_HSYNC_ACTIVE c)
        else CONFIG_DISP_EBI_ADDR c
      evMemCtrl := .eMemCtl_SrcFix_DstFix
      pu16Buf := pu16Buf }
  | .evVStageVACT =>
    { u32AddrSrc :=
        if evH = .evHStageHACT then pu16Buf % 4294967296 else c.addr_s_u32DummyData
      u32AddrDst :=
        if evH = .evHStageHSYNC then toU32 (CONFIG_DISP_EBI_ADDR c + CONFIG_DISP_HSYNC_ACTIVE c)
        else if evH = .evHStageHACT then
          toU32 (CONFIG_DISP_EBI_ADDR c + CONFIG_DISP_DE_ACTIVE c)
        else CONFIG_DISP_EBI_ADDR c
      evMemCtrl :=
        if evH = .evHStageHACT then .eMemCtl_SrcInc_DstFix else .eMemCtl_SrcFix_DstFix
      pu16Buf :=
        if evH = .evHStageHACT then u16PtrAdd pu16Buf c.CONFIG_TIMING_HACT else pu16Buf }
  | .evVStageVFP =>
    { u32AddrSrc := c.addr_s_u32DummyData
      u32AddrDst :=
        if evH = .evHStageHSYNC then toU32 (CONFIG_DISP_EBI_ADDR c + CONFIG_DISP_HSYNC_ACTIVE c)
        else CONFIG_DISP_EBI_ADDR c
      evMemCtrl := .eMemCtl_SrcFix_DstFix
      pu16Buf := pu16Buf }

/-- One iteration of the inner loop of `disp_pdma_dsc_init`: the switch, the call
`nu_pdma_m2m_desc_setup(next, 16, src, dst, count, memctrl, next + 1, 1)` and `next++`. -/
def dsc_init_body (c : Config) (evV : E_VSTAGE) (evH : E_HSTAGE) (st : BuildState) :
    BuildState :=
  let u32DataWidth := 16
  let u32XferCount := s_au32HTiming c evH
  let l := dsc_switch c evV evH st.pu16Buf
  { dsc := st.dsc.set st.next
      (nu_pdma_m2m_desc_setup u32DataWidth l.u32AddrSrc l.u32AddrDst u32XferCount l.evMemCtrl
        (ptrVal c (st.next + 1)) 1)
    next := st.next + 1
    pu16Buf := l.pu16Buf }

/-- The inner loop `for (evH = 0; evH < evHStageCNT; evH++)` over the stages still to visit. -/
def dsc_init_hloop (c : Config) (evV : E_VSTAGE) : List E_HSTAGE → BuildState → BuildState
  | [], st => st
  | evH :: rest, st => dsc_init_hloop c evV rest (dsc_init_body c evV evH st)

/-- The state of the outer loop `for (i = 0; i < DEF_TOTAL_VLINES; i++)` after its
iterations `i = 0 .. n-1`. -/
def dsc_init_vloop (c : Config) : Nat → BuildState → BuildState
  | 0, st => st
  | n + 1, st =>
    dsc_init_hloop c (get_current_vstage c (n : Int)) hStages (dsc_init_vloop c n st)

/-- The store `p->field = ...` into the slot a descriptor pointer designates. -/
def storeAt (dsc : List DSCT_T) (p : Nat) (f : DSCT_T → DSCT_T) : List DSCT_T :=
  dsc.set p (f (dsc.getD p DSCT_T.zero))

/-- Function `disp_pdma_dsc_init` (sync configuration): the two loops from `next = s_head`
and `pu16Buf = s_pu16BufAddr`, then `s_end->NEXT = (uint32_t)s_head` and
`s_end->CTL &= ~PDMA_DSCT_CTL_TBINTDIS_Msk`. -/
def disp_pdma_dsc_init (c : Config) (s : DispState DSCT_T) : DispState DSCT_T :=
  let st := dsc_init_vloop c (DEF_TOTAL_VLINES c)
    { dsc := s.s_sDscLCD, next := s_head, pu16Buf := s.s_pu16BufAddr }
  let d1 := storeAt st.dsc (s_end c) (fun d => d.setNEXT (ptrVal c s_head))
  let d2 := storeAt d1 (s_end c) (fun d => d.clrTBINTDIS)
  { s with s_sDscLCD := d2 }

/-- Modelled from the spec: the event code `NU_PDMA_EVENT_TRANSFER_DONE` of the PDMA library
(pdma_lib, not among the sources), the "done" status of a completion event; every other
event code is a different number. -/
def NU_PDMA_EVENT_TRANSFER_DONE : Nat := 2

/-- The patch loop of `nu_pdma_memfun_cb` after its iterations `i = 0 .. n-1`:
`m_dscV[DEF_VACT_INDEX + i].m_dscH[evHStageHACT].SA = (uint32_t)&s_pu16BufAddr[i * CONFIG_TIMING_HACT]`. -/
def patch_loop (c : Config) (buf : Nat) : Nat → List DSCT_T → List DSCT_T
  | 0, dsc => dsc
  | i + 1, dsc =>
    storeAt (patch_loop c buf i dsc) (slotOf (DEF_VACT_INDEX c + i) .evHStageHACT)
      (fun d => d.setSA (u16PtrAdd buf (i * c.CONFIG_TIMING_HACT)))

/-- Function `nu_pdma_memfun_cb`, the completion callback of the PDMA channel.  The call
`s_DispBlankCb((void *)s_pu16BufAddr)`, its last action, is recorded in `blankCalls`. -/
def nu_pdma_memfun_cb (c : Config) (u32Events : Nat) (s : DispState DSCT_T) :
    DispState DSCT_T :=
  if u32Events = NU_PDMA_EVENT_TRANSFER_DONE then
    let s1 :=
      if (s.s_sDscLCD.getD (slotOf (DEF_VACT_INDEX c) .evHStageHACT) DSCT_T.zero).SA
          ≠ s.s_pu16BufAddr % 4294967296 then
        { s with
          s_sDscLCD := patch_loop c s.s_pu16BufAddr (s_au32VTiming c .evVStageVACT) s.s_sDscLCD
          patchStores := s.patchStores + s_au32VTiming c .evVStageVACT }
      else s
    if s1.s_DispBlankCb ≠ 0 then
      { s1 with blankCalls := (s1.s_DispBlankCb, s1.s_pu16BufAddr) :: s1.blankCalls }
    else s1
  else s

end Pdma

/-! ## disp_sync_gdma.c -/

namespace Gdma

/-- `DEF_CMDBUF_SIZE`. -/
def DEF_CMDBUF_SIZE : Nat := 16

/-- The type `S_CMDBUF`: the words `m_cmdbuf[0 .. DEF_CMDBUF_SIZE-1]`, as a map from the word
index. -/
structure S_CMDBUF where
  m_cmdbuf : Nat → Nat

/-- A command buffer of the zero-initialised static array. -/
def S_CMDBUF.zero : S_CMDBUF := { m_cmdbuf := fun _ => 0 }

/-- The size in bytes of `S_CMDBUF`. -/
def sizeof_S_CMDBUF : Nat := 4 * DEF_CMDBUF_SIZE

/-- The value `(uint32_t)p` of a pointer `p` to slot `p` of `s_sDscLCD`. -/
def ptrVal (c : Config) (p : Nat) : Nat := c.addr_s_sDscLCD + sizeof_S_CMDBUF * p

/-- Header bit of `REGCLEAR_SET`, from the table `szGDMADscItemName`. -/
def bitREGCLEAR : Nat := 0

/-- Header bit of `INTREN_SET`, from the table `szGDMADscItemName`. -/
def bitINTREN : Nat := 2

/-- Header bit of `CTRL_SET`, from the table `szGDMADscItemName`. -/
def bitCTRL : Nat := 3

/-- Header bit of `SRC_ADDR_SET`, from the table `szGDMADscItemName`. -/
def bitSRC_ADDR : Nat := 4

/-- Header bit of `SRC_ADDRHI_SET`, from the table `szGDMADscItemName`. -/
def bitSRC_ADDRHI : Nat := 5

/-- Header bit of `DES_ADDR_SET`, from the table `szGDMADscItemName`. -/
def bitDES_ADDR : Nat := 6

/-- Header bit of `DES_ADDRHI_SET`, from the table `szGDMADscItemName`. -/
def bitDES_ADDRHI : Nat := 7

/-- Header bit of `XSIZE_SET`, from the table `szGDMADscItemName`. -/
def bitXSIZE : Nat := 8

/-- Header bit of `XSIZEHI_SET`, from the table `szGDMADscItemName`. -/
def bitXSIZEHI : Nat := 9

/-- Header bit of `XADDRINC_SET`, from the table `szGDMADscItemName`. -/
def bitXADDRINC : Nat := 12

/-- Header bit of `LINKADDR_SET`, from the table `szGDMADscItemName`. -/
def bitLINKADDR : Nat := 30

/-- Header bit of `LINKADDRHI_SET`, from the table `szGDMADscItemName`. -/
def bitLINKADDRHI : Nat := 31

/-- Whether bit `b` of the word `h` is set. -/
def hdrBit (h b : Nat) : Bool := decide (h / 2 ^ b % 2 = 1)

/-- The word `h | (1 << b)`. -/
def hdrSet (h b : Nat) : Nat := if hdrBit h b then h else h + 2 ^ b

/-- The word `h & ~(1 << b)`. -/
def hdrClr (h b : Nat) : Nat := if hdrBit h b then h - 2 ^ b else h

/-- The word `reg` with its bit field of width `w` at position `lo` replaced by `v`. -/
def setField (reg lo w v : Nat) : Nat :=
  reg - (reg / 2 ^ lo % 2 ^ w) * 2 ^ lo + (v % 2 ^ w) * 2 ^ lo

/-- Modelled from the spec: `struct dma350_cmdlink_gencfg_t` of the DMA-350 driver (not
among the sources), the generic field-presence bitmap `header` the spec mentions and one
register value per header bit (`cfg b` for the bit `b` of `szGDMADscItemName`, bits 2 to 31). -/
structure dma350_cmdlink_gencfg_t where
  header : Nat
  cfg : Nat → Nat

/-- The configuration `g` with register `b` set to `v`. -/
def setReg (g : dma350_cmdlink_gencfg_t) (b v : Nat) : dma350_cmdlink_gencfg_t :=
  { g with cfg := fun j => if j = b then v else g.cfg j }

/-- The configuration `g` with header bit `b` set. -/
def setHdr (g : dma350_cmdlink_gencfg_t) (b : Nat) : dma350_cmdlink_gencfg_t :=
  { g with header := hdrSet g.header b }

/-- The configuration `g` with header bit `b` cleared. -/
def clrHdr (g : dma350_cmdlink_gencfg_t) (b : Nat) : dma350_cmdlink_gencfg_t :=
  { g with header := hdrClr g.header b }

/-- Modelled from the spec: `dma350_cmdlink_init` of the DMA-350 driver (not among the
sources) starts from an empty bitmap and zeroed registers. -/
def dma350_cmdlink_init : dma350_cmdlink_gencfg_t := { header := 0, cfg := fun _ => 0 }

/-- Modelled from the spec: `dma350_cmdlink_set_regclear` of the DMA-350 driver (not among
the sources) sets the bit `REGCLEAR_SET`, which has no register word. -/
def dma350_cmdlink_set_regclear (g : dma350_cmdlink_gencfg_t) : dma350_cmdlink_gencfg_t :=
  setHdr g bitREGCLEAR

/-- Modelled from the spec: `dma350_cmdlink_set_src_des` of the DMA-350 driver (not among
the sources) records the 32-bit source address, the 32-bit destination address and the
two transfer counts (low halves in `XSIZE`, high halves in `XSIZEHI`). -/
def dma350_cmdlink_set_src_des (g : dma350_cmdlink_gencfg_t) (src des src_size des_size : Nat) :
    dma350_cmdlink_gencfg_t :=
  let g := setReg (clrHdr (setHdr g bitSRC_ADDR) bitSRC_ADDRHI) bitSRC_ADDR src
  let g := setReg (clrHdr (setHdr g bitDES_ADDR) bitDES_ADDRHI) bitDES_ADDR des
  let g := setReg (setHdr g bitXSIZE) bitXSIZE (src_size % 65536 + 65536 * (des_size % 65536))
  setReg (setHdr g bitXSIZEHI) bitXSIZEHI
    (src_size / 65536 % 65536 + 65536 * (des_size / 65536 % 65536))

/-- Modelled from the spec: `dma350_cmdlink_set_xsize16` of the DMA-350 driver (not among
the sources) records two 16-bit transfer counts in `XSIZE` and drops `XSIZEHI`. -/
def dma350_cmdlink_set_xsize16 (g : dma350_cmdlink_gencfg_t) (src_xsize des_xsize : Nat) :
    dma350_cmdlink_gencfg_t :=
  setReg (clrHdr (setHdr g bitXSIZE) bitXSIZEHI) bitXSIZE
    (src_xsize % 65536 + 65536 * (des_xsize % 65536))

/-- Modelled from the spec: the value `DMA350_CH_TRANSIZE_16BITS` of the DMA-350 driver (not
among the sources), the 16-bit transfer unit width. -/
def DMA350_CH_TRANSIZE_16BITS : Nat := 1

/-- Modelled from the spec: the value `DMA350_CH_XTYPE_CONTINUE` of the DMA-350 driver (not
among the sources), as the content of the field `XTYPE`. -/
def DMA350_CH_XTYPE_CONTINUE : Nat := 1

/-- Modelled from the spec: the value `DMA350_CH_YTYPE_DISABLE` of the DMA-350 driver (not
among the sources), as the content of the field `YTYPE`. -/
def DMA350_CH_YTYPE_DISABLE : Nat := 0

/-- Modelled from the spec: the mask `DMA350_CH_INTREN_DONE` of the DMA-350 driver (not among
the sources), the interrupt-on-completion flag of the interrupt enable register. -/
def DMA350_CH_INTREN_DONE : Nat := 1

/-- Modelled from the spec: `dma350_cmdlink_set_transize` of the DMA-350 driver (not among
the sources) records the transfer unit width in the field `TRANSIZE` of `CTRL`. -/
def dma350_cmdlink_set_transize (g : dma350_cmdlink_gencfg_t) (transize : Nat) :
    dma350_cmdlink_gencfg_t :=
  setReg (setHdr g bitCTRL) bitCTRL (setField (g.cfg bitCTRL) 0 3 transize)

/-- Modelled from the spec: `dma350_cmdlink_set_xtype` of the DMA-350 driver (not among the
sources) records the 1D operation type in the field `XTYPE` of `CTRL`. -/
def dma350_cmdlink_set_xtype (g : dma350_cmdlink_gencfg_t) (xtype : Nat) :
    dma350_cmdlink_gencfg_t :=
  setReg (setHdr g bitCTRL) bitCTRL (setField (g.cfg bitCTRL) 9 3 xtype)

/-- Modelled from the spec: `dma350_cmdlink_set_ytype` of the DMA-350 driver (not among the
sources) records the 2D operation type in the field `YTYPE` of `CTRL`. -/
def dma350_cmdlink_set_ytype (g : dma350_cmdlink_gencfg_t) (ytype : Nat) :
    dma350_cmdlink_gencfg_t :=
  setReg (setHdr g bitCTRL) bitCTRL (setField (g.cfg bitCTRL) 12 3 ytype)

/-- Modelled from the spec: `dma350_cmdlink_set_xaddrinc` of the DMA-350 driver (not among
the sources) records the source and the destination address increment flags. -/
def dma350_cmdlink_set_xaddrinc (g : dma350_cmdlink_gencfg_t) (src_xaddrinc des_xaddrinc : Nat) :
    dma350_cmdlink_gencfg_t :=
  setReg (setHdr g bitXADDRINC) bitXADDRINC
    (src_xaddrinc % 65536 + 65536 * (des_xaddrinc % 65536))

/-- Modelled from the spec: `dma350_cmdlink_enable_linkaddr` of the DMA-350 driver (not
among the sources) turns the link pointer on (flag in bit 0 of `LINKADDR`). -/
def dma350_cmdlink_enable_linkaddr (g : dma350_cmdlink_gencfg_t) : dma350_cmdlink_gencfg_t :=
  setReg (setHdr g bitLINKADDR) bitLINKADDR (setField (g.cfg bitLINKADDR) 0 1 1)

/-- Modelled from the spec: `dma350_cmdlink_set_linkaddr32` of the DMA-350 driver (not among
the sources) records the link pointer to the next descriptor, a word address that leaves
the two flag bits of `LINKADDR` as they are. -/
def dma350_cmdlink_set_linkaddr32 (g : dma350_cmdlink_gencfg_t) (linkaddr : Nat) :
    dma350_cmdlink_gencfg_t :=
  setReg (clrHdr (setHdr g bitLINKADDR) bitLINKADDRHI) bitLINKADDR
    (g.cfg bitLINKADDR % 4 + linkaddr / 4 * 4)

/-- Modelled from the spec: `dma350_cmdlink_enable_intr` of the DMA-350 driver (not among
the sources) sets the interrupt-on-completion flag `intr` in `INTREN`. -/
def dma350_cmdlink_enable_intr (g : dma350_cmdlink_gencfg_t) (intr : Nat) :
    dma350_cmdlink_gencfg_t :=
  setReg (setHdr g bitINTREN) bitINTREN (g.cfg bitINTREN ||| intr)

/-- Modelled from the spec: `dma350_cmdlink_disable_intr` of the DMA-350 driver (not among
the sources) clears the interrupt-on-completion flag `intr` in `INTREN`. -/
def dma350_cmdlink_disable_intr (g : dma350_cmdlink_gencfg_t) (intr : Nat) :
    dma350_cmdlink_gencfg_t :=
  setReg (setHdr g bitINTREN) bitINTREN (g.cfg bitINTREN &&& (4294967295 - intr))

/-- The header bits that carry a register word, in ascending order (bits 2 to 31). -/
def cmdlinkBits (header : Nat) : List Nat :=
  ((List.range 30).map (fun n => n + 2)).filter (fun b => hdrBit header b)

/-- Modelled from the spec: `dma350_cmdlink_generate` of the DMA-350 driver (not among the
sources) writes the header word and then, for every header bit from bit 2 up that is
set, the register word of that bit, and stops at the end of the buffer (word
`DEF_CMDBUF_SIZE - 1`); the other words of the buffer keep their content. -/
def dma350_cmdlink_generate (g : dma350_cmdlink_gencfg_t) (buffer : Nat → Nat) : Nat → Nat :=
  let words := g.header :: (cmdlinkBits g.header).map g.cfg
  fun j => if j < words.length ∧ j < DEF_CMDBUF_SIZE then words.getD j 0 else buffer j

/-- The local variables of `disp_gdma_dsc_init` that live across loop iterations: the
array being written, the pointer `next` and the pointer `pu16Buf`. -/
structure BuildState where
  dsc : List S_CMDBUF
  next : Nat
  pu16Buf : Nat

/-- The values that the `switch (evV)` of `disp_gdma_dsc_init` leaves in
`u32AddrSrc`, `u32AddrDst`, `u16AddrSrcInc`, `u16AddrDstInc` and `pu16Buf`. -/
structure Locals where
  u32AddrSrc : Nat
  u32AddrDst : Nat
  u16AddrSrcInc : Nat
  u16AddrDstInc : Nat
  pu16Buf : Nat

/-- The `switch (evV)` of `disp_gdma_dsc_init`, entered with `u32AddrSrc = &s_u32DummyData`,
`u16AddrSrcInc = 0` and `u16AddrDstInc = 0`. -/
def dsc_switch (c : Config) (evV : E_VSTAGE) (evH : E_HSTAGE) (pu16Buf : Nat) : Locals :=
  match evV with
  | .evVStageVSYNC =>
    { u32AddrSrc := c.addr_s_u32DummyData
      u32AddrDst :=
        if evH = .evHStageHSYNC then
          toU32 (CONFIG_DISP_EBI_ADDR c + CONFIG_DISP_VSYNC_ACTIVE c + CONFIG_DISP_HSYNC_ACTIVE c)
        else toU32 (CONFIG_DISP_EBI_ADDR c + CONFIG_DISP_VSYNC_ACTIVE c)
      u16AddrSrcInc := 0
      u16AddrDstInc := 0
      pu16Buf := pu16Buf }
  | .evVStageVBP =>
    { u32AddrSrc := c.addr_s_u32DummyData
      u32AddrDst :=
        if evH = .evHStageHSYNC then toU32 (CONFIG_DISP_EBI_ADDR c + CONFIG_DISP_HSYNC_ACTIVE c)
        else CONFIG_DISP_EBI_ADDR c
      u16AddrSrcInc := 0
      u16AddrDstInc := 0
      pu16Buf := pu16Buf }
  | .evVStageVACT =>
    { u32AddrSrc :=
        if evH = .evHStageHACT then pu16Buf % 4294967296 else c.addr_s_u32DummyData
      u32AddrDst :=
        if evH = .evHStageHSYNC then toU32 (CONFIG_DISP_EBI_ADDR c + CONFIG_DISP_HSYNC_ACTIVE c)
        else if evH = .evHStageHACT then
          toU32 (CONFIG_DISP_EBI_ADDR c + CONFIG_DISP_DE_ACTIVE c)
        else CONFIG_DISP_EBI_ADDR c
      u16AddrSrcInc := if evH = .evHStageHACT then 1 else 0
      u16AddrDstInc := 0
      pu16Buf :=
        if evH = .evHStageHACT then u16PtrAdd pu16Buf c.CONFIG_TIMING_HACT else pu16Buf }
  | .evVStageVFP =>
    { u32AddrSrc := c.addr_s_u32DummyData
      u32AddrDst :=
        if evH = .evHStageHSYNC then toU32 (CONFIG_DISP_EBI_ADDR c + CONFIG_DISP_HSYNC_ACTIVE c)
        else CONFIG_DISP_EBI_ADDR c
      u16AddrSrcInc := 0
      u16AddrDstInc := 0
      pu16Buf := pu16Buf }

/-- The command-link configuration that one iteration of the inner loop of
`disp_gdma_dsc_init` assembles in `cmdlink_cfg` (the calls `dma350_cmdlink_init` to
`dma350_cmdlink_set_linkaddr32`, in the order of the source). -/
def dsc_cmdlink (c : Config) (l : Locals) (u32XferCount next : Nat) : dma350_cmdlink_gencfg_t :=
  let g := dma350_cmdlink_init
  let g := dma350_cmdlink_set_regclear g
  let g := dma350_cmdlink_set_src_des g l.u32AddrSrc l.u32AddrDst u32XferCount u32XferCount
  let g := dma350_cmdlink_set_xsize16 g (u32XferCount % 65536) (u32XferCount % 65536)
  let g := dma350_cmdlink_set_transize g DMA350_CH_TRANSIZE_16BITS
  let g := dma350_cmdlink_set_xtype g DMA350_CH_XTYPE_CONTINUE
  let g := dma350_cmdlink_set_ytype g DMA350_CH_YTYPE_DISABLE
  let g := dma350_cmdlink_set_xaddrinc g l.u16AddrSrcInc l.u16AddrDstInc
  let g := dma350_cmdlink_enable_linkaddr g
  if next = s_end c then
    dma350_cmdlink_set_linkaddr32 (dma350_cmdlink_enable_intr g DMA350_CH_INTREN_DONE)
      (ptrVal c s_head)
  else
    dma350_cmdlink_set_linkaddr32 (dma350_cmdlink_disable_intr g DMA350_CH_INTREN_DONE)
      (ptrVal c (next + 1))

/-- One iteration of the inner loop of `disp_gdma_dsc_init`: the switch, the assembly of
`cmdlink_cfg`, `dma350_cmdlink_generate` into the command buffer `next` points to, and
`next++`. -/
def dsc_init_body (c : Config) (evV : E_VSTAGE) (evH : E_HSTAGE) (st : BuildState) :
    BuildState :=
  let u32XferCount := s_au32HTiming c evH
  let l := dsc_switch c evV evH st.pu16Buf
  let g := dsc_cmdlink c l u32XferCount st.next
  { dsc := st.dsc.set st.next
      { m_cmdbuf := dma350_cmdlink_generate g (st.dsc.getD st.next S_CMDBUF.zero).m_cmdbuf }
    next := st.next + 1
    pu16Buf := l.pu16Buf }

/-- The inner loop `for (evH = 0; evH < evHStageCNT; evH++)` over the stages still to visit. -/
def dsc_init_hloop (c : Config) (evV : E_VSTAGE) : List E_HSTAGE → BuildState → BuildState
  | [], st => st
  | evH :: rest, st => dsc_init_hloop c evV rest (dsc_init_body c evV evH st)

/-- The state of the outer loop `for (i = 0; i < DEF_TOTAL_VLINES; i++)` after its
iterations `i = 0 .. n-1`. -/
def dsc_init_vloop (c : Config) : Nat → BuildState → BuildState
  | 0, st => st
  | n + 1, st =>
    dsc_init_hloop c (get_current_vstage c (n : Int)) hStages (dsc_init_vloop c n st)

/-- Function `disp_gdma_dsc_init`: the two loops from `next = s_head` and
`pu16Buf = s_pu16BufAddr`. -/
def disp_gdma_dsc_init (c : Config) (s : DispState S_CMDBUF) : DispState S_CMDBUF :=
  let st := dsc_init_vloop c (DEF_TOTAL_VLINES c)
    { dsc := s.s_sDscLCD, next := s_head, pu16Buf := s.s_pu16BufAddr }
  { s with s_sDscLCD := st.dsc }

/-- Modelled from the spec: `nu_ctz` of `nu_bitutil.h` (not among the sources) counts the
trailing zero bits of a 32-bit word, and gives 32 for the word 0. -/
def nu_ctz (v : Nat) : Nat := ((List.range 32).find? (fun i => hdrBit v i)).getD 32

/-- The loop `while ((i = nu_ctz(u32HdrVal)) < 32)` of `gdma_dsc_find_srcaddr_index`, with
a bound on the number of iterations (each iteration clears one of the at most 32 bits). -/
def find_srcaddr_loop : Nat → Nat → Nat → Nat
  | 0, _, _ => 4294967295
  | fuel + 1, u32HdrVal, n =>
    let i := nu_ctz u32HdrVal
    if i < 32 then
      if i = bitSRC_ADDR then n
      else find_srcaddr_loop fuel (hdrClr u32HdrVal i) (n + 1)
    else 4294967295

/-- Function `gdma_dsc_find_srcaddr_index`: the header is `m_cmdbuf[0]`, scanned from bit 2. -/
def gdma_dsc_find_srcaddr_index (psCmdBuf : S_CMDBUF) : Nat :=
  let header := psCmdBuf.m_cmdbuf 0
  find_srcaddr_loop 33 (header % 4294967296 - header % 4) 0

/-- The store `p->m_cmdbuf[idx] = v` into the slot a descriptor pointer designates. -/
def storeWord (dsc : List S_CMDBUF) (p idx v : Nat) : List S_CMDBUF :=
  dsc.set p
    { m_cmdbuf := fun j => if j = idx then v else (dsc.getD p S_CMDBUF.zero).m_cmdbuf j }

/-- The patch loop of `GDMACH1_IRQHandler` after its iterations `i = 0 .. n-1`:
`m_dscV[DEF_VACT_INDEX + i].m_dscH[evHStageHACT].m_cmdbuf[u32SrcBufAddrIdx] =
(uint32_t)&s_pu16BufAddr[i * CONFIG_TIMING_HACT]`. -/
def patch_loop (c : Config) (buf u32SrcBufAddrIdx : Nat) : Nat → List S_CMDBUF → List S_CMDBUF
  | 0, dsc => dsc
  | i + 1, dsc =>
    storeWord (patch_loop c buf u32SrcBufAddrIdx i dsc)
      (slotOf (DEF_VACT_INDEX c + i) .evHStageHACT) u32SrcBufAddrIdx
      (u16PtrAdd buf (i * c.CONFIG_TIMING_HACT))

/-- Function `GDMACH1_IRQHandler`; `STAT_DONE` is the bit of that name in the channel status
that `dma350_ch_get_status` reads (the write that acknowledges it goes to the device).
The call `s_DispBlankCb((void *)s_pu16BufAddr)`, its last action, is recorded in
`blankCalls`. -/
def GDMACH1_IRQHandler (c : Config) (STAT_DONE : Bool) (s : DispState S_CMDBUF) :
    DispState S_CMDBUF :=
  if STAT_DONE then
    let first := s.s_sDscLCD.getD (slotOf (DEF_VACT_INDEX c) .evHStageHACT) S_CMDBUF.zero
    let u32SrcBufAddrIdx := (gdma_dsc_find_srcaddr_index first + 1) % 4294967296
    let s1 :=
      if first.m_cmdbuf u32SrcBufAddrIdx ≠ s.s_pu16BufAddr % 4294967296 then
        { s with
          s_sDscLCD := patch_loop c s.s_pu16BufAddr u32SrcBufAddrIdx
            (s_au32VTiming c .evVStageVACT) s.s_sDscLCD
          patchStores := s.patchStores + s_au32VTiming c .evVStageVACT }
      else s
    if s1.s_DispBlankCb ≠ 0 then
      { s1 with blankCalls := (s1.s_DispBlankCb, s1.s_pu16BufAddr) :: s1.blankCalls }
    else s1
  else s

/-- The word position in `m_cmdbuf` of the register of header bit `b`: one more than the
number of header bits set among the bits 2 to `b - 1`. -/
def fieldPos (header b : Nat) : Nat := 1 + ((cmdlinkBits header).filter (fun j => j < b)).length

/-- The source address a command buffer holds, read where `GDMACH1_IRQHandler` reads it. -/
def srcAddr (d : S_CMDBUF) : Nat :=
  d.m_cmdbuf ((gdma_dsc_find_srcaddr_index d + 1) % 4294967296)

/-- The destination address a command buffer holds (register of `DES_ADDR_SET`). -/
def desAddr (d : S_CMDBUF) : Nat := d.m_cmdbuf (fieldPos (d.m_cmdbuf 0) bitDES_ADDR)

/-- The link pointer a command buffer holds: the register of `LINKADDR_SET` without its
two flag bits, as `disp_gdma_dsc_dump` reads it. -/
def linkAddr (d : S_CMDBUF) : Nat := d.m_cmdbuf (fieldPos (d.m_cmdbuf 0) bitLINKADDR) / 4 * 4

/-- Whether a command buffer enables the DONE interrupt (register of `INTREN_SET`). -/
def intrDone (d : S_CMDBUF) : Bool :=
  hdrBit (d.m_cmdbuf 0) bitINTREN &&
    decide (d.m_cmdbuf (fieldPos (d.m_cmdbuf 0) bitINTREN) &&& DMA350_CH_INTREN_DONE ≠ 0)

/-- The header word that `disp_gdma_dsc_init` gives every command buffer. -/
def builtHeader : Nat := 1073746269

end Gdma

/-! ## Initial states -/

/-- The PDMA module state at start-up: a zero-initialised `s_sDscLCD`, no callback, and
`s_pu16BufAddr = g_au8FrameBuf` as `disp_sync_pdma_init` sets it before it builds the chain. -/
def Pdma.startState (c : Config) : DispState Pdma.DSCT_T :=
  { s_sDscLCD := List.replicate (dscSlots c) Pdma.DSCT_T.zero
    s_pu16BufAddr := c.addr_g_au8FrameBuf
    s_DispBlankCb := 0
    patchStores := 0
    blankCalls := [] }

/-- The GDMA module state at start-up: a zero-initialised `s_sDscLCD`, no callback, and
`s_pu16BufAddr = g_au8FrameBuf` as `disp_sync_gdma_init` sets it before it builds the chain. -/
def Gdma.startState (c : Config) : DispState Gdma.S_CMDBUF :=
  { s_sDscLCD := List.replicate (dscSlots c) Gdma.S_CMDBUF.zero
    s_pu16BufAddr := c.addr_g_au8FrameBuf
    s_DispBlankCb := 0
    patchStores := 0
    blankCalls := [] }

/-- The shipped configuration on a memory map with the EBI banks at `0x60000000`. -/
def shippedM55 : Config := shipped 1610612736 1048576 536870912 536871936 536936448

/-! ## Closed forms used to state the properties of the built chain -/

/-- The value of `pu16Buf` when the outer loop of a builder reaches line `n`, for the
classification `vs` of the lines and the initial value `B`. -/
def lineBuf (c : Config) (vs : Nat → E_VSTAGE) (B : Nat) : Nat → Nat
  | 0 => B
  | n + 1 =>
    if vs n = .evVStageVACT then u16PtrAdd (lineBuf c vs B n) c.CONFIG_TIMING_HACT
    else lineBuf c vs B n

/-- The destination address of the descriptor of vertical stage `V` and horizontal stage
`h` as the specification states it: the bus address plus the offset of every signal
asserted there. -/
def dstAddr (c : Config) (V : E_VSTAGE) (h : E_HSTAGE) : Nat :=
  toU32 ((CONFIG_DISP_EBI_ADDR c : Int)
    + (if V = .evVStageVSYNC then CONFIG_DISP_VSYNC_ACTIVE c else 0)
    + (if h = .evHStageHSYNC then CONFIG_DISP_HSYNC_ACTIVE c else 0)
    + (if V = .evVStageVACT ∧ h = .evHStageHACT then CONFIG_DISP_DE_ACTIVE c else 0))

namespace Pdma

/-- The descriptor that the inner loop of `disp_pdma_dsc_init` writes to slot `p` for the
stages `evV`, `evH` when `pu16Buf` has the value `pu`. -/
def lineDsc (c : Config) (evV : E_VSTAGE) (evH : E_HSTAGE) (pu p : Nat) : DSCT_T :=
  nu_pdma_m2m_desc_setup 16 (dsc_switch c evV evH pu).u32AddrSrc
    (dsc_switch c evV evH pu).u32AddrDst (s_au32HTiming c evH)
    (dsc_switch c evV evH pu).evMemCtrl (ptrVal c (p + 1)) 1

/-- The classification of the lines by `get_current_vstage` of disp_sync_pdma.c. -/
def vs (c : Config) (n : Nat) : E_VSTAGE := get_current_vstage c (n : Int)

/-- The slot a descriptor address designates. -/
def slotOfPtr (c : Config) (a : Nat) : Nat := (a - c.addr_s_sDscLCD) / sizeof_DSCT_T

/-- The address reached from the address `a` by following `n` link pointers `NEXT`. -/
def follow (c : Config) (dsc : List DSCT_T) : Nat → Nat → Nat
  | 0, a => a
  | n + 1, a => (dsc.getD (slotOfPtr c (follow c dsc n a)) DSCT_T.zero).NEXT

/-- The descriptor that slot `k` holds after `disp_pdma_dsc_init` has run with
`s_pu16BufAddr = B`: the one the loops write, with the two stores through `s_end`. -/
def builtDsc (c : Config) (B k : Nat) : DSCT_T :=
  let d := lineDsc c (vs c (k / 4)) (E_HSTAGE.ofVal (k % 4)) (lineBuf c (vs c) B (k / 4)) k
  if k = s_end c then (d.setNEXT (ptrVal c s_head)).clrTBINTDIS else d

end Pdma

namespace Gdma

/-- The command buffer that the inner loop of `disp_gdma_dsc_init` leaves in slot `p` for
the stages `evV`, `evH` when `pu16Buf` has the value `pu` and the slot held `old`. -/
def lineCmd (c : Config) (evV : E_VSTAGE) (evH : E_HSTAGE) (pu p : Nat) (old : S_CMDBUF) :
    S_CMDBUF :=
  { m_cmdbuf := dma350_cmdlink_generate
      (dsc_cmdlink c (dsc_switch c evV evH pu) (s_au32HTiming c evH) p) old.m_cmdbuf }

/-- The classification of the lines by `get_current_vstage` of disp_sync_gdma.c. -/
def vs (c : Config) (n : Nat) : E_VSTAGE := get_current_vstage c (n : Int)

/-- The command buffer that slot `k` holds after `disp_gdma_dsc_init` has run with
`s_pu16BufAddr = B` on a slot that held `old`. -/
def builtCmd (c : Config) (B k : Nat) : S_CMDBUF → S_CMDBUF :=
  lineCmd c (vs c (k / 4)) (E_HSTAGE.ofVal (k % 4)) (lineBuf c (vs c) B (k / 4)) k

/-- The store into the slot a descriptor pointer designates of a value computed from the
content of the slot. -/
def storeAt (dsc : List S_CMDBUF) (p : Nat) (f : S_CMDBUF → S_CMDBUF) : List S_CMDBUF :=
  dsc.set p (f (dsc.getD p S_CMDBUF.zero))

/-- The slot a command buffer address designates. -/
def slotOfPtr (c : Config) (a : Nat) : Nat := (a - c.addr_s_sDscLCD) / sizeof_S_CMDBUF

/-- The address reached from the address `a` by following `n` link pointers. -/
def follow (c : Config) (dsc : List S_CMDBUF) : Nat → Nat → Nat
  | 0, a => a
  | n + 1, a => linkAddr (dsc.getD (slotOfPtr c (follow c dsc n a)) S_CMDBUF.zero)

end Gdma

/-- The slot of the horizontal-Active descriptor of the active scanline `j`:
`m_dscV[DEF_VACT_INDEX + j].m_dscH[evHStageHACT]`. -/
def activeSlot (c : Config) (j : Nat) : Nat := slotOf (DEF_VACT_INDEX c + j) .evHStageHACT

/-- The source address that the first active scanline's horizontal-Active descriptor
holds in a PDMA module state. -/
def Pdma.firstActiveSA (c : Config) (s : DispState Pdma.DSCT_T) : Nat :=
  (s.s_sDscLCD.getD (activeSlot c 0) Pdma.DSCT_T.zero).SA

/-- The source address that the first active scanline's horizontal-Active descriptor
holds in a GDMA module state. -/
def Gdma.firstActiveSrc (c : Config) (s : DispState Gdma.S_CMDBUF) : Nat :=
  Gdma.srcAddr (s.s_sDscLCD.getD (activeSlot c 0) Gdma.S_CMDBUF.zero)

/-- The horizontal-Active command buffers of the active scanlines carry the header word
that `disp_gdma_dsc_init` gives them (this holds after `disp_gdma_dsc_init` and is kept by
`GDMACH1_IRQHandler`). -/
def Gdma.ActiveHeaders (c : Config) (dsc : List Gdma.S_CMDBUF) : Prop :=
  ∀ j, j < c.CONFIG_TIMING_VACT →
    (dsc.getD (activeSlot c j) Gdma.S_CMDBUF.zero).m_cmdbuf 0 = Gdma.builtHeader

/-- The property `ActiveHeaders` is decidable: a bounded check of header words. -/
instance Gdma.decActiveHeaders (c : Config) (dsc : List Gdma.S_CMDBUF) :
    Decidable (Gdma.ActiveHeaders c dsc) :=
  inferInstanceAs (Decidable (∀ j, j < c.CONFIG_TIMING_VACT →
    (dsc.getD (activeSlot c j) Gdma.S_CMDBUF.zero).m_cmdbuf 0 = Gdma.builtHeader))

/-- A GDMA module state whose descriptors all are the command buffer `d`. -/
def Gdma.uniformState (c : Config) (d : Gdma.S_CMDBUF) (buf : Nat) : DispState Gdma.S_CMDBUF :=
  { s_sDscLCD := List.replicate (dscSlots c) d
    s_pu16BufAddr := buf
    s_DispBlankCb := 0
    patchStores := 0
    blankCalls := [] }

/-- A command buffer with the header of `disp_gdma_dsc_init` and the source address `src`
(every other register word 0). -/
def Gdma.sampleCmd (src : Nat) : Gdma.S_CMDBUF :=
  { m_cmdbuf := fun j => if j = 0 then Gdma.builtHeader else if j = 3 then src else 0 }

/-- The PDMA module state after `disp_set_vrambufaddr(R)` has been called `n + 1` times and
the completion callback has then run on one transfer-done event. -/
def Pdma.requestThenDone (c : Config) (R n : Nat) (s : DispState Pdma.DSCT_T) :
    DispState Pdma.DSCT_T :=
  Pdma.nu_pdma_memfun_cb c Pdma.NU_PDMA_EVENT_TRANSFER_DONE ((disp_set_vrambufaddr R)^[n + 1] s)

/-- The GDMA module state after `disp_set_vrambufaddr(R)` has been called `n + 1` times and
the interrupt handler has then run on one done event. -/
def Gdma.requestThenDone (c : Config) (R n : Nat) (s : DispState Gdma.S_CMDBUF) :
    DispState Gdma.S_CMDBUF :=
  Gdma.GDMACH1_IRQHandler c true ((disp_set_vrambufaddr R)^[n + 1] s)

/-! ## Initialisation of the backends -/

namespace Pdma

/-- Modelled from the spec: the calls that `disp_sync_pdma_init` makes into code outside
disp_sync_pdma.c, recorded as events: `pdma_init` (clock and reset of the engine) and the
functions of the PDMA library (pdma_lib, not among the sources).  The status that
`nu_pdma_channel_allocate` and `nu_pdma_sg_transfer` return is given from outside.
The call `nu_pdma_sg_transfer(s_i32Channel, s_head, 0)` is recorded with the channel, the
slot `s_head` designates and the content of `s_sDscLCD` at the time of the call, the
chain the library hands to the engine. -/
inductive LibCall where
  | pdma_init
  | nu_pdma_channel_allocate
  | nu_pdma_filtering_set (i32ChannID : Int) (u32EventFilter : Nat)
  | nu_pdma_callback_register (i32ChannID : Int)
  | nu_pdma_sg_transfer (i32ChannID : Int) (head : Nat) (chain : List DSCT_T)
  deriving DecidableEq

/-- The file-scope variables of disp_sync_pdma.c together with the channel number
`s_i32Channel` (an `int`, `-1` at start-up) and the record `calls` of the calls of
`LibCall` made so far, the oldest first. -/
structure DrvState where
  disp : DispState DSCT_T
  s_i32Channel : Int
  calls : List LibCall

/-- Whether the record of calls holds a call of `nu_pdma_sg_transfer`. -/
def submitted (calls : List LibCall) : Bool :=
  calls.any (fun e => match e with
    | .nu_pdma_sg_transfer _ _ _ => true
    | _ => false)

/-- Whether the record of calls holds a call of `nu_pdma_callback_register`. -/
def registered (calls : List LibCall) : Bool :=
  calls.any (fun e => match e with
    | .nu_pdma_callback_register _ => true
    | _ => false)

/-- Function `disp_sync_pdma_init`: `allocated` is the value that `nu_pdma_channel_allocate`
returns if it is called, `sgStatus` the one that `nu_pdma_sg_transfer` returns.  The
result is the returned status and the state left behind. -/
def disp_sync_pdma_init (c : Config) (allocated sgStatus : Int) (s : DrvState) :
    Int × DrvState :=
  let start := fun (t : DrvState) =>
    let d := disp_pdma_dsc_init c t.disp
    (sgStatus,
      ({ t with
          disp := d
          calls := t.calls ++
            [LibCall.nu_pdma_filtering_set t.s_i32Channel NU_PDMA_EVENT_TRANSFER_DONE,
             LibCall.nu_pdma_callback_register t.s_i32Channel,
             LibCall.nu_pdma_sg_transfer t.s_i32Channel s_head d.s_sDscLCD] } : DrvState))
  let s0 : DrvState :=
    { s with
      disp := disp_set_vrambufaddr c.addr_g_au8FrameBuf s.disp
      calls := s.calls ++ [LibCall.pdma_init] }
  if s0.s_i32Channel < 0 then
    let s1 : DrvState :=
      { s0 with
        s_i32Channel := allocated
        calls := s0.calls ++ [LibCall.nu_pdma_channel_allocate] }
    if s1.s_i32Channel < 0 then (-1, s1) else start s1
  else start s0

/-- The state of disp_sync_pdma.c at start-up: the module variables as `startState`
gives them (the requested buffer aside, which is `NULL`), no channel held, no call made. -/
def bootState (c : Config) : DrvState :=
  { disp := disp_set_vrambufaddr 0 (startState c), s_i32Channel := -1, calls := [] }

end Pdma

namespace Gdma

/-- Modelled from the spec: the calls that `disp_sync_gdma_init` makes into code outside
disp_sync_gdma.c, recorded as events: `gdma_init` (clock, reset and interrupt line of the
engine) and the channel functions of the DMA-350 driver (not among the sources);
`dma350_ch_cmd(.., DMA350_CH_CMD_ENABLECMD)` starts the channel on the command link. -/
inductive DevCall where
  | gdma_init
  | dma350_ch_enable_linkaddr
  | dma350_ch_set_linkaddr32 (linkaddr : Nat)
  | dma350_ch_disable_intr (intr : Nat)
  | dma350_ch_cmd_ENABLECMD
  deriving DecidableEq

/-- The file-scope variables of disp_sync_gdma.c together with the record `calls` of the
calls of `DevCall` made so far, the oldest first. -/
structure DrvState where
  disp : DispState S_CMDBUF
  calls : List DevCall

/-- Function `disp_sync_gdma_init`; the result is the returned status and the state left
behind. -/
def disp_sync_gdma_init (c : Config) (s : DrvState) : Int × DrvState :=
  let s0 : DrvState :=
    { s with
      disp := disp_set_vrambufaddr c.addr_g_au8FrameBuf s.disp
      calls := s.calls ++ [DevCall.gdma_init] }
  let s1 : DrvState := { s0 with disp := disp_gdma_dsc_init c s0.disp }
  (0, { s1 with
        calls := s1.calls ++
          [DevCall.dma350_ch_enable_linkaddr,
           DevCall.dma350_ch_set_linkaddr32 (ptrVal c s_head),
           DevCall.dma350_ch_disable_intr DMA350_CH_INTREN_DONE,
           DevCall.dma350_ch_cmd_ENABLECMD] })

/-- The state of disp_sync_gdma.c at start-up: the module variables as `startState`
gives them (the requested buffer aside, which is `NULL`), no call made. -/
def bootState (c : Config) : DrvState :=
  { disp := disp_set_vrambufaddr 0 (startState c), calls := [] }

end Gdma

/-- The small timing table with the horizontal sync pulse width set to 0. -/
def zeroStage : Config := { tiny with CONFIG_TIMING_HPW := 0 }

/-! ## disp_example.c -/

/-- Function `disp_example_blankcb`: `u32Counter` is its static counter, and the result is
the counter and the module state it leaves; its parameter is not used.  Bit 4 of the
counter selects `&g_au8FrameBuf[CONFIG_VRAM_BUF_SIZE]` or `g_au8FrameBuf`. -/
def disp_example_blankcb {D : Type} (c : Config) (u32Counter : Nat) (s : DispState D) :
    Nat × DispState D :=
  let s1 :=
    if u32Counter &&& 16 ≠ 0 then
      disp_set_vrambufaddr (c.addr_g_au8FrameBuf + CONFIG_VRAM_BUF_SIZE c) s
    else disp_set_vrambufaddr c.addr_g_au8FrameBuf s
  ((u32Counter + 1) % 4294967296, s1)

/-! ## Calls of the API of disp.h -/

/-- A call that a producer makes through disp.h: `disp_set_vrambufaddr(p)`,
`disp_get_vrambufaddr()` or `disp_set_blankcb(f)`. -/
inductive ApiCall where
  | set_vrambufaddr (pvBufAddr : Nat)
  | get_vrambufaddr
  | set_blankcb (f : Nat)
  deriving DecidableEq, Repr

/-- The module state after a call of the API (`disp_get_vrambufaddr` returns a value and
stores nothing). -/
def ApiCall.run {D : Type} : ApiCall → DispState D → DispState D
  | .set_vrambufaddr p, s => disp_set_vrambufaddr p s
  | .get_vrambufaddr, s => s
  | .set_blankcb f, s => disp_set_blankcb f s

/-- The module state after a sequence of calls of the API, the first call first. -/
def runCalls {D : Type} (calls : List ApiCall) (s : DispState D) : DispState D :=
  calls.foldl (fun t a => a.run t) s

/-! ## The sources of the active scanlines -/

/-- The source address that the horizontal-Active descriptor of the active scanline `j`
holds in a PDMA descriptor array. -/
def Pdma.activeSA (c : Config) (dsc : List Pdma.DSCT_T) (j : Nat) : Nat :=
  (dsc.getD (activeSlot c j) Pdma.DSCT_T.zero).SA

/-- The source address that the horizontal-Active command buffer of the active scanline
`j` holds in a GDMA descriptor array. -/
def Gdma.activeSrc (c : Config) (dsc : List Gdma.S_CMDBUF) (j : Nat) : Nat :=
  Gdma.srcAddr (dsc.getD (activeSlot c j) Gdma.S_CMDBUF.zero)

/-- The sources of the active scanlines of a PDMA descriptor array step by `HACT * 2`
bytes from the source of the first one (this holds after `disp_pdma_dsc_init` and is kept
by `nu_pdma_memfun_cb`). -/
def Pdma.Progression (c : Config) (dsc : List Pdma.DSCT_T) : Prop :=
  ∀ j, j < c.CONFIG_TIMING_VACT →
    Pdma.activeSA c dsc j
      = (Pdma.activeSA c dsc 0 + j * c.CONFIG_TIMING_HACT * 2) % 4294967296

/-- The property `Pdma.Progression` is decidable: a bounded check of source addresses. -/
instance Pdma.decProgression (c : Config) (dsc : List Pdma.DSCT_T) :
    Decidable (Pdma.Progression c dsc) :=
  inferInstanceAs (Decidable (∀ j, j < c.CONFIG_TIMING_VACT →
    Pdma.activeSA c dsc j
      = (Pdma.activeSA c dsc 0 + j * c.CONFIG_TIMING_HACT * 2) % 4294967296))

/-- The sources of the active scanlines of a GDMA descriptor array step by `HACT * 2`
bytes from the source of the first one (this holds after `disp_gdma_dsc_init` and is kept
by `GDMACH1_IRQHandler`). -/
def Gdma.Progression (c : Config) (dsc : List Gdma.S_CMDBUF) : Prop :=
  ∀ j, j < c.CONFIG_TIMING_VACT →
    Gdma.activeSrc c dsc j
      = (Gdma.activeSrc c dsc 0 + j * c.CONFIG_TIMING_HACT * 2) % 4294967296

/-- The property `Gdma.Progression` is decidable: a bounded check of source addresses. -/
instance Gdma.decProgression (c : Config) (dsc : List Gdma.S_CMDBUF) :
    Decidable (Gdma.Progression c dsc) :=
  inferInstanceAs (Decidable (∀ j, j < c.CONFIG_TIMING_VACT →
    Gdma.activeSrc c dsc j
      = (Gdma.activeSrc c dsc 0 + j * c.CONFIG_TIMING_HACT * 2) % 4294967296))

/-- A chain of GDMA command buffers as `disp_gdma_dsc_init` leaves the horizontal-Active
slots for the frame buffer `B`: slot `k` holds the header of the builder and the source
`B + (k / 4 - DEF_VACT_INDEX) * HACT * 2`. -/
def Gdma.sampleChain (c : Config) (B : Nat) : List Gdma.S_CMDBUF :=
  (List.range (dscSlots c)).map (fun k =>
    Gdma.sampleCmd ((B + (k / 4 - DEF_VACT_INDEX c) * c.CONFIG_TIMING_HACT * 2) % 4294967296))

/-- A GDMA module state with the chain `sampleChain c B`, the requested buffer `buf` and
the callback `f`. -/
def Gdma.sampleState (c : Config) (B buf f : Nat) : DispState Gdma.S_CMDBUF :=
  { s_sDscLCD := Gdma.sampleChain c B
    s_pu16BufAddr := buf
    s_DispBlankCb := f
    patchStores := 0
    blankCalls := [] }

/-! ## Transfer counts, increments and unit width of a descriptor -/

namespace Gdma

/-- The source transfer count a command buffer holds: the low half of the register of
`XSIZE_SET`. -/
def srcCount (d : S_CMDBUF) : Nat := d.m_cmdbuf (fieldPos (d.m_cmdbuf 0) bitXSIZE) % 65536

/-- The destination transfer count a command buffer holds: the high half of the register
of `XSIZE_SET`. -/
def desCount (d : S_CMDBUF) : Nat :=
  d.m_cmdbuf (fieldPos (d.m_cmdbuf 0) bitXSIZE) / 65536 % 65536

/-- The source address increment a command buffer holds: the low half of the register of
`XADDRINC_SET`. -/
def srcInc (d : S_CMDBUF) : Nat := d.m_cmdbuf (fieldPos (d.m_cmdbuf 0) bitXADDRINC) % 65536

/-- The destination address increment a command buffer holds: the high half of the
register of `XADDRINC_SET`. -/
def desInc (d : S_CMDBUF) : Nat :=
  d.m_cmdbuf (fieldPos (d.m_cmdbuf 0) bitXADDRINC) / 65536 % 65536

/-- The transfer unit width a command buffer holds: the field `TRANSIZE` (bits 0 to 2) of
the register of `CTRL_SET`. -/
def transize (d : S_CMDBUF) : Nat := d.m_cmdbuf (fieldPos (d.m_cmdbuf 0) bitCTRL) % 8

/-- The units that one traversal of a chain of command buffers transfers. -/
def ringCount (dsc : List S_CMDBUF) : Nat := (dsc.map srcCount).sum

end Gdma

/-- The units that one traversal of a chain of PDMA descriptors transfers. -/
def Pdma.ringCount (dsc : List Pdma.DSCT_T) : Nat := (dsc.map (fun d => d.CTL.TXCNT)).sum

/-- The units that the four descriptors of scanline `i` of a PDMA chain transfer. -/
def Pdma.lineCount (dsc : List Pdma.DSCT_T) (i : Nat) : Nat :=
  (hStages.map (fun h => (dsc.getD (slotOf i h) Pdma.DSCT_T.zero).CTL.TXCNT)).sum

/-- The units that the four command buffers of scanline `i` of a GDMA chain transfer. -/
def Gdma.lineCount (dsc : List Gdma.S_CMDBUF) (i : Nat) : Nat :=
  (hStages.map (fun h => Gdma.srcCount (dsc.getD (slotOf i h) Gdma.S_CMDBUF.zero))).sum

/-! ## Logical descriptors -/

/-- The logical content of a descriptor as the specification lists it: source address,
destination address, transfer count, source-increment flag, the slot of `s_sDscLCD` the
link designates (`s_head` is slot 0) and the interrupt flag. -/
structure LogicalDsc where
  src : Nat
  dst : Nat
  count : Nat
  srcInc : Bool
  link : Nat
  intr : Bool
  deriving DecidableEq, Repr

namespace Pdma

/-- The state of the loops of `disp_pdma_dsc_init`, entered with the array `a0` and
`s_pu16BufAddr = B`, when the iteration for scanline `i` and stage `evH` begins. -/
def stateAt (c : Config) (a0 : List DSCT_T) (B i : Nat) (evH : E_HSTAGE) : BuildState :=
  dsc_init_hloop c (get_current_vstage c (i : Int)) (hStages.take evH.val)
    (dsc_init_vloop c i { dsc := a0, next := s_head, pu16Buf := B })

/-- The logical descriptor that one iteration of the inner loop of `disp_pdma_dsc_init`
hands to `nu_pdma_m2m_desc_setup`: the arguments `u32AddrSrc`, `u32AddrDst`,
`u32XferCount`, `evMemCtrl` (as the source-increment flag), `next + 1` (as a slot) and the
last argument 1, which asks for no interrupt. -/
def handedArgs (c : Config) (evV : E_VSTAGE) (evH : E_HSTAGE) (st : BuildState) : LogicalDsc :=
  let l := dsc_switch c evV evH st.pu16Buf
  { src := l.u32AddrSrc
    dst := l.u32AddrDst
    count := s_au32HTiming c evH
    srcInc := decide (l.evMemCtrl = .eMemCtl_SrcInc_DstFix)
    link := st.next + 1
    intr := decide ((1 : Nat) = 0) }

/-- The call of `nu_pdma_m2m_desc_setup` on a logical descriptor of 16-bit units. -/
def encode (c : Config) (ld : LogicalDsc) : DSCT_T :=
  nu_pdma_m2m_desc_setup 16 ld.src ld.dst ld.count
    (if ld.srcInc then .eMemCtl_SrcInc_DstFix else .eMemCtl_SrcFix_DstFix)
    (ptrVal c ld.link) (if ld.intr then 0 else 1)

/-- The logical descriptor handed to `nu_pdma_m2m_desc_setup` at position `4 * i + evH`
of the sequence. -/
def handed (c : Config) (a0 : List DSCT_T) (B i : Nat) (evH : E_HSTAGE) : LogicalDsc :=
  handedArgs c (get_current_vstage c (i : Int)) evH (stateAt c a0 B i evH)

/-- The logical descriptor that a PDMA descriptor holds. -/
def logicalOf (c : Config) (d : DSCT_T) : LogicalDsc :=
  { src := d.SA
    dst := d.DA
    count := d.CTL.TXCNT
    srcInc := decide (d.CTL.memctrl = .eMemCtl_SrcInc_DstFix)
    link := slotOfPtr c d.NEXT
    intr := !d.CTL.TBINTDIS }

end Pdma

namespace Gdma

/-- The state of the loops of `disp_gdma_dsc_init`, entered with the array `g0` and
`s_pu16BufAddr = B`, when the iteration for scanline `i` and stage `evH` begins. -/
def stateAt (c : Config) (g0 : List S_CMDBUF) (B i : Nat) (evH : E_HSTAGE) : BuildState :=
  dsc_init_hloop c (get_current_vstage c (i : Int)) (hStages.take evH.val)
    (dsc_init_vloop c i { dsc := g0, next := s_head, pu16Buf := B })

/-- The logical descriptor that one iteration of the inner loop of `disp_gdma_dsc_init`
hands to the command-link encoder: `u32AddrSrc`, `u32AddrDst`, `u32XferCount`,
`u16AddrSrcInc` (as the source-increment flag), the link (`s_head` when `next == s_end`,
else `next + 1`) and the interrupt flag (enabled when `next == s_end`). -/
def handedArgs (c : Config) (evV : E_VSTAGE) (evH : E_HSTAGE) (st : BuildState) : LogicalDsc :=
  let l := dsc_switch c evV evH st.pu16Buf
  { src := l.u32AddrSrc
    dst := l.u32AddrDst
    count := s_au32HTiming c evH
    srcInc := decide (l.u16AddrSrcInc ≠ 0)
    link := if st.next = s_end c then s_head else st.next + 1
    intr := decide (st.next = s_end c) }

/-- The calls of `dma350_cmdlink_*` of `disp_gdma_dsc_init` on a logical descriptor. -/
def encodeCfg (c : Config) (ld : LogicalDsc) : dma350_cmdlink_gencfg_t :=
  let g := dma350_cmdlink_init
  let g := dma350_cmdlink_set_regclear g
  let g := dma350_cmdlink_set_src_des g ld.src ld.dst ld.count ld.count
  let g := dma350_cmdlink_set_xsize16 g (ld.count % 65536) (ld.count % 65536)
  let g := dma350_cmdlink_set_transize g DMA350_CH_TRANSIZE_16BITS
  let g := dma350_cmdlink_set_xtype g DMA350_CH_XTYPE_CONTINUE
  let g := dma350_cmdlink_set_ytype g DMA350_CH_YTYPE_DISABLE
  let g := dma350_cmdlink_set_xaddrinc g (if ld.srcInc then 1 else 0) 0
  let g := dma350_cmdlink_enable_linkaddr g
  if ld.intr then
    dma350_cmdlink_set_linkaddr32 (dma350_cmdlink_enable_intr g DMA350_CH_INTREN_DONE)
      (ptrVal c ld.link)
  else
    dma350_cmdlink_set_linkaddr32 (dma350_cmdlink_disable_intr g DMA350_CH_INTREN_DONE)
      (ptrVal c ld.link)

/-- The logical descriptor handed to the command-link encoder at position `4 * i + evH`
of the sequence. -/
def handed (c : Config) (g0 : List S_CMDBUF) (B i : Nat) (evH : E_HSTAGE) : LogicalDsc :=
  handedArgs c (get_current_vstage c (i : Int)) evH (stateAt c g0 B i evH)

end Gdma

/-! ## The sequence of calls of disp_example_blankcb -/

/-- The address `g_au8FrameBuf` of the first image. -/
def image1 (c : Config) : Nat := c.addr_g_au8FrameBuf

/-- The address `&g_au8FrameBuf[CONFIG_VRAM_BUF_SIZE]` of the second image. -/
def image2 (c : Config) : Nat := c.addr_g_au8FrameBuf + CONFIG_VRAM_BUF_SIZE c

/-- The static counter of `disp_example_blankcb` and the module state after its first `n`
invocations, the counter being 0 at start-up. -/
def exampleRun {D : Type} (c : Config) : Nat → DispState D → Nat × DispState D
  | 0, s => (0, s)
  | n + 1, s => disp_example_blankcb c (exampleRun c n s).1 (exampleRun c n s).2

/-- The buffer that invocation number `n` of `disp_example_blankcb` requests through
`disp_set_vrambufaddr` (the first invocation is number 0). -/
def exampleRequest {D : Type} (c : Config) (n : Nat) (s : DispState D) : Nat :=
  disp_get_vrambufaddr (exampleRun c (n + 1) s).2

/-! ## The size of the frame buffer -/

/-- The macro `NVT_ALIGN(size, align)` of component.h,
`(((size) + (align) - 1) & ~((align) - 1))`, on 32-bit unsigned operands. -/
def NVT_ALIGN (size align : Nat) : Nat :=
  ((size + align + 4294967295) % 4294967296)
    &&& (4294967295 - (align + 4294967295) % 4294967296)

/-- `CONFIG_VRAM_BUF_NUM`. -/
def CONFIG_VRAM_BUF_NUM : Nat := 2

/-- `CONFIG_VRAM_TOTAL_ALLOCATED_SIZE`, the size of `g_au8FrameBuf`; the cache-line size
`DCACHE_LINE_SIZE` comes from the device header, which is not among the sources, and is
given as `DCACHE_LINE_SIZE`. -/
def CONFIG_VRAM_TOTAL_ALLOCATED_SIZE (c : Config) (DCACHE_LINE_SIZE : Nat) : Nat :=
  NVT_ALIGN ((CONFIG_VRAM_BUF_NUM * CONFIG_VRAM_BUF_SIZE c) % 4294967296) DCACHE_LINE_SIZE

/-! ## The bits of the destination address -/

/-- The raw bank address `EBI_BANK0_BASE_ADDR + (CONFIG_DISP_EBI * EBI_MAX_SIZE)`, the part
of `CONFIG_DISP_EBI_ADDR` before the polarity bits are added. -/
def rawBankBase (c : Config) : Nat := c.EBI_BANK0_BASE_ADDR + c.CONFIG_DISP_EBI * c.EBI_MAX_SIZE

/-- The polarity configuration that disp.h ships: VSYNC active-low at bit 1, HSYNC
active-low at bit 2, DE active-high at bit 8. -/
def ShippedPolarity (c : Config) : Prop :=
  c.CONFIG_DISP_VPW_ACTIVE_LOW = 1 ∧ c.CONFIG_DISP_HPW_ACTIVE_LOW = 1
  ∧ c.CONFIG_DISP_DE_ACTIVE_LOW = 0 ∧ c.CONFIG_DISP_VSYNC_BITIDX = 1
  ∧ c.CONFIG_DISP_HSYNC_BITIDX = 2 ∧ c.CONFIG_DISP_DE_BITIDX = 8

/-- The property `ShippedPolarity` is decidable: six comparisons of numbers. -/
instance decShippedPolarity (c : Config) : Decidable (ShippedPolarity c) :=
  inferInstanceAs (Decidable (c.CONFIG_DISP_VPW_ACTIVE_LOW = 1 ∧ c.CONFIG_DISP_HPW_ACTIVE_LOW = 1
    ∧ c.CONFIG_DISP_DE_ACTIVE_LOW = 0 ∧ c.CONFIG_DISP_VSYNC_BITIDX = 1
    ∧ c.CONFIG_DISP_HSYNC_BITIDX = 2 ∧ c.CONFIG_DISP_DE_BITIDX = 8))

/-! ## epwm.c -/

namespace Epwm

/-- The loop `for (u32Prescale = 1U; u32Prescale < 0xFFFU; u32Prescale++)` of
`EPWM_ConfigOutputChannel` with `n` values of `u32Prescale` still to try: the values of
`u32Prescale` and `u32CNR` when the loop is left, by `break` or at `0xFFF` with `u32CNR`
still `0xFFFF`. -/
def prescaleLoop (u32EPWMClockSrc u32Frequency : Nat) : Nat → Nat → Nat × Nat
  | 0, u32Prescale => (u32Prescale, 65535)
  | n + 1, u32Prescale =>
    let i := (u32EPWMClockSrc / u32Frequency) / u32Prescale
    if i < 65536 then (u32Prescale, i)
    else prescaleLoop u32EPWMClockSrc u32Frequency n (u32Prescale + 1)

/-- What `EPWM_ConfigOutputChannel` computes: the values it passes to `EPWM_SET_PRESCALER`,
`EPWM_SET_CNR` and `EPWM_SET_CMR`, and the value it returns. -/
structure Programmed where
  prescaler : Nat
  cnr : Nat
  cmr : Nat
  ret : Nat
  deriving DecidableEq, Repr

/-- Function `EPWM_ConfigOutputChannel`, its arithmetic on `uint32_t`: `u32EPWMClockSrc`
is the clock frequency that `CLK_GetHCLK0Freq`, `CLK_GetPCLK0Freq` or `CLK_GetPCLK2Freq`
returns for the module (functions not among the sources).  The result is `none` where the
function divides by zero.  The stores into `CTL1`, `WGCTL0` and `WGCTL1` set mode bits that
do not depend on the arithmetic and are left out. -/
def EPWM_ConfigOutputChannel (u32EPWMClockSrc u32Frequency u32DutyCycle : Nat) :
    Option Programmed :=
  if u32Frequency = 0 then none
  else
    let r := prescaleLoop u32EPWMClockSrc u32Frequency 4094 1
    let u32Prescale := r.1
    let u32CNR := r.2
    if (u32Prescale * u32CNR) % 4294967296 = 0 then none
    else
      let i := u32EPWMClockSrc / ((u32Prescale * u32CNR) % 4294967296)
      let u32Prescale := (u32Prescale + 4294967295) % 4294967296
      let u32CNR := (u32CNR + 4294967295) % 4294967296
      some { prescaler := u32Prescale
             cnr := u32CNR
             cmr := (u32DutyCycle * ((u32CNR + 1) % 4294967296)) % 4294967296 / 100
             ret := i }

end Epwm

/-- The loop of `gdma_dsc_find_srcaddr_index` run for at most the given number of
evaluations of its condition: `some r` when the function returns `r` within that many,
`none` when it is still running after them. -/
def Gdma.find_srcaddr_steps : Nat → Nat → Nat → Option Nat
  | 0, _, _ => none
  | fuel + 1, u32HdrVal, n =>
    let i := Gdma.nu_ctz u32HdrVal
    if i < 32 then
      if i = Gdma.bitSRC_ADDR then some n
      else Gdma.find_srcaddr_steps fuel (Gdma.hdrClr u32HdrVal i) (n + 1)
    else some 4294967295

/-- The number of set bits among the bits 0 to 31 of `x` (the population count of a 32-bit
word). -/
def popcount32 (x : Nat) : Nat := ((List.range 32).filter (fun b => x.testBit b)).length

/-! ## Runs of the module after the chain is built -/

/-- What happens to the PDMA module once the chain is built: a call of the API, or a run of
the completion callback with an event code. -/
inductive Pdma.Step where
  | call (a : ApiCall)
  | event (u32Events : Nat)
  deriving DecidableEq, Repr

/-- The PDMA module state after one step. -/
def Pdma.step (c : Config) : Pdma.Step → DispState Pdma.DSCT_T → DispState Pdma.DSCT_T
  | .call a, s => a.run s
  | .event u32Events, s => Pdma.nu_pdma_memfun_cb c u32Events s

/-- The PDMA module state after a sequence of steps, the first step first. -/
def Pdma.run (c : Config) (steps : List Pdma.Step) (s : DispState Pdma.DSCT_T) :
    DispState Pdma.DSCT_T :=
  steps.foldl (fun t e => Pdma.step c e t) s

/-- What happens to the GDMA module once the chain is built: a call of the API, or a run of
the interrupt handler with a value of the status bit `STAT_DONE`. -/
inductive Gdma.Step where
  | call (a : ApiCall)
  | event (STAT_DONE : Bool)
  deriving DecidableEq, Repr

/-- The GDMA module state after one step. -/
def Gdma.step (c : Config) : Gdma.Step → DispState Gdma.S_CMDBUF → DispState Gdma.S_CMDBUF
  | .call a, s => a.run s
  | .event STAT_DONE, s => Gdma.GDMACH1_IRQHandler c STAT_DONE s

/-- The GDMA module state after a sequence of steps, the first step first. -/
def Gdma.run (c : Config) (steps : List Gdma.Step) (s : DispState Gdma.S_CMDBUF) :
    DispState Gdma.S_CMDBUF :=
  steps.foldl (fun t e => Gdma.step c e t) s

/-- The PDMA module state reached from the state `s0` by `disp_pdma_dsc_init` and then a
sequence of steps. -/
def Pdma.reached (c : Config) (steps : List Pdma.Step) (s0 : DispState Pdma.DSCT_T) :
    DispState Pdma.DSCT_T :=
  Pdma.run c steps (Pdma.disp_pdma_dsc_init c s0)

/-- The GDMA module state reached from the state `s0` by `disp_gdma_dsc_init` and then a
sequence of steps. -/
def Gdma.reached (c : Config) (steps : List Gdma.Step) (s0 : DispState Gdma.S_CMDBUF) :
    DispState Gdma.S_CMDBUF :=
  Gdma.run c steps (Gdma.disp_gdma_dsc_init c s0)

/-! ## disp_sync_pdma.c with CONFIG_LCD_PANEL_USE_DE_ONLY defined -/

namespace PdmaDeOnly

/-- `DEF_TOTAL_VLINES` of the DE-only configuration: `(CONFIG_TIMING_VACT)`. -/
def DEF_TOTAL_VLINES (c : Config) : Nat := c.CONFIG_TIMING_VACT

/-- The number of descriptor slots of `s_sDscLCD` in the DE-only configuration:
`sizeof(s_sDscLCD) / sizeof(DSCT_T)` for the struct with `DSCT_T m_dscDummy` and
`S_DSC_HLINE m_dscV[DEF_TOTAL_VLINES]`, an `S_DSC_HLINE` being `evHStageCNT` descriptors. -/
def dscSlots (c : Config) : Nat := 1 + evHStageCNT * DEF_TOTAL_VLINES c

/-- The pointer `s_end`: `s_head + (sizeof(s_sDscLCD) / sizeof(DSCT_T) - 1)`. -/
def s_end (c : Config) : Nat := s_head + (dscSlots c - 1)

/-- `DEF_VACT_INDEX` of the DE-only configuration: `(0)`. -/
def DEF_VACT_INDEX : Nat := 0

/-- `DEF_HACT_INDEX`: `(CONFIG_TIMING_HFP+CONFIG_TIMING_HPW+CONFIG_TIMING_HBP)`. -/
def DEF_HACT_INDEX (c : Config) : Nat :=
  c.CONFIG_TIMING_HFP + c.CONFIG_TIMING_HPW + c.CONFIG_TIMING_HBP

/-- The table `s_au32HTiming[evHStageCNT]` of the DE-only configuration: two initialisers,
`DEF_HACT_INDEX` and `CONFIG_TIMING_HACT`; the other two elements are zero. -/
def s_au32HTiming (c : Config) : E_HSTAGE → Nat
  | .evHStageHFP => DEF_HACT_INDEX c
  | .evHStageHSYNC => c.CONFIG_TIMING_HACT
  | .evHStageHBP => 0
  | .evHStageHACT => 0

/-- The table `s_au32VTiming[evVStageCNT]` of the DE-only configuration: two initialisers,
`(CONFIG_TIMING_VFP + CONFIG_TIMING_VPW + CONFIG_TIMING_VBP)` and `CONFIG_TIMING_VACT`; the
other two elements are zero. -/
def s_au32VTiming (c : Config) : E_VSTAGE → Nat
  | .evVStageVFP => c.CONFIG_TIMING_VFP + c.CONFIG_TIMING_VPW + c.CONFIG_TIMING_VBP
  | .evVStageVSYNC => c.CONFIG_TIMING_VACT
  | .evVStageVBP => 0
  | .evVStageVACT => 0

/-- The slot of `m_dscV[v].m_dscH[h]` in the DE-only configuration, where `m_dscDummy`
occupies slot 0. -/
def slotOf (v : Nat) (h : E_HSTAGE) : Nat := 1 + evHStageCNT * v + h.val

/-- The local variables of the DE-only `disp_pdma_dsc_init` that live across loop
iterations: the array being written and the pointer `next`. -/
structure BuildState where
  dsc : List Pdma.DSCT_T
  next : Nat

/-- The first descriptor of the DE-only chain, written to slot `p`: the blanking lines,
`(VFP + VPW + VBP) * (HFP + HPW + HBP + HACT)` transfers from `s_u32DummyData` to
`CONFIG_DISP_EBI_ADDR`. -/
def blankDsc (c : Config) (p : Nat) : Pdma.DSCT_T :=
  Pdma.nu_pdma_m2m_desc_setup 16 c.addr_s_u32DummyData (CONFIG_DISP_EBI_ADDR c)
    ((c.CONFIG_TIMING_VFP + c.CONFIG_TIMING_VPW + c.CONFIG_TIMING_VBP)
      * (c.CONFIG_TIMING_HFP + c.CONFIG_TIMING_HPW + c.CONFIG_TIMING_HBP + c.CONFIG_TIMING_HACT))
    .eMemCtl_SrcFix_DstFix (Pdma.ptrVal c (p + 1)) 1

/-- The "Front descriptor" of an active line, written to slot `p`. -/
def frontDsc (c : Config) (p : Nat) : Pdma.DSCT_T :=
  Pdma.nu_pdma_m2m_desc_setup 16 c.addr_s_u32DummyData (CONFIG_DISP_EBI_ADDR c)
    (c.CONFIG_TIMING_HFP + c.CONFIG_TIMING_HPW + c.CONFIG_TIMING_HBP)
    .eMemCtl_SrcFix_DstFix (Pdma.ptrVal c (p + 1)) 1

/-- The "Backend descriptor" of the active line `i`, written to slot `p`, with source
`(uint32_t)&pu16Buf[i * CONFIG_TIMING_HACT]`. -/
def backendDsc (c : Config) (pu16Buf i p : Nat) : Pdma.DSCT_T :=
  Pdma.nu_pdma_m2m_desc_setup 16 (u16PtrAdd pu16Buf (i * c.CONFIG_TIMING_HACT))
    (toU32 (CONFIG_DISP_EBI_ADDR c + CONFIG_DISP_DE_ACTIVE c))
    c.CONFIG_TIMING_HACT .eMemCtl_SrcInc_DstFix (Pdma.ptrVal c (p + 1)) 1

/-- The loop `for (i = 0; i < CONFIG_TIMING_VACT; i++)` of the DE-only
`disp_pdma_dsc_init` after its iterations `i = 0 .. n-1`: each writes a Front descriptor and
a Backend descriptor and advances `next` twice. -/
def dsc_init_loop (c : Config) (pu16Buf : Nat) : Nat → BuildState → BuildState
  | 0, st => st
  | i + 1, st =>
    let st1 := dsc_init_loop c pu16Buf i st
    { dsc := (st1.dsc.set st1.next (frontDsc c st1.next)).set (st1.next + 1)
        (backendDsc c pu16Buf i (st1.next + 1))
      next := st1.next + 1 + 1 }

/-- Function `disp_pdma_dsc_init` with `CONFIG_LCD_PANEL_USE_DE_ONLY` defined: the first
descriptor, the loop over the active lines, then `s_end->NEXT = (uint32_t)s_head` and
`s_end->CTL &= ~PDMA_DSCT_CTL_TBINTDIS_Msk`. -/
def disp_pdma_dsc_init (c : Config) (s : DispState Pdma.DSCT_T) : DispState Pdma.DSCT_T :=
  let st0 : BuildState := { dsc := s.s_sDscLCD.set s_head (blankDsc c s_head), next := s_head + 1 }
  let st := dsc_init_loop c s.s_pu16BufAddr c.CONFIG_TIMING_VACT st0
  let d1 := Pdma.storeAt st.dsc (s_end c) (fun d => d.setNEXT (Pdma.ptrVal c s_head))
  let d2 := Pdma.storeAt d1 (s_end c) (fun d => d.clrTBINTDIS)
  { s with s_sDscLCD := d2 }

/-- The patch loop of `nu_pdma_memfun_cb` after its iterations `i = 0 .. n-1`, with the
slot numbering of the DE-only configuration. -/
def patch_loop (c : Config) (buf : Nat) : Nat → List Pdma.DSCT_T → List Pdma.DSCT_T
  | 0, dsc => dsc
  | i + 1, dsc =>
    Pdma.storeAt (patch_loop c buf i dsc) (slotOf (DEF_VACT_INDEX + i) .evHStageHACT)
      (fun d => d.setSA (u16PtrAdd buf (i * c.CONFIG_TIMING_HACT)))

/-- Function `nu_pdma_memfun_cb` with `CONFIG_LCD_PANEL_USE_DE_ONLY` defined: the text of
the function is the same, `DEF_VACT_INDEX`, `s_au32VTiming` and the layout of `s_sDscLCD`
are those of the DE-only configuration. -/
def nu_pdma_memfun_cb (c : Config) (u32Events : Nat) (s : DispState Pdma.DSCT_T) :
    DispState Pdma.DSCT_T :=
  if u32Events = Pdma.NU_PDMA_EVENT_TRANSFER_DONE then
    let s1 :=
      if (s.s_sDscLCD.getD (slotOf DEF_VACT_INDEX .evHStageHACT) Pdma.DSCT_T.zero).SA
          ≠ s.s_pu16BufAddr % 4294967296 then
        { s with
          s_sDscLCD := patch_loop c s.s_pu16BufAddr (s_au32VTiming c .evVStageVACT) s.s_sDscLCD
          patchStores := s.patchStores + s_au32VTiming c .evVStageVACT }
      else s
    if s1.s_DispBlankCb ≠ 0 then
      { s1 with blankCalls := (s1.s_DispBlankCb, s1.s_pu16BufAddr) :: s1.blankCalls }
    else s1
  else s

/-- The module state at start-up in the DE-only configuration: a zero-initialised
`s_sDscLCD`, no callback, `s_pu16BufAddr = g_au8FrameBuf`. -/
def startState (c : Config) : DispState Pdma.DSCT_T :=
  { s_sDscLCD := List.replicate (dscSlots c) Pdma.DSCT_T.zero
    s_pu16BufAddr := c.addr_g_au8FrameBuf
    s_DispBlankCb := 0
    patchStores := 0
    blankCalls := [] }

/-- The slot of the Backend descriptor that the DE-only `disp_pdma_dsc_init` writes for the
active line `j`: the first descriptor, then two descriptors per line. -/
def backendSlot (j : Nat) : Nat := 2 + 2 * j

end PdmaDeOnly

/-- The small timing table with a horizontal Active duration of 70000, one that does not
fit 16 bits. -/
def wideLine : Config := { tiny with CONFIG_TIMING_HACT := 70000 }

/-! ## Stage classification -/

theorem toInt32_of_range (x : Int) (h0 : 0 ≤ x) (h1 : x < 2147483648) : toInt32 x = x := by
  unfold toInt32
  omega

/-- Closed form of the PDMA classifier when the line count fits an `int`. -/
theorem pdma_vstage_closed (c : Config) (i : Int) (hint : DEF_TOTAL_VLINES c < 2147483648) :
    Pdma.get_current_vstage c i =
      if i < (c.CONFIG_TIMING_VFP : Int) then E_VSTAGE.evVStageVFP
      else if i < (c.CONFIG_TIMING_VFP : Int) + c.CONFIG_TIMING_VPW then E_VSTAGE.evVStageVSYNC
      else if i < (c.CONFIG_TIMING_VFP : Int) + c.CONFIG_TIMING_VPW + c.CONFIG_TIMING_VBP
        then E_VSTAGE.evVStageVBP
      else if i < (c.CONFIG_TIMING_VFP : Int) + c.CONFIG_TIMING_VPW + c.CONFIG_TIMING_VBP
          + c.CONFIG_TIMING_VACT then E_VSTAGE.evVStageVACT
      else E_VSTAGE.evVStageVFP := by
  unfold DEF_TOTAL_VLINES at hint
  simp only [Pdma.get_current_vstage, vStages, Pdma.get_current_vstage_loop, s_au32VTiming]
  rw [toInt32_of_range _ (by omega) (by omega)]
  rw [toInt32_of_range _ (by omega) (by omega)]
  rw [toInt32_of_range _ (by omega) (by omega)]
  rw [toInt32_of_range _ (by omega) (by omega)]
  simp only [zero_add]

/-- Closed form of the GDMA classifier when the line count fits an `int`. -/
theorem gdma_vstage_closed (c : Config) (i : Int) (hint : DEF_TOTAL_VLINES c < 2147483648) :
    Gdma.get_current_vstage c i =
      if i < (c.CONFIG_TIMING_VFP : Int) then E_VSTAGE.evVStageVFP
      else if i < (c.CONFIG_TIMING_VFP : Int) + c.CONFIG_TIMING_VPW then E_VSTAGE.evVStageVSYNC
      else if i < (c.CONFIG_TIMING_VFP : Int) + c.CONFIG_TIMING_VPW + c.CONFIG_TIMING_VBP
        then E_VSTAGE.evVStageVBP
      else if i < (c.CONFIG_TIMING_VFP : Int) + c.CONFIG_TIMING_VPW + c.CONFIG_TIMING_VBP
          + c.CONFIG_TIMING_VACT then E_VSTAGE.evVStageVACT
      else E_VSTAGE.evVStageVFP := by
  unfold DEF_TOTAL_VLINES at hint
  simp only [Gdma.get_current_vstage, vStages, Gdma.get_current_vstage_loop, s_au32VTiming]
  rw [toInt32_of_range _ (by omega) (by omega)]
  rw [toInt32_of_range _ (by omega) (by omega)]
  rw [toInt32_of_range _ (by omega) (by omega)]
  rw [toInt32_of_range _ (by omega) (by omega)]
  simp only [zero_add]


/-! ## Lists written slot by slot -/

theorem getElem?_set4 {α : Type} (l : List α) (p k : Nat) (a b d e : α) :
    ((((l.set p a).set (p + 1) b).set (p + 2) d).set (p + 3) e)[k]? =
      if k = p then (if k < l.length then some a else none)
      else if k = p + 1 then (if k < l.length then some b else none)
      else if k = p + 2 then (if k < l.length then some d else none)
      else if k = p + 3 then (if k < l.length then some e else none)
      else l[k]? := by
  simp only [List.getElem?_set, List.length_set]
  by_cases h0 : k = p
  · subst h0; simp
  by_cases h1 : k = p + 1
  · subst h1; simp
  by_cases h2 : k = p + 2
  · subst h2; simp
  by_cases h3 : k = p + 3
  · subst h3; simp
  have e0 : ¬ p = k := fun h => h0 h.symm
  have e1 : ¬ p + 1 = k := fun h => h1 h.symm
  have e2 : ¬ p + 2 = k := fun h => h2 h.symm
  have e3 : ¬ p + 3 = k := fun h => h3 h.symm
  simp [h0, h1, h2, h3, e0, e1, e2, e3]

/-! ## The PDMA builder -/

theorem pdma_hloop_eq (c : Config) (evV : E_VSTAGE) (st : Pdma.BuildState) :
    Pdma.dsc_init_hloop c evV hStages st =
      { dsc := (((st.dsc.set st.next
            (Pdma.lineDsc c evV .evHStageHFP st.pu16Buf st.next)).set (st.next + 1)
            (Pdma.lineDsc c evV .evHStageHSYNC st.pu16Buf (st.next + 1))).set (st.next + 2)
            (Pdma.lineDsc c evV .evHStageHBP st.pu16Buf (st.next + 2))).set (st.next + 3)
            (Pdma.lineDsc c evV .evHStageHACT st.pu16Buf (st.next + 3))
        next := st.next + 4
        pu16Buf := if evV = .evVStageVACT then u16PtrAdd st.pu16Buf c.CONFIG_TIMING_HACT
          else st.pu16Buf } := by
  cases evV <;> rfl

theorem pdma_vloop_next (c : Config) (n : Nat) (st : Pdma.BuildState) :
    (Pdma.dsc_init_vloop c n st).next = st.next + 4 * n := by
  induction n with
  | zero => rfl
  | succ n ih =>
    simp only [Pdma.dsc_init_vloop, pdma_hloop_eq, ih]
    omega

theorem pdma_vloop_buf (c : Config) (n : Nat) (st : Pdma.BuildState) :
    (Pdma.dsc_init_vloop c n st).pu16Buf = lineBuf c (Pdma.vs c) st.pu16Buf n := by
  induction n with
  | zero => rfl
  | succ n ih =>
    simp only [Pdma.dsc_init_vloop, pdma_hloop_eq, ih, lineBuf, Pdma.vs]

theorem pdma_vloop_length (c : Config) (n : Nat) (st : Pdma.BuildState) :
    (Pdma.dsc_init_vloop c n st).dsc.length = st.dsc.length := by
  induction n with
  | zero => rfl
  | succ n ih =>
    simp only [Pdma.dsc_init_vloop, pdma_hloop_eq, List.length_set, ih]

theorem pdma_vloop_get (c : Config) (n : Nat) (st : Pdma.BuildState) (h0 : st.next = 0)
    (k : Nat) :
    (Pdma.dsc_init_vloop c n st).dsc[k]? =
      if k < 4 * n then
        (if k < st.dsc.length then
          some (Pdma.lineDsc c (Pdma.vs c (k / 4)) (E_HSTAGE.ofVal (k % 4))
            (lineBuf c (Pdma.vs c) st.pu16Buf (k / 4)) k)
        else none)
      else st.dsc[k]? := by
  induction n with
  | zero => simp [Pdma.dsc_init_vloop]
  | succ n ih =>
    simp only [Pdma.dsc_init_vloop, pdma_hloop_eq, getElem?_set4, pdma_vloop_next,
      pdma_vloop_buf, pdma_vloop_length, h0, ih]
    simp only [zero_add, Pdma.vs]
    rcases (by omega : k = 4 * n ∨ k = 4 * n + 1 ∨ k = 4 * n + 2 ∨ k = 4 * n + 3 ∨ k < 4 * n
      ∨ 4 * (n + 1) ≤ k) with h | h | h | h | h | h
    · subst h
      have e1 : 4 * n / 4 = n := by omega
      have e2 : 4 * n % 4 = 0 := by omega
      have e3 : 4 * n < 4 * (n + 1) := by omega
      simp only [e1, e2, e3, E_HSTAGE.ofVal, if_true]
    · subst h
      have e1 : (4 * n + 1) / 4 = n := by omega
      have e2 : (4 * n + 1) % 4 = 1 := by omega
      have e3 : 4 * n + 1 < 4 * (n + 1) := by omega
      have e4 : ¬ 4 * n + 1 = 4 * n := by omega
      simp only [e1, e2, e3, e4, E_HSTAGE.ofVal, if_true, if_false]
    · subst h
      have e1 : (4 * n + 2) / 4 = n := by omega
      have e2 : (4 * n + 2) % 4 = 2 := by omega
      have e3 : 4 * n + 2 < 4 * (n + 1) := by omega
      have e4 : ¬ 4 * n + 2 = 4 * n := by omega
      have e5 : ¬ 4 * n + 2 = 4 * n + 1 := by omega
      simp only [e1, e2, e3, e4, e5, E_HSTAGE.ofVal, if_true, if_false]
    · subst h
      have e1 : (4 * n + 3) / 4 = n := by omega
      have e2 : (4 * n + 3) % 4 = 3 := by omega
      have e3 : 4 * n + 3 < 4 * (n + 1) := by omega
      have e4 : ¬ 4 * n + 3 = 4 * n := by omega
      have e5 : ¬ 4 * n + 3 = 4 * n + 1 := by omega
      have e6 : ¬ 4 * n + 3 = 4 * n + 2 := by omega
      simp only [e1, e2, e3, e4, e5, e6, E_HSTAGE.ofVal, if_true, if_false]
    · have e3 : k < 4 * (n + 1) := by omega
      have e4 : ¬ k = 4 * n := by omega
      have e5 : ¬ k = 4 * n + 1 := by omega
      have e6 : ¬ k = 4 * n + 2 := by omega
      have e7 : ¬ k = 4 * n + 3 := by omega
      simp only [h, e3, e4, e5, e6, e7, if_true, if_false]
    · have e2 : ¬ k < 4 * n := by omega
      have e3 : ¬ k < 4 * (n + 1) := by omega
      have e4 : ¬ k = 4 * n := by omega
      have e5 : ¬ k = 4 * n + 1 := by omega
      have e6 : ¬ k = 4 * n + 2 := by omega
      have e7 : ¬ k = 4 * n + 3 := by omega
      simp only [e2, e3, e4, e5, e6, e7, if_false]

theorem pdma_storeAt_get (dsc : List Pdma.DSCT_T) (p : Nat) (f : Pdma.DSCT_T → Pdma.DSCT_T)
    (k : Nat) :
    (Pdma.storeAt dsc p f)[k]? = if p = k then (dsc[k]?).map f else dsc[k]? := by
  unfold Pdma.storeAt
  rw [List.getElem?_set, List.getD_eq_getElem?_getD]
  by_cases e : p = k
  · subst e
    by_cases hl : p < dsc.length
    · simp [hl, List.getElem?_eq_getElem hl]
    · simp [hl, List.getElem?_eq_none (Nat.le_of_not_lt hl)]
  · simp [e]

theorem pdma_storeAt_length (dsc : List Pdma.DSCT_T) (p : Nat) (f : Pdma.DSCT_T → Pdma.DSCT_T) :
    (Pdma.storeAt dsc p f).length = dsc.length := by
  simp [Pdma.storeAt]

theorem pdma_built_get (c : Config) (s : DispState Pdma.DSCT_T)
    (hlen : s.s_sDscLCD.length = dscSlots c) (k : Nat) (hk : k < dscSlots c) :
    (Pdma.disp_pdma_dsc_init c s).s_sDscLCD[k]? = some (Pdma.builtDsc c s.s_pu16BufAddr k) := by
  have hk4 : k < 4 * DEF_TOTAL_VLINES c := by
    simpa [dscSlots, evHStageCNT] using hk
  have hkl : k < s.s_sDscLCD.length := by omega
  have hget := pdma_vloop_get c (DEF_TOTAL_VLINES c)
    { dsc := s.s_sDscLCD, next := s_head, pu16Buf := s.s_pu16BufAddr } rfl k
  simp only [hk4, hkl, if_true] at hget
  simp only [Pdma.disp_pdma_dsc_init, pdma_storeAt_get, hget, Pdma.builtDsc]
  by_cases e : s_end c = k
  · subst e
    simp only [if_true, Option.map_some']
  · have e2 : ¬ k = s_end c := fun h => e h.symm
    simp only [e, e2, if_false]

theorem pdma_built_getD (c : Config) (s : DispState Pdma.DSCT_T)
    (hlen : s.s_sDscLCD.length = dscSlots c) (k : Nat) (hk : k < dscSlots c) :
    (Pdma.disp_pdma_dsc_init c s).s_sDscLCD.getD k Pdma.DSCT_T.zero =
      Pdma.builtDsc c s.s_pu16BufAddr k := by
  rw [List.getD_eq_getElem?_getD, pdma_built_get c s hlen k hk]
  rfl

theorem pdma_built_length (c : Config) (s : DispState Pdma.DSCT_T) :
    (Pdma.disp_pdma_dsc_init c s).s_sDscLCD.length = s.s_sDscLCD.length := by
  simp only [Pdma.disp_pdma_dsc_init, pdma_storeAt_length, pdma_vloop_length]

/-! ## The pointer into the frame buffer -/

theorem lineBuf_closed (c : Config) (vs : Nat → E_VSTAGE) (B : Nat)
    (hvs : ∀ n, n < DEF_TOTAL_VLINES c → (vs n = .evVStageVACT ↔ DEF_VACT_INDEX c ≤ n))
    (n : Nat) (hn : n ≤ DEF_TOTAL_VLINES c) :
    lineBuf c vs B n =
      if n ≤ DEF_VACT_INDEX c then B
      else u16PtrAdd B ((n - DEF_VACT_INDEX c) * c.CONFIG_TIMING_HACT) := by
  induction n with
  | zero => simp [lineBuf]
  | succ n ih =>
    have ih1 := ih (by omega)
    have hv := hvs n (by omega)
    simp only [lineBuf, ih1]
    by_cases h1 : DEF_VACT_INDEX c ≤ n
    · have h2 : ¬ n + 1 ≤ DEF_VACT_INDEX c := by omega
      simp only [hv.mpr h1, if_true, h2, if_false]
      by_cases h3 : n ≤ DEF_VACT_INDEX c
      · have h4 : n = DEF_VACT_INDEX c := by omega
        have h5 : n + 1 - DEF_VACT_INDEX c = 1 := by omega
        simp only [h3, if_true, h5, one_mul]
      · obtain ⟨j, hj⟩ : ∃ j, n = DEF_VACT_INDEX c + j := ⟨n - DEF_VACT_INDEX c, by omega⟩
        have h5 : n + 1 - DEF_VACT_INDEX c = j + 1 := by omega
        have h6 : n - DEF_VACT_INDEX c = j := by omega
        simp only [h3, if_false, h5, h6, u16PtrAdd, Nat.succ_mul]
        omega
    · have h2 : n + 1 ≤ DEF_VACT_INDEX c := by omega
      have h3 : n ≤ DEF_VACT_INDEX c := by omega
      have h4 : ¬ vs n = .evVStageVACT := fun h => h1 (hv.mp h)
      simp only [h4, if_false, h2, h3, if_true]

theorem pdma_vs_vact (c : Config) (hint : DEF_TOTAL_VLINES c < 2147483648) (n : Nat)
    (hn : n < DEF_TOTAL_VLINES c) :
    Pdma.vs c n = .evVStageVACT ↔ DEF_VACT_INDEX c ≤ n := by
  rw [Pdma.vs, pdma_vstage_closed c n hint]
  unfold DEF_TOTAL_VLINES at hn
  unfold DEF_VACT_INDEX
  split_ifs <;> simp <;> omega

/-! ## The GDMA builder -/

theorem gdma_storeAt_get (dsc : List Gdma.S_CMDBUF) (p : Nat)
    (f : Gdma.S_CMDBUF → Gdma.S_CMDBUF) (k : Nat) :
    (Gdma.storeAt dsc p f)[k]? = if p = k then (dsc[k]?).map f else dsc[k]? := by
  unfold Gdma.storeAt
  rw [List.getElem?_set, List.getD_eq_getElem?_getD]
  by_cases e : p = k
  · subst e
    by_cases hl : p < dsc.length
    · simp [hl, List.getElem?_eq_getElem hl]
    · simp [hl, List.getElem?_eq_none (Nat.le_of_not_lt hl)]
  · simp [e]

theorem gdma_storeAt_length (dsc : List Gdma.S_CMDBUF) (p : Nat)
    (f : Gdma.S_CMDBUF → Gdma.S_CMDBUF) :
    (Gdma.storeAt dsc p f).length = dsc.length := by
  simp [Gdma.storeAt]

theorem gdma_hloop_eq (c : Config) (evV : E_VSTAGE) (st : Gdma.BuildState) :
    Gdma.dsc_init_hloop c evV hStages st =
      { dsc := Gdma.storeAt (Gdma.storeAt (Gdma.storeAt (Gdma.storeAt st.dsc st.next
            (Gdma.lineCmd c evV .evHStageHFP st.pu16Buf st.next)) (st.next + 1)
            (Gdma.lineCmd c evV .evHStageHSYNC st.pu16Buf (st.next + 1))) (st.next + 2)
            (Gdma.lineCmd c evV .evHStageHBP st.pu16Buf (st.next + 2))) (st.next + 3)
            (Gdma.lineCmd c evV .evHStageHACT st.pu16Buf (st.next + 3))
        next := st.next + 4
        pu16Buf := if evV = .evVStageVACT then u16PtrAdd st.pu16Buf c.CONFIG_TIMING_HACT
          else st.pu16Buf } := by
  cases evV <;> rfl

theorem gdma_vloop_next (c : Config) (n : Nat) (st : Gdma.BuildState) :
    (Gdma.dsc_init_vloop c n st).next = st.next + 4 * n := by
  induction n with
  | zero => rfl
  | succ n ih =>
    simp only [Gdma.dsc_init_vloop, gdma_hloop_eq, ih]
    omega

theorem gdma_vloop_buf (c : Config) (n : Nat) (st : Gdma.BuildState) :
    (Gdma.dsc_init_vloop c n st).pu16Buf = lineBuf c (Gdma.vs c) st.pu16Buf n := by
  induction n with
  | zero => rfl
  | succ n ih =>
    simp only [Gdma.dsc_init_vloop, gdma_hloop_eq, ih, lineBuf, Gdma.vs]

theorem gdma_vloop_length (c : Config) (n : Nat) (st : Gdma.BuildState) :
    (Gdma.dsc_init_vloop c n st).dsc.length = st.dsc.length := by
  induction n with
  | zero => rfl
  | succ n ih =>
    simp only [Gdma.dsc_init_vloop, gdma_hloop_eq, gdma_storeAt_length, ih]

theorem gdma_vloop_get (c : Config) (n : Nat) (st : Gdma.BuildState) (h0 : st.next = 0)
    (k : Nat) :
    (Gdma.dsc_init_vloop c n st).dsc[k]? =
      if k < 4 * n then
        (st.dsc[k]?).map (Gdma.builtCmd c st.pu16Buf k)
      else st.dsc[k]? := by
  induction n generalizing k with
  | zero => simp [Gdma.dsc_init_vloop]
  | succ n ih =>
    simp only [Gdma.dsc_init_vloop, gdma_hloop_eq, gdma_storeAt_get, gdma_vloop_next,
      gdma_vloop_buf, h0, ih, zero_add, Gdma.builtCmd]
    rcases (by omega : k = 4 * n ∨ k = 4 * n + 1 ∨ k = 4 * n + 2 ∨ k = 4 * n + 3 ∨ k < 4 * n
      ∨ 4 * (n + 1) ≤ k) with h | h | h | h | h | h
    · subst h
      have e1 : 4 * n / 4 = n := by omega
      have e2 : 4 * n % 4 = 0 := by omega
      have e3 : 4 * n < 4 * (n + 1) := by omega
      have e4 : ¬ 4 * n + 3 = 4 * n := by omega
      have e5 : ¬ 4 * n + 2 = 4 * n := by omega
      have e6 : ¬ 4 * n + 1 = 4 * n := by omega
      have e7 : ¬ 4 * n < 4 * n := by omega
      simp only [e1, e2, e3, e4, e5, e6, e7, E_HSTAGE.ofVal, if_true, if_false, Gdma.vs]
    · subst h
      have e1 : (4 * n + 1) / 4 = n := by omega
      have e2 : (4 * n + 1) % 4 = 1 := by omega
      have e3 : 4 * n + 1 < 4 * (n + 1) := by omega
      have e4 : ¬ 4 * n + 3 = 4 * n + 1 := by omega
      have e5 : ¬ 4 * n + 2 = 4 * n + 1 := by omega
      have e6 : ¬ 4 * n = 4 * n + 1 := by omega
      have e7 : ¬ 4 * n + 1 < 4 * n := by omega
      simp only [e1, e2, e3, e4, e5, e6, e7, E_HSTAGE.ofVal, if_true, if_false, Gdma.vs]
    · subst h
      have e1 : (4 * n + 2) / 4 = n := by omega
      have e2 : (4 * n + 2) % 4 = 2 := by omega
      have e3 : 4 * n + 2 < 4 * (n + 1) := by omega
      have e4 : ¬ 4 * n + 3 = 4 * n + 2 := by omega
      have e5 : ¬ 4 * n + 1 = 4 * n + 2 := by omega
      have e6 : ¬ 4 * n = 4 * n + 2 := by omega
      have e7 : ¬ 4 * n + 2 < 4 * n := by omega
      simp only [e1, e2, e3, e4, e5, e6, e7, E_HSTAGE.ofVal, if_true, if_false, Gdma.vs]
    · subst h
      have e1 : (4 * n + 3) / 4 = n := by omega
      have e2 : (4 * n + 3) % 4 = 3 := by omega
      have e3 : 4 * n + 3 < 4 * (n + 1) := by omega
      have e4 : ¬ 4 * n + 2 = 4 * n + 3 := by omega
      have e5 : ¬ 4 * n + 1 = 4 * n + 3 := by omega
      have e6 : ¬ 4 * n = 4 * n + 3 := by omega
      have e7 : ¬ 4 * n + 3 < 4 * n := by omega
      simp only [e1, e2, e3, e4, e5, e6, e7, E_HSTAGE.ofVal, if_true, if_false, Gdma.vs]
    · have e3 : k < 4 * (n + 1) := by omega
      have e4 : ¬ 4 * n = k := by omega
      have e5 : ¬ 4 * n + 1 = k := by omega
      have e6 : ¬ 4 * n + 2 = k := by omega
      have e7 : ¬ 4 * n + 3 = k := by omega
      simp only [h, e3, e4, e5, e6, e7, if_true, if_false]
    · have e2 : ¬ k < 4 * n := by omega
      have e3 : ¬ k < 4 * (n + 1) := by omega
      have e4 : ¬ 4 * n = k := by omega
      have e5 : ¬ 4 * n + 1 = k := by omega
      have e6 : ¬ 4 * n + 2 = k := by omega
      have e7 : ¬ 4 * n + 3 = k := by omega
      simp only [e2, e3, e4, e5, e6, e7, if_false]

theorem gdma_built_get (c : Config) (s : DispState Gdma.S_CMDBUF)
    (hlen : s.s_sDscLCD.length = dscSlots c) (k : Nat) (hk : k < dscSlots c) :
    (Gdma.disp_gdma_dsc_init c s).s_sDscLCD.getD k Gdma.S_CMDBUF.zero =
      Gdma.builtCmd c s.s_pu16BufAddr k (s.s_sDscLCD.getD k Gdma.S_CMDBUF.zero) := by
  have hk4 : k < 4 * DEF_TOTAL_VLINES c := by
    simpa [dscSlots, evHStageCNT] using hk
  have hkl : k < s.s_sDscLCD.length := by omega
  have hget := gdma_vloop_get c (DEF_TOTAL_VLINES c)
    { dsc := s.s_sDscLCD, next := s_head, pu16Buf := s.s_pu16BufAddr } rfl k
  simp only [hk4, if_true, List.getElem?_eq_getElem hkl, Option.map_some'] at hget
  simp only [Gdma.disp_gdma_dsc_init, List.getD_eq_getElem?_getD, hget,
    List.getElem?_eq_getElem hkl, Option.getD_some]

theorem gdma_built_length (c : Config) (s : DispState Gdma.S_CMDBUF) :
    (Gdma.disp_gdma_dsc_init c s).s_sDscLCD.length = s.s_sDscLCD.length := by
  simp only [Gdma.disp_gdma_dsc_init, gdma_vloop_length]

theorem gdma_header_steps (g : Gdma.dma350_cmdlink_gencfg_t) (a b d e : Nat) :
    Gdma.dma350_cmdlink_init.header = 0
    ∧ (Gdma.dma350_cmdlink_set_regclear g).header = Gdma.hdrSet g.header 0
    ∧ (Gdma.dma350_cmdlink_set_src_des g a b d e).header =
        Gdma.hdrSet (Gdma.hdrSet (Gdma.hdrClr (Gdma.hdrSet (Gdma.hdrClr
          (Gdma.hdrSet g.header 4) 5) 6) 7) 8) 9
    ∧ (Gdma.dma350_cmdlink_set_xsize16 g a b).header = Gdma.hdrClr (Gdma.hdrSet g.header 8) 9
    ∧ (Gdma.dma350_cmdlink_set_transize g a).header = Gdma.hdrSet g.header 3
    ∧ (Gdma.dma350_cmdlink_set_xtype g a).header = Gdma.hdrSet g.header 3
    ∧ (Gdma.dma350_cmdlink_set_ytype g a).header = Gdma.hdrSet g.header 3
    ∧ (Gdma.dma350_cmdlink_set_xaddrinc g a b).header = Gdma.hdrSet g.header 12
    ∧ (Gdma.dma350_cmdlink_enable_linkaddr g).header = Gdma.hdrSet g.header 30
    ∧ (Gdma.dma350_cmdlink_enable_intr g a).header = Gdma.hdrSet g.header 2
    ∧ (Gdma.dma350_cmdlink_disable_intr g a).header = Gdma.hdrSet g.header 2
    ∧ (Gdma.dma350_cmdlink_set_linkaddr32 g a).header =
        Gdma.hdrClr (Gdma.hdrSet g.header 30) 31 :=
  ⟨rfl, rfl, rfl, rfl, rfl, rfl, rfl, rfl, rfl, rfl, rfl, rfl⟩

theorem gdma_header_value :
    Gdma.hdrClr (Gdma.hdrSet (Gdma.hdrSet (Gdma.hdrSet (Gdma.hdrSet (Gdma.hdrSet (Gdma.hdrSet
      (Gdma.hdrSet (Gdma.hdrClr (Gdma.hdrSet (Gdma.hdrSet (Gdma.hdrSet (Gdma.hdrClr (Gdma.hdrSet
      (Gdma.hdrClr (Gdma.hdrSet (Gdma.hdrSet 0 0) 4) 5) 6) 7) 8) 9) 8) 9) 3) 3) 3) 12) 30) 2) 30) 31
      = Gdma.builtHeader := by
  decide

theorem gdma_cmdlink_header (c : Config) (l : Gdma.Locals) (n p : Nat) :
    (Gdma.dsc_cmdlink c l n p).header = Gdma.builtHeader := by
  have hs := fun g a b d e => gdma_header_steps g a b d e
  unfold Gdma.dsc_cmdlink
  split
  · simp only [(hs _ 0 0 0 0).2.1, (hs _ _ _ _ _).2.2.1, (hs _ _ _ 0 0).2.2.2.1,
      (hs _ _ 0 0 0).2.2.2.2.1, (hs _ _ 0 0 0).2.2.2.2.2.1, (hs _ _ 0 0 0).2.2.2.2.2.2.1,
      (hs _ _ _ 0 0).2.2.2.2.2.2.2.1, (hs _ 0 0 0 0).2.2.2.2.2.2.2.2.1,
      (hs _ _ 0 0 0).2.2.2.2.2.2.2.2.2.1, (hs _ _ 0 0 0).2.2.2.2.2.2.2.2.2.2.2,
      (hs Gdma.dma350_cmdlink_init 0 0 0 0).1]
    exact gdma_header_value
  · simp only [(hs _ 0 0 0 0).2.1, (hs _ _ _ _ _).2.2.1, (hs _ _ _ 0 0).2.2.2.1,
      (hs _ _ 0 0 0).2.2.2.2.1, (hs _ _ 0 0 0).2.2.2.2.2.1, (hs _ _ 0 0 0).2.2.2.2.2.2.1,
      (hs _ _ _ 0 0).2.2.2.2.2.2.2.1, (hs _ 0 0 0 0).2.2.2.2.2.2.2.2.1,
      (hs _ _ 0 0 0).2.2.2.2.2.2.2.2.2.2.1, (hs _ _ 0 0 0).2.2.2.2.2.2.2.2.2.2.2,
      (hs Gdma.dma350_cmdlink_init 0 0 0 0).1]
    exact gdma_header_value

theorem gdma_cmdlinkBits_built : Gdma.cmdlinkBits Gdma.builtHeader = [2, 3, 4, 6, 8, 12, 30] := by
  decide

theorem gdma_generate_words (g : Gdma.dma350_cmdlink_gencfg_t) (buffer : Nat → Nat)
    (hg : g.header = Gdma.builtHeader) :
    Gdma.dma350_cmdlink_generate g buffer 0 = Gdma.builtHeader
    ∧ Gdma.dma350_cmdlink_generate g buffer 1 = g.cfg 2
    ∧ Gdma.dma350_cmdlink_generate g buffer 2 = g.cfg 3
    ∧ Gdma.dma350_cmdlink_generate g buffer 3 = g.cfg 4
    ∧ Gdma.dma350_cmdlink_generate g buffer 4 = g.cfg 6
    ∧ Gdma.dma350_cmdlink_generate g buffer 5 = g.cfg 8
    ∧ Gdma.dma350_cmdlink_generate g buffer 6 = g.cfg 12
    ∧ Gdma.dma350_cmdlink_generate g buffer 7 = g.cfg 30
    ∧ ∀ j, 8 ≤ j → Gdma.dma350_cmdlink_generate g buffer j = buffer j := by
  unfold Gdma.dma350_cmdlink_generate
  rw [hg, gdma_cmdlinkBits_built]
  refine ⟨rfl, rfl, rfl, rfl, rfl, rfl, rfl, rfl, ?_⟩
  intro j hj
  have : ¬ j < 8 := by omega
  simp [this]

theorem gdma_setField_flag : Gdma.setField 0 0 1 1 = 1 := by decide

theorem gdma_cmdlink_cfg (c : Config) (l : Gdma.Locals) (n p : Nat) :
    (Gdma.dsc_cmdlink c l n p).cfg 2 = (if p = s_end c then 1 else 0)
    ∧ (Gdma.dsc_cmdlink c l n p).cfg 4 = l.u32AddrSrc
    ∧ (Gdma.dsc_cmdlink c l n p).cfg 6 = l.u32AddrDst
    ∧ (Gdma.dsc_cmdlink c l n p).cfg 30 =
        1 + (if p = s_end c then Gdma.ptrVal c s_head else Gdma.ptrVal c (p + 1)) / 4 * 4 := by
  have h30 : ∀ (g : Gdma.dma350_cmdlink_gencfg_t) (a : Nat), g.cfg 30 = 1 →
      (Gdma.dma350_cmdlink_set_linkaddr32 g a).cfg 30 = 1 + a / 4 * 4 := by
    intro g a hg
    show g.cfg 30 % 4 + a / 4 * 4 = 1 + a / 4 * 4
    rw [hg]
  have h2e : ∀ (g : Gdma.dma350_cmdlink_gencfg_t) (a m : Nat), g.cfg 2 = 0 →
      (Gdma.dma350_cmdlink_set_linkaddr32 (Gdma.dma350_cmdlink_enable_intr g m) a).cfg 2
        = 0 ||| m := by
    intro g a m hg
    show g.cfg 2 ||| m = 0 ||| m
    rw [hg]
  have h2d : ∀ (g : Gdma.dma350_cmdlink_gencfg_t) (a m : Nat), g.cfg 2 = 0 →
      (Gdma.dma350_cmdlink_set_linkaddr32 (Gdma.dma350_cmdlink_disable_intr g m) a).cfg 2
        = 0 &&& (4294967295 - m) := by
    intro g a m hg
    show g.cfg 2 &&& (4294967295 - m) = 0 &&& (4294967295 - m)
    rw [hg]
  unfold Gdma.dsc_cmdlink
  split <;> rename_i hp
  · exact ⟨(h2e _ _ _ (by rfl)).trans (by decide), by rfl, by rfl,
      h30 _ _ gdma_setField_flag⟩
  · exact ⟨(h2d _ _ _ (by rfl)).trans (by decide), by rfl, by rfl,
      h30 _ _ gdma_setField_flag⟩

theorem gdma_find_built :
    Gdma.find_srcaddr_loop 33 (Gdma.builtHeader % 4294967296 - Gdma.builtHeader % 4) 0 = 2 := by
  decide

theorem gdma_fieldPos_built :
    Gdma.fieldPos Gdma.builtHeader Gdma.bitINTREN = 1
    ∧ Gdma.fieldPos Gdma.builtHeader Gdma.bitDES_ADDR = 4
    ∧ Gdma.fieldPos Gdma.builtHeader Gdma.bitLINKADDR = 7
    ∧ Gdma.hdrBit Gdma.builtHeader Gdma.bitINTREN = true := by
  decide

/-- The fields of a command buffer written by the inner loop of `disp_gdma_dsc_init`. -/
theorem gdma_lineCmd_fields (c : Config) (evV : E_VSTAGE) (evH : E_HSTAGE) (pu p : Nat)
    (old : Gdma.S_CMDBUF) :
    (Gdma.lineCmd c evV evH pu p old).m_cmdbuf 0 = Gdma.builtHeader
    ∧ Gdma.gdma_dsc_find_srcaddr_index (Gdma.lineCmd c evV evH pu p old) = 2
    ∧ (Gdma.lineCmd c evV evH pu p old).m_cmdbuf 3 = (Gdma.dsc_switch c evV evH pu).u32AddrSrc
    ∧ Gdma.srcAddr (Gdma.lineCmd c evV evH pu p old) = (Gdma.dsc_switch c evV evH pu).u32AddrSrc
    ∧ Gdma.desAddr (Gdma.lineCmd c evV evH pu p old) = (Gdma.dsc_switch c evV evH pu).u32AddrDst
    ∧ Gdma.linkAddr (Gdma.lineCmd c evV evH pu p old) =
        (if p = s_end c then Gdma.ptrVal c s_head else Gdma.ptrVal c (p + 1)) / 4 * 4
    ∧ Gdma.intrDone (Gdma.lineCmd c evV evH pu p old) = decide (p = s_end c) := by
  have hw := gdma_generate_words
    (Gdma.dsc_cmdlink c (Gdma.dsc_switch c evV evH pu) (s_au32HTiming c evH) p) old.m_cmdbuf
    (gdma_cmdlink_header c _ _ p)
  have hc := gdma_cmdlink_cfg c (Gdma.dsc_switch c evV evH pu) (s_au32HTiming c evH) p
  have h0 : (Gdma.lineCmd c evV evH pu p old).m_cmdbuf 0 = Gdma.builtHeader := hw.1
  have hf : Gdma.gdma_dsc_find_srcaddr_index (Gdma.lineCmd c evV evH pu p old) = 2 := by
    unfold Gdma.gdma_dsc_find_srcaddr_index
    simp only [h0]
    exact gdma_find_built
  have h3 : (Gdma.lineCmd c evV evH pu p old).m_cmdbuf 3
      = (Gdma.dsc_switch c evV evH pu).u32AddrSrc := hw.2.2.2.1.trans hc.2.1
  refine ⟨h0, hf, h3, ?_, ?_, ?_, ?_⟩
  · unfold Gdma.srcAddr
    rw [hf]
    exact h3
  · unfold Gdma.desAddr
    rw [h0, gdma_fieldPos_built.2.1]
    exact hw.2.2.2.2.1.trans hc.2.2.1
  · unfold Gdma.linkAddr
    rw [h0, gdma_fieldPos_built.2.2.1]
    have h7 : (Gdma.lineCmd c evV evH pu p old).m_cmdbuf 7 = _ :=
      hw.2.2.2.2.2.2.2.1.trans hc.2.2.2
    rw [h7]
    omega
  · unfold Gdma.intrDone
    rw [h0, gdma_fieldPos_built.1, gdma_fieldPos_built.2.2.2]
    have h1 : (Gdma.lineCmd c evV evH pu p old).m_cmdbuf 1 = _ := hw.2.1.trans hc.1
    rw [h1]
    by_cases hp : p = s_end c
    · simp only [hp, if_true]; decide
    · simp only [hp, if_false]; decide

theorem pdma_lineDsc_proj (c : Config) (V : E_VSTAGE) (h : E_HSTAGE) (pu p v : Nat) :
    ((Pdma.lineDsc c V h pu p).NEXT = Pdma.ptrVal c (p + 1)
      ∧ (Pdma.lineDsc c V h pu p).CTL.TBINTDIS = true
      ∧ (Pdma.lineDsc c V h pu p).SA = (Pdma.dsc_switch c V h pu).u32AddrSrc
      ∧ (Pdma.lineDsc c V h pu p).DA = (Pdma.dsc_switch c V h pu).u32AddrDst)
    ∧ (((Pdma.lineDsc c V h pu p).setNEXT v).clrTBINTDIS.NEXT = v
      ∧ ((Pdma.lineDsc c V h pu p).setNEXT v).clrTBINTDIS.CTL.TBINTDIS = false
      ∧ ((Pdma.lineDsc c V h pu p).setNEXT v).clrTBINTDIS.SA
          = (Pdma.dsc_switch c V h pu).u32AddrSrc
      ∧ ((Pdma.lineDsc c V h pu p).setNEXT v).clrTBINTDIS.DA
          = (Pdma.dsc_switch c V h pu).u32AddrDst) :=
  ⟨⟨rfl, rfl, rfl, rfl⟩, ⟨rfl, rfl, rfl, rfl⟩⟩

/-- The fields of a descriptor written by `disp_pdma_dsc_init`. -/
theorem pdma_builtDsc_fields (c : Config) (B k : Nat) :
    (Pdma.builtDsc c B k).NEXT =
      (if k = s_end c then Pdma.ptrVal c s_head else Pdma.ptrVal c (k + 1))
    ∧ (Pdma.builtDsc c B k).CTL.TBINTDIS = decide (k ≠ s_end c)
    ∧ (Pdma.builtDsc c B k).SA =
        (Pdma.dsc_switch c (Pdma.vs c (k / 4)) (E_HSTAGE.ofVal (k % 4))
          (lineBuf c (Pdma.vs c) B (k / 4))).u32AddrSrc
    ∧ (Pdma.builtDsc c B k).DA =
        (Pdma.dsc_switch c (Pdma.vs c (k / 4)) (E_HSTAGE.ofVal (k % 4))
          (lineBuf c (Pdma.vs c) B (k / 4))).u32AddrDst := by
  unfold Pdma.builtDsc
  by_cases hk : k = s_end c
  · rw [if_pos hk, if_pos hk]
    have hd : decide (k ≠ s_end c) = false := decide_eq_false (fun h => h hk)
    rw [hd]
    exact (pdma_lineDsc_proj c _ _ _ _ _).2
  · rw [if_neg hk, if_neg hk]
    have hd : decide (k ≠ s_end c) = true := decide_eq_true hk
    rw [hd]
    exact (pdma_lineDsc_proj c _ _ _ _ 0).1

/-! ## The switch of the builders -/

theorem toU32_ebi (c : Config) : toU32 (CONFIG_DISP_EBI_ADDR c : Int) = CONFIG_DISP_EBI_ADDR c := by
  unfold toU32 CONFIG_DISP_EBI_ADDR
  omega

theorem pdma_switch_dst (c : Config) (V : E_VSTAGE) (h : E_HSTAGE) (pu : Nat) :
    (Pdma.dsc_switch c V h pu).u32AddrDst = dstAddr c V h := by
  have e := toU32_ebi c
  cases V <;> cases h <;> simp [Pdma.dsc_switch, dstAddr, e]

theorem gdma_switch_dst (c : Config) (V : E_VSTAGE) (h : E_HSTAGE) (pu : Nat) :
    (Gdma.dsc_switch c V h pu).u32AddrDst = dstAddr c V h := by
  have e := toU32_ebi c
  cases V <;> cases h <;> simp [Gdma.dsc_switch, dstAddr, e]

theorem pdma_switch_src (c : Config) (V : E_VSTAGE) (h : E_HSTAGE) (pu : Nat) :
    (Pdma.dsc_switch c V h pu).u32AddrSrc =
      if V = .evVStageVACT ∧ h = .evHStageHACT then pu % 4294967296
      else c.addr_s_u32DummyData := by
  cases V <;> cases h <;> simp [Pdma.dsc_switch]

theorem gdma_switch_src (c : Config) (V : E_VSTAGE) (h : E_HSTAGE) (pu : Nat) :
    (Gdma.dsc_switch c V h pu).u32AddrSrc =
      if V = .evVStageVACT ∧ h = .evHStageHACT then pu % 4294967296
      else c.addr_s_u32DummyData := by
  cases V <;> cases h <;> simp [Gdma.dsc_switch]

theorem gdma_vs_eq_pdma_vs (c : Config) (n : Nat) (hint : DEF_TOTAL_VLINES c < 2147483648) :
    Gdma.vs c n = Pdma.vs c n := by
  rw [Gdma.vs, Pdma.vs, gdma_vstage_closed c n hint, pdma_vstage_closed c n hint]

theorem gdma_vs_vact (c : Config) (hint : DEF_TOTAL_VLINES c < 2147483648) (n : Nat)
    (hn : n < DEF_TOTAL_VLINES c) :
    Gdma.vs c n = .evVStageVACT ↔ DEF_VACT_INDEX c ≤ n := by
  rw [gdma_vs_eq_pdma_vs c n hint]
  exact pdma_vs_vact c hint n hn

/-- The buffer pointer of an active line, as stored into a source address. -/
theorem lineBuf_active (c : Config) (vs : Nat → E_VSTAGE) (B : Nat)
    (hvs : ∀ n, n < DEF_TOTAL_VLINES c → (vs n = .evVStageVACT ↔ DEF_VACT_INDEX c ≤ n))
    (j : Nat) (hj : j < c.CONFIG_TIMING_VACT) :
    lineBuf c vs B (DEF_VACT_INDEX c + j) % 4294967296 =
      (B + j * c.CONFIG_TIMING_HACT * 2) % 4294967296 := by
  have ht : DEF_VACT_INDEX c + j ≤ DEF_TOTAL_VLINES c := by
    unfold DEF_VACT_INDEX DEF_TOTAL_VLINES
    omega
  rw [lineBuf_closed c vs B hvs _ ht]
  by_cases h0 : j = 0
  · subst h0
    simp
  · have h1 : ¬ DEF_VACT_INDEX c + j ≤ DEF_VACT_INDEX c := by omega
    have h2 : DEF_VACT_INDEX c + j - DEF_VACT_INDEX c = j := by omega
    simp only [h1, if_false, h2, u16PtrAdd]
    omega

/-! ## Order of the writes -/

theorem pdma_hloop_next (c : Config) (V : E_VSTAGE) (l : List E_HSTAGE) (st : Pdma.BuildState) :
    (Pdma.dsc_init_hloop c V l st).next = st.next + l.length := by
  induction l generalizing st with
  | nil => rfl
  | cons h t ih =>
    rw [Pdma.dsc_init_hloop, ih, List.length_cons]
    show st.next + 1 + t.length = st.next + (t.length + 1)
    omega

theorem gdma_hloop_next (c : Config) (V : E_VSTAGE) (l : List E_HSTAGE) (st : Gdma.BuildState) :
    (Gdma.dsc_init_hloop c V l st).next = st.next + l.length := by
  induction l generalizing st with
  | nil => rfl
  | cons h t ih =>
    rw [Gdma.dsc_init_hloop, ih, List.length_cons]
    show st.next + 1 + t.length = st.next + (t.length + 1)
    omega

theorem hStages_take_length (evH : E_HSTAGE) : (hStages.take evH.val).length = evH.val := by
  cases evH <;> rfl

theorem hStages_take_next (evH : E_HSTAGE) :
    hStages.drop evH.val = evH :: hStages.drop (evH.val + 1) := by
  cases evH <;> rfl

/-! ## Ring closure -/

theorem pdma_slotOfPtr_ptrVal (c : Config) (n : Nat) :
    Pdma.slotOfPtr c (Pdma.ptrVal c n) = n := by
  simp only [Pdma.slotOfPtr, Pdma.ptrVal, Pdma.sizeof_DSCT_T]
  omega

theorem gdma_slotOfPtr_ptrVal (c : Config) (n : Nat) :
    Gdma.slotOfPtr c (Gdma.ptrVal c n) = n := by
  simp only [Gdma.slotOfPtr, Gdma.ptrVal, Gdma.sizeof_S_CMDBUF, Gdma.DEF_CMDBUF_SIZE]
  omega

theorem pdma_built_next (c : Config) (s : DispState Pdma.DSCT_T)
    (hlen : s.s_sDscLCD.length = dscSlots c) (k : Nat) (hk : k < dscSlots c) :
    ((Pdma.disp_pdma_dsc_init c s).s_sDscLCD.getD k Pdma.DSCT_T.zero).NEXT =
      if k = s_end c then Pdma.ptrVal c s_head else Pdma.ptrVal c (k + 1) := by
  rw [pdma_built_getD c s hlen k hk]
  exact (pdma_builtDsc_fields c _ k).1

theorem gdma_built_link (c : Config) (s : DispState Gdma.S_CMDBUF)
    (hlen : s.s_sDscLCD.length = dscSlots c) (k : Nat) (hk : k < dscSlots c) :
    Gdma.linkAddr ((Gdma.disp_gdma_dsc_init c s).s_sDscLCD.getD k Gdma.S_CMDBUF.zero) =
      (if k = s_end c then Gdma.ptrVal c s_head else Gdma.ptrVal c (k + 1)) / 4 * 4 := by
  rw [gdma_built_get c s hlen k hk]
  exact (gdma_lineCmd_fields c _ _ _ k _).2.2.2.2.2.1

theorem gdma_ptrVal_aligned (c : Config) (halign : c.addr_s_sDscLCD % 4 = 0) (n : Nat) :
    Gdma.ptrVal c n / 4 * 4 = Gdma.ptrVal c n := by
  simp only [Gdma.ptrVal, Gdma.sizeof_S_CMDBUF, Gdma.DEF_CMDBUF_SIZE]
  omega

theorem pdma_follow_built (c : Config) (s : DispState Pdma.DSCT_T)
    (hlen : s.s_sDscLCD.length = dscSlots c) (n : Nat) (hn : n < dscSlots c) :
    Pdma.follow c (Pdma.disp_pdma_dsc_init c s).s_sDscLCD n (Pdma.ptrVal c s_head)
      = Pdma.ptrVal c n := by
  induction n with
  | zero => rfl
  | succ n ih =>
    have hn1 : n < dscSlots c := by omega
    have hne : ¬ n = s_end c := by
      simp only [s_end, s_head]
      omega
    rw [Pdma.follow, ih hn1, pdma_slotOfPtr_ptrVal, pdma_built_next c s hlen n hn1, if_neg hne]

theorem gdma_follow_built (c : Config) (s : DispState Gdma.S_CMDBUF)
    (hlen : s.s_sDscLCD.length = dscSlots c) (halign : c.addr_s_sDscLCD % 4 = 0)
    (n : Nat) (hn : n < dscSlots c) :
    Gdma.follow c (Gdma.disp_gdma_dsc_init c s).s_sDscLCD n (Gdma.ptrVal c s_head)
      = Gdma.ptrVal c n := by
  induction n with
  | zero => rfl
  | succ n ih =>
    have hn1 : n < dscSlots c := by omega
    have hne : ¬ n = s_end c := by
      simp only [s_end, s_head]
      omega
    rw [Gdma.follow, ih hn1, gdma_slotOfPtr_ptrVal, gdma_built_link c s hlen n hn1, if_neg hne,
      gdma_ptrVal_aligned c halign]

/-- C2: after the chain is built (sync configuration, either backend, on the statically
sized array of `N = 4 * total` slots, with at least one line), descriptor `k` links to
descriptor `k + 1` for every `k < N - 1`, descriptor `N - 1` (`s_end`) links to descriptor 0
(`s_head`), no descriptor other than the last links to descriptor 0, and following the
link pointers from `s_head` visits slot `n` after `n < N` steps (so it stays in the array
and is not back at `s_head` before) and is back at `s_head` after exactly `N` steps.  The
GDMA link pointer is a word address, `s_sDscLCD` being word aligned. -/
theorem C2_ring_closure (c : Config) (sP : DispState Pdma.DSCT_T) (sG : DispState Gdma.S_CMDBUF)
    (hlenP : sP.s_sDscLCD.length = dscSlots c) (hlenG : sG.s_sDscLCD.length = dscSlots c)
    (hpos : 0 < DEF_TOTAL_VLINES c) (halign : c.addr_s_sDscLCD % 4 = 0) :
    ((∀ k, k + 1 < dscSlots c →
        ((Pdma.disp_pdma_dsc_init c sP).s_sDscLCD.getD k Pdma.DSCT_T.zero).NEXT
          = Pdma.ptrVal c (k + 1))
      ∧ ((Pdma.disp_pdma_dsc_init c sP).s_sDscLCD.getD (dscSlots c - 1) Pdma.DSCT_T.zero).NEXT
          = Pdma.ptrVal c s_head
      ∧ (∀ k, k < dscSlots c →
          ((Pdma.disp_pdma_dsc_init c sP).s_sDscLCD.getD k Pdma.DSCT_T.zero).NEXT
            = Pdma.ptrVal c s_head → k = dscSlots c - 1)
      ∧ (∀ n, n < dscSlots c →
          Pdma.follow c (Pdma.disp_pdma_dsc_init c sP).s_sDscLCD n (Pdma.ptrVal c s_head)
            = Pdma.ptrVal c n)
      ∧ (∀ n, 0 < n → n < dscSlots c →
          Pdma.follow c (Pdma.disp_pdma_dsc_init c sP).s_sDscLCD n (Pdma.ptrVal c s_head)
            ≠ Pdma.ptrVal c s_head)
      ∧ Pdma.follow c (Pdma.disp_pdma_dsc_init c sP).s_sDscLCD (dscSlots c)
          (Pdma.ptrVal c s_head) = Pdma.ptrVal c s_head)
    ∧ ((∀ k, k + 1 < dscSlots c →
        Gdma.linkAddr ((Gdma.disp_gdma_dsc_init c sG).s_sDscLCD.getD k Gdma.S_CMDBUF.zero)
          = Gdma.ptrVal c (k + 1))
      ∧ Gdma.linkAddr
          ((Gdma.disp_gdma_dsc_init c sG).s_sDscLCD.getD (dscSlots c - 1) Gdma.S_CMDBUF.zero)
          = Gdma.ptrVal c s_head
      ∧ (∀ k, k < dscSlots c →
          Gdma.linkAddr ((Gdma.disp_gdma_dsc_init c sG).s_sDscLCD.getD k Gdma.S_CMDBUF.zero)
            = Gdma.ptrVal c s_head → k = dscSlots c - 1)
      ∧ (∀ n, n < dscSlots c →
          Gdma.follow c (Gdma.disp_gdma_dsc_init c sG).s_sDscLCD n (Gdma.ptrVal c s_head)
            = Gdma.ptrVal c n)
      ∧ (∀ n, 0 < n → n < dscSlots c →
          Gdma.follow c (Gdma.disp_gdma_dsc_init c sG).s_sDscLCD n (Gdma.ptrVal c s_head)
            ≠ Gdma.ptrVal c s_head)
      ∧ Gdma.follow c (Gdma.disp_gdma_dsc_init c sG).s_sDscLCD (dscSlots c)
          (Gdma.ptrVal c s_head) = Gdma.ptrVal c s_head) := by
  have hN : 0 < dscSlots c := by
    simp only [dscSlots, evHStageCNT]
    omega
  have hend : s_end c = dscSlots c - 1 := by simp only [s_end, s_head, zero_add]
  have hendlt : dscSlots c - 1 < dscSlots c := by omega
  constructor
  · refine ⟨?_, ?_, ?_, ?_, ?_, ?_⟩
    · intro k hk
      rw [pdma_built_next c sP hlenP k (by omega), if_neg (by omega)]
    · rw [pdma_built_next c sP hlenP _ hendlt, if_pos hend.symm]
    · intro k hk h
      rw [pdma_built_next c sP hlenP k hk] at h
      by_cases e : k = s_end c
      · omega
      · rw [if_neg e] at h
        simp only [Pdma.ptrVal, Pdma.sizeof_DSCT_T, s_head] at h
        omega
    · intro n hn
      exact pdma_follow_built c sP hlenP n hn
    · intro n h0 hn
      rw [pdma_follow_built c sP hlenP n hn]
      simp only [Pdma.ptrVal, Pdma.sizeof_DSCT_T, s_head]
      omega
    · obtain ⟨m, hm⟩ : ∃ m, dscSlots c = m + 1 := ⟨dscSlots c - 1, by omega⟩
      rw [hm, Pdma.follow, pdma_follow_built c sP hlenP m (by omega), pdma_slotOfPtr_ptrVal,
        pdma_built_next c sP hlenP m (by omega), if_pos (by omega)]
  · refine ⟨?_, ?_, ?_, ?_, ?_, ?_⟩
    · intro k hk
      rw [gdma_built_link c sG hlenG k (by omega), if_neg (by omega),
        gdma_ptrVal_aligned c halign]
    · rw [gdma_built_link c sG hlenG _ hendlt, if_pos hend.symm, gdma_ptrVal_aligned c halign]
    · intro k hk h
      rw [gdma_built_link c sG hlenG k hk] at h
      by_cases e : k = s_end c
      · omega
      · rw [if_neg e, gdma_ptrVal_aligned c halign] at h
        simp only [Gdma.ptrVal, Gdma.sizeof_S_CMDBUF, Gdma.DEF_CMDBUF_SIZE, s_head] at h
        omega
    · intro n hn
      exact gdma_follow_built c sG hlenG halign n hn
    · intro n h0 hn
      rw [gdma_follow_built c sG hlenG halign n hn]
      simp only [Gdma.ptrVal, Gdma.sizeof_S_CMDBUF, Gdma.DEF_CMDBUF_SIZE, s_head]
      omega
    · obtain ⟨m, hm⟩ : ∃ m, dscSlots c = m + 1 := ⟨dscSlots c - 1, by omega⟩
      rw [hm, Gdma.follow, gdma_follow_built c sG hlenG halign m (by omega),
        gdma_slotOfPtr_ptrVal, gdma_built_link c sG hlenG m (by omega), if_pos (by omega),
        gdma_ptrVal_aligned c halign]

/-- Witness of C2 on the small timing table: the hypotheses hold for the start-up states,
and the last descriptor of either chain links back to `s_head`. -/
theorem C2_ring_closure_witness :
    (Pdma.startState tiny).s_sDscLCD.length = dscSlots tiny
    ∧ (Gdma.startState tiny).s_sDscLCD.length = dscSlots tiny
    ∧ 0 < DEF_TOTAL_VLINES tiny
    ∧ tiny.addr_s_sDscLCD % 4 = 0
    ∧ ((Pdma.disp_pdma_dsc_init tiny (Pdma.startState tiny)).s_sDscLCD.getD
        (dscSlots tiny - 1) Pdma.DSCT_T.zero).NEXT = Pdma.ptrVal tiny s_head
    ∧ Gdma.linkAddr ((Gdma.disp_gdma_dsc_init tiny (Gdma.startState tiny)).s_sDscLCD.getD
        (dscSlots tiny - 1) Gdma.S_CMDBUF.zero) = Gdma.ptrVal tiny s_head :=
  ⟨by decide, by decide, by decide, by decide,
    (C2_ring_closure tiny (Pdma.startState tiny) (Gdma.startState tiny)
      (by decide) (by decide) (by decide) (by decide)).1.2.1,
    (C2_ring_closure tiny (Pdma.startState tiny) (Gdma.startState tiny)
      (by decide) (by decide) (by decide) (by decide)).2.2.1⟩

/-! ## Single interrupt flag -/

theorem pdma_loop_silent (c : Config) (st : Pdma.BuildState) (h0 : st.next = 0) (k : Nat)
    (hk : k < 4 * DEF_TOTAL_VLINES c) (hkl : k < st.dsc.length) :
    ((Pdma.dsc_init_vloop c (DEF_TOTAL_VLINES c) st).dsc.getD k Pdma.DSCT_T.zero).CTL.TBINTDIS
      = true := by
  rw [List.getD_eq_getElem?_getD, pdma_vloop_get c _ st h0 k, if_pos hk, if_pos hkl]
  exact (pdma_lineDsc_proj c _ _ _ _ 0).1.2.1

/-- C3: after the chain is built (sync configuration, either backend, on the statically
sized array, with at least one line), exactly one descriptor has the completion interrupt
enabled, and it is the last one, `s_end`.  The loops of the PDMA builder leave every
descriptor with the interrupt disabled (`TBINTDIS` set) and the store through `s_end` clears
the bit of slot `s_end` only; the GDMA builder enables the DONE interrupt in the command
buffer of slot `s_end` and disables it in every other one. -/
theorem C3_single_interrupt (c : Config) (sP : DispState Pdma.DSCT_T)
    (sG : DispState Gdma.S_CMDBUF)
    (hlenP : sP.s_sDscLCD.length = dscSlots c) (hlenG : sG.s_sDscLCD.length = dscSlots c)
    (hpos : 0 < DEF_TOTAL_VLINES c) :
    s_end c = dscSlots c - 1
    ∧ s_end c < dscSlots c
    ∧ (∀ k, k < dscSlots c →
        ((Pdma.dsc_init_vloop c (DEF_TOTAL_VLINES c)
          { dsc := sP.s_sDscLCD, next := s_head, pu16Buf := sP.s_pu16BufAddr }).dsc.getD k
            Pdma.DSCT_T.zero).CTL.TBINTDIS = true)
    ∧ (∀ k, k < dscSlots c →
        (((Pdma.disp_pdma_dsc_init c sP).s_sDscLCD.getD k Pdma.DSCT_T.zero).CTL.TBINTDIS = false
          ↔ k = s_end c))
    ∧ (∃! k, k < dscSlots c ∧
        ((Pdma.disp_pdma_dsc_init c sP).s_sDscLCD.getD k Pdma.DSCT_T.zero).CTL.TBINTDIS = false)
    ∧ (∀ k, k < dscSlots c →
        (Gdma.intrDone ((Gdma.disp_gdma_dsc_init c sG).s_sDscLCD.getD k Gdma.S_CMDBUF.zero) = true
          ↔ k = s_end c))
    ∧ (∃! k, k < dscSlots c ∧
        Gdma.intrDone ((Gdma.disp_gdma_dsc_init c sG).s_sDscLCD.getD k Gdma.S_CMDBUF.zero)
          = true) := by
  have hN : 0 < dscSlots c := by
    simp only [dscSlots, evHStageCNT]
    omega
  have hend : s_end c = dscSlots c - 1 := by simp only [s_end, s_head, zero_add]
  have hendlt : s_end c < dscSlots c := by omega
  have hP : ∀ k, k < dscSlots c →
      (((Pdma.disp_pdma_dsc_init c sP).s_sDscLCD.getD k Pdma.DSCT_T.zero).CTL.TBINTDIS = false
        ↔ k = s_end c) := by
    intro k hk
    rw [pdma_built_getD c sP hlenP k hk, (pdma_builtDsc_fields c _ k).2.1]
    simp
  have hG : ∀ k, k < dscSlots c →
      (Gdma.intrDone ((Gdma.disp_gdma_dsc_init c sG).s_sDscLCD.getD k Gdma.S_CMDBUF.zero) = true
        ↔ k = s_end c) := by
    intro k hk
    have h : Gdma.intrDone
        ((Gdma.disp_gdma_dsc_init c sG).s_sDscLCD.getD k Gdma.S_CMDBUF.zero)
        = decide (k = s_end c) := by
      rw [gdma_built_get c sG hlenG k hk]
      exact (gdma_lineCmd_fields c _ _ _ k _).2.2.2.2.2.2
    rw [h]
    simp
  refine ⟨hend, hendlt, ?_, hP, ?_, hG, ?_⟩
  · intro k hk
    have hk4 : k < 4 * DEF_TOTAL_VLINES c := by
      simpa [dscSlots, evHStageCNT] using hk
    exact pdma_loop_silent c _ rfl k hk4 (by simpa [hlenP] using hk)
  · exact ⟨s_end c, ⟨hendlt, (hP _ hendlt).mpr rfl⟩, fun k hk => (hP k hk.1).mp hk.2⟩
  · exact ⟨s_end c, ⟨hendlt, (hG _ hendlt).mpr rfl⟩, fun k hk => (hG k hk.1).mp hk.2⟩

/-- Witness of C3 on the small timing table: the hypotheses hold for the start-up states,
and the descriptor of slot `s_end` has the interrupt enabled in either chain. -/
theorem C3_single_interrupt_witness :
    (Pdma.startState tiny).s_sDscLCD.length = dscSlots tiny
    ∧ (Gdma.startState tiny).s_sDscLCD.length = dscSlots tiny
    ∧ 0 < DEF_TOTAL_VLINES tiny
    ∧ ((Pdma.disp_pdma_dsc_init tiny (Pdma.startState tiny)).s_sDscLCD.getD
        (s_end tiny) Pdma.DSCT_T.zero).CTL.TBINTDIS = false
    ∧ Gdma.intrDone ((Gdma.disp_gdma_dsc_init tiny (Gdma.startState tiny)).s_sDscLCD.getD
        (s_end tiny) Gdma.S_CMDBUF.zero) = true :=
  ⟨by decide, by decide, by decide,
    ((C3_single_interrupt tiny (Pdma.startState tiny) (Gdma.startState tiny)
      (by decide) (by decide) (by decide)).2.2.2.1 (s_end tiny) (by decide)).mpr rfl,
    ((C3_single_interrupt tiny (Pdma.startState tiny) (Gdma.startState tiny)
      (by decide) (by decide) (by decide)).2.2.2.2.2.1 (s_end tiny) (by decide)).mpr rfl⟩

/-! ## Source and destination addresses of the built chain -/

theorem slotOf_div (i : Nat) (h : E_HSTAGE) :
    slotOf i h / 4 = i ∧ E_HSTAGE.ofVal (slotOf i h % 4) = h := by
  cases h
  · have e1 : (4 * i + 0) / 4 = i := by omega
    have e2 : (4 * i + 0) % 4 = 0 := by omega
    simp only [slotOf, evHStageCNT, E_HSTAGE.val, e1, e2, E_HSTAGE.ofVal, and_self]
  · have e1 : (4 * i + 1) / 4 = i := by omega
    have e2 : (4 * i + 1) % 4 = 1 := by omega
    simp only [slotOf, evHStageCNT, E_HSTAGE.val, e1, e2, E_HSTAGE.ofVal, and_self]
  · have e1 : (4 * i + 2) / 4 = i := by omega
    have e2 : (4 * i + 2) % 4 = 2 := by omega
    simp only [slotOf, evHStageCNT, E_HSTAGE.val, e1, e2, E_HSTAGE.ofVal, and_self]
  · have e1 : (4 * i + 3) / 4 = i := by omega
    have e2 : (4 * i + 3) % 4 = 3 := by omega
    simp only [slotOf, evHStageCNT, E_HSTAGE.val, e1, e2, E_HSTAGE.ofVal, and_self]

theorem slotOf_lt (c : Config) (i : Nat) (h : E_HSTAGE) (hi : i < DEF_TOTAL_VLINES c) :
    slotOf i h < dscSlots c := by
  have hv : h.val < 4 := by cases h <;> decide
  simp only [slotOf, dscSlots, evHStageCNT]
  omega

theorem pdma_built_addrs (c : Config) (s : DispState Pdma.DSCT_T)
    (hlen : s.s_sDscLCD.length = dscSlots c) (i : Nat) (h : E_HSTAGE)
    (hi : i < DEF_TOTAL_VLINES c) :
    ((Pdma.disp_pdma_dsc_init c s).s_sDscLCD.getD (slotOf i h) Pdma.DSCT_T.zero).SA
      = (Pdma.dsc_switch c (Pdma.vs c i) h (lineBuf c (Pdma.vs c) s.s_pu16BufAddr i)).u32AddrSrc
    ∧ ((Pdma.disp_pdma_dsc_init c s).s_sDscLCD.getD (slotOf i h) Pdma.DSCT_T.zero).DA
      = (Pdma.dsc_switch c (Pdma.vs c i) h
          (lineBuf c (Pdma.vs c) s.s_pu16BufAddr i)).u32AddrDst := by
  rw [pdma_built_getD c s hlen _ (slotOf_lt c i h hi)]
  have hf := pdma_builtDsc_fields c s.s_pu16BufAddr (slotOf i h)
  rw [(slotOf_div i h).1, (slotOf_div i h).2] at hf
  exact ⟨hf.2.2.1, hf.2.2.2⟩

theorem gdma_built_addrs (c : Config) (s : DispState Gdma.S_CMDBUF)
    (hlen : s.s_sDscLCD.length = dscSlots c) (i : Nat) (h : E_HSTAGE)
    (hi : i < DEF_TOTAL_VLINES c) :
    Gdma.srcAddr ((Gdma.disp_gdma_dsc_init c s).s_sDscLCD.getD (slotOf i h) Gdma.S_CMDBUF.zero)
      = (Gdma.dsc_switch c (Gdma.vs c i) h (lineBuf c (Gdma.vs c) s.s_pu16BufAddr i)).u32AddrSrc
    ∧ Gdma.desAddr
        ((Gdma.disp_gdma_dsc_init c s).s_sDscLCD.getD (slotOf i h) Gdma.S_CMDBUF.zero)
      = (Gdma.dsc_switch c (Gdma.vs c i) h
          (lineBuf c (Gdma.vs c) s.s_pu16BufAddr i)).u32AddrDst
    ∧ ((Gdma.disp_gdma_dsc_init c s).s_sDscLCD.getD (slotOf i h) Gdma.S_CMDBUF.zero).m_cmdbuf 0
      = Gdma.builtHeader := by
  rw [gdma_built_get c s hlen _ (slotOf_lt c i h hi)]
  have hf := gdma_lineCmd_fields c (Gdma.vs c (slotOf i h / 4))
    (E_HSTAGE.ofVal (slotOf i h % 4))
    (lineBuf c (Gdma.vs c) s.s_pu16BufAddr (slotOf i h / 4)) (slotOf i h)
    (s.s_sDscLCD.getD (slotOf i h) Gdma.S_CMDBUF.zero)
  rw [(slotOf_div i h).1, (slotOf_div i h).2] at hf
  have e : Gdma.builtCmd c s.s_pu16BufAddr (slotOf i h)
      (s.s_sDscLCD.getD (slotOf i h) Gdma.S_CMDBUF.zero)
      = Gdma.lineCmd c (Gdma.vs c i) h (lineBuf c (Gdma.vs c) s.s_pu16BufAddr i) (slotOf i h)
        (s.s_sDscLCD.getD (slotOf i h) Gdma.S_CMDBUF.zero) := by
    unfold Gdma.builtCmd
    rw [(slotOf_div i h).1, (slotOf_div i h).2]
  rw [e]
  exact ⟨hf.2.2.2.1, hf.2.2.2.2.1, hf.1⟩

theorem pdma_built_active_src (c : Config) (s : DispState Pdma.DSCT_T)
    (hlen : s.s_sDscLCD.length = dscSlots c) (hint : DEF_TOTAL_VLINES c < 2147483648)
    (j : Nat) (hj : j < c.CONFIG_TIMING_VACT) :
    ((Pdma.disp_pdma_dsc_init c s).s_sDscLCD.getD
        (slotOf (DEF_VACT_INDEX c + j) .evHStageHACT) Pdma.DSCT_T.zero).SA
      = (s.s_pu16BufAddr + j * c.CONFIG_TIMING_HACT * 2) % 4294967296 := by
  have hi : DEF_VACT_INDEX c + j < DEF_TOTAL_VLINES c := by
    unfold DEF_VACT_INDEX DEF_TOTAL_VLINES
    omega
  rw [(pdma_built_addrs c s hlen _ .evHStageHACT hi).1, pdma_switch_src,
    (pdma_vs_vact c hint _ hi).mpr (by omega)]
  simp only [and_self, if_true]
  exact lineBuf_active c (Pdma.vs c) _ (pdma_vs_vact c hint) j hj

theorem gdma_built_active_src (c : Config) (s : DispState Gdma.S_CMDBUF)
    (hlen : s.s_sDscLCD.length = dscSlots c) (hint : DEF_TOTAL_VLINES c < 2147483648)
    (j : Nat) (hj : j < c.CONFIG_TIMING_VACT) :
    Gdma.srcAddr ((Gdma.disp_gdma_dsc_init c s).s_sDscLCD.getD
        (slotOf (DEF_VACT_INDEX c + j) .evHStageHACT) Gdma.S_CMDBUF.zero)
      = (s.s_pu16BufAddr + j * c.CONFIG_TIMING_HACT * 2) % 4294967296 := by
  have hi : DEF_VACT_INDEX c + j < DEF_TOTAL_VLINES c := by
    unfold DEF_VACT_INDEX DEF_TOTAL_VLINES
    omega
  rw [(gdma_built_addrs c s hlen _ .evHStageHACT hi).1, gdma_switch_src,
    (gdma_vs_vact c hint _ hi).mpr (by omega)]
  simp only [and_self, if_true]
  exact lineBuf_active c (Gdma.vs c) _ (gdma_vs_vact c hint) j hj

theorem u32_step (B x y : Nat) :
    (((B + (x + y)) % 4294967296 : Nat) : Int) - ((B + x) % 4294967296 : Nat)
      ≡ (y : Int) [ZMOD 4294967296] := by
  have h1 : (((B + (x + y)) % 4294967296 : Nat) : Int) ≡ ((B + (x + y) : Nat) : Int)
      [ZMOD 4294967296] := by
    unfold Int.ModEq
    omega
  have h2 : (((B + x) % 4294967296 : Nat) : Int) ≡ ((B + x : Nat) : Int) [ZMOD 4294967296] := by
    unfold Int.ModEq
    omega
  have h3 := h1.sub h2
  have h4 : ((B + (x + y) : Nat) : Int) - ((B + x : Nat) : Int) = (y : Int) := by
    push_cast
    ring
  rw [h4] at h3
  exact h3

/-- C4: after the chain is built with `s_pu16BufAddr = B` (sync configuration, either
backend, on the statically sized array, the line count fitting the `int` line index), for
every `j` in `[0, VACT)` the horizontal-Active descriptor of scanline `DEF_VACT_INDEX + j`
has the source address `B + j * HACT * 2` modulo `2^32`; so the first active scanline reads
from `B`, and the sources of consecutive active scanlines differ by `HACT * 2` bytes
modulo `2^32` (960 bytes for the shipped `HACT = 480`). -/
theorem C4_active_sources (c : Config) (sP : DispState Pdma.DSCT_T)
    (sG : DispState Gdma.S_CMDBUF)
    (hlenP : sP.s_sDscLCD.length = dscSlots c) (hlenG : sG.s_sDscLCD.length = dscSlots c)
    (hint : DEF_TOTAL_VLINES c < 2147483648) :
    DEF_VACT_INDEX c = c.CONFIG_TIMING_VFP + c.CONFIG_TIMING_VPW + c.CONFIG_TIMING_VBP
    ∧ (∀ j, j < c.CONFIG_TIMING_VACT →
        ((Pdma.disp_pdma_dsc_init c sP).s_sDscLCD.getD
          (slotOf (DEF_VACT_INDEX c + j) .evHStageHACT) Pdma.DSCT_T.zero).SA
          = (sP.s_pu16BufAddr + j * c.CONFIG_TIMING_HACT * 2) % 4294967296)
    ∧ (0 < c.CONFIG_TIMING_VACT →
        ((Pdma.disp_pdma_dsc_init c sP).s_sDscLCD.getD
          (slotOf (DEF_VACT_INDEX c) .evHStageHACT) Pdma.DSCT_T.zero).SA
          = sP.s_pu16BufAddr % 4294967296)
    ∧ (∀ j, j + 1 < c.CONFIG_TIMING_VACT →
        ((((Pdma.disp_pdma_dsc_init c sP).s_sDscLCD.getD
            (slotOf (DEF_VACT_INDEX c + (j + 1)) .evHStageHACT) Pdma.DSCT_T.zero).SA : Int)
          - ((Pdma.disp_pdma_dsc_init c sP).s_sDscLCD.getD
            (slotOf (DEF_VACT_INDEX c + j) .evHStageHACT) Pdma.DSCT_T.zero).SA)
          % 4294967296 = ((c.CONFIG_TIMING_HACT * 2 : Nat) : Int) % 4294967296)
    ∧ (∀ j, j < c.CONFIG_TIMING_VACT →
        Gdma.srcAddr ((Gdma.disp_gdma_dsc_init c sG).s_sDscLCD.getD
          (slotOf (DEF_VACT_INDEX c + j) .evHStageHACT) Gdma.S_CMDBUF.zero)
          = (sG.s_pu16BufAddr + j * c.CONFIG_TIMING_HACT * 2) % 4294967296)
    ∧ (0 < c.CONFIG_TIMING_VACT →
        Gdma.srcAddr ((Gdma.disp_gdma_dsc_init c sG).s_sDscLCD.getD
          (slotOf (DEF_VACT_INDEX c) .evHStageHACT) Gdma.S_CMDBUF.zero)
          = sG.s_pu16BufAddr % 4294967296)
    ∧ (∀ j, j + 1 < c.CONFIG_TIMING_VACT →
        ((Gdma.srcAddr ((Gdma.disp_gdma_dsc_init c sG).s_sDscLCD.getD
            (slotOf (DEF_VACT_INDEX c + (j + 1)) .evHStageHACT) Gdma.S_CMDBUF.zero) : Int)
          - Gdma.srcAddr ((Gdma.disp_gdma_dsc_init c sG).s_sDscLCD.getD
            (slotOf (DEF_VACT_INDEX c + j) .evHStageHACT) Gdma.S_CMDBUF.zero))
          % 4294967296 = ((c.CONFIG_TIMING_HACT * 2 : Nat) : Int) % 4294967296)
    ∧ (∀ e m d a f, ((shipped e m d a f).CONFIG_TIMING_HACT * 2 : Nat) % 4294967296 = 960) := by
  have hstep : ∀ (B j : Nat),
      ((((B + (j + 1) * c.CONFIG_TIMING_HACT * 2) % 4294967296 : Nat) : Int)
        - ((B + j * c.CONFIG_TIMING_HACT * 2) % 4294967296 : Nat)) % 4294967296
        = ((c.CONFIG_TIMING_HACT * 2 : Nat) : Int) % 4294967296 := by
    intro B j
    have e : (j + 1) * c.CONFIG_TIMING_HACT * 2
        = j * c.CONFIG_TIMING_HACT * 2 + c.CONFIG_TIMING_HACT * 2 := by ring
    rw [e]
    exact u32_step B _ _
  refine ⟨rfl, ?_, ?_, ?_, ?_, ?_, ?_, ?_⟩
  · intro j hj
    exact pdma_built_active_src c sP hlenP hint j hj
  · intro h0
    have h := pdma_built_active_src c sP hlenP hint 0 h0
    simpa using h
  · intro j hj
    rw [pdma_built_active_src c sP hlenP hint (j + 1) hj,
      pdma_built_active_src c sP hlenP hint j (by omega)]
    exact hstep _ j
  · intro j hj
    exact gdma_built_active_src c sG hlenG hint j hj
  · intro h0
    have h := gdma_built_active_src c sG hlenG hint 0 h0
    simpa using h
  · intro j hj
    rw [gdma_built_active_src c sG hlenG hint (j + 1) hj,
      gdma_built_active_src c sG hlenG hint j (by omega)]
    exact hstep _ j
  · intro e m d a f
    simp only [shipped]

/-- Witness of C4 on the small timing table: the hypotheses hold for the start-up states,
and the second active scanline of either chain reads from `g_au8FrameBuf + 1 * 3 * 2`. -/
theorem C4_active_sources_witness :
    (Pdma.startState tiny).s_sDscLCD.length = dscSlots tiny
    ∧ (Gdma.startState tiny).s_sDscLCD.length = dscSlots tiny
    ∧ DEF_TOTAL_VLINES tiny < 2147483648
    ∧ ((Pdma.disp_pdma_dsc_init tiny (Pdma.startState tiny)).s_sDscLCD.getD
        (slotOf (DEF_VACT_INDEX tiny + 1) .evHStageHACT) Pdma.DSCT_T.zero).SA
        = ((Pdma.startState tiny).s_pu16BufAddr + 1 * tiny.CONFIG_TIMING_HACT * 2) % 4294967296
    ∧ Gdma.srcAddr ((Gdma.disp_gdma_dsc_init tiny (Gdma.startState tiny)).s_sDscLCD.getD
        (slotOf (DEF_VACT_INDEX tiny + 1) .evHStageHACT) Gdma.S_CMDBUF.zero)
        = ((Gdma.startState tiny).s_pu16BufAddr + 1 * tiny.CONFIG_TIMING_HACT * 2)
          % 4294967296 :=
  ⟨by decide, by decide, by decide,
    (C4_active_sources tiny (Pdma.startState tiny) (Gdma.startState tiny)
      (by decide) (by decide) (by decide)).2.1 1 (by decide),
    (C4_active_sources tiny (Pdma.startState tiny) (Gdma.startState tiny)
      (by decide) (by decide) (by decide)).2.2.2.2.1 1 (by decide)⟩

/-- C5: for every scanline `i` in `[0, total)` with vertical stage
`V = get_current_vstage(i)` and every horizontal stage `h`, the descriptor built for
`(i, h)` (either backend, on the statically sized array) has the destination address
`CONFIG_DISP_EBI_ADDR + (V == VSYNC ? CONFIG_DISP_VSYNC_ACTIVE : 0)
+ (h == HSYNC ? CONFIG_DISP_HSYNC_ACTIVE : 0)
+ (V == VACT and h == HACT ? CONFIG_DISP_DE_ACTIVE : 0)` as a `uint32_t`: the VSYNC offset
is in all four descriptors of a line exactly when the line is a VSYNC line, the HSYNC
offset in exactly the HSYNC descriptor of every line, the DE offset in exactly the
(VACT, HACT) descriptors. -/
theorem C5_destination_address (c : Config) (sP : DispState Pdma.DSCT_T)
    (sG : DispState Gdma.S_CMDBUF)
    (hlenP : sP.s_sDscLCD.length = dscSlots c) (hlenG : sG.s_sDscLCD.length = dscSlots c)
    (i : Nat) (hi : i < DEF_TOTAL_VLINES c) (h : E_HSTAGE) :
    ((Pdma.disp_pdma_dsc_init c sP).s_sDscLCD.getD (slotOf i h) Pdma.DSCT_T.zero).DA
      = toU32 ((CONFIG_DISP_EBI_ADDR c : Int)
        + (if Pdma.get_current_vstage c (i : Int) = .evVStageVSYNC
            then CONFIG_DISP_VSYNC_ACTIVE c else 0)
        + (if h = .evHStageHSYNC then CONFIG_DISP_HSYNC_ACTIVE c else 0)
        + (if Pdma.get_current_vstage c (i : Int) = .evVStageVACT ∧ h = .evHStageHACT
            then CONFIG_DISP_DE_ACTIVE c else 0))
    ∧ Gdma.desAddr
        ((Gdma.disp_gdma_dsc_init c sG).s_sDscLCD.getD (slotOf i h) Gdma.S_CMDBUF.zero)
      = toU32 ((CONFIG_DISP_EBI_ADDR c : Int)
        + (if Gdma.get_current_vstage c (i : Int) = .evVStageVSYNC
            then CONFIG_DISP_VSYNC_ACTIVE c else 0)
        + (if h = .evHStageHSYNC then CONFIG_DISP_HSYNC_ACTIVE c else 0)
        + (if Gdma.get_current_vstage c (i : Int) = .evVStageVACT ∧ h = .evHStageHACT
            then CONFIG_DISP_DE_ACTIVE c else 0)) := by
  constructor
  · rw [(pdma_built_addrs c sP hlenP i h hi).2, pdma_switch_dst]
    rfl
  · rw [(gdma_built_addrs c sG hlenG i h hi).2.1, gdma_switch_dst]
    rfl

/-- Witness of C5 on the small timing table: the hypotheses hold for the start-up states and
line 1 (a VSYNC line), whose HSYNC descriptor is addressed with both offsets. -/
theorem C5_destination_address_witness :
    (Pdma.startState tiny).s_sDscLCD.length = dscSlots tiny
    ∧ (Gdma.startState tiny).s_sDscLCD.length = dscSlots tiny
    ∧ 1 < DEF_TOTAL_VLINES tiny
    ∧ ((Pdma.disp_pdma_dsc_init tiny (Pdma.startState tiny)).s_sDscLCD.getD
        (slotOf 1 .evHStageHSYNC) Pdma.DSCT_T.zero).DA
      = toU32 ((CONFIG_DISP_EBI_ADDR tiny : Int)
        + (if Pdma.get_current_vstage tiny ((1 : Nat) : Int) = .evVStageVSYNC
            then CONFIG_DISP_VSYNC_ACTIVE tiny else 0)
        + (if E_HSTAGE.evHStageHSYNC = .evHStageHSYNC then CONFIG_DISP_HSYNC_ACTIVE tiny else 0)
        + (if Pdma.get_current_vstage tiny ((1 : Nat) : Int) = .evVStageVACT
              ∧ E_HSTAGE.evHStageHSYNC = .evHStageHACT
            then CONFIG_DISP_DE_ACTIVE tiny else 0)) :=
  ⟨by decide, by decide, by decide,
    (C5_destination_address tiny (Pdma.startState tiny) (Gdma.startState tiny)
      (by decide) (by decide) 1 (by decide) .evHStageHSYNC).1⟩

/-! ## The shipped timing: where VSYNC is asserted -/

theorem shipped_vstage (e m d a f : Nat) (i : Nat) (hi : i < 311) :
    (Pdma.get_current_vstage (shipped e m d a f) (i : Int) =
      if i < 27 then E_VSTAGE.evVStageVFP else if i < 37 then E_VSTAGE.evVStageVSYNC
      else if i < 39 then E_VSTAGE.evVStageVBP else E_VSTAGE.evVStageVACT)
    ∧ (Gdma.get_current_vstage (shipped e m d a f) (i : Int) =
      if i < 27 then E_VSTAGE.evVStageVFP else if i < 37 then E_VSTAGE.evVStageVSYNC
      else if i < 39 then E_VSTAGE.evVStageVBP else E_VSTAGE.evVStageVACT) := by
  have hint : DEF_TOTAL_VLINES (shipped e m d a f) < 2147483648 := by
    simp only [DEF_TOTAL_VLINES, shipped]
    omega
  rw [pdma_vstage_closed _ _ hint, gdma_vstage_closed _ _ hint]
  simp only [shipped]
  constructor <;> split_ifs <;> first | rfl | omega

theorem shipped_dst (e m d a f : Nat) :
    dstAddr (shipped e m d a f) .evVStageVFP .evHStageHSYNC
      = toU32 ((CONFIG_DISP_EBI_ADDR (shipped e m d a f) : Int) - ((1 <<< 2 : Nat) : Int))
    ∧ dstAddr (shipped e m d a f) .evVStageVSYNC .evHStageHSYNC
      = toU32 ((CONFIG_DISP_EBI_ADDR (shipped e m d a f) : Int) - ((1 <<< 1 : Nat) : Int)
          - ((1 <<< 2 : Nat) : Int)) := by
  constructor <;>
    simp [dstAddr, shipped, CONFIG_DISP_VSYNC_ACTIVE, CONFIG_DISP_HSYNC_ACTIVE,
      CONFIG_DISP_VSYNC_BITMASK, CONFIG_DISP_HSYNC_BITMASK] <;> ring_nf

/-- C6, counterexample: with the shipped timing on the M55M1 memory map, vertical line 0 is
classified as front porch (VFP), not VSYNC, and the HSYNC descriptor built for line 0
has the destination address `0x60000002` (`CONFIG_DISP_EBI_ADDR - (1<<2)`), which is not
`CONFIG_DISP_EBI_ADDR - (1<<1) - (1<<2) = 0x60000000`, in either backend. -/
theorem C6_line0_counterexample :
    Pdma.get_current_vstage shippedM55 0 = .evVStageVFP
    ∧ Gdma.get_current_vstage shippedM55 0 = .evVStageVFP
    ∧ ((Pdma.disp_pdma_dsc_init shippedM55 (Pdma.startState shippedM55)).s_sDscLCD.getD
        (slotOf 0 .evHStageHSYNC) Pdma.DSCT_T.zero).DA = 1610612738
    ∧ Gdma.desAddr ((Gdma.disp_gdma_dsc_init shippedM55 (Gdma.startState shippedM55)).s_sDscLCD.getD
        (slotOf 0 .evHStageHSYNC) Gdma.S_CMDBUF.zero) = 1610612738
    ∧ toU32 ((CONFIG_DISP_EBI_ADDR shippedM55 : Int) - ((1 <<< 1 : Nat) : Int)
        - ((1 <<< 2 : Nat) : Int)) = 1610612736
    ∧ Pdma.get_current_vstage shippedM55 0 ≠ .evVStageVSYNC
    ∧ Gdma.get_current_vstage shippedM55 0 ≠ .evVStageVSYNC := by
  have hlenP : (Pdma.startState shippedM55).s_sDscLCD.length = dscSlots shippedM55 := by
    simp [Pdma.startState]
  have hlenG : (Gdma.startState shippedM55).s_sDscLCD.length = dscSlots shippedM55 := by
    simp [Gdma.startState]
  have hi : 0 < DEF_TOTAL_VLINES shippedM55 := by decide
  have hv := shipped_vstage 1610612736 1048576 536870912 536871936 536936448 0 (by omega)
  have hvP : Pdma.get_current_vstage shippedM55 0 = .evVStageVFP := hv.1
  have hvG : Gdma.get_current_vstage shippedM55 0 = .evVStageVFP := hv.2
  refine ⟨hvP, hvG, ?_, ?_, by decide, by rw [hvP]; decide, by rw [hvG]; decide⟩
  · rw [(pdma_built_addrs shippedM55 _ hlenP 0 .evHStageHSYNC hi).2, pdma_switch_dst]
    have e : Pdma.vs shippedM55 0 = .evVStageVFP := hvP
    rw [e]
    decide
  · rw [(gdma_built_addrs shippedM55 _ hlenG 0 .evHStageHSYNC hi).2.1, gdma_switch_dst]
    have e : Gdma.vs shippedM55 0 = .evVStageVFP := hvG
    rw [e]
    decide

/-- C6, amended: for the shipped timing (VFP = 27, VPW = 10, HPW = 41, VSYNC active-low at
bit 1, HSYNC active-low at bit 2), vertical line 0 lies in the front porch; the VSYNC
stage is the lines 27 to 36, and for each of them (the first being line 27 = VFP) the
horizontal SyncPulse descriptor has the destination address
`CONFIG_DISP_EBI_ADDR - (1<<1) - (1<<2)`, while the one of line 0 has
`CONFIG_DISP_EBI_ADDR - (1<<2)`; in both backends. -/
theorem C6_vsync_lines_address (c : Config) (e m d a f : Nat) (hc : c = shipped e m d a f)
    (sP : DispState Pdma.DSCT_T) (sG : DispState Gdma.S_CMDBUF)
    (hlenP : sP.s_sDscLCD.length = dscSlots c) (hlenG : sG.s_sDscLCD.length = dscSlots c) :
    Pdma.get_current_vstage c 0 = .evVStageVFP
    ∧ Gdma.get_current_vstage c 0 = .evVStageVFP
    ∧ (∀ i : Nat, i < DEF_TOTAL_VLINES c →
        ((Pdma.get_current_vstage c (i : Int) = .evVStageVSYNC ↔ 27 ≤ i ∧ i < 37)
        ∧ (Gdma.get_current_vstage c (i : Int) = .evVStageVSYNC ↔ 27 ≤ i ∧ i < 37)))
    ∧ (∀ i : Nat, 27 ≤ i → i < 37 →
        ((Pdma.disp_pdma_dsc_init c sP).s_sDscLCD.getD (slotOf i .evHStageHSYNC)
            Pdma.DSCT_T.zero).DA
          = toU32 ((CONFIG_DISP_EBI_ADDR c : Int) - ((1 <<< 1 : Nat) : Int)
              - ((1 <<< 2 : Nat) : Int))
        ∧ Gdma.desAddr ((Gdma.disp_gdma_dsc_init c sG).s_sDscLCD.getD (slotOf i .evHStageHSYNC)
            Gdma.S_CMDBUF.zero)
          = toU32 ((CONFIG_DISP_EBI_ADDR c : Int) - ((1 <<< 1 : Nat) : Int)
              - ((1 <<< 2 : Nat) : Int)))
    ∧ ((Pdma.disp_pdma_dsc_init c sP).s_sDscLCD.getD (slotOf 0 .evHStageHSYNC)
          Pdma.DSCT_T.zero).DA
        = toU32 ((CONFIG_DISP_EBI_ADDR c : Int) - ((1 <<< 2 : Nat) : Int))
    ∧ Gdma.desAddr ((Gdma.disp_gdma_dsc_init c sG).s_sDscLCD.getD (slotOf 0 .evHStageHSYNC)
          Gdma.S_CMDBUF.zero)
        = toU32 ((CONFIG_DISP_EBI_ADDR c : Int) - ((1 <<< 2 : Nat) : Int)) := by
  subst hc
  have htot : DEF_TOTAL_VLINES (shipped e m d a f) = 311 := by
    simp only [DEF_TOTAL_VLINES, shipped]
  have h0 := shipped_vstage e m d a f 0 (by omega)
  have h0P : Pdma.get_current_vstage (shipped e m d a f) 0 = .evVStageVFP := h0.1
  have h0G : Gdma.get_current_vstage (shipped e m d a f) 0 = .evVStageVFP := h0.2
  refine ⟨h0P, h0G, ?_, ?_, ?_, ?_⟩
  · intro i hi
    have hv := shipped_vstage e m d a f i (by omega)
    rw [hv.1, hv.2]
    constructor <;> split_ifs <;> simp <;> omega
  · intro i h1 h2
    have hv := shipped_vstage e m d a f i (by omega)
    have hi : i < DEF_TOTAL_VLINES (shipped e m d a f) := by omega
    have eP : Pdma.vs (shipped e m d a f) i = .evVStageVSYNC := by
      rw [Pdma.vs, hv.1, if_neg (by omega), if_pos h2]
    have eG : Gdma.vs (shipped e m d a f) i = .evVStageVSYNC := by
      rw [Gdma.vs, hv.2, if_neg (by omega), if_pos h2]
    rw [(pdma_built_addrs _ sP hlenP i .evHStageHSYNC hi).2, pdma_switch_dst, eP,
      (gdma_built_addrs _ sG hlenG i .evHStageHSYNC hi).2.1, gdma_switch_dst, eG]
    exact ⟨(shipped_dst e m d a f).2, (shipped_dst e m d a f).2⟩
  · have hi : 0 < DEF_TOTAL_VLINES (shipped e m d a f) := by omega
    have eP : Pdma.vs (shipped e m d a f) 0 = .evVStageVFP := h0P
    rw [(pdma_built_addrs _ sP hlenP 0 .evHStageHSYNC hi).2, pdma_switch_dst, eP]
    exact (shipped_dst e m d a f).1
  · have hi : 0 < DEF_TOTAL_VLINES (shipped e m d a f) := by omega
    have eG : Gdma.vs (shipped e m d a f) 0 = .evVStageVFP := h0G
    rw [(gdma_built_addrs _ sG hlenG 0 .evHStageHSYNC hi).2.1, gdma_switch_dst, eG]
    exact (shipped_dst e m d a f).1

/-- Witness of the amended C6 on the M55M1 memory map: the hypotheses hold for the start-up
states, and the HSYNC descriptor of line 27 carries both offsets. -/
theorem C6_vsync_lines_address_witness :
    shippedM55 = shipped 1610612736 1048576 536870912 536871936 536936448
    ∧ (Pdma.startState shippedM55).s_sDscLCD.length = dscSlots shippedM55
    ∧ (Gdma.startState shippedM55).s_sDscLCD.length = dscSlots shippedM55
    ∧ ((Pdma.disp_pdma_dsc_init shippedM55 (Pdma.startState shippedM55)).s_sDscLCD.getD
        (slotOf 27 .evHStageHSYNC) Pdma.DSCT_T.zero).DA
      = toU32 ((CONFIG_DISP_EBI_ADDR shippedM55 : Int) - ((1 <<< 1 : Nat) : Int)
          - ((1 <<< 2 : Nat) : Int)) :=
  ⟨rfl, by simp [Pdma.startState], by simp [Gdma.startState],
    ((C6_vsync_lines_address shippedM55 1610612736 1048576 536870912 536871936 536936448 rfl
      (Pdma.startState shippedM55) (Gdma.startState shippedM55)
      (by simp [Pdma.startState]) (by simp [Gdma.startState])).2.2.2.1 27
        (by decide) (by decide)).1⟩

/-! ## Stage classification: cumulative ranges and indices out of range -/

/-- C7: for every timing table with all four vertical durations positive (and a line count
that fits the `int` line index) and every line index `i` in `[0, VFP+VPW+VBP+VACT)`,
`get_current_vstage(i)` of either file returns the unique stage `s`, in the order VFP,
VSYNC, VBP, VACT, whose cumulative range contains `i`:
`(sum of the durations before s) <= i < (sum of the durations up to and including s)`; in
particular line `VFP-1` is front porch, line `VFP` is sync pulse and line `total-1` is
active. -/
theorem C7_stage_classification (c : Config) (i : Nat)
    (hint : DEF_TOTAL_VLINES c < 2147483648)
    (_hVFP : 0 < c.CONFIG_TIMING_VFP) (hVPW : 0 < c.CONFIG_TIMING_VPW)
    (hVBP : 0 < c.CONFIG_TIMING_VBP) (hVACT : 0 < c.CONFIG_TIMING_VACT)
    (hi : i < c.CONFIG_TIMING_VFP + c.CONFIG_TIMING_VPW + c.CONFIG_TIMING_VBP
      + c.CONFIG_TIMING_VACT) :
    (∀ s : E_VSTAGE, Pdma.get_current_vstage c (i : Int) = s ↔
        (stageStart c s ≤ i ∧ i < stageStart c s + s_au32VTiming c s))
    ∧ (∀ s : E_VSTAGE, Gdma.get_current_vstage c (i : Int) = s ↔
        (stageStart c s ≤ i ∧ i < stageStart c s + s_au32VTiming c s))
    ∧ Pdma.get_current_vstage c ((c.CONFIG_TIMING_VFP : Int) - 1) = .evVStageVFP
    ∧ Pdma.get_current_vstage c (c.CONFIG_TIMING_VFP : Int) = .evVStageVSYNC
    ∧ Pdma.get_current_vstage c ((c.CONFIG_TIMING_VFP : Int) + c.CONFIG_TIMING_VPW
        + c.CONFIG_TIMING_VBP + c.CONFIG_TIMING_VACT - 1) = .evVStageVACT
    ∧ Gdma.get_current_vstage c ((c.CONFIG_TIMING_VFP : Int) - 1) = .evVStageVFP
    ∧ Gdma.get_current_vstage c (c.CONFIG_TIMING_VFP : Int) = .evVStageVSYNC
    ∧ Gdma.get_current_vstage c ((c.CONFIG_TIMING_VFP : Int) + c.CONFIG_TIMING_VPW
        + c.CONFIG_TIMING_VBP + c.CONFIG_TIMING_VACT - 1) = .evVStageVACT := by
  have hP := fun x => pdma_vstage_closed c x hint
  have hG := fun x => gdma_vstage_closed c x hint
  refine ⟨?_, ?_, ?_, ?_, ?_, ?_, ?_, ?_⟩
  · intro s
    rw [hP]
    cases s <;> simp only [stageStart, s_au32VTiming] <;> split_ifs <;> simp <;> omega
  · intro s
    rw [hG]
    cases s <;> simp only [stageStart, s_au32VTiming] <;> split_ifs <;> simp <;> omega
  · rw [hP, if_pos (by omega)]
  · rw [hP, if_neg (by omega), if_pos (by omega)]
  · rw [hP, if_neg (by omega), if_neg (by omega), if_neg (by omega), if_pos (by omega)]
  · rw [hG, if_pos (by omega)]
  · rw [hG, if_neg (by omega), if_pos (by omega)]
  · rw [hG, if_neg (by omega), if_neg (by omega), if_neg (by omega), if_pos (by omega)]

/-- Witness of C7 on the shipped timing table: the hypotheses hold at line 30, which is
classified as a VSYNC line. -/
theorem C7_stage_classification_witness :
    DEF_TOTAL_VLINES shippedM55 < 2147483648
    ∧ 0 < shippedM55.CONFIG_TIMING_VFP ∧ 0 < shippedM55.CONFIG_TIMING_VPW
    ∧ 0 < shippedM55.CONFIG_TIMING_VBP ∧ 0 < shippedM55.CONFIG_TIMING_VACT
    ∧ 30 < shippedM55.CONFIG_TIMING_VFP + shippedM55.CONFIG_TIMING_VPW
        + shippedM55.CONFIG_TIMING_VBP + shippedM55.CONFIG_TIMING_VACT
    ∧ Pdma.get_current_vstage shippedM55 ((30 : Nat) : Int) = .evVStageVSYNC :=
  ⟨by decide, by decide, by decide, by decide, by decide, by decide,
    ((C7_stage_classification shippedM55 30 (by decide) (by decide) (by decide) (by decide)
      (by decide) (by decide)).1 .evVStageVSYNC).mpr ⟨by decide, by decide⟩⟩

/-- C8, counterexample: with the shipped timing (311 lines) `get_current_vstage` of either
file returns the valid stage value `evVStageVFP` for the line index 311 (the first index
past the table) and for the negative index -1, the very value it returns for line 0. -/
theorem C8_silent_return_counterexample :
    (DEF_TOTAL_VLINES shippedM55 : Int) = 311
    ∧ Pdma.get_current_vstage shippedM55 311 = .evVStageVFP
    ∧ Gdma.get_current_vstage shippedM55 311 = .evVStageVFP
    ∧ Pdma.get_current_vstage shippedM55 (-1) = .evVStageVFP
    ∧ Gdma.get_current_vstage shippedM55 (-1) = .evVStageVFP
    ∧ Pdma.get_current_vstage shippedM55 0 = .evVStageVFP
    ∧ Gdma.get_current_vstage shippedM55 0 = .evVStageVFP
    ∧ E_VSTAGE.evVStageVFP.val < evVStageCNT := by
  decide

/-- C8, amended: `get_current_vstage` of either file has no guard; for every line index
`i >= VFP+VPW+VBP+VACT` the loop ends without a match and the function returns 0, the
stage value `evVStageVFP`, and for every negative `i` the first comparison succeeds and
it returns `evVStageVFP` as well (the line count fitting an `int`). -/
theorem C8_out_of_range_is_VFP (c : Config) (i : Int)
    (hint : DEF_TOTAL_VLINES c < 2147483648)
    (hi : (DEF_TOTAL_VLINES c : Int) ≤ i ∨ i < 0) :
    Pdma.get_current_vstage c i = .evVStageVFP
    ∧ Gdma.get_current_vstage c i = .evVStageVFP := by
  rw [pdma_vstage_closed c i hint, gdma_vstage_closed c i hint]
  unfold DEF_TOTAL_VLINES at hi
  rcases hi with hi | hi
  · constructor <;>
      rw [if_neg (by omega), if_neg (by omega), if_neg (by omega), if_neg (by omega)]
  · constructor <;> rw [if_pos (by omega)]

/-- Witness of the amended C8 on the shipped timing table at the line index 311. -/
theorem C8_out_of_range_is_VFP_witness :
    DEF_TOTAL_VLINES shippedM55 < 2147483648
    ∧ ((DEF_TOTAL_VLINES shippedM55 : Int) ≤ 311 ∨ (311 : Int) < 0)
    ∧ Pdma.get_current_vstage shippedM55 311 = .evVStageVFP
    ∧ Gdma.get_current_vstage shippedM55 311 = .evVStageVFP :=
  ⟨by decide, Or.inl (by decide),
    C8_out_of_range_is_VFP shippedM55 311 (by decide) (Or.inl (by decide))⟩

/-! ## The completion handlers -/

theorem activeSlot_lt (c : Config) (j : Nat) (hj : j < c.CONFIG_TIMING_VACT) :
    activeSlot c j < dscSlots c := by
  simp only [activeSlot, slotOf, dscSlots, evHStageCNT, DEF_VACT_INDEX, DEF_TOTAL_VLINES,
    E_HSTAGE.val]
  omega

theorem activeSlot_inj (c : Config) (i j : Nat) : activeSlot c i = activeSlot c j ↔ i = j := by
  simp only [activeSlot, slotOf, evHStageCNT, E_HSTAGE.val]
  omega

theorem u16PtrAdd_eq (R j H : Nat) : u16PtrAdd R (j * H) = (R + j * H * 2) % 4294967296 := by
  unfold u16PtrAdd
  congr 1
  ring

theorem pdma_patch_length (c : Config) (R n : Nat) (dsc : List Pdma.DSCT_T) :
    (Pdma.patch_loop c R n dsc).length = dsc.length := by
  induction n with
  | zero => rfl
  | succ n ih => rw [Pdma.patch_loop, pdma_storeAt_length, ih]

theorem pdma_patch_SA (c : Config) (R n : Nat) (dsc : List Pdma.DSCT_T) (j : Nat)
    (hj : j < n) (hl : activeSlot c j < dsc.length) :
    ((Pdma.patch_loop c R n dsc).getD (activeSlot c j) Pdma.DSCT_T.zero).SA
      = u16PtrAdd R (j * c.CONFIG_TIMING_HACT) := by
  induction n with
  | zero => omega
  | succ n ih =>
    rw [Pdma.patch_loop, List.getD_eq_getElem?_getD, pdma_storeAt_get]
    by_cases e : j = n
    · subst e
      have hl2 : activeSlot c j < (Pdma.patch_loop c R j dsc).length := by
        rw [pdma_patch_length]; exact hl
      have e1 : slotOf (DEF_VACT_INDEX c + j) .evHStageHACT = activeSlot c j := rfl
      rw [e1, if_pos rfl, List.getElem?_eq_getElem hl2]
      rfl
    · have e1 : slotOf (DEF_VACT_INDEX c + n) .evHStageHACT = activeSlot c n := rfl
      have e2 : ¬ activeSlot c n = activeSlot c j := by
        rw [activeSlot_inj]; omega
      rw [e1, if_neg e2, ← List.getD_eq_getElem?_getD]
      exact ih (by omega)

theorem pdma_handler_fields (c : Config) (ev : Nat) (s : DispState Pdma.DSCT_T) :
    (Pdma.nu_pdma_memfun_cb c ev s).s_pu16BufAddr = s.s_pu16BufAddr
    ∧ (Pdma.nu_pdma_memfun_cb c ev s).s_sDscLCD =
        (if ev = Pdma.NU_PDMA_EVENT_TRANSFER_DONE
            ∧ Pdma.firstActiveSA c s ≠ s.s_pu16BufAddr % 4294967296 then
          Pdma.patch_loop c s.s_pu16BufAddr c.CONFIG_TIMING_VACT s.s_sDscLCD
        else s.s_sDscLCD)
    ∧ (Pdma.nu_pdma_memfun_cb c ev s).patchStores =
        (if ev = Pdma.NU_PDMA_EVENT_TRANSFER_DONE
            ∧ Pdma.firstActiveSA c s ≠ s.s_pu16BufAddr % 4294967296 then
          s.patchStores + c.CONFIG_TIMING_VACT
        else s.patchStores) := by
  unfold Pdma.nu_pdma_memfun_cb Pdma.firstActiveSA activeSlot
  simp only [s_au32VTiming]
  by_cases h1 : ev = Pdma.NU_PDMA_EVENT_TRANSFER_DONE
  · by_cases h2 : (s.s_sDscLCD.getD (slotOf (DEF_VACT_INDEX c + 0) .evHStageHACT)
        Pdma.DSCT_T.zero).SA ≠ s.s_pu16BufAddr % 4294967296
    · have h2b := h2
      rw [Nat.add_zero] at h2b
      simp only [h1, h2, h2b, if_true, and_self, ne_eq, not_false_eq_true]
      split <;> exact ⟨rfl, rfl, rfl⟩
    · have h2b := h2
      rw [Nat.add_zero] at h2b
      simp only [h1, h2, h2b, if_true, if_false, and_false, true_and]
      split <;> exact ⟨rfl, rfl, rfl⟩
  · simp [h1]

theorem gdma_find_of_header (d : Gdma.S_CMDBUF) (h : d.m_cmdbuf 0 = Gdma.builtHeader) :
    Gdma.gdma_dsc_find_srcaddr_index d = 2 := by
  unfold Gdma.gdma_dsc_find_srcaddr_index
  simp only [h]
  exact gdma_find_built

theorem gdma_srcAddr_of_header (d : Gdma.S_CMDBUF) (h : d.m_cmdbuf 0 = Gdma.builtHeader) :
    Gdma.srcAddr d = d.m_cmdbuf 3 := by
  unfold Gdma.srcAddr
  rw [gdma_find_of_header d h]

theorem gdma_storeWord_eq (dsc : List Gdma.S_CMDBUF) (p idx v : Nat) :
    Gdma.storeWord dsc p idx v =
      Gdma.storeAt dsc p (fun d => { m_cmdbuf := fun j => if j = idx then v else d.m_cmdbuf j }) :=
  rfl

theorem gdma_patch_length (c : Config) (R idx n : Nat) (dsc : List Gdma.S_CMDBUF) :
    (Gdma.patch_loop c R idx n dsc).length = dsc.length := by
  induction n with
  | zero => rfl
  | succ n ih => rw [Gdma.patch_loop, gdma_storeWord_eq, gdma_storeAt_length, ih]

theorem gdma_patch_word (c : Config) (R idx n : Nat) (dsc : List Gdma.S_CMDBUF) (j : Nat)
    (hj : j < n) (hl : activeSlot c j < dsc.length) (w : Nat) :
    ((Gdma.patch_loop c R idx n dsc).getD (activeSlot c j) Gdma.S_CMDBUF.zero).m_cmdbuf w
      = if w = idx then u16PtrAdd R (j * c.CONFIG_TIMING_HACT)
        else (dsc.getD (activeSlot c j) Gdma.S_CMDBUF.zero).m_cmdbuf w := by
  induction n with
  | zero => omega
  | succ n ih =>
    rw [Gdma.patch_loop, gdma_storeWord_eq, List.getD_eq_getElem?_getD, gdma_storeAt_get]
    have e1 : slotOf (DEF_VACT_INDEX c + n) .evHStageHACT = activeSlot c n := rfl
    by_cases e : j = n
    · subst e
      have hl2 : activeSlot c j < (Gdma.patch_loop c R idx j dsc).length := by
        rw [gdma_patch_length]; exact hl
      rw [e1, if_pos rfl, List.getElem?_eq_getElem hl2]
      show (if w = idx then u16PtrAdd R (j * c.CONFIG_TIMING_HACT)
        else ((Gdma.patch_loop c R idx j dsc)[activeSlot c j]).m_cmdbuf w) = _
      by_cases hw : w = idx
      · rw [if_pos hw, if_pos hw]
      · rw [if_neg hw, if_neg hw]
        clear ih
        have hunch : ∀ m, m ≤ j →
            ((Gdma.patch_loop c R idx m dsc).getD (activeSlot c j) Gdma.S_CMDBUF.zero)
              = dsc.getD (activeSlot c j) Gdma.S_CMDBUF.zero := by
          intro m hm
          induction m with
          | zero => rfl
          | succ m ihm =>
            have e3 : slotOf (DEF_VACT_INDEX c + m) .evHStageHACT = activeSlot c m := rfl
            have e4 : ¬ activeSlot c m = activeSlot c j := by
              rw [activeSlot_inj]; omega
            rw [Gdma.patch_loop, gdma_storeWord_eq, List.getD_eq_getElem?_getD,
              gdma_storeAt_get, e3, if_neg e4, ← List.getD_eq_getElem?_getD]
            exact ihm (by omega)
        have h5 := hunch j (Nat.le_refl j)
        rw [List.getD_eq_getElem?_getD, List.getElem?_eq_getElem hl2] at h5
        have h6 : (Gdma.patch_loop c R idx j dsc)[activeSlot c j]
            = dsc.getD (activeSlot c j) Gdma.S_CMDBUF.zero := h5
        rw [h6]
    · have e2 : ¬ activeSlot c n = activeSlot c j := by
        rw [activeSlot_inj]; omega
      rw [e1, if_neg e2, ← List.getD_eq_getElem?_getD]
      exact ih (by omega)

theorem gdma_handler_fields (c : Config) (st : Bool) (s : DispState Gdma.S_CMDBUF) :
    (Gdma.GDMACH1_IRQHandler c st s).s_pu16BufAddr = s.s_pu16BufAddr
    ∧ (Gdma.GDMACH1_IRQHandler c st s).s_sDscLCD =
        (if st = true ∧ Gdma.firstActiveSrc c s ≠ s.s_pu16BufAddr % 4294967296 then
          Gdma.patch_loop c s.s_pu16BufAddr
            ((Gdma.gdma_dsc_find_srcaddr_index
              (s.s_sDscLCD.getD (activeSlot c 0) Gdma.S_CMDBUF.zero) + 1) % 4294967296)
            c.CONFIG_TIMING_VACT s.s_sDscLCD
        else s.s_sDscLCD)
    ∧ (Gdma.GDMACH1_IRQHandler c st s).patchStores =
        (if st = true ∧ Gdma.firstActiveSrc c s ≠ s.s_pu16BufAddr % 4294967296 then
          s.patchStores + c.CONFIG_TIMING_VACT
        else s.patchStores) := by
  unfold Gdma.GDMACH1_IRQHandler Gdma.firstActiveSrc Gdma.srcAddr activeSlot
  simp only [s_au32VTiming, Nat.add_zero]
  cases st
  · simp
  · by_cases h2 : (s.s_sDscLCD.getD (slotOf (DEF_VACT_INDEX c) .evHStageHACT)
        Gdma.S_CMDBUF.zero).m_cmdbuf
        ((Gdma.gdma_dsc_find_srcaddr_index
          (s.s_sDscLCD.getD (slotOf (DEF_VACT_INDEX c) .evHStageHACT) Gdma.S_CMDBUF.zero) + 1)
          % 4294967296) ≠ s.s_pu16BufAddr % 4294967296
    · simp only [h2, if_true, and_self, ne_eq, not_false_eq_true]
      split <;> exact ⟨rfl, rfl, rfl⟩
    · simp only [h2, if_true, if_false, and_false]
      split <;> exact ⟨rfl, rfl, rfl⟩

theorem gdma_built_headers (c : Config) (s : DispState Gdma.S_CMDBUF)
    (hlen : s.s_sDscLCD.length = dscSlots c) :
    Gdma.ActiveHeaders c (Gdma.disp_gdma_dsc_init c s).s_sDscLCD := by
  intro j hj
  have hi : DEF_VACT_INDEX c + j < DEF_TOTAL_VLINES c := by
    unfold DEF_VACT_INDEX DEF_TOTAL_VLINES
    omega
  exact (gdma_built_addrs c s hlen _ .evHStageHACT hi).2.2

theorem gdma_handler_headers (c : Config) (st : Bool) (s : DispState Gdma.S_CMDBUF)
    (hlen : s.s_sDscLCD.length = dscSlots c) (hhdr : Gdma.ActiveHeaders c s.s_sDscLCD) :
    Gdma.ActiveHeaders c (Gdma.GDMACH1_IRQHandler c st s).s_sDscLCD := by
  intro j hj
  rw [(gdma_handler_fields c st s).2.1]
  split
  · have h0 : 0 < c.CONFIG_TIMING_VACT := by omega
    rw [gdma_find_of_header _ (hhdr 0 h0),
      gdma_patch_word c _ _ _ _ j hj (by rw [hlen]; exact activeSlot_lt c j hj) 0,
      if_neg (by decide)]
    exact hhdr j hj
  · exact hhdr j hj

/-- C9: on a transfer-done event (sync configuration, either backend, on the statically
sized array; for GDMA the active command buffers carrying the header the builder gives
them), if the requested buffer `R = s_pu16BufAddr` differs from the source address that
the first active scanline's horizontal-Active descriptor holds, then after the handler
every active scanline `j` in `[0, VACT)` has the source address `R + j * HACT * 2` modulo
`2^32` in its horizontal-Active descriptor, the first one holding `R`.  The condition on
the GDMA headers holds after `disp_gdma_dsc_init` and every handler run keeps it, together
with the size of the array. -/
theorem C9_handler_patches (c : Config) (sP : DispState Pdma.DSCT_T)
    (sG : DispState Gdma.S_CMDBUF)
    (hlenP : sP.s_sDscLCD.length = dscSlots c) (hlenG : sG.s_sDscLCD.length = dscSlots c)
    (hhdr : Gdma.ActiveHeaders c sG.s_sDscLCD) :
    (Pdma.firstActiveSA c sP ≠ sP.s_pu16BufAddr % 4294967296 →
      (∀ j, j < c.CONFIG_TIMING_VACT →
        ((Pdma.nu_pdma_memfun_cb c Pdma.NU_PDMA_EVENT_TRANSFER_DONE sP).s_sDscLCD.getD
          (slotOf (DEF_VACT_INDEX c + j) .evHStageHACT) Pdma.DSCT_T.zero).SA
          = (sP.s_pu16BufAddr + j * c.CONFIG_TIMING_HACT * 2) % 4294967296)
      ∧ (0 < c.CONFIG_TIMING_VACT →
          Pdma.firstActiveSA c (Pdma.nu_pdma_memfun_cb c Pdma.NU_PDMA_EVENT_TRANSFER_DONE sP)
            = sP.s_pu16BufAddr % 4294967296))
    ∧ (Gdma.firstActiveSrc c sG ≠ sG.s_pu16BufAddr % 4294967296 →
      (∀ j, j < c.CONFIG_TIMING_VACT →
        Gdma.srcAddr ((Gdma.GDMACH1_IRQHandler c true sG).s_sDscLCD.getD
          (slotOf (DEF_VACT_INDEX c + j) .evHStageHACT) Gdma.S_CMDBUF.zero)
          = (sG.s_pu16BufAddr + j * c.CONFIG_TIMING_HACT * 2) % 4294967296)
      ∧ (0 < c.CONFIG_TIMING_VACT →
          Gdma.firstActiveSrc c (Gdma.GDMACH1_IRQHandler c true sG)
            = sG.s_pu16BufAddr % 4294967296))
    ∧ (∀ s : DispState Gdma.S_CMDBUF, s.s_sDscLCD.length = dscSlots c →
        Gdma.ActiveHeaders c (Gdma.disp_gdma_dsc_init c s).s_sDscLCD
        ∧ (Gdma.disp_gdma_dsc_init c s).s_sDscLCD.length = dscSlots c)
    ∧ (∀ (st : Bool) (s : DispState Gdma.S_CMDBUF), s.s_sDscLCD.length = dscSlots c →
        Gdma.ActiveHeaders c s.s_sDscLCD →
        Gdma.ActiveHeaders c (Gdma.GDMACH1_IRQHandler c st s).s_sDscLCD
        ∧ (Gdma.GDMACH1_IRQHandler c st s).s_sDscLCD.length = dscSlots c) := by
  have hPj : Pdma.firstActiveSA c sP ≠ sP.s_pu16BufAddr % 4294967296 →
      ∀ j, j < c.CONFIG_TIMING_VACT →
        ((Pdma.nu_pdma_memfun_cb c Pdma.NU_PDMA_EVENT_TRANSFER_DONE sP).s_sDscLCD.getD
          (activeSlot c j) Pdma.DSCT_T.zero).SA
          = (sP.s_pu16BufAddr + j * c.CONFIG_TIMING_HACT * 2) % 4294967296 := by
    intro hne j hj
    rw [(pdma_handler_fields c _ sP).2.1, if_pos ⟨rfl, hne⟩,
      pdma_patch_SA c _ _ _ j hj (by rw [hlenP]; exact activeSlot_lt c j hj), u16PtrAdd_eq]
  have hGj : Gdma.firstActiveSrc c sG ≠ sG.s_pu16BufAddr % 4294967296 →
      ∀ j, j < c.CONFIG_TIMING_VACT →
        Gdma.srcAddr ((Gdma.GDMACH1_IRQHandler c true sG).s_sDscLCD.getD
          (activeSlot c j) Gdma.S_CMDBUF.zero)
          = (sG.s_pu16BufAddr + j * c.CONFIG_TIMING_HACT * 2) % 4294967296 := by
    intro hne j hj
    have hh := gdma_handler_headers c true sG hlenG hhdr j hj
    rw [gdma_srcAddr_of_header _ hh, (gdma_handler_fields c true sG).2.1, if_pos ⟨rfl, hne⟩,
      gdma_find_of_header _ (hhdr 0 (by omega)),
      gdma_patch_word c _ _ _ _ j hj (by rw [hlenG]; exact activeSlot_lt c j hj) 3,
      if_pos (by decide), u16PtrAdd_eq]
  refine ⟨?_, ?_, ?_, ?_⟩
  · intro hne
    refine ⟨hPj hne, ?_⟩
    intro h0
    have h := hPj hne 0 h0
    simpa [Pdma.firstActiveSA] using h
  · intro hne
    refine ⟨hGj hne, ?_⟩
    intro h0
    have h := hGj hne 0 h0
    simpa [Gdma.firstActiveSrc] using h
  · intro s hs
    exact ⟨gdma_built_headers c s hs, by rw [gdma_built_length, hs]⟩
  · intro st s hs hh
    refine ⟨gdma_handler_headers c st s hs hh, ?_⟩
    rw [(gdma_handler_fields c st s).2.1]
    split
    · rw [gdma_patch_length, hs]
    · exact hs

/-- Witness of C9 on the small timing table: the PDMA chain built at start-up and the GDMA
chain of command buffers with source `g_au8FrameBuf`, with the second frame buffer
requested; the hypotheses hold and the handlers leave the second active scanline reading
from the requested buffer plus one line. -/
theorem C9_handler_patches_witness :
    (disp_set_vrambufaddr 536936460
        (Pdma.disp_pdma_dsc_init tiny (Pdma.startState tiny))).s_sDscLCD.length = dscSlots tiny
    ∧ (Gdma.uniformState tiny (Gdma.sampleCmd 536936448) 536936460).s_sDscLCD.length
        = dscSlots tiny
    ∧ Gdma.ActiveHeaders tiny (Gdma.uniformState tiny (Gdma.sampleCmd 536936448)
        536936460).s_sDscLCD
    ∧ Pdma.firstActiveSA tiny (disp_set_vrambufaddr 536936460
        (Pdma.disp_pdma_dsc_init tiny (Pdma.startState tiny))) ≠ 536936460 % 4294967296
    ∧ Gdma.firstActiveSrc tiny (Gdma.uniformState tiny (Gdma.sampleCmd 536936448) 536936460)
        ≠ 536936460 % 4294967296
    ∧ ((Pdma.nu_pdma_memfun_cb tiny Pdma.NU_PDMA_EVENT_TRANSFER_DONE
        (disp_set_vrambufaddr 536936460
          (Pdma.disp_pdma_dsc_init tiny (Pdma.startState tiny)))).s_sDscLCD.getD
        (slotOf (DEF_VACT_INDEX tiny + 1) .evHStageHACT) Pdma.DSCT_T.zero).SA
        = (536936460 + 1 * tiny.CONFIG_TIMING_HACT * 2) % 4294967296
    ∧ Gdma.srcAddr ((Gdma.GDMACH1_IRQHandler tiny true
        (Gdma.uniformState tiny (Gdma.sampleCmd 536936448) 536936460)).s_sDscLCD.getD
        (slotOf (DEF_VACT_INDEX tiny + 1) .evHStageHACT) Gdma.S_CMDBUF.zero)
        = (536936460 + 1 * tiny.CONFIG_TIMING_HACT * 2) % 4294967296 :=
  ⟨by decide, by decide, by decide, by decide, by decide,
    ((C9_handler_patches tiny
      (disp_set_vrambufaddr 536936460 (Pdma.disp_pdma_dsc_init tiny (Pdma.startState tiny)))
      (Gdma.uniformState tiny (Gdma.sampleCmd 536936448) 536936460)
      (by decide) (by decide) (by decide)).1 (by decide)).1 1 (by decide),
    ((C9_handler_patches tiny
      (disp_set_vrambufaddr 536936460 (Pdma.disp_pdma_dsc_init tiny (Pdma.startState tiny)))
      (Gdma.uniformState tiny (Gdma.sampleCmd 536936448) 536936460)
      (by decide) (by decide) (by decide)).2.1 (by decide)).1 1 (by decide)⟩

theorem iterate_set_vrambufaddr {D : Type} (R n : Nat) (s : DispState D) :
    (disp_set_vrambufaddr R)^[n + 1] s = disp_set_vrambufaddr R s := by
  induction n with
  | zero => rfl
  | succ n ih =>
    rw [Function.iterate_succ_apply', ih]
    rfl

/-- C10: buffer-swap patching is idempotent (sync configuration, either backend, on the
statically sized array; for GDMA the active command buffers carrying the header the
builder gives them).  After `disp_set_vrambufaddr(R)` has been called one or more times and
the handler has run on a done event (`requestThenDone`, which leaves the first active
descriptor reading from `R`), a second handler run on a done event with no request in
between makes no store into a descriptor: the chain and the count of descriptor stores
are unchanged.  More generally a handler run leaves the chain and the count of stores
unchanged unless it is a done event and the requested buffer differs from the source
address of the first active descriptor. -/
theorem C10_patch_idempotent (c : Config) (sP : DispState Pdma.DSCT_T)
    (sG : DispState Gdma.S_CMDBUF) (R n : Nat)
    (hlenP : sP.s_sDscLCD.length = dscSlots c) (hlenG : sG.s_sDscLCD.length = dscSlots c)
    (hhdr : Gdma.ActiveHeaders c sG.s_sDscLCD) :
    ((Pdma.nu_pdma_memfun_cb c Pdma.NU_PDMA_EVENT_TRANSFER_DONE
          (Pdma.requestThenDone c R n sP)).s_sDscLCD = (Pdma.requestThenDone c R n sP).s_sDscLCD
      ∧ (Pdma.nu_pdma_memfun_cb c Pdma.NU_PDMA_EVENT_TRANSFER_DONE
          (Pdma.requestThenDone c R n sP)).patchStores
          = (Pdma.requestThenDone c R n sP).patchStores
      ∧ disp_get_vrambufaddr (Pdma.requestThenDone c R n sP) = R
      ∧ (0 < c.CONFIG_TIMING_VACT →
          Pdma.firstActiveSA c (Pdma.requestThenDone c R n sP) = R % 4294967296)
      ∧ (∀ (ev : Nat) (s : DispState Pdma.DSCT_T),
          ¬ (ev = Pdma.NU_PDMA_EVENT_TRANSFER_DONE
              ∧ Pdma.firstActiveSA c s ≠ s.s_pu16BufAddr % 4294967296) →
          (Pdma.nu_pdma_memfun_cb c ev s).s_sDscLCD = s.s_sDscLCD
          ∧ (Pdma.nu_pdma_memfun_cb c ev s).patchStores = s.patchStores))
    ∧ ((Gdma.GDMACH1_IRQHandler c true (Gdma.requestThenDone c R n sG)).s_sDscLCD
          = (Gdma.requestThenDone c R n sG).s_sDscLCD
      ∧ (Gdma.GDMACH1_IRQHandler c true (Gdma.requestThenDone c R n sG)).patchStores
          = (Gdma.requestThenDone c R n sG).patchStores
      ∧ disp_get_vrambufaddr (Gdma.requestThenDone c R n sG) = R
      ∧ (0 < c.CONFIG_TIMING_VACT →
          Gdma.firstActiveSrc c (Gdma.requestThenDone c R n sG) = R % 4294967296)
      ∧ (∀ (st : Bool) (s : DispState Gdma.S_CMDBUF),
          ¬ (st = true ∧ Gdma.firstActiveSrc c s ≠ s.s_pu16BufAddr % 4294967296) →
          (Gdma.GDMACH1_IRQHandler c st s).s_sDscLCD = s.s_sDscLCD
          ∧ (Gdma.GDMACH1_IRQHandler c st s).patchStores = s.patchStores)) := by
  constructor
  · -- PDMA
    have hgen : ∀ (ev : Nat) (s : DispState Pdma.DSCT_T),
        ¬ (ev = Pdma.NU_PDMA_EVENT_TRANSFER_DONE
            ∧ Pdma.firstActiveSA c s ≠ s.s_pu16BufAddr % 4294967296) →
        (Pdma.nu_pdma_memfun_cb c ev s).s_sDscLCD = s.s_sDscLCD
        ∧ (Pdma.nu_pdma_memfun_cb c ev s).patchStores = s.patchStores := by
      intro ev s h
      rw [(pdma_handler_fields c ev s).2.1, (pdma_handler_fields c ev s).2.2, if_neg h, if_neg h]
      exact ⟨rfl, rfl⟩
    have hbuf : (Pdma.requestThenDone c R n sP).s_pu16BufAddr = R := by
      rw [Pdma.requestThenDone, (pdma_handler_fields c _ _).1, iterate_set_vrambufaddr]
      rfl
    have hfirst : 0 < c.CONFIG_TIMING_VACT →
        Pdma.firstActiveSA c (Pdma.requestThenDone c R n sP) = R % 4294967296 := by
      intro h0
      unfold Pdma.firstActiveSA
      rw [Pdma.requestThenDone, (pdma_handler_fields c _ _).2.1, iterate_set_vrambufaddr]
      by_cases hne : Pdma.firstActiveSA c (disp_set_vrambufaddr R sP)
          ≠ (disp_set_vrambufaddr R sP).s_pu16BufAddr % 4294967296
      · rw [if_pos ⟨rfl, hne⟩,
          pdma_patch_SA c _ _ _ 0 h0 (by
            show activeSlot c 0 < sP.s_sDscLCD.length
            rw [hlenP]; exact activeSlot_lt c 0 h0), u16PtrAdd_eq]
        show (R + 0 * c.CONFIG_TIMING_HACT * 2) % 4294967296 = R % 4294967296
        simp
      · rw [if_neg (fun h => hne h.2)]
        exact not_not.mp hne
    refine ⟨?_, ?_, hbuf, hfirst, hgen⟩
    · by_cases h0 : 0 < c.CONFIG_TIMING_VACT
      · exact (hgen _ _ (fun h => h.2 (by rw [hfirst h0, hbuf]))).1
      · have hz : c.CONFIG_TIMING_VACT = 0 := by omega
        rw [(pdma_handler_fields c _ _).2.1, hz]
        split <;> rfl
    · by_cases h0 : 0 < c.CONFIG_TIMING_VACT
      · exact (hgen _ _ (fun h => h.2 (by rw [hfirst h0, hbuf]))).2
      · have hz : c.CONFIG_TIMING_VACT = 0 := by omega
        rw [(pdma_handler_fields c _ _).2.2, hz]
        split <;> rfl
  · -- GDMA
    have hgen : ∀ (st : Bool) (s : DispState Gdma.S_CMDBUF),
        ¬ (st = true ∧ Gdma.firstActiveSrc c s ≠ s.s_pu16BufAddr % 4294967296) →
        (Gdma.GDMACH1_IRQHandler c st s).s_sDscLCD = s.s_sDscLCD
        ∧ (Gdma.GDMACH1_IRQHandler c st s).patchStores = s.patchStores := by
      intro st s h
      rw [(gdma_handler_fields c st s).2.1, (gdma_handler_fields c st s).2.2, if_neg h, if_neg h]
      exact ⟨rfl, rfl⟩
    have hbuf : (Gdma.requestThenDone c R n sG).s_pu16BufAddr = R := by
      rw [Gdma.requestThenDone, (gdma_handler_fields c _ _).1, iterate_set_vrambufaddr]
      rfl
    have hhdr1 : Gdma.ActiveHeaders c (disp_set_vrambufaddr R sG).s_sDscLCD := hhdr
    have hlen1 : (disp_set_vrambufaddr R sG).s_sDscLCD.length = dscSlots c := hlenG
    have hfirst : 0 < c.CONFIG_TIMING_VACT →
        Gdma.firstActiveSrc c (Gdma.requestThenDone c R n sG) = R % 4294967296 := by
      intro h0
      unfold Gdma.firstActiveSrc
      rw [Gdma.requestThenDone, iterate_set_vrambufaddr]
      have hh := gdma_handler_headers c true _ hlen1 hhdr1 0 h0
      rw [gdma_srcAddr_of_header _ hh, (gdma_handler_fields c _ _).2.1]
      by_cases hne : Gdma.firstActiveSrc c (disp_set_vrambufaddr R sG)
          ≠ (disp_set_vrambufaddr R sG).s_pu16BufAddr % 4294967296
      · rw [if_pos ⟨rfl, hne⟩, gdma_find_of_header _ (hhdr1 0 h0),
          gdma_patch_word c _ _ _ _ 0 h0 (by rw [hlen1]; exact activeSlot_lt c 0 h0) 3,
          if_pos (by decide), u16PtrAdd_eq]
        show (R + 0 * c.CONFIG_TIMING_HACT * 2) % 4294967296 = R % 4294967296
        simp
      · rw [if_neg (fun h => hne h.2), ← gdma_srcAddr_of_header _ (hhdr1 0 h0)]
        exact not_not.mp hne
    refine ⟨?_, ?_, hbuf, hfirst, hgen⟩
    · by_cases h0 : 0 < c.CONFIG_TIMING_VACT
      · exact (hgen _ _ (fun h => h.2 (by rw [hfirst h0, hbuf]))).1
      · have hz : c.CONFIG_TIMING_VACT = 0 := by omega
        rw [(gdma_handler_fields c _ _).2.1, hz]
        split <;> rfl
    · by_cases h0 : 0 < c.CONFIG_TIMING_VACT
      · exact (hgen _ _ (fun h => h.2 (by rw [hfirst h0, hbuf]))).2
      · have hz : c.CONFIG_TIMING_VACT = 0 := by omega
        rw [(gdma_handler_fields c _ _).2.2, hz]
        split <;> rfl

/-- Witness of C10 on the small timing table: the PDMA chain built at start-up and the GDMA
chain of command buffers with source `g_au8FrameBuf`; after two requests of the second
frame buffer and one done event, a second done event adds no descriptor store. -/
theorem C10_patch_idempotent_witness :
    (Pdma.disp_pdma_dsc_init tiny (Pdma.startState tiny)).s_sDscLCD.length = dscSlots tiny
    ∧ (Gdma.uniformState tiny (Gdma.sampleCmd 536936448) 536936448).s_sDscLCD.length
        = dscSlots tiny
    ∧ Gdma.ActiveHeaders tiny (Gdma.uniformState tiny (Gdma.sampleCmd 536936448)
        536936448).s_sDscLCD
    ∧ (Pdma.nu_pdma_memfun_cb tiny Pdma.NU_PDMA_EVENT_TRANSFER_DONE
        (Pdma.requestThenDone tiny 536936460 1
          (Pdma.disp_pdma_dsc_init tiny (Pdma.startState tiny)))).patchStores
        = (Pdma.requestThenDone tiny 536936460 1
          (Pdma.disp_pdma_dsc_init tiny (Pdma.startState tiny))).patchStores
    ∧ (Gdma.GDMACH1_IRQHandler tiny true
        (Gdma.requestThenDone tiny 536936460 1
          (Gdma.uniformState tiny (Gdma.sampleCmd 536936448) 536936448))).patchStores
        = (Gdma.requestThenDone tiny 536936460 1
          (Gdma.uniformState tiny (Gdma.sampleCmd 536936448) 536936448)).patchStores :=
  ⟨by decide, by decide, by decide,
    (C10_patch_idempotent tiny (Pdma.disp_pdma_dsc_init tiny (Pdma.startState tiny))
      (Gdma.uniformState tiny (Gdma.sampleCmd 536936448) 536936448) 536936460 1
      (by decide) (by decide) (by decide)).1.2.1,
    (C10_patch_idempotent tiny (Pdma.disp_pdma_dsc_init tiny (Pdma.startState tiny))
      (Gdma.uniformState tiny (Gdma.sampleCmd 536936448) 536936448) 536936460 1
      (by decide) (by decide) (by decide)).2.2.1⟩

/-! ## Spurious interrupts and the producer API -/

/-- C11: a spurious interrupt is a no-op.  When `nu_pdma_memfun_cb` is invoked with
`u32Events` different from `NU_PDMA_EVENT_TRANSFER_DONE`, or `GDMACH1_IRQHandler` runs with
the status bit `STAT_DONE` clear, the module state is left as it was: no descriptor is
modified, no descriptor store is made and the blank callback is not invoked, for every
module state, hence for every requested buffer (also one that differs from the source of
the first active descriptor) and whether or not a callback is registered. -/
theorem C11_spurious_noop (c : Config) (u32Events : Nat) (sP : DispState Pdma.DSCT_T)
    (sG : DispState Gdma.S_CMDBUF) (hev : u32Events ≠ Pdma.NU_PDMA_EVENT_TRANSFER_DONE) :
    Pdma.nu_pdma_memfun_cb c u32Events sP = sP
    ∧ (Pdma.nu_pdma_memfun_cb c u32Events sP).s_sDscLCD = sP.s_sDscLCD
    ∧ (Pdma.nu_pdma_memfun_cb c u32Events sP).patchStores = sP.patchStores
    ∧ (Pdma.nu_pdma_memfun_cb c u32Events sP).blankCalls = sP.blankCalls
    ∧ Gdma.GDMACH1_IRQHandler c false sG = sG
    ∧ (Gdma.GDMACH1_IRQHandler c false sG).s_sDscLCD = sG.s_sDscLCD
    ∧ (Gdma.GDMACH1_IRQHandler c false sG).patchStores = sG.patchStores
    ∧ (Gdma.GDMACH1_IRQHandler c false sG).blankCalls = sG.blankCalls := by
  have hP : Pdma.nu_pdma_memfun_cb c u32Events sP = sP := by
    unfold Pdma.nu_pdma_memfun_cb
    rw [if_neg hev]
  have hG : Gdma.GDMACH1_IRQHandler c false sG = sG := by
    unfold Gdma.GDMACH1_IRQHandler
    rfl
  refine ⟨hP, ?_, ?_, ?_, hG, ?_, ?_, ?_⟩
  · rw [hP]
  · rw [hP]
  · rw [hP]
  · rw [hG]
  · rw [hG]
  · rw [hG]

/-- Witness of C11 on the small timing table: the event code 0, a PDMA state with the
callback 7 registered and the second frame buffer requested (which differs from the
source of the first active descriptor), and a GDMA state in the same situation. -/
theorem C11_spurious_noop_witness :
    (0 : Nat) ≠ Pdma.NU_PDMA_EVENT_TRANSFER_DONE
    ∧ Pdma.firstActiveSA tiny (disp_set_blankcb 7 (disp_set_vrambufaddr 536936460
        (Pdma.disp_pdma_dsc_init tiny (Pdma.startState tiny)))) ≠ 536936460 % 4294967296
    ∧ (Pdma.nu_pdma_memfun_cb tiny 0 (disp_set_blankcb 7 (disp_set_vrambufaddr 536936460
        (Pdma.disp_pdma_dsc_init tiny (Pdma.startState tiny))))).blankCalls = []
    ∧ (Gdma.GDMACH1_IRQHandler tiny false (disp_set_blankcb 7
        (Gdma.uniformState tiny (Gdma.sampleCmd 536936448) 536936460))).blankCalls = [] :=
  ⟨by decide, by decide,
    (C11_spurious_noop tiny 0 (disp_set_blankcb 7 (disp_set_vrambufaddr 536936460
        (Pdma.disp_pdma_dsc_init tiny (Pdma.startState tiny))))
      (disp_set_blankcb 7 (Gdma.uniformState tiny (Gdma.sampleCmd 536936448) 536936460))
      (by decide)).2.2.2.1,
    (C11_spurious_noop tiny 0 (disp_set_blankcb 7 (disp_set_vrambufaddr 536936460
        (Pdma.disp_pdma_dsc_init tiny (Pdma.startState tiny))))
      (disp_set_blankcb 7 (Gdma.uniformState tiny (Gdma.sampleCmd 536936448) 536936460))
      (by decide)).2.2.2.2.2.2.2⟩

theorem runCalls_frame {D : Type} (calls : List ApiCall) (s : DispState D) :
    (runCalls calls s).s_sDscLCD = s.s_sDscLCD
    ∧ (runCalls calls s).patchStores = s.patchStores
    ∧ (runCalls calls s).blankCalls = s.blankCalls := by
  unfold runCalls
  induction calls generalizing s with
  | nil => exact ⟨rfl, rfl, rfl⟩
  | cons a t ih =>
    rw [List.foldl_cons]
    have h := ih (a.run s)
    cases a <;> exact h

/-- C13: round trip of the requested-buffer cell (both files define the two functions
alike, on whatever descriptor type).  `disp_get_vrambufaddr()` after
`disp_set_vrambufaddr(p)` returns `p`, for every address `p` and for `NULL` (0); of two
sets, and of any sequence of sets, the last wins; calls of `disp_get_vrambufaddr` and
`disp_set_blankcb` and runs of either completion handler in between do not change the
answer; an initialisation in between does: `disp_sync_pdma_init` and `disp_sync_gdma_init`
set the cell to `g_au8FrameBuf`. -/
theorem C13_buffer_round_trip :
    (∀ (D : Type) (p : Nat) (s : DispState D),
        disp_get_vrambufaddr (disp_set_vrambufaddr p s) = p)
    ∧ (∀ (D : Type) (s : DispState D), disp_get_vrambufaddr (disp_set_vrambufaddr 0 s) = 0)
    ∧ (∀ (D : Type) (p q : Nat) (s : DispState D),
        disp_get_vrambufaddr (disp_set_vrambufaddr q (disp_set_vrambufaddr p s)) = q)
    ∧ (∀ (D : Type) (ps : List Nat) (p : Nat) (s : DispState D),
        disp_get_vrambufaddr
          (runCalls ((ps ++ [p]).map ApiCall.set_vrambufaddr) s) = p)
    ∧ (∀ (D : Type) (p f : Nat) (s : DispState D),
        disp_get_vrambufaddr (disp_set_blankcb f (disp_set_vrambufaddr p s)) = p)
    ∧ (∀ (c : Config) (ev p : Nat) (s : DispState Pdma.DSCT_T),
        disp_get_vrambufaddr (Pdma.nu_pdma_memfun_cb c ev (disp_set_vrambufaddr p s)) = p)
    ∧ (∀ (c : Config) (st : Bool) (p : Nat) (s : DispState Gdma.S_CMDBUF),
        disp_get_vrambufaddr (Gdma.GDMACH1_IRQHandler c st (disp_set_vrambufaddr p s)) = p)
    ∧ (∀ (c : Config) (a g : Int) (p : Nat) (s : Pdma.DrvState),
        disp_get_vrambufaddr (Pdma.disp_sync_pdma_init c a g
          { s with disp := disp_set_vrambufaddr p s.disp }).2.disp = c.addr_g_au8FrameBuf)
    ∧ (∀ (c : Config) (p : Nat) (s : Gdma.DrvState),
        disp_get_vrambufaddr (Gdma.disp_sync_gdma_init c
          { s with disp := disp_set_vrambufaddr p s.disp }).2.disp = c.addr_g_au8FrameBuf) := by
  refine ⟨fun _ _ _ => rfl, fun _ _ => rfl, fun _ _ _ _ => rfl, ?_, fun _ _ _ _ => rfl,
    ?_, ?_, ?_, fun _ _ _ => rfl⟩
  · intro D ps p s
    unfold runCalls
    rw [List.map_append, List.foldl_append]
    rfl
  · intro c ev p s
    exact (pdma_handler_fields c ev _).1
  · intro c st p s
    exact (gdma_handler_fields c st _).1
  · intro c a g p s
    unfold Pdma.disp_sync_pdma_init
    simp only
    split
    · split
      · rfl
      · rfl
    · rfl

/-- C14: producers never mutate the chain.  `disp_set_vrambufaddr` changes the
requested-buffer cell and nothing else, `disp_set_blankcb` changes the callback cell and
nothing else, `disp_get_vrambufaddr` returns the requested-buffer cell and stores nothing;
so after any sequence of such calls every descriptor of `s_sDscLCD` is as before, no
descriptor store has been made and no callback invoked (both files, whatever the
descriptor type).  The descriptors change in the completion handler only: the handler
run that follows a request stores into them exactly if it is a done event and the request
differs from the source of the first active descriptor. -/
theorem C14_producers_frame :
    (∀ (D : Type) (p : Nat) (s : DispState D),
        disp_set_vrambufaddr p s = { s with s_pu16BufAddr := p }
        ∧ (disp_set_vrambufaddr p s).s_sDscLCD = s.s_sDscLCD
        ∧ (disp_set_vrambufaddr p s).s_DispBlankCb = s.s_DispBlankCb
        ∧ (disp_set_vrambufaddr p s).patchStores = s.patchStores
        ∧ (disp_set_vrambufaddr p s).blankCalls = s.blankCalls)
    ∧ (∀ (D : Type) (f : Nat) (s : DispState D),
        disp_set_blankcb f s = { s with s_DispBlankCb := f }
        ∧ (disp_set_blankcb f s).s_sDscLCD = s.s_sDscLCD
        ∧ (disp_set_blankcb f s).s_pu16BufAddr = s.s_pu16BufAddr
        ∧ (disp_set_blankcb f s).patchStores = s.patchStores
        ∧ (disp_set_blankcb f s).blankCalls = s.blankCalls)
    ∧ (∀ (D : Type) (s : DispState D),
        disp_get_vrambufaddr s = s.s_pu16BufAddr
        ∧ ApiCall.run ApiCall.get_vrambufaddr s = s)
    ∧ (∀ (D : Type) (calls : List ApiCall) (s : DispState D),
        (runCalls calls s).s_sDscLCD = s.s_sDscLCD
        ∧ (runCalls calls s).patchStores = s.patchStores
        ∧ (runCalls calls s).blankCalls = s.blankCalls)
    ∧ (∀ (c : Config) (ev p : Nat) (s : DispState Pdma.DSCT_T),
        (Pdma.nu_pdma_memfun_cb c ev (disp_set_vrambufaddr p s)).s_sDscLCD =
          (if ev = Pdma.NU_PDMA_EVENT_TRANSFER_DONE
              ∧ Pdma.firstActiveSA c s ≠ p % 4294967296 then
            Pdma.patch_loop c p c.CONFIG_TIMING_VACT s.s_sDscLCD
          else s.s_sDscLCD))
    ∧ (∀ (c : Config) (st : Bool) (p : Nat) (s : DispState Gdma.S_CMDBUF),
        (Gdma.GDMACH1_IRQHandler c st (disp_set_vrambufaddr p s)).s_sDscLCD =
          (if st = true ∧ Gdma.firstActiveSrc c s ≠ p % 4294967296 then
            Gdma.patch_loop c p
              ((Gdma.gdma_dsc_find_srcaddr_index
                (s.s_sDscLCD.getD (activeSlot c 0) Gdma.S_CMDBUF.zero) + 1) % 4294967296)
              c.CONFIG_TIMING_VACT s.s_sDscLCD
          else s.s_sDscLCD)) := by
  refine ⟨fun _ _ _ => ⟨rfl, rfl, rfl, rfl, rfl⟩, fun _ _ _ => ⟨rfl, rfl, rfl, rfl, rfl⟩,
    fun _ _ => ⟨rfl, rfl⟩, fun _ calls s => runCalls_frame calls s, ?_, ?_⟩
  · intro c ev p s
    exact (pdma_handler_fields c ev (disp_set_vrambufaddr p s)).2.1
  · intro c st p s
    exact (gdma_handler_fields c st (disp_set_vrambufaddr p s)).2.1

/-! ## The call of the blank callback -/

theorem pdma_handler_calls (c : Config) (ev : Nat) (s : DispState Pdma.DSCT_T) :
    (Pdma.nu_pdma_memfun_cb c ev s).s_DispBlankCb = s.s_DispBlankCb
    ∧ (Pdma.nu_pdma_memfun_cb c ev s).blankCalls =
        (if ev = Pdma.NU_PDMA_EVENT_TRANSFER_DONE ∧ s.s_DispBlankCb ≠ 0 then
          (s.s_DispBlankCb, s.s_pu16BufAddr) :: s.blankCalls
        else s.blankCalls) := by
  unfold Pdma.nu_pdma_memfun_cb
  split_ifs <;> simp_all

theorem gdma_handler_calls (c : Config) (st : Bool) (s : DispState Gdma.S_CMDBUF) :
    (Gdma.GDMACH1_IRQHandler c st s).s_DispBlankCb = s.s_DispBlankCb
    ∧ (Gdma.GDMACH1_IRQHandler c st s).blankCalls =
        (if st = true ∧ s.s_DispBlankCb ≠ 0 then
          (s.s_DispBlankCb, s.s_pu16BufAddr) :: s.blankCalls
        else s.blankCalls) := by
  unfold Gdma.GDMACH1_IRQHandler
  cases st
  · simp
  · by_cases h2 : (s.s_sDscLCD.getD (slotOf (DEF_VACT_INDEX c) .evHStageHACT)
        Gdma.S_CMDBUF.zero).m_cmdbuf
        ((Gdma.gdma_dsc_find_srcaddr_index
          (s.s_sDscLCD.getD (slotOf (DEF_VACT_INDEX c) .evHStageHACT) Gdma.S_CMDBUF.zero) + 1)
          % 4294967296) ≠ s.s_pu16BufAddr % 4294967296
    · simp only [h2, if_true]
      split_ifs <;> simp_all
    · simp only [h2, if_true, if_false]
      split_ifs <;> simp_all

theorem pdma_handler_length (c : Config) (ev : Nat) (s : DispState Pdma.DSCT_T) :
    (Pdma.nu_pdma_memfun_cb c ev s).s_sDscLCD.length = s.s_sDscLCD.length := by
  rw [(pdma_handler_fields c ev s).2.1]
  split
  · rw [pdma_patch_length]
  · rfl

theorem gdma_handler_length (c : Config) (st : Bool) (s : DispState Gdma.S_CMDBUF) :
    (Gdma.GDMACH1_IRQHandler c st s).s_sDscLCD.length = s.s_sDscLCD.length := by
  rw [(gdma_handler_fields c st s).2.1]
  split
  · rw [gdma_patch_length]
  · rfl

/-- After a done event every active scanline whose source the handler stored, and the
first one in any case, reads from the requested buffer. -/
theorem pdma_done_sources (c : Config) (s : DispState Pdma.DSCT_T)
    (hlen : s.s_sDscLCD.length = dscSlots c) (j : Nat) (hj : j < c.CONFIG_TIMING_VACT)
    (hp : Pdma.firstActiveSA c s = s.s_pu16BufAddr % 4294967296 →
      Pdma.activeSA c s.s_sDscLCD j
        = (s.s_pu16BufAddr + j * c.CONFIG_TIMING_HACT * 2) % 4294967296) :
    Pdma.activeSA c (Pdma.nu_pdma_memfun_cb c Pdma.NU_PDMA_EVENT_TRANSFER_DONE s).s_sDscLCD j
      = (s.s_pu16BufAddr + j * c.CONFIG_TIMING_HACT * 2) % 4294967296 := by
  unfold Pdma.activeSA
  rw [(pdma_handler_fields c _ s).2.1]
  by_cases hne : Pdma.firstActiveSA c s ≠ s.s_pu16BufAddr % 4294967296
  · rw [if_pos ⟨rfl, hne⟩,
      pdma_patch_SA c _ _ _ j hj (by rw [hlen]; exact activeSlot_lt c j hj), u16PtrAdd_eq]
  · rw [if_neg (fun h => hne h.2)]
    exact hp (not_not.mp hne)

theorem gdma_done_sources (c : Config) (s : DispState Gdma.S_CMDBUF)
    (hlen : s.s_sDscLCD.length = dscSlots c) (hhdr : Gdma.ActiveHeaders c s.s_sDscLCD)
    (j : Nat) (hj : j < c.CONFIG_TIMING_VACT)
    (hp : Gdma.firstActiveSrc c s = s.s_pu16BufAddr % 4294967296 →
      Gdma.activeSrc c s.s_sDscLCD j
        = (s.s_pu16BufAddr + j * c.CONFIG_TIMING_HACT * 2) % 4294967296) :
    Gdma.activeSrc c (Gdma.GDMACH1_IRQHandler c true s).s_sDscLCD j
      = (s.s_pu16BufAddr + j * c.CONFIG_TIMING_HACT * 2) % 4294967296 := by
  unfold Gdma.activeSrc
  have hh := gdma_handler_headers c true s hlen hhdr j hj
  rw [gdma_srcAddr_of_header _ hh, (gdma_handler_fields c true s).2.1]
  by_cases hne : Gdma.firstActiveSrc c s ≠ s.s_pu16BufAddr % 4294967296
  · rw [if_pos ⟨rfl, hne⟩, gdma_find_of_header _ (hhdr 0 (by omega)),
      gdma_patch_word c _ _ _ _ j hj (by rw [hlen]; exact activeSlot_lt c j hj) 3,
      if_pos (by decide), u16PtrAdd_eq]
  · rw [if_neg (fun h => hne h.2), ← gdma_srcAddr_of_header _ (hhdr j hj)]
    exact hp (not_not.mp hne)

theorem pdma_done_first (c : Config) (s : DispState Pdma.DSCT_T)
    (hlen : s.s_sDscLCD.length = dscSlots c) (h0 : 0 < c.CONFIG_TIMING_VACT) :
    Pdma.firstActiveSA c (Pdma.nu_pdma_memfun_cb c Pdma.NU_PDMA_EVENT_TRANSFER_DONE s)
      = s.s_pu16BufAddr % 4294967296 := by
  have h := pdma_done_sources c s hlen 0 h0 (by
    intro e
    rw [Nat.zero_mul, Nat.zero_mul, Nat.add_zero]
    exact e)
  rw [Nat.zero_mul, Nat.zero_mul, Nat.add_zero] at h
  exact h

theorem gdma_done_first (c : Config) (s : DispState Gdma.S_CMDBUF)
    (hlen : s.s_sDscLCD.length = dscSlots c) (hhdr : Gdma.ActiveHeaders c s.s_sDscLCD)
    (h0 : 0 < c.CONFIG_TIMING_VACT) :
    Gdma.firstActiveSrc c (Gdma.GDMACH1_IRQHandler c true s)
      = s.s_pu16BufAddr % 4294967296 := by
  have h := gdma_done_sources c s hlen hhdr 0 h0 (by
    intro e
    rw [Nat.zero_mul, Nat.zero_mul, Nat.add_zero]
    exact e)
  rw [Nat.zero_mul, Nat.zero_mul, Nat.add_zero] at h
  exact h

/-- C12: on a done event (sync configuration, either backend, on the statically sized
array; for GDMA the active command buffers carrying the header the builder gives them):
if a blank callback is registered, the handler calls it exactly once (one entry is added
to the record of calls), as its last action and so after the patch decision, with the
requested buffer as argument; with at least one active scanline that argument is, modulo
`2^32`, the source address that the first active scanline's horizontal-Active descriptor
holds when the handler ends, and is that source address itself when it is a 32-bit
address.  If no callback is registered (`NULL`, as at start-up or after
`disp_set_blankcb(NULL)`) nothing is called, and the patch step is the same in both
cases: it depends on the requested buffer and the descriptors only. -/
theorem C12_callback_invocation (c : Config) (sP : DispState Pdma.DSCT_T)
    (sG : DispState Gdma.S_CMDBUF)
    (hlenP : sP.s_sDscLCD.length = dscSlots c) (hlenG : sG.s_sDscLCD.length = dscSlots c)
    (hhdr : Gdma.ActiveHeaders c sG.s_sDscLCD) :
    ((sP.s_DispBlankCb ≠ 0 →
        (Pdma.nu_pdma_memfun_cb c Pdma.NU_PDMA_EVENT_TRANSFER_DONE sP).blankCalls
          = (sP.s_DispBlankCb, sP.s_pu16BufAddr) :: sP.blankCalls)
      ∧ (sP.s_DispBlankCb = 0 →
        (Pdma.nu_pdma_memfun_cb c Pdma.NU_PDMA_EVENT_TRANSFER_DONE sP).blankCalls
          = sP.blankCalls)
      ∧ disp_get_vrambufaddr (Pdma.nu_pdma_memfun_cb c Pdma.NU_PDMA_EVENT_TRANSFER_DONE sP)
          = sP.s_pu16BufAddr
      ∧ (0 < c.CONFIG_TIMING_VACT →
          Pdma.firstActiveSA c (Pdma.nu_pdma_memfun_cb c Pdma.NU_PDMA_EVENT_TRANSFER_DONE sP)
            = sP.s_pu16BufAddr % 4294967296
          ∧ (sP.s_pu16BufAddr < 4294967296 →
              Pdma.firstActiveSA c
                (Pdma.nu_pdma_memfun_cb c Pdma.NU_PDMA_EVENT_TRANSFER_DONE sP)
                = sP.s_pu16BufAddr))
      ∧ (∀ f : Nat,
          (Pdma.nu_pdma_memfun_cb c Pdma.NU_PDMA_EVENT_TRANSFER_DONE
              (disp_set_blankcb f sP)).s_sDscLCD
            = (Pdma.nu_pdma_memfun_cb c Pdma.NU_PDMA_EVENT_TRANSFER_DONE sP).s_sDscLCD
          ∧ (Pdma.nu_pdma_memfun_cb c Pdma.NU_PDMA_EVENT_TRANSFER_DONE
              (disp_set_blankcb f sP)).patchStores
            = (Pdma.nu_pdma_memfun_cb c Pdma.NU_PDMA_EVENT_TRANSFER_DONE sP).patchStores))
    ∧ ((sG.s_DispBlankCb ≠ 0 →
        (Gdma.GDMACH1_IRQHandler c true sG).blankCalls
          = (sG.s_DispBlankCb, sG.s_pu16BufAddr) :: sG.blankCalls)
      ∧ (sG.s_DispBlankCb = 0 →
        (Gdma.GDMACH1_IRQHandler c true sG).blankCalls = sG.blankCalls)
      ∧ disp_get_vrambufaddr (Gdma.GDMACH1_IRQHandler c true sG) = sG.s_pu16BufAddr
      ∧ (0 < c.CONFIG_TIMING_VACT →
          Gdma.firstActiveSrc c (Gdma.GDMACH1_IRQHandler c true sG)
            = sG.s_pu16BufAddr % 4294967296
          ∧ (sG.s_pu16BufAddr < 4294967296 →
              Gdma.firstActiveSrc c (Gdma.GDMACH1_IRQHandler c true sG) = sG.s_pu16BufAddr))
      ∧ (∀ f : Nat,
          (Gdma.GDMACH1_IRQHandler c true (disp_set_blankcb f sG)).s_sDscLCD
            = (Gdma.GDMACH1_IRQHandler c true sG).s_sDscLCD
          ∧ (Gdma.GDMACH1_IRQHandler c true (disp_set_blankcb f sG)).patchStores
            = (Gdma.GDMACH1_IRQHandler c true sG).patchStores))
    ∧ (Pdma.startState c).s_DispBlankCb = 0
    ∧ (Gdma.startState c).s_DispBlankCb = 0
    ∧ (disp_set_blankcb 0 sP).s_DispBlankCb = 0
    ∧ (disp_set_blankcb 0 sG).s_DispBlankCb = 0 := by
  refine ⟨⟨?_, ?_, ?_, ?_, ?_⟩, ⟨?_, ?_, ?_, ?_, ?_⟩, rfl, rfl, rfl, rfl⟩
  · intro h
    rw [(pdma_handler_calls c _ sP).2, if_pos ⟨rfl, h⟩]
  · intro h
    rw [(pdma_handler_calls c _ sP).2, if_neg (fun x => x.2 h)]
  · exact (pdma_handler_fields c _ sP).1
  · intro h0
    have h1 := pdma_done_first c sP hlenP h0
    refine ⟨h1, ?_⟩
    intro hlt
    rw [h1, Nat.mod_eq_of_lt hlt]
  · intro f
    rw [(pdma_handler_fields c _ _).2.1, (pdma_handler_fields c _ sP).2.1,
      (pdma_handler_fields c _ _).2.2, (pdma_handler_fields c _ sP).2.2]
    exact ⟨rfl, rfl⟩
  · intro h
    rw [(gdma_handler_calls c _ sG).2, if_pos ⟨rfl, h⟩]
  · intro h
    rw [(gdma_handler_calls c _ sG).2, if_neg (fun x => x.2 h)]
  · exact (gdma_handler_fields c _ sG).1
  · intro h0
    have h1 := gdma_done_first c sG hlenG hhdr h0
    refine ⟨h1, ?_⟩
    intro hlt
    rw [h1, Nat.mod_eq_of_lt hlt]
  · intro f
    rw [(gdma_handler_fields c _ _).2.1, (gdma_handler_fields c _ sG).2.1,
      (gdma_handler_fields c _ _).2.2, (gdma_handler_fields c _ sG).2.2]
    exact ⟨rfl, rfl⟩

/-- Witness of C12 on the small timing table, with the callback 7 registered and the
second frame buffer requested: on the PDMA chain built at start-up and on the GDMA chain
of command buffers with the sources of `g_au8FrameBuf`, the done event adds the one call
`(7, 536936460)` and leaves the first active descriptor reading from 536936460. -/
theorem C12_callback_invocation_witness :
    (disp_set_blankcb 7 (disp_set_vrambufaddr 536936460
        (Pdma.disp_pdma_dsc_init tiny (Pdma.startState tiny)))).s_sDscLCD.length
        = dscSlots tiny
    ∧ (Gdma.sampleState tiny 536936448 536936460 7).s_sDscLCD.length = dscSlots tiny
    ∧ Gdma.ActiveHeaders tiny (Gdma.sampleState tiny 536936448 536936460 7).s_sDscLCD
    ∧ (Pdma.nu_pdma_memfun_cb tiny Pdma.NU_PDMA_EVENT_TRANSFER_DONE
        (disp_set_blankcb 7 (disp_set_vrambufaddr 536936460
          (Pdma.disp_pdma_dsc_init tiny (Pdma.startState tiny))))).blankCalls
        = [(7, 536936460)]
    ∧ Pdma.firstActiveSA tiny (Pdma.nu_pdma_memfun_cb tiny Pdma.NU_PDMA_EVENT_TRANSFER_DONE
        (disp_set_blankcb 7 (disp_set_vrambufaddr 536936460
          (Pdma.disp_pdma_dsc_init tiny (Pdma.startState tiny))))) = 536936460
    ∧ (Gdma.GDMACH1_IRQHandler tiny true
        (Gdma.sampleState tiny 536936448 536936460 7)).blankCalls = [(7, 536936460)]
    ∧ Gdma.firstActiveSrc tiny (Gdma.GDMACH1_IRQHandler tiny true
        (Gdma.sampleState tiny 536936448 536936460 7)) = 536936460 :=
  ⟨by decide, by decide, by decide,
    (C12_callback_invocation tiny
      (disp_set_blankcb 7 (disp_set_vrambufaddr 536936460
        (Pdma.disp_pdma_dsc_init tiny (Pdma.startState tiny))))
      (Gdma.sampleState tiny 536936448 536936460 7)
      (by decide) (by decide) (by decide)).1.1 (by decide),
    ((C12_callback_invocation tiny
      (disp_set_blankcb 7 (disp_set_vrambufaddr 536936460
        (Pdma.disp_pdma_dsc_init tiny (Pdma.startState tiny))))
      (Gdma.sampleState tiny 536936448 536936460 7)
      (by decide) (by decide) (by decide)).1.2.2.2.1 (by decide)).2 (by decide),
    (C12_callback_invocation tiny
      (disp_set_blankcb 7 (disp_set_vrambufaddr 536936460
        (Pdma.disp_pdma_dsc_init tiny (Pdma.startState tiny))))
      (Gdma.sampleState tiny 536936448 536936460 7)
      (by decide) (by decide) (by decide)).2.1.1 (by decide),
    ((C12_callback_invocation tiny
      (disp_set_blankcb 7 (disp_set_vrambufaddr 536936460
        (Pdma.disp_pdma_dsc_init tiny (Pdma.startState tiny))))
      (Gdma.sampleState tiny 536936448 536936460 7)
      (by decide) (by decide) (by decide)).2.1.2.2.2.1 (by decide)).2 (by decide)⟩

/-! ## Latency of a buffer request -/

theorem pdma_done_stable (c : Config) (u : DispState Pdma.DSCT_T)
    (h : 0 < c.CONFIG_TIMING_VACT → Pdma.firstActiveSA c u = u.s_pu16BufAddr % 4294967296) :
    (Pdma.nu_pdma_memfun_cb c Pdma.NU_PDMA_EVENT_TRANSFER_DONE u).s_sDscLCD = u.s_sDscLCD := by
  rw [(pdma_handler_fields c _ u).2.1]
  by_cases h0 : 0 < c.CONFIG_TIMING_VACT
  · rw [if_neg (fun x => x.2 (h h0))]
  · have hz : c.CONFIG_TIMING_VACT = 0 := by omega
    rw [hz]
    split <;> rfl

theorem gdma_done_stable (c : Config) (u : DispState Gdma.S_CMDBUF)
    (h : 0 < c.CONFIG_TIMING_VACT → Gdma.firstActiveSrc c u = u.s_pu16BufAddr % 4294967296) :
    (Gdma.GDMACH1_IRQHandler c true u).s_sDscLCD = u.s_sDscLCD := by
  rw [(gdma_handler_fields c _ u).2.1]
  by_cases h0 : 0 < c.CONFIG_TIMING_VACT
  · rw [if_neg (fun x => x.2 (h h0))]
  · have hz : c.CONFIG_TIMING_VACT = 0 := by omega
    rw [hz]
    split <;> rfl

/-- Runs of the PDMA handler on done events keep the request and the callback. -/
theorem pdma_iter_cells (c : Config) (m : Nat) (t : DispState Pdma.DSCT_T) :
    ((Pdma.nu_pdma_memfun_cb c Pdma.NU_PDMA_EVENT_TRANSFER_DONE)^[m] t).s_pu16BufAddr
      = t.s_pu16BufAddr
    ∧ ((Pdma.nu_pdma_memfun_cb c Pdma.NU_PDMA_EVENT_TRANSFER_DONE)^[m] t).s_DispBlankCb
      = t.s_DispBlankCb := by
  induction m with
  | zero => exact ⟨rfl, rfl⟩
  | succ m ih =>
    rw [Function.iterate_succ_apply', (pdma_handler_fields c _ _).1,
      (pdma_handler_calls c _ _).1]
    exact ih

theorem gdma_iter_cells (c : Config) (m : Nat) (t : DispState Gdma.S_CMDBUF) :
    ((Gdma.GDMACH1_IRQHandler c true)^[m] t).s_pu16BufAddr = t.s_pu16BufAddr
    ∧ ((Gdma.GDMACH1_IRQHandler c true)^[m] t).s_DispBlankCb = t.s_DispBlankCb := by
  induction m with
  | zero => exact ⟨rfl, rfl⟩
  | succ m ih =>
    rw [Function.iterate_succ_apply', (gdma_handler_fields c _ _).1,
      (gdma_handler_calls c _ _).1]
    exact ih

/-- After the first done event further done events leave the PDMA chain as it is. -/
theorem pdma_iter_chain (c : Config) (m : Nat) (t : DispState Pdma.DSCT_T)
    (hlen : t.s_sDscLCD.length = dscSlots c) :
    ((Pdma.nu_pdma_memfun_cb c Pdma.NU_PDMA_EVENT_TRANSFER_DONE)^[m + 1] t).s_sDscLCD
      = (Pdma.nu_pdma_memfun_cb c Pdma.NU_PDMA_EVENT_TRANSFER_DONE t).s_sDscLCD := by
  induction m with
  | zero => rfl
  | succ m ih =>
    rw [Function.iterate_succ_apply', pdma_done_stable, ih]
    intro h0
    have e : Pdma.firstActiveSA c
        ((Pdma.nu_pdma_memfun_cb c Pdma.NU_PDMA_EVENT_TRANSFER_DONE)^[m + 1] t)
        = Pdma.firstActiveSA c (Pdma.nu_pdma_memfun_cb c Pdma.NU_PDMA_EVENT_TRANSFER_DONE t) := by
      unfold Pdma.firstActiveSA
      rw [ih]
    rw [e, pdma_done_first c t hlen h0, (pdma_iter_cells c (m + 1) t).1]

theorem gdma_iter_chain (c : Config) (m : Nat) (t : DispState Gdma.S_CMDBUF)
    (hlen : t.s_sDscLCD.length = dscSlots c) (hhdr : Gdma.ActiveHeaders c t.s_sDscLCD) :
    ((Gdma.GDMACH1_IRQHandler c true)^[m + 1] t).s_sDscLCD
      = (Gdma.GDMACH1_IRQHandler c true t).s_sDscLCD := by
  induction m with
  | zero => rfl
  | succ m ih =>
    rw [Function.iterate_succ_apply', gdma_done_stable, ih]
    intro h0
    have e : Gdma.firstActiveSrc c ((Gdma.GDMACH1_IRQHandler c true)^[m + 1] t)
        = Gdma.firstActiveSrc c (Gdma.GDMACH1_IRQHandler c true t) := by
      unfold Gdma.firstActiveSrc
      rw [ih]
    rw [e, gdma_done_first c t hlen hhdr h0, (gdma_iter_cells c (m + 1) t).1]

/-- With the sources in progression, a done event leaves every active scanline reading
from the requested buffer. -/
theorem pdma_done_progress (c : Config) (s : DispState Pdma.DSCT_T)
    (hlen : s.s_sDscLCD.length = dscSlots c) (hprog : Pdma.Progression c s.s_sDscLCD)
    (j : Nat) (hj : j < c.CONFIG_TIMING_VACT) :
    Pdma.activeSA c (Pdma.nu_pdma_memfun_cb c Pdma.NU_PDMA_EVENT_TRANSFER_DONE s).s_sDscLCD j
      = (s.s_pu16BufAddr + j * c.CONFIG_TIMING_HACT * 2) % 4294967296 := by
  apply pdma_done_sources c s hlen j hj
  intro e
  have e0 : Pdma.activeSA c s.s_sDscLCD 0 = s.s_pu16BufAddr % 4294967296 := e
  rw [hprog j hj, e0, Nat.mod_add_mod]

theorem gdma_done_progress (c : Config) (s : DispState Gdma.S_CMDBUF)
    (hlen : s.s_sDscLCD.length = dscSlots c) (hhdr : Gdma.ActiveHeaders c s.s_sDscLCD)
    (hprog : Gdma.Progression c s.s_sDscLCD)
    (j : Nat) (hj : j < c.CONFIG_TIMING_VACT) :
    Gdma.activeSrc c (Gdma.GDMACH1_IRQHandler c true s).s_sDscLCD j
      = (s.s_pu16BufAddr + j * c.CONFIG_TIMING_HACT * 2) % 4294967296 := by
  apply gdma_done_sources c s hlen hhdr j hj
  intro e
  have e0 : Gdma.activeSrc c s.s_sDscLCD 0 = s.s_pu16BufAddr % 4294967296 := e
  rw [hprog j hj, e0, Nat.mod_add_mod]

theorem pdma_done_keeps_progression (c : Config) (s : DispState Pdma.DSCT_T)
    (hlen : s.s_sDscLCD.length = dscSlots c) (hprog : Pdma.Progression c s.s_sDscLCD) :
    Pdma.Progression c (Pdma.nu_pdma_memfun_cb c Pdma.NU_PDMA_EVENT_TRANSFER_DONE s).s_sDscLCD := by
  intro j hj
  rw [pdma_done_progress c s hlen hprog j hj, pdma_done_progress c s hlen hprog 0 (by omega),
    Nat.zero_mul, Nat.zero_mul, Nat.add_zero, Nat.mod_add_mod]

theorem gdma_done_keeps_progression (c : Config) (s : DispState Gdma.S_CMDBUF)
    (hlen : s.s_sDscLCD.length = dscSlots c) (hhdr : Gdma.ActiveHeaders c s.s_sDscLCD)
    (hprog : Gdma.Progression c s.s_sDscLCD) :
    Gdma.Progression c (Gdma.GDMACH1_IRQHandler c true s).s_sDscLCD := by
  intro j hj
  rw [gdma_done_progress c s hlen hhdr hprog j hj,
    gdma_done_progress c s hlen hhdr hprog 0 (by omega),
    Nat.zero_mul, Nat.zero_mul, Nat.add_zero, Nat.mod_add_mod]

theorem pdma_built_progression (c : Config) (s : DispState Pdma.DSCT_T)
    (hlen : s.s_sDscLCD.length = dscSlots c) (hint : DEF_TOTAL_VLINES c < 2147483648) :
    Pdma.Progression c (Pdma.disp_pdma_dsc_init c s).s_sDscLCD := by
  intro j hj
  have hj' := pdma_built_active_src c s hlen hint j hj
  have h0' := pdma_built_active_src c s hlen hint 0 (by omega)
  unfold Pdma.activeSA activeSlot
  rw [hj', h0', Nat.zero_mul, Nat.zero_mul, Nat.add_zero, Nat.mod_add_mod]

theorem gdma_built_progression (c : Config) (s : DispState Gdma.S_CMDBUF)
    (hlen : s.s_sDscLCD.length = dscSlots c) (hint : DEF_TOTAL_VLINES c < 2147483648) :
    Gdma.Progression c (Gdma.disp_gdma_dsc_init c s).s_sDscLCD := by
  intro j hj
  have hj' := gdma_built_active_src c s hlen hint j hj
  have h0' := gdma_built_active_src c s hlen hint 0 (by omega)
  unfold Gdma.activeSrc activeSlot
  rw [hj', h0', Nat.zero_mul, Nat.zero_mul, Nat.add_zero, Nat.mod_add_mod]

theorem pdma_latency (c : Config) (t : DispState Pdma.DSCT_T) (B m : Nat)
    (hlen : t.s_sDscLCD.length = dscSlots c) (hprog : Pdma.Progression c t.s_sDscLCD) :
    disp_get_vrambufaddr ((Pdma.nu_pdma_memfun_cb c Pdma.NU_PDMA_EVENT_TRANSFER_DONE)^[m + 1]
        (disp_set_vrambufaddr B t)) = B
    ∧ (∀ j, j < c.CONFIG_TIMING_VACT →
        Pdma.activeSA c ((Pdma.nu_pdma_memfun_cb c Pdma.NU_PDMA_EVENT_TRANSFER_DONE)^[m + 1]
          (disp_set_vrambufaddr B t)).s_sDscLCD j
          = (B + j * c.CONFIG_TIMING_HACT * 2) % 4294967296)
    ∧ (t.s_DispBlankCb ≠ 0 →
        ((Pdma.nu_pdma_memfun_cb c Pdma.NU_PDMA_EVENT_TRANSFER_DONE)^[m + 1]
          (disp_set_vrambufaddr B t)).blankCalls.head? = some (t.s_DispBlankCb, B)) := by
  refine ⟨?_, ?_, ?_⟩
  · exact (pdma_iter_cells c (m + 1) (disp_set_vrambufaddr B t)).1
  · intro j hj
    rw [pdma_iter_chain c m (disp_set_vrambufaddr B t) hlen]
    exact pdma_done_progress c (disp_set_vrambufaddr B t) hlen hprog j hj
  · intro hcb
    have hc := pdma_iter_cells c m (disp_set_vrambufaddr B t)
    rw [Function.iterate_succ_apply', (pdma_handler_calls c _ _).2, hc.1, hc.2,
      if_pos ⟨rfl, hcb⟩]
    rfl

theorem gdma_latency (c : Config) (t : DispState Gdma.S_CMDBUF) (B m : Nat)
    (hlen : t.s_sDscLCD.length = dscSlots c) (hhdr : Gdma.ActiveHeaders c t.s_sDscLCD)
    (hprog : Gdma.Progression c t.s_sDscLCD) :
    disp_get_vrambufaddr ((Gdma.GDMACH1_IRQHandler c true)^[m + 1]
        (disp_set_vrambufaddr B t)) = B
    ∧ (∀ j, j < c.CONFIG_TIMING_VACT →
        Gdma.activeSrc c ((Gdma.GDMACH1_IRQHandler c true)^[m + 1]
          (disp_set_vrambufaddr B t)).s_sDscLCD j
          = (B + j * c.CONFIG_TIMING_HACT * 2) % 4294967296)
    ∧ (t.s_DispBlankCb ≠ 0 →
        ((Gdma.GDMACH1_IRQHandler c true)^[m + 1]
          (disp_set_vrambufaddr B t)).blankCalls.head? = some (t.s_DispBlankCb, B)) := by
  refine ⟨?_, ?_, ?_⟩
  · exact (gdma_iter_cells c (m + 1) (disp_set_vrambufaddr B t)).1
  · intro j hj
    rw [gdma_iter_chain c m (disp_set_vrambufaddr B t) hlen hhdr]
    exact gdma_done_progress c (disp_set_vrambufaddr B t) hlen hhdr hprog j hj
  · intro hcb
    have hc := gdma_iter_cells c m (disp_set_vrambufaddr B t)
    rw [Function.iterate_succ_apply', (gdma_handler_calls c _ _).2, hc.1, hc.2,
      if_pos ⟨rfl, hcb⟩]
    rfl

/-- C15, counterexample to its last clause, on the small timing table with the PDMA
chain built at start-up (request `g_au8FrameBuf` = 536936448) and `disp_example_blankcb`
as the callback (registered as 7), whose second buffer `B` is 536936460.  Frame N: the
handler calls the callback with 536936448, and the callback (counter 16) calls
`disp_set_vrambufaddr(B)` after the patch point of that frame; `disp_get_vrambufaddr()`
in that same callback then returns `B`.  Frame N+1: the handler calls the callback with
`B`, so `disp_get_vrambufaddr()` is `B` when the callback is entered, and the callback
(counter 17) requests `B` again after the patch point of its own frame. -/
theorem C15_same_callback_counterexample :
    (Pdma.nu_pdma_memfun_cb tiny Pdma.NU_PDMA_EVENT_TRANSFER_DONE
        (disp_set_blankcb 7 (Pdma.disp_pdma_dsc_init tiny (Pdma.startState tiny)))).blankCalls
      = [(7, 536936448)]
    ∧ disp_get_vrambufaddr (disp_example_blankcb tiny 16
        (Pdma.nu_pdma_memfun_cb tiny Pdma.NU_PDMA_EVENT_TRANSFER_DONE
          (disp_set_blankcb 7 (Pdma.disp_pdma_dsc_init tiny (Pdma.startState tiny))))).2
      = 536936460
    ∧ (Pdma.nu_pdma_memfun_cb tiny Pdma.NU_PDMA_EVENT_TRANSFER_DONE
        (disp_example_blankcb tiny 16
          (Pdma.nu_pdma_memfun_cb tiny Pdma.NU_PDMA_EVENT_TRANSFER_DONE
            (disp_set_blankcb 7
              (Pdma.disp_pdma_dsc_init tiny (Pdma.startState tiny))))).2).blankCalls
      = [(7, 536936460), (7, 536936448)]
    ∧ disp_get_vrambufaddr (Pdma.nu_pdma_memfun_cb tiny Pdma.NU_PDMA_EVENT_TRANSFER_DONE
        (disp_example_blankcb tiny 16
          (Pdma.nu_pdma_memfun_cb tiny Pdma.NU_PDMA_EVENT_TRANSFER_DONE
            (disp_set_blankcb 7
              (Pdma.disp_pdma_dsc_init tiny (Pdma.startState tiny))))).2)
      = 536936460
    ∧ disp_get_vrambufaddr (disp_example_blankcb tiny 17
        (Pdma.nu_pdma_memfun_cb tiny Pdma.NU_PDMA_EVENT_TRANSFER_DONE
          (disp_example_blankcb tiny 16
            (Pdma.nu_pdma_memfun_cb tiny Pdma.NU_PDMA_EVENT_TRANSFER_DONE
              (disp_set_blankcb 7
                (Pdma.disp_pdma_dsc_init tiny (Pdma.startState tiny))))).2)).2
      = 536936460 := by
  decide

/-- C15 (amended): buffer-swap latency over the steps `disp_set_vrambufaddr(B)` and
done-event handler run (sync configuration, either backend, from a state on the
statically sized array whose active sources step by `HACT * 2`, for GDMA with the headers
of the builder).  If `disp_set_vrambufaddr(B)` is called during frame N and no other
request follows, then after the done event of frame N+1 and after every later one
`disp_get_vrambufaddr()` is `B`, the callback (if one is registered) has just been called
with `B`, and every active scanline `j` reads from `B + j * HACT * 2` modulo `2^32`.  If the
call is made after the patch point of frame N, for example from inside the callback of
frame N, then that callback was called with the earlier request, the descriptors keep
reading from the earlier request after the call (until the next done event patches
them), and `disp_get_vrambufaddr()` returns `B` as soon as the call is made.  A done event
keeps the conditions on the state, and the builders establish them when the line count
fits the `int` line index; `disp_example_blankcb` makes exactly one such call. -/
theorem C15_swap_latency (c : Config) (sP : DispState Pdma.DSCT_T)
    (sG : DispState Gdma.S_CMDBUF) (B : Nat)
    (hlenP : sP.s_sDscLCD.length = dscSlots c) (hlenG : sG.s_sDscLCD.length = dscSlots c)
    (hhdr : Gdma.ActiveHeaders c sG.s_sDscLCD)
    (hprogP : Pdma.Progression c sP.s_sDscLCD) (hprogG : Gdma.Progression c sG.s_sDscLCD) :
    ((∀ m : Nat,
        disp_get_vrambufaddr ((Pdma.nu_pdma_memfun_cb c Pdma.NU_PDMA_EVENT_TRANSFER_DONE)^[m + 1]
            (disp_set_vrambufaddr B sP)) = B
        ∧ (∀ j, j < c.CONFIG_TIMING_VACT →
            Pdma.activeSA c ((Pdma.nu_pdma_memfun_cb c Pdma.NU_PDMA_EVENT_TRANSFER_DONE)^[m + 1]
              (disp_set_vrambufaddr B sP)).s_sDscLCD j
              = (B + j * c.CONFIG_TIMING_HACT * 2) % 4294967296)
        ∧ (sP.s_DispBlankCb ≠ 0 →
            ((Pdma.nu_pdma_memfun_cb c Pdma.NU_PDMA_EVENT_TRANSFER_DONE)^[m + 1]
              (disp_set_vrambufaddr B sP)).blankCalls.head? = some (sP.s_DispBlankCb, B)))
      ∧ (sP.s_DispBlankCb ≠ 0 →
          (Pdma.nu_pdma_memfun_cb c Pdma.NU_PDMA_EVENT_TRANSFER_DONE sP).blankCalls.head?
            = some (sP.s_DispBlankCb, sP.s_pu16BufAddr))
      ∧ (∀ j, j < c.CONFIG_TIMING_VACT →
          Pdma.activeSA c (disp_set_vrambufaddr B
            (Pdma.nu_pdma_memfun_cb c Pdma.NU_PDMA_EVENT_TRANSFER_DONE sP)).s_sDscLCD j
            = (sP.s_pu16BufAddr + j * c.CONFIG_TIMING_HACT * 2) % 4294967296)
      ∧ disp_get_vrambufaddr (disp_set_vrambufaddr B
          (Pdma.nu_pdma_memfun_cb c Pdma.NU_PDMA_EVENT_TRANSFER_DONE sP)) = B
      ∧ (∀ (m j : Nat), j < c.CONFIG_TIMING_VACT →
          Pdma.activeSA c ((Pdma.nu_pdma_memfun_cb c Pdma.NU_PDMA_EVENT_TRANSFER_DONE)^[m + 1]
            (disp_set_vrambufaddr B
              (Pdma.nu_pdma_memfun_cb c Pdma.NU_PDMA_EVENT_TRANSFER_DONE sP))).s_sDscLCD j
            = (B + j * c.CONFIG_TIMING_HACT * 2) % 4294967296)
      ∧ (Pdma.nu_pdma_memfun_cb c Pdma.NU_PDMA_EVENT_TRANSFER_DONE sP).s_sDscLCD.length
          = dscSlots c
      ∧ Pdma.Progression c
          (Pdma.nu_pdma_memfun_cb c Pdma.NU_PDMA_EVENT_TRANSFER_DONE sP).s_sDscLCD)
    ∧ ((∀ m : Nat,
        disp_get_vrambufaddr ((Gdma.GDMACH1_IRQHandler c true)^[m + 1]
            (disp_set_vrambufaddr B sG)) = B
        ∧ (∀ j, j < c.CONFIG_TIMING_VACT →
            Gdma.activeSrc c ((Gdma.GDMACH1_IRQHandler c true)^[m + 1]
              (disp_set_vrambufaddr B sG)).s_sDscLCD j
              = (B + j * c.CONFIG_TIMING_HACT * 2) % 4294967296)
        ∧ (sG.s_DispBlankCb ≠ 0 →
            ((Gdma.GDMACH1_IRQHandler c true)^[m + 1]
              (disp_set_vrambufaddr B sG)).blankCalls.head? = some (sG.s_DispBlankCb, B)))
      ∧ (sG.s_DispBlankCb ≠ 0 →
          (Gdma.GDMACH1_IRQHandler c true sG).blankCalls.head?
            = some (sG.s_DispBlankCb, sG.s_pu16BufAddr))
      ∧ (∀ j, j < c.CONFIG_TIMING_VACT →
          Gdma.activeSrc c (disp_set_vrambufaddr B
            (Gdma.GDMACH1_IRQHandler c true sG)).s_sDscLCD j
            = (sG.s_pu16BufAddr + j * c.CONFIG_TIMING_HACT * 2) % 4294967296)
      ∧ disp_get_vrambufaddr (disp_set_vrambufaddr B (Gdma.GDMACH1_IRQHandler c true sG)) = B
      ∧ (∀ (m j : Nat), j < c.CONFIG_TIMING_VACT →
          Gdma.activeSrc c ((Gdma.GDMACH1_IRQHandler c true)^[m + 1]
            (disp_set_vrambufaddr B (Gdma.GDMACH1_IRQHandler c true sG))).s_sDscLCD j
            = (B + j * c.CONFIG_TIMING_HACT * 2) % 4294967296)
      ∧ (Gdma.GDMACH1_IRQHandler c true sG).s_sDscLCD.length = dscSlots c
      ∧ Gdma.ActiveHeaders c (Gdma.GDMACH1_IRQHandler c true sG).s_sDscLCD
      ∧ Gdma.Progression c (Gdma.GDMACH1_IRQHandler c true sG).s_sDscLCD)
    ∧ (DEF_TOTAL_VLINES c < 2147483648 →
        (∀ s : DispState Pdma.DSCT_T, s.s_sDscLCD.length = dscSlots c →
          (Pdma.disp_pdma_dsc_init c s).s_sDscLCD.length = dscSlots c
          ∧ Pdma.Progression c (Pdma.disp_pdma_dsc_init c s).s_sDscLCD)
        ∧ (∀ s : DispState Gdma.S_CMDBUF, s.s_sDscLCD.length = dscSlots c →
          (Gdma.disp_gdma_dsc_init c s).s_sDscLCD.length = dscSlots c
          ∧ Gdma.ActiveHeaders c (Gdma.disp_gdma_dsc_init c s).s_sDscLCD
          ∧ Gdma.Progression c (Gdma.disp_gdma_dsc_init c s).s_sDscLCD))
    ∧ (∀ (n : Nat) (s : DispState Pdma.DSCT_T),
        (disp_example_blankcb c n s).2 =
          disp_set_vrambufaddr (if n &&& 16 ≠ 0 then
            c.addr_g_au8FrameBuf + CONFIG_VRAM_BUF_SIZE c else c.addr_g_au8FrameBuf) s) := by
  have hlenP1 : (Pdma.nu_pdma_memfun_cb c Pdma.NU_PDMA_EVENT_TRANSFER_DONE sP).s_sDscLCD.length
      = dscSlots c := by rw [pdma_handler_length, hlenP]
  have hlenG1 : (Gdma.GDMACH1_IRQHandler c true sG).s_sDscLCD.length = dscSlots c := by
    rw [gdma_handler_length, hlenG]
  have hprogP1 := pdma_done_keeps_progression c sP hlenP hprogP
  have hprogG1 := gdma_done_keeps_progression c sG hlenG hhdr hprogG
  have hhdr1 := gdma_handler_headers c true sG hlenG hhdr
  refine ⟨⟨fun m => pdma_latency c sP B m hlenP hprogP, ?_, ?_, rfl, ?_, hlenP1, hprogP1⟩,
    ⟨fun m => gdma_latency c sG B m hlenG hhdr hprogG, ?_, ?_, rfl, ?_, hlenG1, hhdr1,
      hprogG1⟩, ?_, ?_⟩
  · intro hcb
    rw [(pdma_handler_calls c _ sP).2, if_pos ⟨rfl, hcb⟩]
    rfl
  · intro j hj
    exact pdma_done_progress c sP hlenP hprogP j hj
  · intro m j hj
    exact (pdma_latency c _ B m hlenP1 hprogP1).2.1 j hj
  · intro hcb
    rw [(gdma_handler_calls c _ sG).2, if_pos ⟨rfl, hcb⟩]
    rfl
  · intro j hj
    exact gdma_done_progress c sG hlenG hhdr hprogG j hj
  · intro m j hj
    exact (gdma_latency c _ B m hlenG1 hhdr1 hprogG1).2.1 j hj
  · intro hint
    refine ⟨fun s hs => ⟨?_, pdma_built_progression c s hs hint⟩,
      fun s hs => ⟨?_, gdma_built_headers c s hs, gdma_built_progression c s hs hint⟩⟩
    · rw [pdma_built_length, hs]
    · rw [gdma_built_length, hs]
  · intro n s
    unfold disp_example_blankcb
    split <;> rename_i h
    · simp only [h, if_true, ne_eq, not_false_eq_true]
    · simp only [h, if_false]

/-- Witness of C15 on the small timing table, with the callback 7 registered and the
request `g_au8FrameBuf`: the PDMA chain built at start-up and the GDMA chain of command
buffers with the sources of `g_au8FrameBuf`.  After `disp_set_vrambufaddr(536936460)` and
two done events the callback has just been called with 536936460 and the second active
scanline reads from 536936460 plus one line. -/
theorem C15_swap_latency_witness :
    (disp_set_blankcb 7 (Pdma.disp_pdma_dsc_init tiny (Pdma.startState tiny))).s_sDscLCD.length
        = dscSlots tiny
    ∧ (Gdma.sampleState tiny 536936448 536936448 7).s_sDscLCD.length = dscSlots tiny
    ∧ Gdma.ActiveHeaders tiny (Gdma.sampleState tiny 536936448 536936448 7).s_sDscLCD
    ∧ Pdma.Progression tiny
        (disp_set_blankcb 7 (Pdma.disp_pdma_dsc_init tiny (Pdma.startState tiny))).s_sDscLCD
    ∧ Gdma.Progression tiny (Gdma.sampleState tiny 536936448 536936448 7).s_sDscLCD
    ∧ ((Pdma.nu_pdma_memfun_cb tiny Pdma.NU_PDMA_EVENT_TRANSFER_DONE)^[1 + 1]
        (disp_set_vrambufaddr 536936460 (disp_set_blankcb 7
          (Pdma.disp_pdma_dsc_init tiny (Pdma.startState tiny))))).blankCalls.head?
        = some (7, 536936460)
    ∧ Pdma.activeSA tiny ((Pdma.nu_pdma_memfun_cb tiny Pdma.NU_PDMA_EVENT_TRANSFER_DONE)^[1 + 1]
        (disp_set_vrambufaddr 536936460 (disp_set_blankcb 7
          (Pdma.disp_pdma_dsc_init tiny (Pdma.startState tiny))))).s_sDscLCD 1
        = (536936460 + 1 * tiny.CONFIG_TIMING_HACT * 2) % 4294967296
    ∧ Gdma.activeSrc tiny ((Gdma.GDMACH1_IRQHandler tiny true)^[1 + 1]
        (disp_set_vrambufaddr 536936460
          (Gdma.sampleState tiny 536936448 536936448 7))).s_sDscLCD 1
        = (536936460 + 1 * tiny.CONFIG_TIMING_HACT * 2) % 4294967296 :=
  ⟨by decide, by decide, by decide, by decide, by decide,
    ((C15_swap_latency tiny
      (disp_set_blankcb 7 (Pdma.disp_pdma_dsc_init tiny (Pdma.startState tiny)))
      (Gdma.sampleState tiny 536936448 536936448 7) 536936460
      (by decide) (by decide) (by decide) (by decide) (by decide)).1.1 1).2.2 (by decide),
    ((C15_swap_latency tiny
      (disp_set_blankcb 7 (Pdma.disp_pdma_dsc_init tiny (Pdma.startState tiny)))
      (Gdma.sampleState tiny 536936448 536936448 7) 536936460
      (by decide) (by decide) (by decide) (by decide) (by decide)).1.1 1).2.1 1 (by decide),
    ((C15_swap_latency tiny
      (disp_set_blankcb 7 (Pdma.disp_pdma_dsc_init tiny (Pdma.startState tiny)))
      (Gdma.sampleState tiny 536936448 536936448 7) 536936460
      (by decide) (by decide) (by decide) (by decide) (by decide)).2.1.1 1).2.1 1 (by decide)⟩

/-! ## Initialisation -/

theorem pdma_init_fail (c : Config) (allocated sgStatus : Int) (s : Pdma.DrvState)
    (hch : s.s_i32Channel < 0) (ha : allocated < 0) :
    Pdma.disp_sync_pdma_init c allocated sgStatus s =
      (-1, { disp := disp_set_vrambufaddr c.addr_g_au8FrameBuf s.disp
             s_i32Channel := allocated
             calls := s.calls ++ [Pdma.LibCall.pdma_init]
               ++ [Pdma.LibCall.nu_pdma_channel_allocate] }) := by
  unfold Pdma.disp_sync_pdma_init
  simp only []
  rw [if_pos hch, if_pos ha]

theorem pdma_init_start (c : Config) (allocated sgStatus : Int) (s : Pdma.DrvState)
    (hch : s.s_i32Channel < 0) (ha : 0 ≤ allocated) :
    Pdma.disp_sync_pdma_init c allocated sgStatus s =
      (sgStatus,
        { disp := Pdma.disp_pdma_dsc_init c (disp_set_vrambufaddr c.addr_g_au8FrameBuf s.disp)
          s_i32Channel := allocated
          calls := s.calls ++ [Pdma.LibCall.pdma_init]
            ++ [Pdma.LibCall.nu_pdma_channel_allocate]
            ++ [Pdma.LibCall.nu_pdma_filtering_set allocated Pdma.NU_PDMA_EVENT_TRANSFER_DONE,
                Pdma.LibCall.nu_pdma_callback_register allocated,
                Pdma.LibCall.nu_pdma_sg_transfer allocated s_head
                  (Pdma.disp_pdma_dsc_init c
                    (disp_set_vrambufaddr c.addr_g_au8FrameBuf s.disp)).s_sDscLCD] }) := by
  unfold Pdma.disp_sync_pdma_init
  simp only []
  rw [if_pos hch, if_neg (not_lt.mpr ha)]

theorem pdma_init_held (c : Config) (allocated sgStatus : Int) (s : Pdma.DrvState)
    (hch : ¬ s.s_i32Channel < 0) :
    Pdma.disp_sync_pdma_init c allocated sgStatus s =
      (sgStatus,
        { disp := Pdma.disp_pdma_dsc_init c (disp_set_vrambufaddr c.addr_g_au8FrameBuf s.disp)
          s_i32Channel := s.s_i32Channel
          calls := s.calls ++ [Pdma.LibCall.pdma_init]
            ++ [Pdma.LibCall.nu_pdma_filtering_set s.s_i32Channel
                  Pdma.NU_PDMA_EVENT_TRANSFER_DONE,
                Pdma.LibCall.nu_pdma_callback_register s.s_i32Channel,
                Pdma.LibCall.nu_pdma_sg_transfer s.s_i32Channel s_head
                  (Pdma.disp_pdma_dsc_init c
                    (disp_set_vrambufaddr c.addr_g_au8FrameBuf s.disp)).s_sDscLCD] }) := by
  unfold Pdma.disp_sync_pdma_init
  simp only []
  rw [if_neg hch]

theorem pdma_submitted_append (a b : List Pdma.LibCall) :
    Pdma.submitted (a ++ b) = (Pdma.submitted a || Pdma.submitted b) := by
  unfold Pdma.submitted
  rw [List.any_append]

theorem pdma_registered_append (a b : List Pdma.LibCall) :
    Pdma.registered (a ++ b) = (Pdma.registered a || Pdma.registered b) := by
  unfold Pdma.registered
  rw [List.any_append]

/-- C16: `disp_sync_pdma_init` entered with no channel held (`s_i32Channel < 0`).  When
`nu_pdma_channel_allocate` returns a negative value, init returns the non-zero status
`-1`, and all it has done is to set the requested buffer to `g_au8FrameBuf`, to call
`pdma_init` and to call the allocator: `s_sDscLCD` is as before (the chain is not
built), `nu_pdma_callback_register` and `nu_pdma_sg_transfer` are not called, the blank
callback cell is untouched and `s_i32Channel` holds the negative value returned.  When
the allocation succeeds, init returns the status of `nu_pdma_sg_transfer`, and that call,
the last one, is made with `s_head` on the chain that `disp_pdma_dsc_init` has built:
the chain is built before it is submitted. -/
theorem C16_pdma_init_allocation (c : Config) (allocated sgStatus : Int)
    (s : Pdma.DrvState) (hch : s.s_i32Channel < 0) :
    (allocated < 0 →
      (Pdma.disp_sync_pdma_init c allocated sgStatus s).1 = -1
      ∧ (Pdma.disp_sync_pdma_init c allocated sgStatus s).1 ≠ 0
      ∧ (Pdma.disp_sync_pdma_init c allocated sgStatus s).2.disp.s_sDscLCD = s.disp.s_sDscLCD
      ∧ (Pdma.disp_sync_pdma_init c allocated sgStatus s).2.disp.s_DispBlankCb
          = s.disp.s_DispBlankCb
      ∧ (Pdma.disp_sync_pdma_init c allocated sgStatus s).2.disp.s_pu16BufAddr
          = c.addr_g_au8FrameBuf
      ∧ (Pdma.disp_sync_pdma_init c allocated sgStatus s).2.calls
          = s.calls ++ [Pdma.LibCall.pdma_init, Pdma.LibCall.nu_pdma_channel_allocate]
      ∧ Pdma.registered (Pdma.disp_sync_pdma_init c allocated sgStatus s).2.calls
          = Pdma.registered s.calls
      ∧ Pdma.submitted (Pdma.disp_sync_pdma_init c allocated sgStatus s).2.calls
          = Pdma.submitted s.calls
      ∧ (Pdma.disp_sync_pdma_init c allocated sgStatus s).2.s_i32Channel = allocated
      ∧ (Pdma.disp_sync_pdma_init c allocated sgStatus s).2.s_i32Channel < 0)
    ∧ (0 ≤ allocated →
      (Pdma.disp_sync_pdma_init c allocated sgStatus s).1 = sgStatus
      ∧ (Pdma.disp_sync_pdma_init c allocated sgStatus s).2.s_i32Channel = allocated
      ∧ (Pdma.disp_sync_pdma_init c allocated sgStatus s).2.disp.s_sDscLCD
          = (Pdma.disp_pdma_dsc_init c
              (disp_set_vrambufaddr c.addr_g_au8FrameBuf s.disp)).s_sDscLCD
      ∧ (Pdma.disp_sync_pdma_init c allocated sgStatus s).2.calls
          = s.calls ++
            [Pdma.LibCall.pdma_init, Pdma.LibCall.nu_pdma_channel_allocate,
             Pdma.LibCall.nu_pdma_filtering_set allocated Pdma.NU_PDMA_EVENT_TRANSFER_DONE,
             Pdma.LibCall.nu_pdma_callback_register allocated,
             Pdma.LibCall.nu_pdma_sg_transfer allocated s_head
               (Pdma.disp_pdma_dsc_init c
                 (disp_set_vrambufaddr c.addr_g_au8FrameBuf s.disp)).s_sDscLCD]
      ∧ (Pdma.disp_sync_pdma_init c allocated sgStatus s).2.calls.getLast?
          = some (Pdma.LibCall.nu_pdma_sg_transfer allocated s_head
              (Pdma.disp_sync_pdma_init c allocated sgStatus s).2.disp.s_sDscLCD)) := by
  constructor
  · intro ha
    rw [pdma_init_fail c allocated sgStatus s hch ha]
    refine ⟨rfl, (by decide : (-1 : Int) ≠ 0), rfl, rfl, rfl, ?_, ?_, ?_, rfl, ha⟩
    · simp only [List.append_assoc, List.singleton_append]
    · rw [pdma_registered_append, pdma_registered_append]
      simp [Pdma.registered]
    · rw [pdma_submitted_append, pdma_submitted_append]
      simp [Pdma.submitted]
  · intro ha
    rw [pdma_init_start c allocated sgStatus s hch ha]
    refine ⟨rfl, rfl, rfl, ?_, ?_⟩
    · simp only [List.append_assoc, List.singleton_append, List.cons_append, List.nil_append]
    · simp

/-- Witness of C16 on the small timing table from the start-up state (channel `-1`): with
the allocator returning `-1` init returns `-1` and has submitted nothing; with the
allocator returning channel 3 and `nu_pdma_sg_transfer` returning 0 init returns 0 and has
submitted the chain. -/
theorem C16_pdma_init_allocation_witness :
    (Pdma.bootState tiny).s_i32Channel < 0
    ∧ (Pdma.disp_sync_pdma_init tiny (-1) 0 (Pdma.bootState tiny)).1 = -1
    ∧ Pdma.submitted (Pdma.disp_sync_pdma_init tiny (-1) 0 (Pdma.bootState tiny)).2.calls
        = Pdma.submitted (Pdma.bootState tiny).calls
    ∧ (Pdma.disp_sync_pdma_init tiny 3 0 (Pdma.bootState tiny)).1 = 0
    ∧ (Pdma.disp_sync_pdma_init tiny 3 0 (Pdma.bootState tiny)).2.s_i32Channel = 3 :=
  ⟨by decide,
    ((C16_pdma_init_allocation tiny (-1) 0 (Pdma.bootState tiny) (by decide)).1
      (by decide)).1,
    ((C16_pdma_init_allocation tiny (-1) 0 (Pdma.bootState tiny) (by decide)).1
      (by decide)).2.2.2.2.2.2.2.1,
    ((C16_pdma_init_allocation tiny 3 0 (Pdma.bootState tiny) (by decide)).2
      (by decide)).1,
    ((C16_pdma_init_allocation tiny 3 0 (Pdma.bootState tiny) (by decide)).2
      (by decide)).2.1⟩

/-- C17, counterexample: the small timing table with the horizontal sync pulse width 0.
From the start-up state `disp_sync_gdma_init` returns 0 and has started the channel on the
command link, and `disp_sync_pdma_init` (allocator returning channel 0) calls
`nu_pdma_sg_transfer` on the chain and returns whatever that returns, 0 here. -/
theorem C17_zero_stage_accepted_counterexample :
    zeroStage.CONFIG_TIMING_HPW = 0
    ∧ (Gdma.disp_sync_gdma_init zeroStage (Gdma.bootState zeroStage)).1 = 0
    ∧ Gdma.DevCall.dma350_ch_cmd_ENABLECMD
        ∈ (Gdma.disp_sync_gdma_init zeroStage (Gdma.bootState zeroStage)).2.calls
    ∧ (Pdma.disp_sync_pdma_init zeroStage 0 0 (Pdma.bootState zeroStage)).1 = 0
    ∧ Pdma.submitted
        (Pdma.disp_sync_pdma_init zeroStage 0 0 (Pdma.bootState zeroStage)).2.calls = true := by
  decide

/-- C17 (amended): neither init validates the configuration.  For every configuration
(whatever the stage durations, zero ones included) `disp_sync_gdma_init` builds the chain,
starts the channel on the command link and returns 0; `disp_sync_pdma_init` returns `-1`
exactly when it holds no channel and `nu_pdma_channel_allocate` returns a negative value,
and otherwise submits the chain with `nu_pdma_sg_transfer` and returns the status of that
call, so its status does not depend on the configuration.  (The number of frame buffers
is the constant `CONFIG_VRAM_BUF_NUM` of disp.h, which no init reads.) -/
theorem C17_init_does_not_validate :
    (∀ (c : Config) (s : Gdma.DrvState),
        (Gdma.disp_sync_gdma_init c s).1 = 0
        ∧ (Gdma.disp_sync_gdma_init c s).2.disp
            = Gdma.disp_gdma_dsc_init c (disp_set_vrambufaddr c.addr_g_au8FrameBuf s.disp)
        ∧ Gdma.DevCall.dma350_ch_cmd_ENABLECMD ∈ (Gdma.disp_sync_gdma_init c s).2.calls
        ∧ (Gdma.disp_sync_gdma_init c s).2.calls.getLast?
            = some Gdma.DevCall.dma350_ch_cmd_ENABLECMD)
    ∧ (∀ (c : Config) (a g : Int) (s : Pdma.DrvState),
        (Pdma.disp_sync_pdma_init c a g s).1
          = (if s.s_i32Channel < 0 ∧ a < 0 then -1 else g))
    ∧ (∀ (c : Config) (a g : Int) (s : Pdma.DrvState), ¬ (s.s_i32Channel < 0 ∧ a < 0) →
        Pdma.submitted (Pdma.disp_sync_pdma_init c a g s).2.calls = true
        ∧ (Pdma.disp_sync_pdma_init c a g s).2.disp
            = Pdma.disp_pdma_dsc_init c (disp_set_vrambufaddr c.addr_g_au8FrameBuf s.disp))
    ∧ (∀ (c c' : Config) (a g : Int) (s : Pdma.DrvState),
        (Pdma.disp_sync_pdma_init c a g s).1 = (Pdma.disp_sync_pdma_init c' a g s).1)
    ∧ (∀ (c c' : Config) (s : Gdma.DrvState),
        (Gdma.disp_sync_gdma_init c s).1 = (Gdma.disp_sync_gdma_init c' s).1) := by
  have hstat : ∀ (c : Config) (a g : Int) (s : Pdma.DrvState),
      (Pdma.disp_sync_pdma_init c a g s).1
        = (if s.s_i32Channel < 0 ∧ a < 0 then -1 else g) := by
    intro c a g s
    by_cases hch : s.s_i32Channel < 0
    · by_cases ha : a < 0
      · rw [pdma_init_fail c a g s hch ha, if_pos ⟨hch, ha⟩]
      · rw [pdma_init_start c a g s hch (not_lt.mp ha), if_neg (fun x => ha x.2)]
    · rw [pdma_init_held c a g s hch, if_neg (fun x => hch x.1)]
  refine ⟨?_, hstat, ?_, ?_, fun _ _ _ => rfl⟩
  · intro c s
    refine ⟨rfl, rfl, ?_, ?_⟩
    · simp [Gdma.disp_sync_gdma_init]
    · simp [Gdma.disp_sync_gdma_init]
  · intro c a g s h
    by_cases hch : s.s_i32Channel < 0
    · have ha : 0 ≤ a := not_lt.mp (fun x => h ⟨hch, x⟩)
      rw [pdma_init_start c a g s hch ha]
      refine ⟨?_, rfl⟩
      rw [pdma_submitted_append]
      simp [Pdma.submitted]
    · rw [pdma_init_held c a g s hch]
      refine ⟨?_, rfl⟩
      rw [pdma_submitted_append]
      simp [Pdma.submitted]
  · intro c c' a g s
    rw [hstat c, hstat c']

/-! ## Transfer counts, increments and unit width of the built chain -/

theorem pdma_lineDsc_ctl (c : Config) (V : E_VSTAGE) (h : E_HSTAGE) (pu p v : Nat) :
    ((Pdma.lineDsc c V h pu p).CTL.TXCNT = s_au32HTiming c h
      ∧ (Pdma.lineDsc c V h pu p).CTL.TXWIDTH = 16
      ∧ (Pdma.lineDsc c V h pu p).CTL.memctrl = (Pdma.dsc_switch c V h pu).evMemCtrl)
    ∧ (((Pdma.lineDsc c V h pu p).setNEXT v).clrTBINTDIS.CTL.TXCNT = s_au32HTiming c h
      ∧ ((Pdma.lineDsc c V h pu p).setNEXT v).clrTBINTDIS.CTL.TXWIDTH = 16
      ∧ ((Pdma.lineDsc c V h pu p).setNEXT v).clrTBINTDIS.CTL.memctrl
          = (Pdma.dsc_switch c V h pu).evMemCtrl) :=
  ⟨⟨rfl, rfl, rfl⟩, ⟨rfl, rfl, rfl⟩⟩

theorem pdma_builtDsc_ctl (c : Config) (B k : Nat) :
    (Pdma.builtDsc c B k).CTL.TXCNT = s_au32HTiming c (E_HSTAGE.ofVal (k % 4))
    ∧ (Pdma.builtDsc c B k).CTL.TXWIDTH = 16
    ∧ (Pdma.builtDsc c B k).CTL.memctrl =
        (Pdma.dsc_switch c (Pdma.vs c (k / 4)) (E_HSTAGE.ofVal (k % 4))
          (lineBuf c (Pdma.vs c) B (k / 4))).evMemCtrl := by
  unfold Pdma.builtDsc
  by_cases hk : k = s_end c
  · rw [if_pos hk]
    exact (pdma_lineDsc_ctl c _ _ _ _ _).2
  · rw [if_neg hk]
    exact (pdma_lineDsc_ctl c _ _ _ _ 0).1

theorem pdma_built_ctl (c : Config) (s : DispState Pdma.DSCT_T)
    (hlen : s.s_sDscLCD.length = dscSlots c) (i : Nat) (h : E_HSTAGE)
    (hi : i < DEF_TOTAL_VLINES c) :
    ((Pdma.disp_pdma_dsc_init c s).s_sDscLCD.getD (slotOf i h) Pdma.DSCT_T.zero).CTL.TXCNT
      = s_au32HTiming c h
    ∧ ((Pdma.disp_pdma_dsc_init c s).s_sDscLCD.getD (slotOf i h) Pdma.DSCT_T.zero).CTL.TXWIDTH
      = 16
    ∧ ((Pdma.disp_pdma_dsc_init c s).s_sDscLCD.getD (slotOf i h) Pdma.DSCT_T.zero).CTL.memctrl
      = (Pdma.dsc_switch c (Pdma.vs c i) h
          (lineBuf c (Pdma.vs c) s.s_pu16BufAddr i)).evMemCtrl := by
  rw [pdma_built_getD c s hlen _ (slotOf_lt c i h hi)]
  have hf := pdma_builtDsc_ctl c s.s_pu16BufAddr (slotOf i h)
  rw [(slotOf_div i h).1, (slotOf_div i h).2] at hf
  exact hf

theorem gdma_ctrl_value :
    Gdma.setField (Gdma.setField (Gdma.setField 0 0 3 Gdma.DMA350_CH_TRANSIZE_16BITS) 9 3
      Gdma.DMA350_CH_XTYPE_CONTINUE) 12 3 Gdma.DMA350_CH_YTYPE_DISABLE = 513 := by
  decide

theorem gdma_cmdlink_cfg2 (c : Config) (l : Gdma.Locals) (n p : Nat) :
    (Gdma.dsc_cmdlink c l n p).cfg 3 = 513
    ∧ (Gdma.dsc_cmdlink c l n p).cfg 8 = n % 65536 % 65536 + 65536 * (n % 65536 % 65536)
    ∧ (Gdma.dsc_cmdlink c l n p).cfg 12 =
        l.u16AddrSrcInc % 65536 + 65536 * (l.u16AddrDstInc % 65536) := by
  have h3 : ∀ (g : Gdma.dma350_cmdlink_gencfg_t) (a m : Nat) (e : Bool),
      (Gdma.dma350_cmdlink_set_linkaddr32
        (if e then Gdma.dma350_cmdlink_enable_intr g m
          else Gdma.dma350_cmdlink_disable_intr g m) a).cfg 3 = g.cfg 3
      ∧ (Gdma.dma350_cmdlink_set_linkaddr32
        (if e then Gdma.dma350_cmdlink_enable_intr g m
          else Gdma.dma350_cmdlink_disable_intr g m) a).cfg 8 = g.cfg 8
      ∧ (Gdma.dma350_cmdlink_set_linkaddr32
        (if e then Gdma.dma350_cmdlink_enable_intr g m
          else Gdma.dma350_cmdlink_disable_intr g m) a).cfg 12 = g.cfg 12 := by
    intro g a m e
    cases e <;> exact ⟨rfl, rfl, rfl⟩
  unfold Gdma.dsc_cmdlink
  split <;> rename_i hp
  · have h := h3 (Gdma.dma350_cmdlink_enable_linkaddr
      (Gdma.dma350_cmdlink_set_xaddrinc
        (Gdma.dma350_cmdlink_set_ytype
          (Gdma.dma350_cmdlink_set_xtype
            (Gdma.dma350_cmdlink_set_transize
              (Gdma.dma350_cmdlink_set_xsize16
                (Gdma.dma350_cmdlink_set_src_des
                  (Gdma.dma350_cmdlink_set_regclear Gdma.dma350_cmdlink_init)
                  l.u32AddrSrc l.u32AddrDst n n) (n % 65536) (n % 65536))
              Gdma.DMA350_CH_TRANSIZE_16BITS) Gdma.DMA350_CH_XTYPE_CONTINUE)
          Gdma.DMA350_CH_YTYPE_DISABLE) l.u16AddrSrcInc l.u16AddrDstInc))
      (Gdma.ptrVal c s_head) Gdma.DMA350_CH_INTREN_DONE true
    refine ⟨h.1.trans ?_, h.2.1.trans ?_, h.2.2.trans ?_⟩
    · exact Eq.trans (by rfl) gdma_ctrl_value
    · rfl
    · rfl
  · have h := h3 (Gdma.dma350_cmdlink_enable_linkaddr
      (Gdma.dma350_cmdlink_set_xaddrinc
        (Gdma.dma350_cmdlink_set_ytype
          (Gdma.dma350_cmdlink_set_xtype
            (Gdma.dma350_cmdlink_set_transize
              (Gdma.dma350_cmdlink_set_xsize16
                (Gdma.dma350_cmdlink_set_src_des
                  (Gdma.dma350_cmdlink_set_regclear Gdma.dma350_cmdlink_init)
                  l.u32AddrSrc l.u32AddrDst n n) (n % 65536) (n % 65536))
              Gdma.DMA350_CH_TRANSIZE_16BITS) Gdma.DMA350_CH_XTYPE_CONTINUE)
          Gdma.DMA350_CH_YTYPE_DISABLE) l.u16AddrSrcInc l.u16AddrDstInc))
      (Gdma.ptrVal c (p + 1)) Gdma.DMA350_CH_INTREN_DONE false
    refine ⟨h.1.trans ?_, h.2.1.trans ?_, h.2.2.trans ?_⟩
    · exact Eq.trans (by rfl) gdma_ctrl_value
    · rfl
    · rfl

theorem gdma_fieldPos_built2 :
    Gdma.fieldPos Gdma.builtHeader Gdma.bitCTRL = 2
    ∧ Gdma.fieldPos Gdma.builtHeader Gdma.bitXSIZE = 5
    ∧ Gdma.fieldPos Gdma.builtHeader Gdma.bitXADDRINC = 6
    ∧ Gdma.hdrBit Gdma.builtHeader Gdma.bitXSIZEHI = false := by
  decide

theorem half_words (a b : Nat) :
    (a % 65536 + 65536 * (b % 65536)) % 65536 = a % 65536
    ∧ (a % 65536 + 65536 * (b % 65536)) / 65536 % 65536 = b % 65536 := by
  omega

/-- The counts, increments and unit width of a command buffer written by the inner loop
of `disp_gdma_dsc_init`. -/
theorem gdma_lineCmd_fields2 (c : Config) (evV : E_VSTAGE) (evH : E_HSTAGE) (pu p : Nat)
    (old : Gdma.S_CMDBUF) :
    Gdma.srcCount (Gdma.lineCmd c evV evH pu p old) = s_au32HTiming c evH % 65536
    ∧ Gdma.desCount (Gdma.lineCmd c evV evH pu p old) = s_au32HTiming c evH % 65536
    ∧ Gdma.srcInc (Gdma.lineCmd c evV evH pu p old)
        = (Gdma.dsc_switch c evV evH pu).u16AddrSrcInc % 65536
    ∧ Gdma.desInc (Gdma.lineCmd c evV evH pu p old)
        = (Gdma.dsc_switch c evV evH pu).u16AddrDstInc % 65536
    ∧ Gdma.transize (Gdma.lineCmd c evV evH pu p old) = Gdma.DMA350_CH_TRANSIZE_16BITS := by
  have hw := gdma_generate_words
    (Gdma.dsc_cmdlink c (Gdma.dsc_switch c evV evH pu) (s_au32HTiming c evH) p) old.m_cmdbuf
    (gdma_cmdlink_header c _ _ p)
  have hc := gdma_cmdlink_cfg2 c (Gdma.dsc_switch c evV evH pu) (s_au32HTiming c evH) p
  have h0 : (Gdma.lineCmd c evV evH pu p old).m_cmdbuf 0 = Gdma.builtHeader := hw.1
  have h2 : (Gdma.lineCmd c evV evH pu p old).m_cmdbuf 2 = 513 := hw.2.2.1.trans hc.1
  have h5 : (Gdma.lineCmd c evV evH pu p old).m_cmdbuf 5 = _ := hw.2.2.2.2.2.1.trans hc.2.1
  have h6 : (Gdma.lineCmd c evV evH pu p old).m_cmdbuf 6 = _ :=
    hw.2.2.2.2.2.2.1.trans hc.2.2
  refine ⟨?_, ?_, ?_, ?_, ?_⟩
  · unfold Gdma.srcCount
    rw [h0, gdma_fieldPos_built2.2.1, h5, (half_words _ _).1, Nat.mod_mod]
  · unfold Gdma.desCount
    rw [h0, gdma_fieldPos_built2.2.1, h5, (half_words _ _).2, Nat.mod_mod]
  · unfold Gdma.srcInc
    rw [h0, gdma_fieldPos_built2.2.2.1, h6, (half_words _ _).1]
  · unfold Gdma.desInc
    rw [h0, gdma_fieldPos_built2.2.2.1, h6, (half_words _ _).2]
  · unfold Gdma.transize
    rw [h0, gdma_fieldPos_built2.1, h2]
    rfl

theorem gdma_built_counts (c : Config) (s : DispState Gdma.S_CMDBUF)
    (hlen : s.s_sDscLCD.length = dscSlots c) (i : Nat) (h : E_HSTAGE)
    (hi : i < DEF_TOTAL_VLINES c) :
    Gdma.srcCount ((Gdma.disp_gdma_dsc_init c s).s_sDscLCD.getD (slotOf i h) Gdma.S_CMDBUF.zero)
      = s_au32HTiming c h % 65536
    ∧ Gdma.desCount
        ((Gdma.disp_gdma_dsc_init c s).s_sDscLCD.getD (slotOf i h) Gdma.S_CMDBUF.zero)
      = s_au32HTiming c h % 65536
    ∧ Gdma.srcInc ((Gdma.disp_gdma_dsc_init c s).s_sDscLCD.getD (slotOf i h) Gdma.S_CMDBUF.zero)
      = (Gdma.dsc_switch c (Gdma.vs c i) h
          (lineBuf c (Gdma.vs c) s.s_pu16BufAddr i)).u16AddrSrcInc % 65536
    ∧ Gdma.desInc ((Gdma.disp_gdma_dsc_init c s).s_sDscLCD.getD (slotOf i h) Gdma.S_CMDBUF.zero)
      = (Gdma.dsc_switch c (Gdma.vs c i) h
          (lineBuf c (Gdma.vs c) s.s_pu16BufAddr i)).u16AddrDstInc % 65536
    ∧ Gdma.transize
        ((Gdma.disp_gdma_dsc_init c s).s_sDscLCD.getD (slotOf i h) Gdma.S_CMDBUF.zero)
      = Gdma.DMA350_CH_TRANSIZE_16BITS := by
  rw [gdma_built_get c s hlen _ (slotOf_lt c i h hi)]
  have e : Gdma.builtCmd c s.s_pu16BufAddr (slotOf i h)
      (s.s_sDscLCD.getD (slotOf i h) Gdma.S_CMDBUF.zero)
      = Gdma.lineCmd c (Gdma.vs c i) h (lineBuf c (Gdma.vs c) s.s_pu16BufAddr i) (slotOf i h)
        (s.s_sDscLCD.getD (slotOf i h) Gdma.S_CMDBUF.zero) := by
    unfold Gdma.builtCmd
    rw [(slotOf_div i h).1, (slotOf_div i h).2]
  rw [e]
  exact gdma_lineCmd_fields2 c _ h _ _ _

theorem pdma_switch_memctrl (c : Config) (V : E_VSTAGE) (h : E_HSTAGE) (pu : Nat) :
    (Pdma.dsc_switch c V h pu).evMemCtrl =
      if V = .evVStageVACT ∧ h = .evHStageHACT then .eMemCtl_SrcInc_DstFix
      else .eMemCtl_SrcFix_DstFix := by
  cases V <;> cases h <;> simp [Pdma.dsc_switch]

theorem gdma_switch_inc (c : Config) (V : E_VSTAGE) (h : E_HSTAGE) (pu : Nat) :
    (Gdma.dsc_switch c V h pu).u16AddrSrcInc =
      (if V = .evVStageVACT ∧ h = .evHStageHACT then 1 else 0)
    ∧ (Gdma.dsc_switch c V h pu).u16AddrDstInc = 0 := by
  cases V <;> cases h <;> simp [Gdma.dsc_switch]

theorem map_getD_range {α : Type} (l : List α) (d : α) :
    (List.range l.length).map (fun k => l.getD k d) = l := by
  apply List.ext_getElem
  · simp
  · intro n h1 h2
    simp [List.getD_eq_getElem?_getD, List.getElem?_eq_getElem h2]

theorem pdma_built_ringCount (c : Config) (s : DispState Pdma.DSCT_T)
    (hlen : s.s_sDscLCD.length = dscSlots c) :
    Pdma.ringCount (Pdma.disp_pdma_dsc_init c s).s_sDscLCD
      = (c.CONFIG_TIMING_HFP + c.CONFIG_TIMING_HPW + c.CONFIG_TIMING_HBP + c.CONFIG_TIMING_HACT)
        * DEF_TOTAL_VLINES c := by
  unfold Pdma.ringCount
  have hl : (Pdma.disp_pdma_dsc_init c s).s_sDscLCD.length = 4 * DEF_TOTAL_VLINES c := by
    rw [pdma_built_length, hlen]
    simp only [dscSlots, evHStageCNT]
  rw [← map_getD_range (Pdma.disp_pdma_dsc_init c s).s_sDscLCD Pdma.DSCT_T.zero, List.map_map,
    hl]
  have key : ∀ n, n ≤ DEF_TOTAL_VLINES c →
      ((List.range (4 * n)).map ((fun d : Pdma.DSCT_T => d.CTL.TXCNT) ∘
        (fun k => (Pdma.disp_pdma_dsc_init c s).s_sDscLCD.getD k Pdma.DSCT_T.zero))).sum
      = (c.CONFIG_TIMING_HFP + c.CONFIG_TIMING_HPW + c.CONFIG_TIMING_HBP
          + c.CONFIG_TIMING_HACT) * n := by
    intro n hn
    induction n with
    | zero => rfl
    | succ n ih =>
      have e : 4 * (n + 1) = 4 * n + 1 + 1 + 1 + 1 := by omega
      have hi : n < DEF_TOTAL_VLINES c := by omega
      have h0 := (pdma_built_ctl c s hlen n .evHStageHFP hi).1
      have h1 := (pdma_built_ctl c s hlen n .evHStageHSYNC hi).1
      have h2 := (pdma_built_ctl c s hlen n .evHStageHBP hi).1
      have h3 := (pdma_built_ctl c s hlen n .evHStageHACT hi).1
      simp only [slotOf, evHStageCNT, E_HSTAGE.val, Nat.add_zero, s_au32HTiming] at h0 h1 h2 h3
      rw [e, List.sum_range_succ, List.sum_range_succ, List.sum_range_succ,
        List.sum_range_succ, ih (by omega)]
      simp only [Function.comp_apply]
      rw [h0, h1, h2, h3]
      ring
  exact key _ (Nat.le_refl _)

theorem gdma_built_ringCount (c : Config) (s : DispState Gdma.S_CMDBUF)
    (hlen : s.s_sDscLCD.length = dscSlots c) :
    Gdma.ringCount (Gdma.disp_gdma_dsc_init c s).s_sDscLCD
      = (c.CONFIG_TIMING_HFP % 65536 + c.CONFIG_TIMING_HPW % 65536
          + c.CONFIG_TIMING_HBP % 65536 + c.CONFIG_TIMING_HACT % 65536)
        * DEF_TOTAL_VLINES c := by
  unfold Gdma.ringCount
  have hl : (Gdma.disp_gdma_dsc_init c s).s_sDscLCD.length = 4 * DEF_TOTAL_VLINES c := by
    rw [gdma_built_length, hlen]
    simp only [dscSlots, evHStageCNT]
  rw [← map_getD_range (Gdma.disp_gdma_dsc_init c s).s_sDscLCD Gdma.S_CMDBUF.zero, List.map_map,
    hl]
  have key : ∀ n, n ≤ DEF_TOTAL_VLINES c →
      ((List.range (4 * n)).map (Gdma.srcCount ∘
        (fun k => (Gdma.disp_gdma_dsc_init c s).s_sDscLCD.getD k Gdma.S_CMDBUF.zero))).sum
      = (c.CONFIG_TIMING_HFP % 65536 + c.CONFIG_TIMING_HPW % 65536
          + c.CONFIG_TIMING_HBP % 65536 + c.CONFIG_TIMING_HACT % 65536) * n := by
    intro n hn
    induction n with
    | zero => rfl
    | succ n ih =>
      have e : 4 * (n + 1) = 4 * n + 1 + 1 + 1 + 1 := by omega
      have hi : n < DEF_TOTAL_VLINES c := by omega
      have h0 := (gdma_built_counts c s hlen n .evHStageHFP hi).1
      have h1 := (gdma_built_counts c s hlen n .evHStageHSYNC hi).1
      have h2 := (gdma_built_counts c s hlen n .evHStageHBP hi).1
      have h3 := (gdma_built_counts c s hlen n .evHStageHACT hi).1
      simp only [slotOf, evHStageCNT, E_HSTAGE.val, Nat.add_zero, s_au32HTiming] at h0 h1 h2 h3
      rw [e, List.sum_range_succ, List.sum_range_succ, List.sum_range_succ,
        List.sum_range_succ, ih (by omega)]
      simp only [Function.comp_apply]
      rw [h0, h1, h2, h3]
      ring
  exact key _ (Nat.le_refl _)

/-- C18 (amended): in the chain that either builder leaves on the statically sized array
(sync configuration), for every scanline `i` in `[0, total)`, whatever its vertical stage, the
descriptors `4 * i`, `4 * i + 1`, `4 * i + 2`, `4 * i + 3` are those of the stages HFP, HSYNC,
HBP, HACT in that order: each carries the destination address of its stage and the
transfer count `HFP`, `HPW`, `HBP`, `HACT` respectively.  The GDMA command buffer holds the
count in the two 16-bit halves of `XSIZE` (no `XSIZEHI` word), so there the count is the
duration modulo `2^16`, the duration itself when it is below 65536 as in the shipped
table.  Hence every scanline transfers `HFP + HPW + HBP + HACT` units and one traversal of
the ring `(HFP + HPW + HBP + HACT) * (VFP + VPW + VBP + VACT)` units, `556 * 311` for the
shipped timing. -/
theorem C18_transfer_counts (c : Config) (sP : DispState Pdma.DSCT_T)
    (sG : DispState Gdma.S_CMDBUF)
    (hlenP : sP.s_sDscLCD.length = dscSlots c) (hlenG : sG.s_sDscLCD.length = dscSlots c) :
    (∀ i, slotOf i .evHStageHFP = 4 * i ∧ slotOf i .evHStageHSYNC = 4 * i + 1
        ∧ slotOf i .evHStageHBP = 4 * i + 2 ∧ slotOf i .evHStageHACT = 4 * i + 3)
    ∧ (s_au32HTiming c .evHStageHFP = c.CONFIG_TIMING_HFP
        ∧ s_au32HTiming c .evHStageHSYNC = c.CONFIG_TIMING_HPW
        ∧ s_au32HTiming c .evHStageHBP = c.CONFIG_TIMING_HBP
        ∧ s_au32HTiming c .evHStageHACT = c.CONFIG_TIMING_HACT)
    ∧ (∀ i h, i < DEF_TOTAL_VLINES c →
        ((Pdma.disp_pdma_dsc_init c sP).s_sDscLCD.getD (slotOf i h) Pdma.DSCT_T.zero).CTL.TXCNT
          = s_au32HTiming c h
        ∧ ((Pdma.disp_pdma_dsc_init c sP).s_sDscLCD.getD (slotOf i h) Pdma.DSCT_T.zero).DA
          = dstAddr c (Pdma.get_current_vstage c (i : Int)) h
        ∧ Gdma.srcCount
            ((Gdma.disp_gdma_dsc_init c sG).s_sDscLCD.getD (slotOf i h) Gdma.S_CMDBUF.zero)
          = s_au32HTiming c h % 65536
        ∧ Gdma.desCount
            ((Gdma.disp_gdma_dsc_init c sG).s_sDscLCD.getD (slotOf i h) Gdma.S_CMDBUF.zero)
          = s_au32HTiming c h % 65536
        ∧ (s_au32HTiming c h < 65536 →
            Gdma.srcCount
              ((Gdma.disp_gdma_dsc_init c sG).s_sDscLCD.getD (slotOf i h) Gdma.S_CMDBUF.zero)
              = s_au32HTiming c h)
        ∧ Gdma.hdrBit
            (((Gdma.disp_gdma_dsc_init c sG).s_sDscLCD.getD (slotOf i h)
              Gdma.S_CMDBUF.zero).m_cmdbuf 0) Gdma.bitXSIZEHI = false
        ∧ Gdma.desAddr
            ((Gdma.disp_gdma_dsc_init c sG).s_sDscLCD.getD (slotOf i h) Gdma.S_CMDBUF.zero)
          = dstAddr c (Gdma.get_current_vstage c (i : Int)) h)
    ∧ (∀ i, i < DEF_TOTAL_VLINES c →
        Pdma.lineCount (Pdma.disp_pdma_dsc_init c sP).s_sDscLCD i
          = c.CONFIG_TIMING_HFP + c.CONFIG_TIMING_HPW + c.CONFIG_TIMING_HBP
            + c.CONFIG_TIMING_HACT)
    ∧ ((∀ h, s_au32HTiming c h < 65536) → ∀ i, i < DEF_TOTAL_VLINES c →
        Gdma.lineCount (Gdma.disp_gdma_dsc_init c sG).s_sDscLCD i
          = c.CONFIG_TIMING_HFP + c.CONFIG_TIMING_HPW + c.CONFIG_TIMING_HBP
            + c.CONFIG_TIMING_HACT)
    ∧ Pdma.ringCount (Pdma.disp_pdma_dsc_init c sP).s_sDscLCD
        = (c.CONFIG_TIMING_HFP + c.CONFIG_TIMING_HPW + c.CONFIG_TIMING_HBP
            + c.CONFIG_TIMING_HACT)
          * (c.CONFIG_TIMING_VFP + c.CONFIG_TIMING_VPW + c.CONFIG_TIMING_VBP
            + c.CONFIG_TIMING_VACT)
    ∧ ((∀ h, s_au32HTiming c h < 65536) →
        Gdma.ringCount (Gdma.disp_gdma_dsc_init c sG).s_sDscLCD
          = (c.CONFIG_TIMING_HFP + c.CONFIG_TIMING_HPW + c.CONFIG_TIMING_HBP
              + c.CONFIG_TIMING_HACT)
            * (c.CONFIG_TIMING_VFP + c.CONFIG_TIMING_VPW + c.CONFIG_TIMING_VBP
              + c.CONFIG_TIMING_VACT))
    ∧ (∀ e m d a f,
        ((shipped e m d a f).CONFIG_TIMING_HFP + (shipped e m d a f).CONFIG_TIMING_HPW
          + (shipped e m d a f).CONFIG_TIMING_HBP + (shipped e m d a f).CONFIG_TIMING_HACT)
          * ((shipped e m d a f).CONFIG_TIMING_VFP + (shipped e m d a f).CONFIG_TIMING_VPW
            + (shipped e m d a f).CONFIG_TIMING_VBP + (shipped e m d a f).CONFIG_TIMING_VACT)
          = 556 * 311
        ∧ ∀ h, s_au32HTiming (shipped e m d a f) h < 65536) := by
  have htot : DEF_TOTAL_VLINES c = c.CONFIG_TIMING_VFP + c.CONFIG_TIMING_VPW
      + c.CONFIG_TIMING_VBP + c.CONFIG_TIMING_VACT := by
    unfold DEF_TOTAL_VLINES
    omega
  refine ⟨?_, ⟨rfl, rfl, rfl, rfl⟩, ?_, ?_, ?_, ?_, ?_, ?_⟩
  · intro i
    simp only [slotOf, evHStageCNT, E_HSTAGE.val, Nat.add_zero, and_self]
  · intro i h hi
    have hg := gdma_built_counts c sG hlenG i h hi
    refine ⟨(pdma_built_ctl c sP hlenP i h hi).1, ?_, hg.1, hg.2.1, ?_, ?_, ?_⟩
    · rw [(pdma_built_addrs c sP hlenP i h hi).2, pdma_switch_dst]
      rfl
    · intro hlt
      rw [hg.1, Nat.mod_eq_of_lt hlt]
    · rw [(gdma_built_addrs c sG hlenG i h hi).2.2]
      exact gdma_fieldPos_built2.2.2.2
    · rw [(gdma_built_addrs c sG hlenG i h hi).2.1, gdma_switch_dst]
      rfl
  · intro i hi
    unfold Pdma.lineCount hStages
    simp only [List.map_cons, List.map_nil, List.sum_cons, List.sum_nil]
    rw [(pdma_built_ctl c sP hlenP i .evHStageHFP hi).1,
      (pdma_built_ctl c sP hlenP i .evHStageHSYNC hi).1,
      (pdma_built_ctl c sP hlenP i .evHStageHBP hi).1,
      (pdma_built_ctl c sP hlenP i .evHStageHACT hi).1]
    simp only [s_au32HTiming]
    omega
  · intro hH i hi
    unfold Gdma.lineCount hStages
    simp only [List.map_cons, List.map_nil, List.sum_cons, List.sum_nil]
    rw [(gdma_built_counts c sG hlenG i .evHStageHFP hi).1,
      (gdma_built_counts c sG hlenG i .evHStageHSYNC hi).1,
      (gdma_built_counts c sG hlenG i .evHStageHBP hi).1,
      (gdma_built_counts c sG hlenG i .evHStageHACT hi).1,
      Nat.mod_eq_of_lt (hH .evHStageHFP), Nat.mod_eq_of_lt (hH .evHStageHSYNC),
      Nat.mod_eq_of_lt (hH .evHStageHBP), Nat.mod_eq_of_lt (hH .evHStageHACT)]
    simp only [s_au32HTiming]
    omega
  · rw [pdma_built_ringCount c sP hlenP, htot]
  · intro hH
    have h0 := hH .evHStageHFP
    have h1 := hH .evHStageHSYNC
    have h2 := hH .evHStageHBP
    have h3 := hH .evHStageHACT
    simp only [s_au32HTiming] at h0 h1 h2 h3
    rw [gdma_built_ringCount c sG hlenG, htot, Nat.mod_eq_of_lt h0, Nat.mod_eq_of_lt h1,
      Nat.mod_eq_of_lt h2, Nat.mod_eq_of_lt h3]
  · intro e m d a f
    refine ⟨?_, ?_⟩
    · simp only [shipped]
    · intro h
      cases h <;> simp only [s_au32HTiming, shipped] <;> decide

/-- Witness of C18 on the small timing table (durations 1, 1, 1, 3 for HFP, HPW, HBP, HACT
and 5 lines), from the start-up arrays: the HACT descriptor of line 2 carries the count
3 in both chains, and one traversal of the PDMA ring transfers `6 * 5` units. -/
theorem C18_transfer_counts_witness :
    (Pdma.startState tiny).s_sDscLCD.length = dscSlots tiny
    ∧ (Gdma.startState tiny).s_sDscLCD.length = dscSlots tiny
    ∧ ((Pdma.disp_pdma_dsc_init tiny (Pdma.startState tiny)).s_sDscLCD.getD
        (slotOf 2 .evHStageHACT) Pdma.DSCT_T.zero).CTL.TXCNT
        = s_au32HTiming tiny .evHStageHACT
    ∧ Gdma.srcCount ((Gdma.disp_gdma_dsc_init tiny (Gdma.startState tiny)).s_sDscLCD.getD
        (slotOf 2 .evHStageHACT) Gdma.S_CMDBUF.zero)
        = s_au32HTiming tiny .evHStageHACT
    ∧ Pdma.ringCount (Pdma.disp_pdma_dsc_init tiny (Pdma.startState tiny)).s_sDscLCD
        = (tiny.CONFIG_TIMING_HFP + tiny.CONFIG_TIMING_HPW + tiny.CONFIG_TIMING_HBP
            + tiny.CONFIG_TIMING_HACT)
          * (tiny.CONFIG_TIMING_VFP + tiny.CONFIG_TIMING_VPW + tiny.CONFIG_TIMING_VBP
            + tiny.CONFIG_TIMING_VACT) :=
  ⟨by decide, by decide,
    ((C18_transfer_counts tiny (Pdma.startState tiny) (Gdma.startState tiny)
      (by decide) (by decide)).2.2.1 2 .evHStageHACT (by decide)).1,
    ((C18_transfer_counts tiny (Pdma.startState tiny) (Gdma.startState tiny)
      (by decide) (by decide)).2.2.1 2 .evHStageHACT (by decide)).2.2.2.2.1 (by decide),
    (C18_transfer_counts tiny (Pdma.startState tiny) (Gdma.startState tiny)
      (by decide) (by decide)).2.2.2.2.2.1⟩

/-- C19: in the chain that either builder leaves on the statically sized array (sync
configuration), the descriptor of scanline `i` and horizontal stage `h` has the
source-increment policy set if and only if `get_current_vstage(i)` is the vertical Active
stage and `h` is the horizontal Active stage; every other descriptor reads from the fixed
dummy word `&s_u32DummyData` with source increment 0; every descriptor has the destination
fixed (increment 0) and the 16-bit transfer unit.  The descriptors with the increment set
are the horizontal-Active ones of the active scanlines, and (the line count fitting the
`int` line index) the one of active scanline `j` reads from the frame buffer at
`B + j * HACT * 2` modulo `2^32`. -/
theorem C19_increment_policy (c : Config) (sP : DispState Pdma.DSCT_T)
    (sG : DispState Gdma.S_CMDBUF)
    (hlenP : sP.s_sDscLCD.length = dscSlots c) (hlenG : sG.s_sDscLCD.length = dscSlots c) :
    (∀ i h, i < DEF_TOTAL_VLINES c →
        (((Pdma.disp_pdma_dsc_init c sP).s_sDscLCD.getD (slotOf i h)
            Pdma.DSCT_T.zero).CTL.memctrl = .eMemCtl_SrcInc_DstFix
          ↔ (Pdma.get_current_vstage c (i : Int) = .evVStageVACT ∧ h = .evHStageHACT))
        ∧ (¬ (Pdma.get_current_vstage c (i : Int) = .evVStageVACT ∧ h = .evHStageHACT) →
            ((Pdma.disp_pdma_dsc_init c sP).s_sDscLCD.getD (slotOf i h) Pdma.DSCT_T.zero).SA
              = c.addr_s_u32DummyData
            ∧ ((Pdma.disp_pdma_dsc_init c sP).s_sDscLCD.getD (slotOf i h)
                Pdma.DSCT_T.zero).CTL.memctrl = .eMemCtl_SrcFix_DstFix)
        ∧ (((Pdma.disp_pdma_dsc_init c sP).s_sDscLCD.getD (slotOf i h)
              Pdma.DSCT_T.zero).CTL.memctrl = .eMemCtl_SrcFix_DstFix
            ∨ ((Pdma.disp_pdma_dsc_init c sP).s_sDscLCD.getD (slotOf i h)
              Pdma.DSCT_T.zero).CTL.memctrl = .eMemCtl_SrcInc_DstFix)
        ∧ ((Pdma.disp_pdma_dsc_init c sP).s_sDscLCD.getD (slotOf i h)
            Pdma.DSCT_T.zero).CTL.TXWIDTH = 16)
    ∧ (∀ i h, i < DEF_TOTAL_VLINES c →
        (Gdma.srcInc ((Gdma.disp_gdma_dsc_init c sG).s_sDscLCD.getD (slotOf i h)
            Gdma.S_CMDBUF.zero) = 1
          ↔ (Gdma.get_current_vstage c (i : Int) = .evVStageVACT ∧ h = .evHStageHACT))
        ∧ (¬ (Gdma.get_current_vstage c (i : Int) = .evVStageVACT ∧ h = .evHStageHACT) →
            Gdma.srcAddr ((Gdma.disp_gdma_dsc_init c sG).s_sDscLCD.getD (slotOf i h)
              Gdma.S_CMDBUF.zero) = c.addr_s_u32DummyData
            ∧ Gdma.srcInc ((Gdma.disp_gdma_dsc_init c sG).s_sDscLCD.getD (slotOf i h)
              Gdma.S_CMDBUF.zero) = 0)
        ∧ Gdma.desInc ((Gdma.disp_gdma_dsc_init c sG).s_sDscLCD.getD (slotOf i h)
            Gdma.S_CMDBUF.zero) = 0
        ∧ Gdma.transize ((Gdma.disp_gdma_dsc_init c sG).s_sDscLCD.getD (slotOf i h)
            Gdma.S_CMDBUF.zero) = Gdma.DMA350_CH_TRANSIZE_16BITS)
    ∧ (DEF_TOTAL_VLINES c < 2147483648 → ∀ j, j < c.CONFIG_TIMING_VACT →
        Pdma.get_current_vstage c ((DEF_VACT_INDEX c + j : Nat) : Int) = .evVStageVACT
        ∧ Gdma.get_current_vstage c ((DEF_VACT_INDEX c + j : Nat) : Int) = .evVStageVACT
        ∧ ((Pdma.disp_pdma_dsc_init c sP).s_sDscLCD.getD
            (slotOf (DEF_VACT_INDEX c + j) .evHStageHACT) Pdma.DSCT_T.zero).SA
          = (sP.s_pu16BufAddr + j * c.CONFIG_TIMING_HACT * 2) % 4294967296
        ∧ Gdma.srcAddr ((Gdma.disp_gdma_dsc_init c sG).s_sDscLCD.getD
            (slotOf (DEF_VACT_INDEX c + j) .evHStageHACT) Gdma.S_CMDBUF.zero)
          = (sG.s_pu16BufAddr + j * c.CONFIG_TIMING_HACT * 2) % 4294967296) := by
  refine ⟨?_, ?_, ?_⟩
  · intro i h hi
    have hc := pdma_built_ctl c sP hlenP i h hi
    have hm := pdma_switch_memctrl c (Pdma.vs c i) h (lineBuf c (Pdma.vs c) sP.s_pu16BufAddr i)
    have hv : Pdma.get_current_vstage c (i : Int) = Pdma.vs c i := rfl
    rw [hv, hc.2.2, hc.2.1, (pdma_built_addrs c sP hlenP i h hi).1, pdma_switch_src, hm]
    by_cases hA : Pdma.vs c i = .evVStageVACT ∧ h = .evHStageHACT
    · simp [hA]
    · simp [hA]
  · intro i h hi
    have hg := gdma_built_counts c sG hlenG i h hi
    have hs := gdma_switch_inc c (Gdma.vs c i) h (lineBuf c (Gdma.vs c) sG.s_pu16BufAddr i)
    have hv : Gdma.get_current_vstage c (i : Int) = Gdma.vs c i := rfl
    rw [hv, hg.2.2.1, hg.2.2.2.1, hg.2.2.2.2, (gdma_built_addrs c sG hlenG i h hi).1,
      gdma_switch_src, hs.1, hs.2]
    by_cases hA : Gdma.vs c i = .evVStageVACT ∧ h = .evHStageHACT
    · simp [hA]
    · simp [hA]
  · intro hint j hj
    have hi : DEF_VACT_INDEX c + j < DEF_TOTAL_VLINES c := by
      unfold DEF_VACT_INDEX DEF_TOTAL_VLINES
      omega
    exact ⟨(pdma_vs_vact c hint _ hi).mpr (by omega), (gdma_vs_vact c hint _ hi).mpr (by omega),
      pdma_built_active_src c sP hlenP hint j hj, gdma_built_active_src c sG hlenG hint j hj⟩

/-- Witness of C19 on the small timing table from the start-up arrays: the HSYNC
descriptor of the active line 3 reads from the dummy word in both chains, all with the
16-bit unit. -/
theorem C19_increment_policy_witness :
    (Pdma.startState tiny).s_sDscLCD.length = dscSlots tiny
    ∧ (Gdma.startState tiny).s_sDscLCD.length = dscSlots tiny
    ∧ ¬ (Pdma.get_current_vstage tiny ((3 : Nat) : Int) = .evVStageVACT
        ∧ E_HSTAGE.evHStageHSYNC = .evHStageHACT)
    ∧ ((Pdma.disp_pdma_dsc_init tiny (Pdma.startState tiny)).s_sDscLCD.getD
        (slotOf 3 .evHStageHSYNC) Pdma.DSCT_T.zero).SA = tiny.addr_s_u32DummyData
    ∧ Gdma.srcAddr ((Gdma.disp_gdma_dsc_init tiny (Gdma.startState tiny)).s_sDscLCD.getD
        (slotOf 3 .evHStageHSYNC) Gdma.S_CMDBUF.zero) = tiny.addr_s_u32DummyData
    ∧ Gdma.transize ((Gdma.disp_gdma_dsc_init tiny (Gdma.startState tiny)).s_sDscLCD.getD
        (slotOf 3 .evHStageHSYNC) Gdma.S_CMDBUF.zero) = Gdma.DMA350_CH_TRANSIZE_16BITS :=
  ⟨by decide, by decide, by decide,
    (((C19_increment_policy tiny (Pdma.startState tiny) (Gdma.startState tiny)
      (by decide) (by decide)).1 3 .evHStageHSYNC (by decide)).2.1 (by decide)).1,
    (((C19_increment_policy tiny (Pdma.startState tiny) (Gdma.startState tiny)
      (by decide) (by decide)).2.1 3 .evHStageHSYNC (by decide)).2.1 (by decide)).1,
    ((C19_increment_policy tiny (Pdma.startState tiny) (Gdma.startState tiny)
      (by decide) (by decide)).2.1 3 .evHStageHSYNC (by decide)).2.2.2⟩

/-! ## The two backends side by side -/

theorem vstage_loop_eq (c : Config) (x : Int) (l : List E_VSTAGE) (sum : Int) :
    Gdma.get_current_vstage_loop c x l sum = Pdma.get_current_vstage_loop c x l sum := by
  induction l generalizing sum with
  | nil => rfl
  | cons i rest ih =>
    simp only [Gdma.get_current_vstage_loop, Pdma.get_current_vstage_loop, ih]

theorem vstage_eq (c : Config) (x : Int) :
    Gdma.get_current_vstage c x = Pdma.get_current_vstage c x :=
  vstage_loop_eq c x vStages 0

theorem vs_eq (c : Config) : Gdma.vs c = Pdma.vs c := by
  funext n
  exact vstage_eq c (n : Int)

theorem pdma_hloop_take_buf (c : Config) (V : E_VSTAGE) (evH : E_HSTAGE)
    (st : Pdma.BuildState) :
    (Pdma.dsc_init_hloop c V (hStages.take evH.val) st).pu16Buf = st.pu16Buf := by
  cases V <;> cases evH <;> rfl

theorem gdma_hloop_take_buf (c : Config) (V : E_VSTAGE) (evH : E_HSTAGE)
    (st : Gdma.BuildState) :
    (Gdma.dsc_init_hloop c V (hStages.take evH.val) st).pu16Buf = st.pu16Buf := by
  cases V <;> cases evH <;> rfl

theorem pdma_stateAt (c : Config) (a0 : List Pdma.DSCT_T) (B i : Nat) (evH : E_HSTAGE) :
    (Pdma.stateAt c a0 B i evH).next = slotOf i evH
    ∧ (Pdma.stateAt c a0 B i evH).pu16Buf = lineBuf c (Pdma.vs c) B i := by
  unfold Pdma.stateAt
  refine ⟨?_, ?_⟩
  · rw [pdma_hloop_next, pdma_vloop_next, hStages_take_length]
    simp only [s_head, slotOf, evHStageCNT]
    omega
  · rw [pdma_hloop_take_buf, pdma_vloop_buf]

theorem gdma_stateAt (c : Config) (g0 : List Gdma.S_CMDBUF) (B i : Nat) (evH : E_HSTAGE) :
    (Gdma.stateAt c g0 B i evH).next = slotOf i evH
    ∧ (Gdma.stateAt c g0 B i evH).pu16Buf = lineBuf c (Pdma.vs c) B i := by
  unfold Gdma.stateAt
  refine ⟨?_, ?_⟩
  · rw [gdma_hloop_next, gdma_vloop_next, hStages_take_length]
    simp only [s_head, slotOf, evHStageCNT]
    omega
  · rw [gdma_hloop_take_buf, gdma_vloop_buf, vs_eq]

theorem LogicalDsc_ext (a b : LogicalDsc) (h1 : a.src = b.src) (h2 : a.dst = b.dst)
    (h3 : a.count = b.count) (h4 : a.srcInc = b.srcInc) (h5 : a.link = b.link)
    (h6 : a.intr = b.intr) : a = b := by
  cases a
  cases b
  simp_all

theorem pdma_handedArgs_proj (c : Config) (V : E_VSTAGE) (h : E_HSTAGE) (st : Pdma.BuildState) :
    (Pdma.handedArgs c V h st).src = (Pdma.dsc_switch c V h st.pu16Buf).u32AddrSrc
    ∧ (Pdma.handedArgs c V h st).dst = (Pdma.dsc_switch c V h st.pu16Buf).u32AddrDst
    ∧ (Pdma.handedArgs c V h st).count = s_au32HTiming c h
    ∧ (Pdma.handedArgs c V h st).srcInc
        = decide ((Pdma.dsc_switch c V h st.pu16Buf).evMemCtrl = .eMemCtl_SrcInc_DstFix)
    ∧ (Pdma.handedArgs c V h st).link = st.next + 1
    ∧ (Pdma.handedArgs c V h st).intr = false :=
  ⟨rfl, rfl, rfl, rfl, rfl, rfl⟩

theorem gdma_handedArgs_proj (c : Config) (V : E_VSTAGE) (h : E_HSTAGE) (st : Gdma.BuildState) :
    (Gdma.handedArgs c V h st).src = (Gdma.dsc_switch c V h st.pu16Buf).u32AddrSrc
    ∧ (Gdma.handedArgs c V h st).dst = (Gdma.dsc_switch c V h st.pu16Buf).u32AddrDst
    ∧ (Gdma.handedArgs c V h st).count = s_au32HTiming c h
    ∧ (Gdma.handedArgs c V h st).srcInc
        = decide ((Gdma.dsc_switch c V h st.pu16Buf).u16AddrSrcInc ≠ 0)
    ∧ (Gdma.handedArgs c V h st).link = (if st.next = s_end c then s_head else st.next + 1)
    ∧ (Gdma.handedArgs c V h st).intr = decide (st.next = s_end c) :=
  ⟨rfl, rfl, rfl, rfl, rfl, rfl⟩

theorem pdma_handed_fields (c : Config) (a0 : List Pdma.DSCT_T) (B i : Nat) (h : E_HSTAGE) :
    (Pdma.handed c a0 B i h).src =
        (if Pdma.vs c i = .evVStageVACT ∧ h = .evHStageHACT then
          lineBuf c (Pdma.vs c) B i % 4294967296 else c.addr_s_u32DummyData)
    ∧ (Pdma.handed c a0 B i h).dst = dstAddr c (Pdma.vs c i) h
    ∧ (Pdma.handed c a0 B i h).count = s_au32HTiming c h
    ∧ (Pdma.handed c a0 B i h).srcInc
        = decide (Pdma.vs c i = .evVStageVACT ∧ h = .evHStageHACT)
    ∧ (Pdma.handed c a0 B i h).link = slotOf i h + 1
    ∧ (Pdma.handed c a0 B i h).intr = false := by
  have hs := pdma_stateAt c a0 B i h
  have hp := pdma_handedArgs_proj c (Pdma.vs c i) h (Pdma.stateAt c a0 B i h)
  have e : Pdma.handed c a0 B i h
      = Pdma.handedArgs c (Pdma.vs c i) h (Pdma.stateAt c a0 B i h) := rfl
  rw [e, hp.1, hp.2.1, hp.2.2.1, hp.2.2.2.1, hp.2.2.2.2.1, hp.2.2.2.2.2, hs.1, hs.2,
    pdma_switch_src, pdma_switch_dst, pdma_switch_memctrl]
  refine ⟨rfl, rfl, rfl, ?_, rfl, rfl⟩
  by_cases hA : Pdma.vs c i = .evVStageVACT ∧ h = .evHStageHACT
  · rw [if_pos hA, decide_eq_true hA]
    rfl
  · rw [if_neg hA, decide_eq_false hA]
    rfl

theorem gdma_handed_fields (c : Config) (g0 : List Gdma.S_CMDBUF) (B i : Nat) (h : E_HSTAGE) :
    (Gdma.handed c g0 B i h).src =
        (if Pdma.vs c i = .evVStageVACT ∧ h = .evHStageHACT then
          lineBuf c (Pdma.vs c) B i % 4294967296 else c.addr_s_u32DummyData)
    ∧ (Gdma.handed c g0 B i h).dst = dstAddr c (Pdma.vs c i) h
    ∧ (Gdma.handed c g0 B i h).count = s_au32HTiming c h
    ∧ (Gdma.handed c g0 B i h).srcInc
        = decide (Pdma.vs c i = .evVStageVACT ∧ h = .evHStageHACT)
    ∧ (Gdma.handed c g0 B i h).link
        = (if slotOf i h = s_end c then s_head else slotOf i h + 1)
    ∧ (Gdma.handed c g0 B i h).intr = decide (slotOf i h = s_end c) := by
  have hs := gdma_stateAt c g0 B i h
  have hp := gdma_handedArgs_proj c (Pdma.vs c i) h (Gdma.stateAt c g0 B i h)
  have e : Gdma.handed c g0 B i h
      = Gdma.handedArgs c (Pdma.vs c i) h (Gdma.stateAt c g0 B i h) := by
    unfold Gdma.handed
    rw [vstage_eq]
    rfl
  rw [e, hp.1, hp.2.1, hp.2.2.1, hp.2.2.2.1, hp.2.2.2.2.1, hp.2.2.2.2.2, hs.1, hs.2,
    gdma_switch_src, gdma_switch_dst, (gdma_switch_inc c _ _ _).1]
  refine ⟨rfl, rfl, rfl, ?_, rfl, rfl⟩
  by_cases hA : Pdma.vs c i = .evVStageVACT ∧ h = .evHStageHACT
  · rw [if_pos hA, decide_eq_true hA]
    rfl
  · rw [if_neg hA, decide_eq_false hA]
    rfl
theorem pdma_built_logical (c : Config) (s : DispState Pdma.DSCT_T)
    (hlen : s.s_sDscLCD.length = dscSlots c) (i : Nat) (h : E_HSTAGE)
    (hi : i < DEF_TOTAL_VLINES c) :
    (Pdma.logicalOf c
        ((Pdma.disp_pdma_dsc_init c s).s_sDscLCD.getD (slotOf i h) Pdma.DSCT_T.zero)).src =
        (if Pdma.vs c i = .evVStageVACT ∧ h = .evHStageHACT then
          lineBuf c (Pdma.vs c) s.s_pu16BufAddr i % 4294967296 else c.addr_s_u32DummyData)
    ∧ (Pdma.logicalOf c
        ((Pdma.disp_pdma_dsc_init c s).s_sDscLCD.getD (slotOf i h) Pdma.DSCT_T.zero)).dst
        = dstAddr c (Pdma.vs c i) h
    ∧ (Pdma.logicalOf c
        ((Pdma.disp_pdma_dsc_init c s).s_sDscLCD.getD (slotOf i h) Pdma.DSCT_T.zero)).count
        = s_au32HTiming c h
    ∧ (Pdma.logicalOf c
        ((Pdma.disp_pdma_dsc_init c s).s_sDscLCD.getD (slotOf i h) Pdma.DSCT_T.zero)).srcInc
        = decide (Pdma.vs c i = .evVStageVACT ∧ h = .evHStageHACT)
    ∧ (Pdma.logicalOf c
        ((Pdma.disp_pdma_dsc_init c s).s_sDscLCD.getD (slotOf i h) Pdma.DSCT_T.zero)).link
        = (if slotOf i h = s_end c then s_head else slotOf i h + 1)
    ∧ (Pdma.logicalOf c
        ((Pdma.disp_pdma_dsc_init c s).s_sDscLCD.getD (slotOf i h) Pdma.DSCT_T.zero)).intr
        = decide (slotOf i h = s_end c) := by
  have ha := pdma_built_addrs c s hlen i h hi
  have hc := pdma_built_ctl c s hlen i h hi
  have hd := pdma_built_getD c s hlen _ (slotOf_lt c i h hi)
  have hf := pdma_builtDsc_fields c s.s_pu16BufAddr (slotOf i h)
  rw [← hd] at hf
  unfold Pdma.logicalOf
  simp only [ha.1, ha.2, hc.1, hc.2.2, hf.1, hf.2.1, pdma_switch_src, pdma_switch_dst,
    pdma_switch_memctrl]
  refine ⟨trivial, trivial, trivial, ?_, ?_, ?_⟩
  · by_cases hA : Pdma.vs c i = .evVStageVACT ∧ h = .evHStageHACT
    · simp [hA]
    · simp [hA]
  · by_cases hk : slotOf i h = s_end c
    · rw [if_pos hk, if_pos hk, pdma_slotOfPtr_ptrVal]
    · rw [if_neg hk, if_neg hk, pdma_slotOfPtr_ptrVal]
  · by_cases hk : slotOf i h = s_end c
    · simp [hk]
    · simp [hk]

theorem pdma_body_encode (c : Config) (evV : E_VSTAGE) (evH : E_HSTAGE)
    (st : Pdma.BuildState) :
    Pdma.dsc_init_body c evV evH st =
      { dsc := st.dsc.set st.next (Pdma.encode c (Pdma.handedArgs c evV evH st))
        next := st.next + 1
        pu16Buf := (Pdma.dsc_switch c evV evH st.pu16Buf).pu16Buf } := by
  cases evV <;> cases evH <;> rfl

theorem gdma_inc_flag (c : Config) (evV : E_VSTAGE) (evH : E_HSTAGE) (pu : Nat) :
    (if decide ((Gdma.dsc_switch c evV evH pu).u16AddrSrcInc ≠ 0) = true then 1 else 0)
      = (Gdma.dsc_switch c evV evH pu).u16AddrSrcInc
    ∧ (Gdma.dsc_switch c evV evH pu).u16AddrDstInc = 0 := by
  cases evV <;> cases evH <;> exact ⟨rfl, rfl⟩

theorem gdma_cmdlink_encode (c : Config) (evV : E_VSTAGE) (evH : E_HSTAGE)
    (st : Gdma.BuildState) :
    Gdma.dsc_cmdlink c (Gdma.dsc_switch c evV evH st.pu16Buf) (s_au32HTiming c evH) st.next
      = Gdma.encodeCfg c (Gdma.handedArgs c evV evH st) := by
  have hp6 := gdma_handedArgs_proj c evV evH st
  have hi := gdma_inc_flag c evV evH st.pu16Buf
  unfold Gdma.dsc_cmdlink Gdma.encodeCfg
  simp only []
  rw [hp6.1, hp6.2.1, hp6.2.2.1, hp6.2.2.2.1, hp6.2.2.2.2.1, hp6.2.2.2.2.2, hi.1, hi.2]
  by_cases hp : st.next = s_end c
  · rw [if_pos hp, if_pos hp, decide_eq_true hp, if_pos rfl]
  · rw [if_neg hp, if_neg hp, decide_eq_false hp, if_neg (by decide)]

/-- C20, counterexample at the last position of the sequence on the small timing table
(5 lines, so scanline 4 and stage HACT, slot 19 = `s_end`): `disp_pdma_dsc_init` hands
`nu_pdma_m2m_desc_setup` the link `next + 1` (slot 20) and asks for no interrupt, as for
every other descriptor, whereas `disp_gdma_dsc_init` hands the command-link encoder the
link `s_head` (slot 0) with the interrupt enabled. -/
theorem C20_last_position_counterexample :
    slotOf 4 .evHStageHACT = s_end tiny
    ∧ (Pdma.handed tiny (Pdma.startState tiny).s_sDscLCD 536936448 4 .evHStageHACT).link = 20
    ∧ (Pdma.handed tiny (Pdma.startState tiny).s_sDscLCD 536936448 4 .evHStageHACT).intr
        = false
    ∧ (Gdma.handed tiny (Gdma.startState tiny).s_sDscLCD 536936448 4 .evHStageHACT).link = 0
    ∧ (Gdma.handed tiny (Gdma.startState tiny).s_sDscLCD 536936448 4 .evHStageHACT).intr
        = true
    ∧ Pdma.handed tiny (Pdma.startState tiny).s_sDscLCD 536936448 4 .evHStageHACT
        ≠ Gdma.handed tiny (Gdma.startState tiny).s_sDscLCD 536936448 4 .evHStageHACT := by
  have hP := pdma_handed_fields tiny (Pdma.startState tiny).s_sDscLCD 536936448 4 .evHStageHACT
  have hG := gdma_handed_fields tiny (Gdma.startState tiny).s_sDscLCD 536936448 4 .evHStageHACT
  have hk : slotOf 4 .evHStageHACT = s_end tiny := by decide
  refine ⟨hk, ?_, hP.2.2.2.2.2, ?_, ?_, ?_⟩
  · rw [hP.2.2.2.2.1]
    decide
  · rw [hG.2.2.2.2.1, if_pos hk]
    rfl
  · rw [hG.2.2.2.2.2, decide_eq_true hk]
  · intro h
    have h2 := congrArg LogicalDsc.intr h
    rw [hP.2.2.2.2.2, hG.2.2.2.2.2, decide_eq_true hk] at h2
    exact Bool.noConfusion h2

/-- C20 (amended): the two backends are logically identical in the sync configuration,
for the same timing table, frame-buffer base `B` and bus address.  The two
`get_current_vstage` functions are equal on every input.  The chain that
`disp_pdma_dsc_init` leaves in `s_sDscLCD` (after its two stores through `s_end`) holds,
position by position, the logical descriptor (source address, destination address,
transfer count, source-increment flag, link target slot, interrupt flag) that
`disp_gdma_dsc_init` hands to the command-link encoder.  The logical descriptors handed
to the two encoders are equal at every position but the last, where they agree on
source, destination, count and increment flag, and where `nu_pdma_m2m_desc_setup` is
handed the link `next + 1` and no interrupt (the stores through `s_end` then set the link
to `s_head` and enable the interrupt) while the command-link encoder is handed the link
`s_head` and the interrupt.  The handed descriptors are the ones the loop bodies pass to
the encoders. -/
theorem C20_backends_agree (c : Config) (sP : DispState Pdma.DSCT_T)
    (g0 : List Gdma.S_CMDBUF) (hlenP : sP.s_sDscLCD.length = dscSlots c) :
    (∀ x : Int, Gdma.get_current_vstage c x = Pdma.get_current_vstage c x)
    ∧ (∀ i h, i < DEF_TOTAL_VLINES c →
        Pdma.logicalOf c
          ((Pdma.disp_pdma_dsc_init c sP).s_sDscLCD.getD (slotOf i h) Pdma.DSCT_T.zero)
          = Gdma.handed c g0 sP.s_pu16BufAddr i h)
    ∧ (∀ (a0 : List Pdma.DSCT_T) (B i : Nat) (h : E_HSTAGE), slotOf i h ≠ s_end c →
        Pdma.handed c a0 B i h = Gdma.handed c g0 B i h)
    ∧ (∀ (a0 : List Pdma.DSCT_T) (B i : Nat) (h : E_HSTAGE),
        (Pdma.handed c a0 B i h).src = (Gdma.handed c g0 B i h).src
        ∧ (Pdma.handed c a0 B i h).dst = (Gdma.handed c g0 B i h).dst
        ∧ (Pdma.handed c a0 B i h).count = (Gdma.handed c g0 B i h).count
        ∧ (Pdma.handed c a0 B i h).srcInc = (Gdma.handed c g0 B i h).srcInc)
    ∧ (∀ (a0 : List Pdma.DSCT_T) (B i : Nat) (h : E_HSTAGE), slotOf i h = s_end c →
        (Pdma.handed c a0 B i h).link = s_end c + 1
        ∧ (Pdma.handed c a0 B i h).intr = false
        ∧ (Gdma.handed c g0 B i h).link = s_head
        ∧ (Gdma.handed c g0 B i h).intr = true)
    ∧ (∀ (evV : E_VSTAGE) (evH : E_HSTAGE) (st : Pdma.BuildState),
        Pdma.dsc_init_body c evV evH st =
          { dsc := st.dsc.set st.next (Pdma.encode c (Pdma.handedArgs c evV evH st))
            next := st.next + 1
            pu16Buf := (Pdma.dsc_switch c evV evH st.pu16Buf).pu16Buf })
    ∧ (∀ (evV : E_VSTAGE) (evH : E_HSTAGE) (st : Gdma.BuildState),
        Gdma.dsc_cmdlink c (Gdma.dsc_switch c evV evH st.pu16Buf) (s_au32HTiming c evH) st.next
          = Gdma.encodeCfg c (Gdma.handedArgs c evV evH st)) := by
  refine ⟨vstage_eq c, ?_, ?_, ?_, ?_, pdma_body_encode c, gdma_cmdlink_encode c⟩
  · intro i h hi
    have hL := pdma_built_logical c sP hlenP i h hi
    have hG := gdma_handed_fields c g0 sP.s_pu16BufAddr i h
    exact LogicalDsc_ext _ _ (hL.1.trans hG.1.symm) (hL.2.1.trans hG.2.1.symm)
      (hL.2.2.1.trans hG.2.2.1.symm) (hL.2.2.2.1.trans hG.2.2.2.1.symm)
      (hL.2.2.2.2.1.trans hG.2.2.2.2.1.symm) (hL.2.2.2.2.2.trans hG.2.2.2.2.2.symm)
  · intro a0 B i h hk
    have hP := pdma_handed_fields c a0 B i h
    have hG := gdma_handed_fields c g0 B i h
    refine LogicalDsc_ext _ _ (hP.1.trans hG.1.symm) (hP.2.1.trans hG.2.1.symm)
      (hP.2.2.1.trans hG.2.2.1.symm) (hP.2.2.2.1.trans hG.2.2.2.1.symm) ?_ ?_
    · rw [hP.2.2.2.2.1, hG.2.2.2.2.1, if_neg hk]
    · rw [hP.2.2.2.2.2, hG.2.2.2.2.2, decide_eq_false hk]
  · intro a0 B i h
    have hP := pdma_handed_fields c a0 B i h
    have hG := gdma_handed_fields c g0 B i h
    exact ⟨hP.1.trans hG.1.symm, hP.2.1.trans hG.2.1.symm, hP.2.2.1.trans hG.2.2.1.symm,
      hP.2.2.2.1.trans hG.2.2.2.1.symm⟩
  · intro a0 B i h hk
    have hP := pdma_handed_fields c a0 B i h
    have hG := gdma_handed_fields c g0 B i h
    refine ⟨?_, hP.2.2.2.2.2, ?_, ?_⟩
    · rw [hP.2.2.2.2.1, hk]
    · rw [hG.2.2.2.2.1, if_pos hk]
    · rw [hG.2.2.2.2.2, decide_eq_true hk]

/-- Witness of C20 on the small timing table from the start-up arrays: the chain that
`disp_pdma_dsc_init` leaves holds at its last slot (scanline 4, stage HACT) the logical
descriptor that `disp_gdma_dsc_init` hands to the command-link encoder there. -/
theorem C20_backends_agree_witness :
    (Pdma.startState tiny).s_sDscLCD.length = dscSlots tiny
    ∧ Pdma.logicalOf tiny
        ((Pdma.disp_pdma_dsc_init tiny (Pdma.startState tiny)).s_sDscLCD.getD
          (slotOf 4 .evHStageHACT) Pdma.DSCT_T.zero)
        = Gdma.handed tiny (Gdma.startState tiny).s_sDscLCD
            (Pdma.startState tiny).s_pu16BufAddr 4 .evHStageHACT :=
  ⟨by decide,
    (C20_backends_agree tiny (Pdma.startState tiny) (Gdma.startState tiny).s_sDscLCD
      (by decide)).2.1 4 .evHStageHACT (by decide)⟩

/-! ## EPWM_ConfigOutputChannel -/

theorem epwm_loop (clk f : Nat) (n p : Nat) (hp : 1 ≤ p)
    (hex : ∃ p0, p ≤ p0 ∧ p0 < p + n ∧ clk / f / p0 < 65536) :
    p ≤ (Epwm.prescaleLoop clk f n p).1
    ∧ (Epwm.prescaleLoop clk f n p).1 < p + n
    ∧ clk / f / (Epwm.prescaleLoop clk f n p).1 < 65536
    ∧ (Epwm.prescaleLoop clk f n p).2 = clk / f / (Epwm.prescaleLoop clk f n p).1
    ∧ ∀ p', p ≤ p' → p' < (Epwm.prescaleLoop clk f n p).1 → ¬ clk / f / p' < 65536 := by
  induction n generalizing p with
  | zero =>
    obtain ⟨p0, h1, h2, _⟩ := hex
    omega
  | succ n ih =>
    by_cases hi : clk / f / p < 65536
    · have e : Epwm.prescaleLoop clk f (n + 1) p = (p, clk / f / p) := by
        rw [Epwm.prescaleLoop]
        simp only [hi, if_true]
      rw [e]
      refine ⟨le_refl _, by omega, hi, rfl, ?_⟩
      intro p' h1 h2
      have h3 : p' < p := h2
      omega
    · have e : Epwm.prescaleLoop clk f (n + 1) p = Epwm.prescaleLoop clk f n (p + 1) := by
        rw [Epwm.prescaleLoop]
        simp only [hi, if_false]
      rw [e]
      have hex' : ∃ p0, p + 1 ≤ p0 ∧ p0 < p + 1 + n ∧ clk / f / p0 < 65536 := by
        obtain ⟨p0, h1, h2, h3⟩ := hex
        refine ⟨p0, ?_, by omega, h3⟩
        by_contra hc
        have : p0 = p := by omega
        subst this
        exact hi h3
      have h := ih (p + 1) (by omega) hex'
      refine ⟨by omega, by omega, h.2.2.1, h.2.2.2.1, ?_⟩
      intro p' h1 h2
      by_cases e2 : p' = p
      · subst e2
        exact hi
      · exact h.2.2.2.2 p' (by omega) h2

theorem epwm_cnr_pos (q p : Nat) (hq : 1 ≤ q) (hp : 1 ≤ p)
    (hmin : ∀ p', 1 ≤ p' → p' < p → ¬ q / p' < 65536) : 1 ≤ q / p := by
  by_cases h1 : p = 1
  · subst h1
    simpa using hq
  · have h2 := hmin (p - 1) (by omega) (by omega)
    have h3 : 65536 ≤ q / (p - 1) := by omega
    have h4 : 65536 * (p - 1) ≤ q := by
      have := (Nat.le_div_iff_mul_le (by omega : 0 < p - 1)).mp h3
      omega
    exact (Nat.le_div_iff_mul_le (by omega : 0 < p)).mpr (by omega)

theorem epwm_ret_ge (clk f p : Nat) (hp : 1 ≤ p) (hc : 1 ≤ clk / f / p) :
    f ≤ clk / (p * (clk / f / p)) := by
  have h1 : clk / f / p * p ≤ clk / f := Nat.div_mul_le_self _ _
  have h2 : clk / f * f ≤ clk := Nat.div_mul_le_self _ _
  have h3 : 0 < p * (clk / f / p) := Nat.mul_pos (by omega) (by omega)
  rw [Nat.le_div_iff_mul_le h3]
  calc f * (p * (clk / f / p)) = (clk / f / p * p) * f := by ring
    _ ≤ clk / f * f := Nat.mul_le_mul_right _ h1
    _ ≤ clk := h2

theorem epwm_eval (clk f duty p cnr : Nat) (hr : Epwm.prescaleLoop clk f 4094 1 = (p, cnr))
    (hf : 1 ≤ f) (h1 : 1 ≤ p) (hp : p ≤ 4094) (hc : 1 ≤ cnr) (hc2 : cnr ≤ 65535)
    (hd : duty ≤ 100) :
    Epwm.EPWM_ConfigOutputChannel clk f duty
      = some { prescaler := p - 1, cnr := cnr - 1, cmr := duty * cnr / 100,
               ret := clk / (p * cnr) } := by
  have hpc : p * cnr < 4294967296 := by
    have : p * cnr ≤ 4094 * 65535 := Nat.mul_le_mul hp hc2
    omega
  have hpc0 : 0 < p * cnr := Nat.mul_pos (by omega) (by omega)
  have hdc : duty * cnr < 4294967296 := by
    have : duty * cnr ≤ 100 * 65535 := Nat.mul_le_mul hd hc2
    omega
  have e1 : (p * cnr) % 4294967296 = p * cnr := Nat.mod_eq_of_lt hpc
  have e2 : (p + 4294967295) % 4294967296 = p - 1 := by omega
  have e3 : (cnr + 4294967295) % 4294967296 = cnr - 1 := by omega
  have e4 : (cnr - 1 + 1) % 4294967296 = cnr := by omega
  have e5 : (duty * cnr) % 4294967296 = duty * cnr := Nat.mod_eq_of_lt hdc
  have e6 : ¬ f = 0 := by omega
  have e7 : ¬ p * cnr = 0 := by omega
  unfold Epwm.EPWM_ConfigOutputChannel
  simp only [hr, e1, e2, e3, e4, e5, e6, e7, if_false]

/-- C30: the arithmetic of `EPWM_ConfigOutputChannel`, for every clock frequency `clk` and
target frequency `f` with `1 <= f <= clk` such that some prescaler in `[1, 0xFFE]` brings
the period `(clk / f) / p` under `0x10000`.  The function returns (no division by zero),
having selected the smallest prescaler `p` in `[1, 0xFFE]` with `(clk / f) / p < 0x10000` and
`CNR = (clk / f) / p`; `CNR` lies in `[1, 0xFFFF]`, so `p * CNR` is not 0 and `CNR - 1` does not
wrap; the values passed to the prescaler and period registers are `p - 1` and `CNR - 1`;
the comparator value `u32DutyCycle * CNR / 100` is at most `CNR` for every duty cycle in
`0..100`; and the returned frequency `clk / (p * CNR)` is not below `f`. -/
theorem C30_epwm_config (clk f duty : Nat) (hf : 1 ≤ f) (hfc : f ≤ clk) (hd : duty ≤ 100)
    (hex : ∃ p0, 1 ≤ p0 ∧ p0 ≤ 4094 ∧ clk / f / p0 < 65536) :
    ∃ p cnr,
      Epwm.EPWM_ConfigOutputChannel clk f duty
        = some { prescaler := p - 1, cnr := cnr - 1, cmr := duty * cnr / 100,
                 ret := clk / (p * cnr) }
      ∧ 1 ≤ p ∧ p ≤ 4094
      ∧ clk / f / p < 65536
      ∧ (∀ p', 1 ≤ p' → p' < p → ¬ clk / f / p' < 65536)
      ∧ cnr = clk / f / p
      ∧ 1 ≤ cnr ∧ cnr ≤ 65535
      ∧ duty * cnr / 100 ≤ cnr
      ∧ f ≤ clk / (p * cnr) := by
  have hex' : ∃ p0, 1 ≤ p0 ∧ p0 < 1 + 4094 ∧ clk / f / p0 < 65536 := by
    obtain ⟨p0, h1, h2, h3⟩ := hex
    exact ⟨p0, h1, by omega, h3⟩
  have hl := epwm_loop clk f 4094 1 (le_refl 1) hex'
  have hr : Epwm.prescaleLoop clk f 4094 1
      = ((Epwm.prescaleLoop clk f 4094 1).1, (Epwm.prescaleLoop clk f 4094 1).2) := rfl
  generalize (Epwm.prescaleLoop clk f 4094 1).1 = p at hl hr
  generalize (Epwm.prescaleLoop clk f 4094 1).2 = cnr at hl hr
  obtain ⟨h1, h2, h3, h4, h5⟩ := hl
  have hq : 1 ≤ clk / f := (Nat.le_div_iff_mul_le (by omega : 0 < f)).mpr (by omega)
  have hc1 : 1 ≤ clk / f / p := epwm_cnr_pos (clk / f) p hq h1 h5
  have hc : 1 ≤ cnr := by omega
  have hdc : duty * cnr ≤ 100 * cnr := Nat.mul_le_mul_right _ hd
  refine ⟨p, cnr, epwm_eval clk f duty p cnr hr hf h1 (by omega) hc (by omega) hd, h1,
    by omega, h3, h5, h4, hc, by omega, ?_, ?_⟩
  · exact Nat.div_le_of_le_mul hdc
  · rw [h4]
    exact epwm_ret_ge clk f p h1 hc1

/-- Witness of C30: a 180 MHz clock, the target 1 kHz and the duty cycle 50.  Prescaler 3
is the first that brings the period (180000) under `0x10000`, and the function programs
the prescaler 2, the period 59999 and the comparator 30000 and returns 1000. -/
theorem C30_epwm_config_witness :
    (1 : Nat) ≤ 1000 ∧ (1000 : Nat) ≤ 180000000 ∧ (50 : Nat) ≤ 100
    ∧ (∃ p0, 1 ≤ p0 ∧ p0 ≤ 4094 ∧ 180000000 / 1000 / p0 < 65536)
    ∧ Epwm.EPWM_ConfigOutputChannel 180000000 1000 50
        = some { prescaler := 2, cnr := 59999, cmr := 30000, ret := 1000 }
    ∧ ∃ p cnr,
      Epwm.EPWM_ConfigOutputChannel 180000000 1000 50
        = some { prescaler := p - 1, cnr := cnr - 1, cmr := 50 * cnr / 100,
                 ret := 180000000 / (p * cnr) }
      ∧ 1 ≤ p ∧ p ≤ 4094
      ∧ 180000000 / 1000 / p < 65536
      ∧ (∀ p', 1 ≤ p' → p' < p → ¬ 180000000 / 1000 / p' < 65536)
      ∧ cnr = 180000000 / 1000 / p
      ∧ 1 ≤ cnr ∧ cnr ≤ 65535
      ∧ 50 * cnr / 100 ≤ cnr
      ∧ 1000 ≤ 180000000 / (p * cnr) :=
  ⟨by decide, by decide, by decide, ⟨3, by decide, by decide, by decide⟩, by decide,
    C30_epwm_config 180000000 1000 50 (by decide) (by decide) (by decide)
      ⟨3, by decide, by decide, by decide⟩⟩

/-! ## The example callback -/

theorem and_16_ne_zero (n : Nat) : n &&& 16 ≠ 0 ↔ n / 16 % 2 = 1 := by
  have h := Nat.and_two_pow n 4
  have e : (2 : Nat) ^ 4 = 16 := by norm_num
  rw [e] at h
  rw [h, Nat.testBit_to_div_mod, e]
  by_cases c : n / 16 % 2 = 1 <;> simp [c]

theorem exampleRun_counter {D : Type} (c : Config) (n : Nat) (s : DispState D) :
    (exampleRun c n s).1 = n % 4294967296 := by
  induction n with
  | zero => rfl
  | succ n ih =>
    show ((exampleRun c n s).1 + 1) % 4294967296 = (n + 1) % 4294967296
    rw [ih]
    omega

theorem exampleRequest_eq {D : Type} (c : Config) (n : Nat) (s : DispState D) :
    exampleRequest c n s
      = (if (n % 4294967296) / 16 % 2 = 1 then image2 c else image1 c) := by
  have h : exampleRequest c n s
      = (if (exampleRun c n s).1 &&& 16 ≠ 0 then image2 c else image1 c) := by
    unfold exampleRequest
    show disp_get_vrambufaddr
      (disp_example_blankcb c (exampleRun c n s).1 (exampleRun c n s).2).2 = _
    unfold disp_example_blankcb
    by_cases hc : (exampleRun c n s).1 &&& 16 ≠ 0
    · simp only [hc, if_true, ne_eq, not_false_eq_true]
      rfl
    · simp only [hc, if_false]
      rfl
  rw [h, exampleRun_counter]
  by_cases hb : n % 4294967296 / 16 % 2 = 1
  · rw [if_pos hb, if_pos ((and_16_ne_zero _).mpr hb)]
  · rw [if_neg hb, if_neg (fun x => hb ((and_16_ne_zero _).mp x))]

/-- C29: what `disp_example_blankcb` requests.  Counting its invocations `n = 0, 1, 2, ...`
(its counter being a `uint32_t` that starts at 0), invocation `n` requests image2
(`&g_au8FrameBuf[CONFIG_VRAM_BUF_SIZE]`) when bit 4 of `n mod 2^32` is set and image1
(`g_au8FrameBuf`) otherwise, and never another address.  So the requested image changes
after every 16 invocations, not after every 2: invocations 0 to 15 request image1,
invocations 16 to 31 image2; in particular invocations 2 and 3 still request image1, and
the request of invocation `n + 16` is the other image than that of invocation `n`. -/
theorem C29_example_toggle (c : Config) (n : Nat) (s : DispState Pdma.DSCT_T) :
    exampleRequest c n s
      = (if (n % 4294967296) / 16 % 2 = 1 then image2 c else image1 c)
    ∧ (exampleRequest c n s = image1 c ∨ exampleRequest c n s = image2 c)
    ∧ (n < 16 → exampleRequest c n s = image1 c)
    ∧ (16 ≤ n → n < 32 → exampleRequest c n s = image2 c)
    ∧ exampleRequest c 0 s = image1 c
    ∧ exampleRequest c 1 s = image1 c
    ∧ exampleRequest c 2 s = image1 c
    ∧ exampleRequest c 3 s = image1 c
    ∧ exampleRequest c 16 s = image2 c
    ∧ (n + 16 < 4294967296 →
        (exampleRequest c n s = image1 c ↔ exampleRequest c (n + 16) s = image2 c))
    ∧ (exampleRun c n s).2.s_sDscLCD = s.s_sDscLCD := by
  have hfr : ∀ m : Nat, (exampleRun c m s).2.s_sDscLCD = s.s_sDscLCD := by
    intro m
    induction m with
    | zero => rfl
    | succ m ih =>
      show (disp_example_blankcb c (exampleRun c m s).1 (exampleRun c m s).2).2.s_sDscLCD = _
      unfold disp_example_blankcb
      simp only []
      split <;> exact ih
  refine ⟨exampleRequest_eq c n s, ?_, ?_, ?_, ?_, ?_, ?_, ?_, ?_, ?_, hfr n⟩
  · rw [exampleRequest_eq]
    split
    · exact Or.inr rfl
    · exact Or.inl rfl
  · intro h
    rw [exampleRequest_eq, if_neg (by omega)]
  · intro h1 h2
    rw [exampleRequest_eq, if_pos (by omega)]
  · rw [exampleRequest_eq, if_neg (by decide)]
  · rw [exampleRequest_eq, if_neg (by decide)]
  · rw [exampleRequest_eq, if_neg (by decide)]
  · rw [exampleRequest_eq, if_neg (by decide)]
  · rw [exampleRequest_eq, if_pos (by decide)]
  · intro h
    rw [exampleRequest_eq, exampleRequest_eq]
    by_cases hb : n % 4294967296 / 16 % 2 = 1
    · have hb2 : ¬ (n + 16) % 4294967296 / 16 % 2 = 1 := by omega
      rw [if_pos hb, if_neg hb2]
      constructor
      · intro e
        exact e.symm
      · intro e
        exact e.symm
    · have hb2 : (n + 16) % 4294967296 / 16 % 2 = 1 := by omega
      rw [if_neg hb, if_pos hb2]
      exact ⟨fun _ => rfl, fun _ => rfl⟩

/-! ## Frame-buffer bounds -/

theorem and_not_low (x k : Nat) (hx : x < 4294967296) (hk : k ≤ 32) :
    x &&& (4294967295 - (2 ^ k - 1)) = x / 2 ^ k * 2 ^ k := by
  have hM : 4294967295 - (2 ^ k - 1) = 2 ^ k * (2 ^ (32 - k) - 1) := by
    have h1 : (2:Nat) ^ k * 2 ^ (32 - k) = 4294967296 := by
      rw [← Nat.pow_add]
      have : k + (32 - k) = 32 := by omega
      rw [this]
    have h2 : 0 < (2:Nat) ^ k := Nat.pow_pos (by norm_num)
    have h3 : 0 < (2:Nat) ^ (32 - k) := Nat.pow_pos (by norm_num)
    rw [Nat.mul_sub, h1, Nat.mul_one]
    omega
  apply Nat.eq_of_testBit_eq
  intro i
  rw [Nat.testBit_and, hM, Nat.testBit_mul_pow_two, Nat.testBit_two_pow_sub_one,
    Nat.mul_comm (x / 2 ^ k), Nat.testBit_mul_pow_two, ← Nat.shiftRight_eq_div_pow,
    Nat.testBit_shiftRight]
  by_cases h1 : i ≥ k
  · have e : k + (i - k) = i := by omega
    rw [e]
    by_cases h2 : i < 32
    · have : i - k < 32 - k := by omega
      simp [h1, this]
    · have hx2 : x < 2 ^ i := lt_of_lt_of_le hx (by
        have : (2:Nat) ^ 32 ≤ 2 ^ i := Nat.pow_le_pow_right (by norm_num) (by omega)
        simpa using this)
      simp [Nat.testBit_lt_two_pow hx2]
  · simp [h1]

theorem NVT_ALIGN_pow (size k : Nat) (hk : k ≤ 32) (hs : size + 2 ^ k ≤ 4294967296) :
    NVT_ALIGN size (2 ^ k) = (size + 2 ^ k - 1) / 2 ^ k * 2 ^ k := by
  have h2 : 0 < (2:Nat) ^ k := Nat.pow_pos (by norm_num)
  have e1 : (size + 2 ^ k + 4294967295) % 4294967296 = size + 2 ^ k - 1 := by omega
  have e2 : (2 ^ k + 4294967295) % 4294967296 = 2 ^ k - 1 := by omega
  unfold NVT_ALIGN
  rw [e1, e2, and_not_low _ k (by omega) hk]

theorem align_bounds (size a : Nat) (ha : 0 < a) :
    (size + a - 1) / a * a % a = 0
    ∧ size ≤ (size + a - 1) / a * a
    ∧ (size + a - 1) / a * a < size + a := by
  refine ⟨Nat.mul_mod_left _ _, ?_, ?_⟩
  · have h := Nat.div_add_mod (size + a - 1) a
    have h2 := Nat.mod_lt (size + a - 1) ha
    have h3 : a * ((size + a - 1) / a) = (size + a - 1) / a * a := Nat.mul_comm _ _
    omega
  · have h := Nat.div_mul_le_self (size + a - 1) a
    omega

theorem vram_total_bounds (c : Config) (k : Nat) (hk : k ≤ 32)
    (hs : 2 * CONFIG_VRAM_BUF_SIZE c + 2 ^ k ≤ 4294967296) :
    CONFIG_VRAM_TOTAL_ALLOCATED_SIZE c (2 ^ k) % 2 ^ k = 0
    ∧ 2 * CONFIG_VRAM_BUF_SIZE c ≤ CONFIG_VRAM_TOTAL_ALLOCATED_SIZE c (2 ^ k)
    ∧ CONFIG_VRAM_TOTAL_ALLOCATED_SIZE c (2 ^ k) < 2 * CONFIG_VRAM_BUF_SIZE c + 2 ^ k := by
  have h2 : 0 < (2:Nat) ^ k := Nat.pow_pos (by norm_num)
  have e : CONFIG_VRAM_TOTAL_ALLOCATED_SIZE c (2 ^ k)
      = (2 * CONFIG_VRAM_BUF_SIZE c + 2 ^ k - 1) / 2 ^ k * 2 ^ k := by
    unfold CONFIG_VRAM_TOTAL_ALLOCATED_SIZE CONFIG_VRAM_BUF_NUM
    rw [Nat.mod_eq_of_lt (by omega), NVT_ALIGN_pow _ k hk hs]
  rw [e]
  exact align_bounds _ _ h2

theorem row_in_buffer (H V j : Nat) (hj : j < V) : (j + 1) * H * 2 ≤ H * V * 2 := by
  have h1 : (j + 1) * H ≤ V * H := Nat.mul_le_mul_right H hj
  have h2 : V * H = H * V := Nat.mul_comm _ _
  omega

/-- C26: frame-buffer bounds.  With `CONFIG_VRAM_BUF_SIZE = HACT * VACT * 2` and a cache-line
size `2 ^ k` for which `2 * CONFIG_VRAM_BUF_SIZE + 2 ^ k` does not exceed `2 ^ 32` (so that the
`uint32_t` arithmetic of `NVT_ALIGN` does not wrap), `CONFIG_VRAM_TOTAL_ALLOCATED_SIZE` is a
multiple of the cache-line size, at least `2 * CONFIG_VRAM_BUF_SIZE` and less than one cache
line more.  The two buffers requested by `disp_example_blankcb` start at byte offsets `0` and
`CONFIG_VRAM_BUF_SIZE` of `g_au8FrameBuf`; for buffer `b < 2` and active scanline `j < VACT`
the byte range `[b*BUF_SIZE + j*HACT*2, b*BUF_SIZE + (j+1)*HACT*2)` lies inside buffer `b`,
which lies inside the allocation; every range of buffer 0 ends before any range of buffer 1
starts; and when the array lies in the 32-bit address space, the source address
`&pu16Buf[j * HACT]` the handler stores for that scanline is the array address plus the start
of that range. -/
theorem C26_frame_bounds (c : Config) (k : Nat) (hk : k ≤ 32)
    (hs : 2 * CONFIG_VRAM_BUF_SIZE c + 2 ^ k ≤ 4294967296) :
    CONFIG_VRAM_BUF_SIZE c = c.CONFIG_TIMING_HACT * c.CONFIG_TIMING_VACT * 2
    ∧ CONFIG_VRAM_TOTAL_ALLOCATED_SIZE c (2 ^ k) % 2 ^ k = 0
    ∧ 2 * CONFIG_VRAM_BUF_SIZE c ≤ CONFIG_VRAM_TOTAL_ALLOCATED_SIZE c (2 ^ k)
    ∧ CONFIG_VRAM_TOTAL_ALLOCATED_SIZE c (2 ^ k) < 2 * CONFIG_VRAM_BUF_SIZE c + 2 ^ k
    ∧ image1 c = c.addr_g_au8FrameBuf + 0 * CONFIG_VRAM_BUF_SIZE c
    ∧ image2 c = c.addr_g_au8FrameBuf + 1 * CONFIG_VRAM_BUF_SIZE c
    ∧ (∀ b j : Nat, b < 2 → j < c.CONFIG_TIMING_VACT →
        b * CONFIG_VRAM_BUF_SIZE c
          ≤ b * CONFIG_VRAM_BUF_SIZE c + j * c.CONFIG_TIMING_HACT * 2
        ∧ b * CONFIG_VRAM_BUF_SIZE c + (j + 1) * c.CONFIG_TIMING_HACT * 2
          ≤ (b + 1) * CONFIG_VRAM_BUF_SIZE c
        ∧ (b + 1) * CONFIG_VRAM_BUF_SIZE c ≤ CONFIG_VRAM_TOTAL_ALLOCATED_SIZE c (2 ^ k)
        ∧ (c.addr_g_au8FrameBuf < 4294967296 →
            c.addr_g_au8FrameBuf + CONFIG_VRAM_TOTAL_ALLOCATED_SIZE c (2 ^ k) ≤ 4294967296 →
            u16PtrAdd (c.addr_g_au8FrameBuf + b * CONFIG_VRAM_BUF_SIZE c)
                (j * c.CONFIG_TIMING_HACT)
              = c.addr_g_au8FrameBuf
                + (b * CONFIG_VRAM_BUF_SIZE c + j * c.CONFIG_TIMING_HACT * 2)))
    ∧ (∀ j j' : Nat, j < c.CONFIG_TIMING_VACT → j' < c.CONFIG_TIMING_VACT →
        0 * CONFIG_VRAM_BUF_SIZE c + (j + 1) * c.CONFIG_TIMING_HACT * 2
          ≤ 1 * CONFIG_VRAM_BUF_SIZE c + j' * c.CONFIG_TIMING_HACT * 2) := by
  obtain ⟨t1, t2, t3⟩ := vram_total_bounds c k hk hs
  have hB : CONFIG_VRAM_BUF_SIZE c = c.CONFIG_TIMING_HACT * c.CONFIG_TIMING_VACT * 2 := rfl
  refine ⟨hB, t1, t2, t3, ?_, ?_, ?_, ?_⟩
  · unfold image1
    omega
  · unfold image2
    omega
  · intro b j hb hj
    have hr := row_in_buffer c.CONFIG_TIMING_HACT c.CONFIG_TIMING_VACT j hj
    rw [← hB] at hr
    have hr2 : j * c.CONFIG_TIMING_HACT * 2 ≤ (j + 1) * c.CONFIG_TIMING_HACT * 2 := by
      have := Nat.mul_le_mul_right c.CONFIG_TIMING_HACT (Nat.le_add_right j 1)
      omega
    have hr3 : (j + 1) * c.CONFIG_TIMING_HACT * 2
        = j * c.CONFIG_TIMING_HACT * 2 + c.CONFIG_TIMING_HACT * 2 := by ring
    have hr4 : c.CONFIG_TIMING_HACT = 0 ∨ 0 < c.CONFIG_TIMING_HACT :=
      Nat.eq_zero_or_pos _
    have hr5 : c.CONFIG_TIMING_HACT = 0 → j * c.CONFIG_TIMING_HACT = 0 := by
      intro h
      rw [h]
      rfl
    generalize CONFIG_VRAM_BUF_SIZE c = B at *
    generalize CONFIG_VRAM_TOTAL_ALLOCATED_SIZE c (2 ^ k) = T at *
    have hb2 : b = 0 ∨ b = 1 := by omega
    refine ⟨by omega, ?_, ?_, ?_⟩
    · rcases hb2 with e | e <;> subst e <;> omega
    · rcases hb2 with e | e <;> subst e <;> omega
    · intro hfb hfit
      rw [u16PtrAdd_eq]
      rcases hr4 with h0 | h0
      · have h5 := hr5 h0
        rcases hb2 with e | e <;> subst e
        · rw [Nat.mod_eq_of_lt (by omega)]
          omega
        · rw [Nat.mod_eq_of_lt (by omega)]
          omega
      · rcases hb2 with e | e <;> subst e
        · rw [Nat.mod_eq_of_lt (by omega)]
          omega
        · rw [Nat.mod_eq_of_lt (by omega)]
          omega
  · intro j j' hj hj'
    have hr := row_in_buffer c.CONFIG_TIMING_HACT c.CONFIG_TIMING_VACT j hj
    rw [← hB] at hr
    omega

theorem C26_frame_bounds_witness :
    (5 : Nat) ≤ 32
    ∧ 2 * CONFIG_VRAM_BUF_SIZE tiny + 2 ^ 5 ≤ 4294967296
    ∧ CONFIG_VRAM_TOTAL_ALLOCATED_SIZE tiny (2 ^ 5) = 32
    ∧ CONFIG_VRAM_TOTAL_ALLOCATED_SIZE tiny (2 ^ 5) % 2 ^ 5 = 0
    ∧ 2 * CONFIG_VRAM_BUF_SIZE tiny ≤ CONFIG_VRAM_TOTAL_ALLOCATED_SIZE tiny (2 ^ 5) :=
  ⟨by decide, by decide, by decide,
    (C26_frame_bounds tiny 5 (by decide) (by decide)).2.1,
    (C26_frame_bounds tiny 5 (by decide) (by decide)).2.2.1⟩

/-! ## Address bits of the shipped polarity -/

theorem testBit_add_two_pow (a k : Nat) (h : a.testBit k = false) (j : Nat) :
    (a + 2 ^ k).testBit j = (a.testBit j || decide (k = j)) := by
  rw [Nat.add_comm]
  rcases Nat.lt_trichotomy j k with hj | hj | hj
  · rw [Nat.testBit_two_pow_add_gt hj]
    have : ¬ k = j := by omega
    simp [this]
  · subst hj
    rw [Nat.testBit_two_pow_add_eq, h]
    simp
  · have hlo : a % 2 ^ (k + 1) < 2 ^ k := by
      rw [Nat.testBit_to_div_mod] at h
      have h0 : a / 2 ^ k % 2 = 0 := by
        have := Nat.mod_two_eq_zero_or_one (a / 2 ^ k)
        rcases this with e | e
        · exact e
        · simp [e] at h
      rw [Nat.mod_pow_succ, h0, Nat.mul_zero, Nat.add_zero]
      exact Nat.mod_lt _ (Nat.pow_pos (by norm_num))
    have hp : (2:Nat) ^ (k + 1) = 2 ^ k + 2 ^ k := by rw [Nat.pow_succ]; omega
    have e1 : a = 2 ^ (k + 1) * (a / 2 ^ (k + 1)) + a % 2 ^ (k + 1) :=
      (Nat.div_add_mod a (2 ^ (k + 1))).symm
    have e2 : 2 ^ k + a = 2 ^ (k + 1) * (a / 2 ^ (k + 1)) + (2 ^ k + a % 2 ^ (k + 1)) := by
      omega
    have hlt1 : a % 2 ^ (k + 1) < 2 ^ (k + 1) := by omega
    have hlt2 : 2 ^ k + a % 2 ^ (k + 1) < 2 ^ (k + 1) := by omega
    have hj2 : ¬ j < k + 1 := by omega
    have hkj : ¬ k = j := by omega
    rw [e2, Nat.testBit_mul_pow_two_add _ hlt2, if_neg hj2]
    conv_rhs => rw [e1, Nat.testBit_mul_pow_two_add _ hlt1, if_neg hj2]
    simp [hkj]

theorem testBit_false_iff (a k : Nat) : a.testBit k = false ↔ a / 2 ^ k % 2 = 0 := by
  rw [Nat.testBit_to_div_mod]
  have := Nat.mod_two_eq_zero_or_one (a / 2 ^ k)
  rcases this with e | e <;> simp [e]

theorem dstAddr_shipped (c : Config) (hp : ShippedPolarity c) (hraw : rawBankBase c < 4294967296)
    (h1 : (rawBankBase c).testBit 1 = false) (h2 : (rawBankBase c).testBit 2 = false)
    (h8 : (rawBankBase c).testBit 8 = false) (V : E_VSTAGE) (h : E_HSTAGE) :
    dstAddr c V h = rawBankBase c + (if V = .evVStageVSYNC then 0 else 2)
      + (if h = .evHStageHSYNC then 0 else 4)
      + (if V = .evVStageVACT ∧ h = .evHStageHACT then 256 else 0) := by
  obtain ⟨p1, p2, p3, p4, p5, p6⟩ := hp
  rw [testBit_false_iff] at h1 h2 h8
  have e1 : (2:Nat) ^ 1 = 2 := by norm_num
  have e2 : (2:Nat) ^ 2 = 4 := by norm_num
  have e8 : (2:Nat) ^ 8 = 256 := by norm_num
  rw [e1] at h1
  rw [e2] at h2
  rw [e8] at h8
  have hE : CONFIG_DISP_EBI_ADDR c = rawBankBase c + 6 := by
    unfold CONFIG_DISP_EBI_ADDR
    rw [p1, p2, p3, p4, p5, p6]
    show (rawBankBase c + 1 * 2 ^ 1 + 1 * 2 ^ 2 + 0 * 2 ^ 8) % 4294967296 = _
    omega
  have hV : CONFIG_DISP_VSYNC_ACTIVE c = -2 := by
    simp [CONFIG_DISP_VSYNC_ACTIVE, CONFIG_DISP_VSYNC_BITMASK, p1, p4]
  have hH : CONFIG_DISP_HSYNC_ACTIVE c = -4 := by
    simp [CONFIG_DISP_HSYNC_ACTIVE, CONFIG_DISP_HSYNC_BITMASK, p2, p5]
  have hD : CONFIG_DISP_DE_ACTIVE c = 256 := by
    simp [CONFIG_DISP_DE_ACTIVE, CONFIG_DISP_DE_BITMASK, p3, p6]
  unfold dstAddr toU32
  rw [hE, hV, hH, hD]
  generalize rawBankBase c = r at *
  cases V <;> cases h <;> simp <;> omega

theorem testBit_add_flag (a k : Nat) (f : Bool) (h : a.testBit k = false) (j : Nat) :
    (a + (if f = true then 2 ^ k else 0)).testBit j = (a.testBit j || (f && decide (k = j))) := by
  cases f
  · simp
  · simp only [if_true, Bool.true_and]
    exact testBit_add_two_pow a k h j

theorem testBit_three_flags (r : Nat) (f1 f2 f8 : Bool) (h1 : r.testBit 1 = false)
    (h2 : r.testBit 2 = false) (h8 : r.testBit 8 = false) (b : Nat) :
    (r + (if f1 = true then 2 else 0) + (if f2 = true then 4 else 0)
        + (if f8 = true then 256 else 0)).testBit b
      = if b = 1 then f1 else if b = 2 then f2 else if b = 8 then f8 else r.testBit b := by
  have e1 : (2:Nat) = 2 ^ 1 := by norm_num
  have e2 : (4:Nat) = 2 ^ 2 := by norm_num
  have e8 : (256:Nat) = 2 ^ 8 := by norm_num
  have a1 := testBit_add_flag r 1 f1 h1
  have a2 := testBit_add_flag (r + (if f1 = true then 2 ^ 1 else 0)) 2 f2 (by
    rw [a1, h2]; simp)
  have a8 := testBit_add_flag (r + (if f1 = true then 2 ^ 1 else 0)
    + (if f2 = true then 2 ^ 2 else 0)) 8 f8 (by rw [a2, a1, h8]; simp)
  rw [e1, e2, e8, a8, a2, a1]
  by_cases c1 : b = 1
  · subst c1; simp [h1]
  by_cases c2 : b = 2
  · subst c2; simp [h2]
  by_cases c8 : b = 8
  · subst c8; simp [h8]
  have d1 : ¬ 1 = b := fun e => c1 e.symm
  have d2 : ¬ 2 = b := fun e => c2 e.symm
  have d8 : ¬ 8 = b := fun e => c8 e.symm
  simp [c1, c2, c8, d1, d2, d8]

theorem dstAddr_bits (c : Config) (hp : ShippedPolarity c) (hraw : rawBankBase c < 4294967296)
    (h1 : (rawBankBase c).testBit 1 = false) (h2 : (rawBankBase c).testBit 2 = false)
    (h8 : (rawBankBase c).testBit 8 = false) (V : E_VSTAGE) (h : E_HSTAGE) (b : Nat) :
    (dstAddr c V h).testBit b
      = if b = 1 then decide (V ≠ .evVStageVSYNC)
        else if b = 2 then decide (h ≠ .evHStageHSYNC)
        else if b = 8 then decide (V = .evVStageVACT ∧ h = .evHStageHACT)
        else (rawBankBase c).testBit b := by
  rw [dstAddr_shipped c hp hraw h1 h2 h8,
    ← testBit_three_flags (rawBankBase c) (decide (V ≠ .evVStageVSYNC))
      (decide (h ≠ .evHStageHSYNC)) (decide (V = .evVStageVACT ∧ h = .evHStageHACT)) h1 h2 h8 b]
  have a1 : (if V = .evVStageVSYNC then 0 else 2)
      = (if decide (V ≠ .evVStageVSYNC) = true then 2 else 0) := by
    by_cases e : V = .evVStageVSYNC <;> simp [e]
  have a2 : (if h = .evHStageHSYNC then 0 else 4)
      = (if decide (h ≠ .evHStageHSYNC) = true then 4 else 0) := by
    by_cases e : h = .evHStageHSYNC <;> simp [e]
  have a8 : (if V = .evVStageVACT ∧ h = .evHStageHACT then 256 else 0)
      = (if decide (V = .evVStageVACT ∧ h = .evHStageHACT) = true then 256 else 0) := by
    by_cases e : V = .evVStageVACT ∧ h = .evHStageHACT <;> simp [e]
  rw [a1, a2, a8]

/-- C22: the additive address encoding carries into no other bit.  For the shipped polarity
(VSYNC active-low at bit 1, HSYNC active-low at bit 2, DE active-high at bit 8) and a raw bank
base below `2 ^ 32` whose bits 1, 2 and 8 are zero, the destination address of the
descriptor built for scanline `i` and horizontal stage `h`, in the PDMA chain and in the GDMA
chain, has bit 1 clear exactly when the line is in VSYNC, bit 2 clear exactly when `h` is
HSYNC, bit 8 set exactly when the line is Active and `h` is Active, and every other bit equal
to that bit of the raw bank base. -/
theorem C22_address_bits (c : Config) (sp : DispState Pdma.DSCT_T)
    (sg : DispState Gdma.S_CMDBUF)
    (hlp : sp.s_sDscLCD.length = dscSlots c) (hlg : sg.s_sDscLCD.length = dscSlots c)
    (hp : ShippedPolarity c) (hraw : rawBankBase c < 4294967296)
    (h1 : (rawBankBase c).testBit 1 = false) (h2 : (rawBankBase c).testBit 2 = false)
    (h8 : (rawBankBase c).testBit 8 = false) :
    ∀ (i : Nat) (h : E_HSTAGE) (b : Nat), i < DEF_TOTAL_VLINES c →
      (((Pdma.disp_pdma_dsc_init c sp).s_sDscLCD.getD (slotOf i h) Pdma.DSCT_T.zero).DA).testBit b
        = (if b = 1 then decide (Pdma.get_current_vstage c (i : Int) ≠ .evVStageVSYNC)
           else if b = 2 then decide (h ≠ .evHStageHSYNC)
           else if b = 8 then
             decide (Pdma.get_current_vstage c (i : Int) = .evVStageVACT ∧ h = .evHStageHACT)
           else (rawBankBase c).testBit b)
      ∧ (Gdma.desAddr ((Gdma.disp_gdma_dsc_init c sg).s_sDscLCD.getD (slotOf i h)
            Gdma.S_CMDBUF.zero)).testBit b
        = (if b = 1 then decide (Pdma.get_current_vstage c (i : Int) ≠ .evVStageVSYNC)
           else if b = 2 then decide (h ≠ .evHStageHSYNC)
           else if b = 8 then
             decide (Pdma.get_current_vstage c (i : Int) = .evVStageVACT ∧ h = .evHStageHACT)
           else (rawBankBase c).testBit b) := by
  intro i h b hi
  have hv : Pdma.get_current_vstage c (i : Int) = Pdma.vs c i := rfl
  have hg : Gdma.vs c i = Pdma.vs c i := congrFun (vs_eq c) i
  rw [(pdma_built_addrs c sp hlp i h hi).2, (gdma_built_addrs c sg hlg i h hi).2.1,
    pdma_switch_dst, gdma_switch_dst, hg, hv]
  exact ⟨dstAddr_bits c hp hraw h1 h2 h8 _ h b, dstAddr_bits c hp hraw h1 h2 h8 _ h b⟩

theorem C22_address_bits_witness :
    (Pdma.startState tiny).s_sDscLCD.length = dscSlots tiny
    ∧ (Gdma.startState tiny).s_sDscLCD.length = dscSlots tiny
    ∧ ShippedPolarity tiny ∧ rawBankBase tiny < 4294967296
    ∧ (rawBankBase tiny).testBit 1 = false ∧ (rawBankBase tiny).testBit 2 = false
    ∧ (rawBankBase tiny).testBit 8 = false
    ∧ (((Pdma.disp_pdma_dsc_init tiny (Pdma.startState tiny)).s_sDscLCD.getD
          (slotOf 3 .evHStageHACT) Pdma.DSCT_T.zero).DA).testBit 8 = true
    ∧ (Gdma.desAddr ((Gdma.disp_gdma_dsc_init tiny (Gdma.startState tiny)).s_sDscLCD.getD
          (slotOf 3 .evHStageHACT) Gdma.S_CMDBUF.zero)).testBit 8 = true :=
  ⟨by decide, by decide, by decide, by decide, by decide, by decide, by decide,
    ((C22_address_bits tiny (Pdma.startState tiny) (Gdma.startState tiny) (by decide)
      (by decide) (by decide) (by decide) (by decide) (by decide) (by decide)
      3 .evHStageHACT 8 (by decide)).1).trans (by decide),
    ((C22_address_bits tiny (Pdma.startState tiny) (Gdma.startState tiny) (by decide)
      (by decide) (by decide) (by decide) (by decide) (by decide) (by decide)
      3 .evHStageHACT 8 (by decide)).2).trans (by decide)⟩

/-! ## The source-address index of a command buffer -/

theorem hdrBit_eq (v b : Nat) : Gdma.hdrBit v b = v.testBit b := by
  unfold Gdma.hdrBit
  rw [Nat.testBit_to_div_mod]

theorem find_range_spec (p : Nat → Bool) (n : Nat) :
    (∃ i, (List.range n).find? p = some i ∧ i < n ∧ p i = true ∧ ∀ j, j < i → p j = false)
    ∨ ((List.range n).find? p = none ∧ ∀ j, j < n → p j = false) := by
  induction n with
  | zero =>
    right
    exact ⟨rfl, fun j hj => absurd hj (Nat.not_lt_zero j)⟩
  | succ n ih =>
    rw [List.range_succ, List.find?_append]
    rcases ih with ⟨i, h1, h2, h3, h4⟩ | ⟨h1, h2⟩
    · left
      exact ⟨i, by rw [h1]; rfl, by omega, h3, h4⟩
    · rw [h1]
      by_cases hp : p n = true
      · left
        refine ⟨n, ?_, by omega, hp, h2⟩
        simp [List.find?, hp]
      · right
        refine ⟨?_, ?_⟩
        · simp [List.find?, hp]
        · intro j hj
          by_cases e : j = n
          · subst e
            simpa using hp
          · exact h2 j (by omega)

theorem nu_ctz_spec (v : Nat) :
    (Gdma.nu_ctz v < 32 ∧ v.testBit (Gdma.nu_ctz v) = true
      ∧ ∀ j, j < Gdma.nu_ctz v → v.testBit j = false)
    ∨ (Gdma.nu_ctz v = 32 ∧ ∀ j, j < 32 → v.testBit j = false) := by
  unfold Gdma.nu_ctz
  rcases find_range_spec (fun i => Gdma.hdrBit v i) 32 with ⟨i, h1, h2, h3, h4⟩ | ⟨h1, h2⟩
  · left
    rw [h1]
    simp only [hdrBit_eq] at h3 h4
    exact ⟨h2, h3, h4⟩
  · right
    rw [h1]
    simp only [hdrBit_eq] at h2
    exact ⟨rfl, h2⟩

theorem nu_ctz_eq (v i : Nat) (hi : i < 32) (hb : v.testBit i = true)
    (hlo : ∀ j, j < i → v.testBit j = false) : Gdma.nu_ctz v = i := by
  rcases nu_ctz_spec v with ⟨h1, h2, h3⟩ | ⟨h1, h2⟩
  · rcases Nat.lt_trichotomy (Gdma.nu_ctz v) i with h | h | h
    · rw [hlo _ h] at h2
      exact absurd h2 (by decide)
    · exact h
    · rw [h3 _ h] at hb
      exact absurd hb (by decide)
  · rw [h2 i hi] at hb
    exact absurd hb (by decide)

theorem hdrClr_bits (v i : Nat) (hi : v.testBit i = true) (j : Nat) :
    (Gdma.hdrClr v i).testBit j = (v.testBit j && !decide (i = j)) := by
  have hc : Gdma.hdrClr v i = v - 2 ^ i := by
    unfold Gdma.hdrClr
    rw [hdrBit_eq, hi]
    rfl
  have hge : 2 ^ i ≤ v := Nat.testBit_implies_ge hi
  have hv : v = 2 ^ i + (v - 2 ^ i) := by omega
  have ha : (v - 2 ^ i).testBit i = false := by
    have h := Nat.testBit_two_pow_add_eq (v - 2 ^ i) i
    rw [← hv, hi] at h
    cases hx : (v - 2 ^ i).testBit i
    · rfl
    · rw [hx] at h
      exact absurd h (by decide)
  have h := testBit_add_two_pow (v - 2 ^ i) i ha j
  have hv2 : v - 2 ^ i + 2 ^ i = v := by omega
  rw [hv2] at h
  rw [hc]
  by_cases e : i = j
  · subst e
    rw [ha]
    simp
  · rw [h]
    simp [e]

theorem start_bits (x j : Nat) :
    (x % 4294967296 - x % 4).testBit j
      = (decide (2 ≤ j) && (decide (j < 32) && x.testBit j)) := by
  have e : x % 4294967296 - x % 4 = 2 ^ 2 * ((x % 2 ^ 32) >>> 2) := by
    rw [Nat.shiftRight_eq_div_pow]
    norm_num
    omega
  rw [e, Nat.testBit_mul_pow_two, Nat.testBit_shiftRight, Nat.testBit_mod_two_pow]
  by_cases h : 2 ≤ j
  · have e2 : 2 + (j - 2) = j := by omega
    rw [e2]
  · simp [h]

theorem find_steps_exhausted (fuel : Nat) : ∀ (v n m : Nat),
    (∀ j, j < m → v.testBit j = false) → v.testBit 4 = false → m ≤ 32 → 33 ≤ fuel + m →
    Gdma.find_srcaddr_steps fuel v n = some 4294967295 := by
  induction fuel with
  | zero =>
    intro v n m _ _ h1 h2
    omega
  | succ fuel ih =>
    intro v n m hlo h4 hm hf
    rw [Gdma.find_srcaddr_steps]
    rcases nu_ctz_spec v with ⟨h1, h2, h3⟩ | ⟨h1, h2⟩
    · have hge : m ≤ Gdma.nu_ctz v := by
        by_contra hc
        rw [hlo _ (by omega)] at h2
        exact absurd h2 (by decide)
      have hne : ¬ Gdma.nu_ctz v = Gdma.bitSRC_ADDR := by
        intro e
        rw [e] at h2
        have : Gdma.bitSRC_ADDR = 4 := rfl
        rw [this, h4] at h2
        exact absurd h2 (by decide)
      simp only [h1, if_true, hne, if_false]
      apply ih _ _ (Gdma.nu_ctz v + 1)
      · intro j hj
        rw [hdrClr_bits v _ h2]
        by_cases e : Gdma.nu_ctz v = j
        · simp [e]
        · rw [h3 j (by omega)]
          rfl
      · rw [hdrClr_bits v _ h2, h4]
        rfl
      · omega
      · omega
    · have hn : ¬ Gdma.nu_ctz v < 32 := by omega
      simp only [hn, if_false]

theorem find_steps_step (fuel v n i : Nat) (hi : i < 32) (hne : i ≠ 4)
    (hb : v.testBit i = true) (hlo : ∀ j, j < i → v.testBit j = false) :
    Gdma.find_srcaddr_steps (fuel + 1) v n
      = Gdma.find_srcaddr_steps fuel (Gdma.hdrClr v i) (n + 1) := by
  rw [Gdma.find_srcaddr_steps, nu_ctz_eq v i hi hb hlo]
  have h4 : ¬ i = Gdma.bitSRC_ADDR := hne
  simp only [hi, if_true, h4, if_false]

theorem find_steps_hit (fuel v n : Nat) (hb : v.testBit 4 = true)
    (hlo : ∀ j, j < 4 → v.testBit j = false) :
    Gdma.find_srcaddr_steps (fuel + 1) v n = some n := by
  rw [Gdma.find_srcaddr_steps, nu_ctz_eq v 4 (by decide) hb hlo]
  have h4 : (4 : Nat) = Gdma.bitSRC_ADDR := rfl
  simp only [h4, if_true]
  simp [Gdma.bitSRC_ADDR]

theorem lt4_cases (P : Nat → Prop) (h0 : P 0) (h1 : P 1) (h2 : P 2) (h3 : P 3) :
    ∀ j, j < 4 → P j := by
  intro j hj
  have : j = 0 ∨ j = 1 ∨ j = 2 ∨ j = 3 := by omega
  rcases this with e | e | e | e <;> subst e <;> assumption

theorem find_steps_found (fuel v : Nat) (hf : 3 ≤ fuel) (h0 : v.testBit 0 = false)
    (h1 : v.testBit 1 = false) (h4 : v.testBit 4 = true) :
    Gdma.find_srcaddr_steps fuel v 0
      = some ((if v.testBit 2 = true then 1 else 0) + (if v.testBit 3 = true then 1 else 0)) := by
  obtain ⟨f, rfl⟩ : ∃ f, fuel = f + 3 := ⟨fuel - 3, by omega⟩
  have lo2 : ∀ j, j < 2 → v.testBit j = false := by
    intro j hj
    have : j = 0 ∨ j = 1 := by omega
    rcases this with e | e <;> subst e <;> assumption
  cases h2 : v.testBit 2 <;> cases h3 : v.testBit 3
  · rw [find_steps_hit (f + 2) v 0 h4 (lt4_cases _ h0 h1 h2 h3)]
    rfl
  · rw [find_steps_step (f + 2) v 0 3 (by decide) (by decide) h3 (by
      intro j hj
      have : j = 0 ∨ j = 1 ∨ j = 2 := by omega
      rcases this with e | e | e <;> subst e <;> assumption)]
    rw [find_steps_hit (f + 1) _ 1 (by rw [hdrClr_bits v 3 h3, h4]; rfl)
      (lt4_cases _ (by rw [hdrClr_bits v 3 h3, h0]; rfl) (by rw [hdrClr_bits v 3 h3, h1]; rfl)
        (by rw [hdrClr_bits v 3 h3, h2]; rfl) (by rw [hdrClr_bits v 3 h3, h3]; rfl))]
    rfl
  · rw [find_steps_step (f + 2) v 0 2 (by decide) (by decide) h2 lo2]
    rw [find_steps_hit (f + 1) _ 1 (by rw [hdrClr_bits v 2 h2, h4]; rfl)
      (lt4_cases _ (by rw [hdrClr_bits v 2 h2, h0]; rfl) (by rw [hdrClr_bits v 2 h2, h1]; rfl)
        (by rw [hdrClr_bits v 2 h2, h2]; rfl) (by rw [hdrClr_bits v 2 h2, h3]; rfl))]
    rfl
  · rw [find_steps_step (f + 2) v 0 2 (by decide) (by decide) h2 lo2]
    have g0 : (Gdma.hdrClr v 2).testBit 0 = false := by rw [hdrClr_bits v 2 h2, h0]; rfl
    have g1 : (Gdma.hdrClr v 2).testBit 1 = false := by rw [hdrClr_bits v 2 h2, h1]; rfl
    have g2 : (Gdma.hdrClr v 2).testBit 2 = false := by rw [hdrClr_bits v 2 h2, h2]; rfl
    have g3 : (Gdma.hdrClr v 2).testBit 3 = true := by rw [hdrClr_bits v 2 h2, h3]; rfl
    have g4 : (Gdma.hdrClr v 2).testBit 4 = true := by rw [hdrClr_bits v 2 h2, h4]; rfl
    rw [find_steps_step (f + 1) _ 1 3 (by decide) (by decide) g3 (by
      intro j hj
      have : j = 0 ∨ j = 1 ∨ j = 2 := by omega
      rcases this with e | e | e <;> subst e <;> assumption)]
    rw [find_steps_hit f _ 2 (by rw [hdrClr_bits _ 3 g3, g4]; rfl)
      (lt4_cases _ (by rw [hdrClr_bits _ 3 g3, g0]; rfl) (by rw [hdrClr_bits _ 3 g3, g1]; rfl)
        (by rw [hdrClr_bits _ 3 g3, g2]; rfl) (by rw [hdrClr_bits _ 3 g3, g3]; rfl))]
    rfl

theorem find_steps_loop (fuel : Nat) : ∀ (v n r : Nat),
    Gdma.find_srcaddr_steps fuel v n = some r → Gdma.find_srcaddr_loop fuel v n = r := by
  induction fuel with
  | zero =>
    intro v n r h
    rw [Gdma.find_srcaddr_steps] at h
    exact absurd h (by simp)
  | succ fuel ih =>
    intro v n r h
    rw [Gdma.find_srcaddr_steps] at h
    rw [Gdma.find_srcaddr_loop]
    by_cases h1 : Gdma.nu_ctz v < 32
    · simp only [h1, if_true] at h ⊢
      by_cases h2 : Gdma.nu_ctz v = Gdma.bitSRC_ADDR
      · simp only [h2, if_true] at h ⊢
        exact Option.some.inj h
      · simp only [h2, if_false] at h ⊢
        exact ih _ _ _ h
    · simp only [h1, if_false] at h ⊢
      exact Option.some.inj h

theorem twelve_bits (b : Nat) : (12 : Nat).testBit b = decide (b = 2 ∨ b = 3) := by
  by_cases h : b < 4
  · have : b = 0 ∨ b = 1 ∨ b = 2 ∨ b = 3 := by omega
    rcases this with e | e | e | e <;> subst e <;> decide
  · have h12 : (12 : Nat) < 2 ^ b :=
      lt_of_lt_of_le (by norm_num : (12 : Nat) < 2 ^ 4)
        (Nat.pow_le_pow_right (by norm_num) (by omega))
    rw [Nat.testBit_lt_two_pow h12]
    have : ¬ (b = 2 ∨ b = 3) := by omega
    simp [this]

theorem popcount_and_12 (x : Nat) :
    popcount32 (x &&& 12)
      = (if x.testBit 2 = true then 1 else 0) + (if x.testBit 3 = true then 1 else 0) := by
  have hp : (fun b => (x &&& 12).testBit b)
      = (fun b => (decide (b = 2) && x.testBit 2) || (decide (b = 3) && x.testBit 3)) := by
    funext b
    rw [Nat.testBit_and, twelve_bits]
    by_cases e2 : b = 2
    · subst e2
      simp
    · by_cases e3 : b = 3
      · subst e3
        simp
      · simp [e2, e3]
  unfold popcount32
  rw [hp]
  cases x.testBit 2 <;> cases x.testBit 3 <;> decide

theorem fieldPos_src (x : Nat) :
    Gdma.fieldPos x Gdma.bitSRC_ADDR
      = 1 + ((if x.testBit 2 = true then 1 else 0) + (if x.testBit 3 = true then 1 else 0)) := by
  unfold Gdma.fieldPos Gdma.cmdlinkBits
  rw [List.filter_filter]
  have hp : ∀ b ∈ (List.range 30).map (fun n => n + 2),
      (decide (b < Gdma.bitSRC_ADDR) && Gdma.hdrBit x b)
        = ((decide (b = 2) && x.testBit 2) || (decide (b = 3) && x.testBit 3)) := by
    intro b hb
    have h2 : 2 ≤ b := by
      rw [List.mem_map] at hb
      obtain ⟨n, _, e⟩ := hb
      omega
    rw [hdrBit_eq]
    have h4 : Gdma.bitSRC_ADDR = 4 := rfl
    rw [h4]
    by_cases e2 : b = 2
    · subst e2
      simp
    · by_cases e3 : b = 3
      · subst e3
        simp
      · have : ¬ b < 4 := by omega
        simp [e2, e3, this]
  rw [List.filter_congr hp]
  cases x.testBit 2 <;> cases x.testBit 3 <;> decide

theorem find_index_steps (d : Gdma.S_CMDBUF) (fuel : Nat) (hf : 33 ≤ fuel) :
    Gdma.find_srcaddr_steps fuel (d.m_cmdbuf 0 % 4294967296 - d.m_cmdbuf 0 % 4) 0
      = some (if Gdma.hdrBit (d.m_cmdbuf 0) 4 = true then
          (if Gdma.hdrBit (d.m_cmdbuf 0) 2 = true then 1 else 0)
            + (if Gdma.hdrBit (d.m_cmdbuf 0) 3 = true then 1 else 0)
        else 4294967295) := by
  simp only [hdrBit_eq]
  have s0 := start_bits (d.m_cmdbuf 0) 0
  have s1 := start_bits (d.m_cmdbuf 0) 1
  have s2 := start_bits (d.m_cmdbuf 0) 2
  have s3 := start_bits (d.m_cmdbuf 0) 3
  have s4 := start_bits (d.m_cmdbuf 0) 4
  simp only [show decide (2 ≤ 0) = false by decide, show decide (2 ≤ 1) = false by decide,
    show decide (2 ≤ 2) = true by decide, show decide (2 ≤ 3) = true by decide,
    show decide (2 ≤ 4) = true by decide, show decide (2 < 32) = true by decide,
    show decide (3 < 32) = true by decide, show decide (4 < 32) = true by decide,
    Bool.true_and, Bool.false_and] at s0 s1 s2 s3 s4
  by_cases h4 : (d.m_cmdbuf 0).testBit 4 = true
  · rw [if_pos h4, ← s2, ← s3]
    exact find_steps_found fuel _ (by omega) s0 s1 (by rw [s4]; exact h4)
  · rw [if_neg h4]
    have h4f : (d.m_cmdbuf 0).testBit 4 = false := by simpa using h4
    exact find_steps_exhausted fuel _ 0 2 (by
      intro j hj
      have : j = 0 ∨ j = 1 := by omega
      rcases this with e | e <;> subst e <;> assumption) (by rw [s4]; exact h4f)
      (by omega) (by omega)

theorem find_index_value (d : Gdma.S_CMDBUF) :
    Gdma.gdma_dsc_find_srcaddr_index d
      = (if Gdma.hdrBit (d.m_cmdbuf 0) 4 = true then
          (if Gdma.hdrBit (d.m_cmdbuf 0) 2 = true then 1 else 0)
            + (if Gdma.hdrBit (d.m_cmdbuf 0) 3 = true then 1 else 0)
        else 4294967295) :=
  find_steps_loop 33 _ 0 _ (find_index_steps d 33 (Nat.le_refl 33))

/-- C23: `gdma_dsc_find_srcaddr_index` returns for every header word.  Its loop leaves
within 33 evaluations of the loop condition (with any bound of at least 33 the run has
ended, with the value the function returns); `nu_ctz(0)` is 32; an iteration clears exactly
the lowest set bit.  The value returned is, when header bit 4 (`SRC_ADDR_SET`) is set, the
number of set bits among the header bits 2 and 3, which is the population count of
`header & 0xC` and one less than the position of the source-address word in `m_cmdbuf`;
and `0xFFFFFFFF` when bit 4 is clear.  Bits 0 and 1 and the bits above 4 have no
influence. -/
theorem C23_find_srcaddr_index (d : Gdma.S_CMDBUF) :
    (∀ fuel, 33 ≤ fuel →
      Gdma.find_srcaddr_steps fuel (d.m_cmdbuf 0 % 4294967296 - d.m_cmdbuf 0 % 4) 0
        = some (Gdma.gdma_dsc_find_srcaddr_index d))
    ∧ Gdma.nu_ctz 0 = 32
    ∧ (∀ v : Nat, Gdma.nu_ctz v < 32 →
        Gdma.hdrBit v (Gdma.nu_ctz v) = true
        ∧ (∀ j, j < Gdma.nu_ctz v → Gdma.hdrBit v j = false)
        ∧ ∀ j, Gdma.hdrBit (Gdma.hdrClr v (Gdma.nu_ctz v)) j
            = (Gdma.hdrBit v j && !decide (Gdma.nu_ctz v = j)))
    ∧ Gdma.gdma_dsc_find_srcaddr_index d
        = (if Gdma.hdrBit (d.m_cmdbuf 0) Gdma.bitSRC_ADDR = true then
            popcount32 (d.m_cmdbuf 0 &&& 12)
          else 4294967295)
    ∧ popcount32 (d.m_cmdbuf 0 &&& 12)
        = (if Gdma.hdrBit (d.m_cmdbuf 0) 2 = true then 1 else 0)
          + (if Gdma.hdrBit (d.m_cmdbuf 0) 3 = true then 1 else 0)
    ∧ (Gdma.hdrBit (d.m_cmdbuf 0) Gdma.bitSRC_ADDR = true →
        Gdma.gdma_dsc_find_srcaddr_index d + 1
          = Gdma.fieldPos (d.m_cmdbuf 0) Gdma.bitSRC_ADDR) := by
  have hv := find_index_value d
  have hpc := popcount_and_12 (d.m_cmdbuf 0)
  have h4 : Gdma.bitSRC_ADDR = 4 := rfl
  simp only [← hdrBit_eq] at hpc
  refine ⟨?_, by decide, ?_, ?_, hpc, ?_⟩
  · intro fuel hf
    rw [hv]
    exact find_index_steps d fuel hf
  · intro v hlt
    rcases nu_ctz_spec v with ⟨h1, h2, h3⟩ | ⟨h1, _⟩
    · refine ⟨by rw [hdrBit_eq]; exact h2, ?_, ?_⟩
      · intro j hj
        rw [hdrBit_eq]
        exact h3 j hj
      · intro j
        rw [hdrBit_eq, hdrBit_eq]
        exact hdrClr_bits v _ h2 j
    · omega
  · rw [hv, hpc, h4]
  · intro hb
    rw [hv, fieldPos_src]
    rw [h4] at hb
    rw [if_pos hb]
    simp only [hdrBit_eq]
    omega

/-! ## The patch loop on a built chain -/


theorem pdma_patch_other (c : Config) (R n : Nat) (dsc : List Pdma.DSCT_T) (k : Nat)
    (hk : ∀ j, j < n → activeSlot c j ≠ k) :
    (Pdma.patch_loop c R n dsc)[k]? = dsc[k]? := by
  induction n with
  | zero => rfl
  | succ n ih =>
    have e1 : slotOf (DEF_VACT_INDEX c + n) .evHStageHACT = activeSlot c n := rfl
    rw [Pdma.patch_loop, pdma_storeAt_get, e1, if_neg (hk n (by omega))]
    exact ih (fun j hj => hk j (by omega))

theorem pdma_patch_at (c : Config) (R n : Nat) (dsc : List Pdma.DSCT_T) (j : Nat)
    (hj : j < n) :
    (Pdma.patch_loop c R n dsc)[activeSlot c j]?
      = (dsc[activeSlot c j]?).map
          (fun d => d.setSA (u16PtrAdd R (j * c.CONFIG_TIMING_HACT))) := by
  induction n with
  | zero => omega
  | succ n ih =>
    have e1 : slotOf (DEF_VACT_INDEX c + n) .evHStageHACT = activeSlot c n := rfl
    rw [Pdma.patch_loop, pdma_storeAt_get, e1]
    by_cases e : j = n
    · subst e
      rw [if_pos rfl, pdma_patch_other c R j dsc _ (by
        intro i hi h
        rw [activeSlot_inj] at h
        omega)]
    · have e2 : ¬ activeSlot c n = activeSlot c j := by
        rw [activeSlot_inj]; omega
      rw [if_neg e2]
      exact ih (by omega)

theorem gdma_patch_other (c : Config) (R idx n : Nat) (dsc : List Gdma.S_CMDBUF) (k : Nat)
    (hk : ∀ j, j < n → activeSlot c j ≠ k) :
    (Gdma.patch_loop c R idx n dsc)[k]? = dsc[k]? := by
  induction n with
  | zero => rfl
  | succ n ih =>
    have e1 : slotOf (DEF_VACT_INDEX c + n) .evHStageHACT = activeSlot c n := rfl
    rw [Gdma.patch_loop, gdma_storeWord_eq, gdma_storeAt_get, e1, if_neg (hk n (by omega))]
    exact ih (fun j hj => hk j (by omega))

theorem gdma_patch_at (c : Config) (R idx n : Nat) (dsc : List Gdma.S_CMDBUF) (j : Nat)
    (hj : j < n) :
    (Gdma.patch_loop c R idx n dsc)[activeSlot c j]?
      = (dsc[activeSlot c j]?).map
          (fun d => { m_cmdbuf := fun w =>
            if w = idx then u16PtrAdd R (j * c.CONFIG_TIMING_HACT) else d.m_cmdbuf w }) := by
  induction n with
  | zero => omega
  | succ n ih =>
    have e1 : slotOf (DEF_VACT_INDEX c + n) .evHStageHACT = activeSlot c n := rfl
    rw [Gdma.patch_loop, gdma_storeWord_eq, gdma_storeAt_get, e1]
    by_cases e : j = n
    · subst e
      rw [if_pos rfl, gdma_patch_other c R idx j dsc _ (by
        intro i hi h
        rw [activeSlot_inj] at h
        omega)]
    · have e2 : ¬ activeSlot c n = activeSlot c j := by
        rw [activeSlot_inj]; omega
      rw [if_neg e2]
      exact ih (by omega)

theorem pdma_builtDsc_setSA (c : Config) (A B k : Nat) :
    Pdma.builtDsc c B k = (Pdma.builtDsc c A k).setSA (Pdma.builtDsc c B k).SA := by
  unfold Pdma.builtDsc Pdma.lineDsc
  generalize Pdma.vs c (k / 4) = V
  generalize E_HSTAGE.ofVal (k % 4) = h
  by_cases e : k = s_end c
  · simp only [e, if_true]
    cases V <;> cases h <;> rfl
  · simp only [e, if_false]
    cases V <;> cases h <;> rfl

theorem pdma_setSA_self (d : Pdma.DSCT_T) : d.setSA d.SA = d := by
  cases d
  rfl

theorem ofVal_hact (r : Nat) (hr : r < 4) (h : E_HSTAGE.ofVal r = .evHStageHACT) : r = 3 := by
  have : r = 0 ∨ r = 1 ∨ r = 2 ∨ r = 3 := by omega
  rcases this with e | e | e | e <;> subst e <;> first | rfl | exact absurd h (by decide)

theorem pdma_builtDsc_idle (c : Config) (hint : DEF_TOTAL_VLINES c < 2147483648) (B k : Nat)
    (hk : k < dscSlots c) (hna : ∀ j, j < c.CONFIG_TIMING_VACT → activeSlot c j ≠ k) :
    (Pdma.builtDsc c B k).SA = c.addr_s_u32DummyData := by
  have hk4 : k / 4 < DEF_TOTAL_VLINES c := by
    simp only [dscSlots, evHStageCNT] at hk
    omega
  rw [(pdma_builtDsc_fields c B k).2.2.1, pdma_switch_src]
  rw [if_neg]
  rintro ⟨hv, hh⟩
  have h1 := (pdma_vs_vact c hint _ hk4).mp hv
  have h3 := ofVal_hact (k % 4) (Nat.mod_lt _ (by decide)) hh
  apply hna (k / 4 - DEF_VACT_INDEX c)
  · unfold DEF_VACT_INDEX DEF_TOTAL_VLINES at *
    omega
  · simp only [activeSlot, slotOf, evHStageCNT, E_HSTAGE.val]
    omega

theorem pdma_builtDsc_active (c : Config) (hint : DEF_TOTAL_VLINES c < 2147483648) (B j : Nat)
    (hj : j < c.CONFIG_TIMING_VACT) :
    (Pdma.builtDsc c B (activeSlot c j)).SA = u16PtrAdd B (j * c.CONFIG_TIMING_HACT) := by
  have hi : DEF_VACT_INDEX c + j < DEF_TOTAL_VLINES c := by
    unfold DEF_VACT_INDEX DEF_TOTAL_VLINES
    omega
  have hd := slotOf_div (DEF_VACT_INDEX c + j) .evHStageHACT
  rw [(pdma_builtDsc_fields c B _).2.2.1, pdma_switch_src]
  unfold activeSlot
  rw [hd.1, hd.2, (pdma_vs_vact c hint _ hi).mpr (by omega)]
  simp only [and_self, if_true]
  rw [lineBuf_active c (Pdma.vs c) _ (pdma_vs_vact c hint) j hj, u16PtrAdd_eq]

theorem pdma_patch_built (c : Config) (s : DispState Pdma.DSCT_T)
    (hlen : s.s_sDscLCD.length = dscSlots c) (hint : DEF_TOTAL_VLINES c < 2147483648)
    (A B : Nat) :
    Pdma.patch_loop c B c.CONFIG_TIMING_VACT
        (Pdma.disp_pdma_dsc_init c (disp_set_vrambufaddr A s)).s_sDscLCD
      = (Pdma.disp_pdma_dsc_init c (disp_set_vrambufaddr B s)).s_sDscLCD := by
  have hlA : (disp_set_vrambufaddr A s).s_sDscLCD.length = dscSlots c := hlen
  have hlB : (disp_set_vrambufaddr B s).s_sDscLCD.length = dscSlots c := hlen
  apply List.ext_getElem?
  intro k
  by_cases hk : k < dscSlots c
  · rw [pdma_built_get c _ hlB k hk]
    by_cases hact : ∃ j, j < c.CONFIG_TIMING_VACT ∧ activeSlot c j = k
    · obtain ⟨j, hj, rfl⟩ := hact
      rw [pdma_patch_at c B _ _ j hj, pdma_built_get c _ hlA _ hk]
      show some ((Pdma.builtDsc c A (activeSlot c j)).setSA _) = some (Pdma.builtDsc c B _)
      rw [pdma_builtDsc_setSA c A B, pdma_builtDsc_active c hint B j hj]
    · have hna : ∀ j, j < c.CONFIG_TIMING_VACT → activeSlot c j ≠ k :=
        fun j hj e => hact ⟨j, hj, e⟩
      rw [pdma_patch_other c B _ _ k hna, pdma_built_get c _ hlA k hk]
      show some (Pdma.builtDsc c A k) = some (Pdma.builtDsc c B k)
      rw [pdma_builtDsc_setSA c A B, pdma_builtDsc_idle c hint B k hk hna,
        ← pdma_builtDsc_idle c hint A k hk hna, pdma_setSA_self]
  · have h1 : (Pdma.patch_loop c B c.CONFIG_TIMING_VACT
        (Pdma.disp_pdma_dsc_init c (disp_set_vrambufaddr A s)).s_sDscLCD).length ≤ k := by
      rw [pdma_patch_length, pdma_built_length]
      omega
    have h2 : (Pdma.disp_pdma_dsc_init c (disp_set_vrambufaddr B s)).s_sDscLCD.length ≤ k := by
      rw [pdma_built_length]
      omega
    rw [List.getElem?_eq_none h1, List.getElem?_eq_none h2]

theorem getElem_opt_eq_some_getD {α : Type} (l : List α) (k : Nat) (d : α) (hk : k < l.length) :
    l[k]? = some (l.getD k d) := by
  rw [List.getD_eq_getElem?_getD, List.getElem?_eq_getElem hk]
  rfl

theorem gdma_lineCmd_word (c : Config) (V : E_VSTAGE) (h : E_HSTAGE) (pu pu' p : Nat)
    (old : Gdma.S_CMDBUF) (w : Nat) (hw : w ≠ 3) :
    (Gdma.lineCmd c V h pu p old).m_cmdbuf w = (Gdma.lineCmd c V h pu' p old).m_cmdbuf w := by
  have g1 := gdma_generate_words
    (Gdma.dsc_cmdlink c (Gdma.dsc_switch c V h pu) (s_au32HTiming c h) p) old.m_cmdbuf
    (gdma_cmdlink_header c _ _ p)
  have g2 := gdma_generate_words
    (Gdma.dsc_cmdlink c (Gdma.dsc_switch c V h pu') (s_au32HTiming c h) p) old.m_cmdbuf
    (gdma_cmdlink_header c _ _ p)
  have c1 := gdma_cmdlink_cfg c (Gdma.dsc_switch c V h pu) (s_au32HTiming c h) p
  have c2 := gdma_cmdlink_cfg c (Gdma.dsc_switch c V h pu') (s_au32HTiming c h) p
  have d1 := gdma_cmdlink_cfg2 c (Gdma.dsc_switch c V h pu) (s_au32HTiming c h) p
  have d2 := gdma_cmdlink_cfg2 c (Gdma.dsc_switch c V h pu') (s_au32HTiming c h) p
  have i1 := gdma_switch_inc c V h pu
  have i2 := gdma_switch_inc c V h pu'
  have t1 := gdma_switch_dst c V h pu
  have t2 := gdma_switch_dst c V h pu'
  show Gdma.dma350_cmdlink_generate _ old.m_cmdbuf w
    = Gdma.dma350_cmdlink_generate _ old.m_cmdbuf w
  by_cases h8 : 8 ≤ w
  · rw [g1.2.2.2.2.2.2.2.2 w h8, g2.2.2.2.2.2.2.2.2 w h8]
  · have : w = 0 ∨ w = 1 ∨ w = 2 ∨ w = 4 ∨ w = 5 ∨ w = 6 ∨ w = 7 := by omega
    rcases this with e | e | e | e | e | e | e <;> subst e
    · rw [g1.1, g2.1]
    · rw [g1.2.1, g2.2.1, c1.1, c2.1]
    · rw [g1.2.2.1, g2.2.2.1, d1.1, d2.1]
    · rw [g1.2.2.2.2.1, g2.2.2.2.2.1, c1.2.2.1, c2.2.2.1, t1, t2]
    · rw [g1.2.2.2.2.2.1, g2.2.2.2.2.2.1, d1.2.1, d2.2.1]
    · rw [g1.2.2.2.2.2.2.1, g2.2.2.2.2.2.2.1, d1.2.2, d2.2.2, i1.1, i1.2, i2.1, i2.2]
    · rw [g1.2.2.2.2.2.2.2.1, g2.2.2.2.2.2.2.2.1, c1.2.2.2, c2.2.2.2]

theorem gdma_cmdbuf_ext (a b : Gdma.S_CMDBUF) (h : ∀ w, a.m_cmdbuf w = b.m_cmdbuf w) :
    a = b := by
  cases a
  cases b
  congr 1
  funext w
  exact h w

theorem gdma_builtCmd_word3 (c : Config) (B k : Nat) (old : Gdma.S_CMDBUF) :
    (Gdma.builtCmd c B k old).m_cmdbuf 3
      = (Gdma.dsc_switch c (Gdma.vs c (k / 4)) (E_HSTAGE.ofVal (k % 4))
          (lineBuf c (Gdma.vs c) B (k / 4))).u32AddrSrc :=
  (gdma_lineCmd_fields c _ _ _ k old).2.2.1

theorem gdma_builtCmd_idle (c : Config) (hint : DEF_TOTAL_VLINES c < 2147483648) (B k : Nat)
    (old : Gdma.S_CMDBUF)
    (hk : k < dscSlots c) (hna : ∀ j, j < c.CONFIG_TIMING_VACT → activeSlot c j ≠ k) :
    (Gdma.builtCmd c B k old).m_cmdbuf 3 = c.addr_s_u32DummyData := by
  have hk4 : k / 4 < DEF_TOTAL_VLINES c := by
    simp only [dscSlots, evHStageCNT] at hk
    omega
  rw [gdma_builtCmd_word3, gdma_switch_src]
  rw [if_neg]
  rintro ⟨hv, hh⟩
  have h1 := (gdma_vs_vact c hint _ hk4).mp hv
  have h3 := ofVal_hact (k % 4) (Nat.mod_lt _ (by decide)) hh
  apply hna (k / 4 - DEF_VACT_INDEX c)
  · unfold DEF_VACT_INDEX DEF_TOTAL_VLINES at *
    omega
  · simp only [activeSlot, slotOf, evHStageCNT, E_HSTAGE.val]
    omega

theorem gdma_builtCmd_active (c : Config) (hint : DEF_TOTAL_VLINES c < 2147483648) (B j : Nat)
    (old : Gdma.S_CMDBUF) (hj : j < c.CONFIG_TIMING_VACT) :
    (Gdma.builtCmd c B (activeSlot c j) old).m_cmdbuf 3
      = u16PtrAdd B (j * c.CONFIG_TIMING_HACT) := by
  have hi : DEF_VACT_INDEX c + j < DEF_TOTAL_VLINES c := by
    unfold DEF_VACT_INDEX DEF_TOTAL_VLINES
    omega
  have hd := slotOf_div (DEF_VACT_INDEX c + j) .evHStageHACT
  rw [gdma_builtCmd_word3, gdma_switch_src]
  unfold activeSlot
  rw [hd.1, hd.2, (gdma_vs_vact c hint _ hi).mpr (by omega)]
  simp only [and_self, if_true]
  rw [lineBuf_active c (Gdma.vs c) _ (gdma_vs_vact c hint) j hj, u16PtrAdd_eq]

theorem gdma_built_getElem (c : Config) (s : DispState Gdma.S_CMDBUF)
    (hlen : s.s_sDscLCD.length = dscSlots c) (k : Nat) (hk : k < dscSlots c) :
    (Gdma.disp_gdma_dsc_init c s).s_sDscLCD[k]?
      = some (Gdma.builtCmd c s.s_pu16BufAddr k (s.s_sDscLCD.getD k Gdma.S_CMDBUF.zero)) := by
  rw [getElem_opt_eq_some_getD _ k Gdma.S_CMDBUF.zero (by rw [gdma_built_length, hlen]; exact hk),
    gdma_built_get c s hlen k hk]

theorem gdma_patch_built (c : Config) (s : DispState Gdma.S_CMDBUF)
    (hlen : s.s_sDscLCD.length = dscSlots c) (hint : DEF_TOTAL_VLINES c < 2147483648)
    (A B : Nat) :
    Gdma.patch_loop c B 3 c.CONFIG_TIMING_VACT
        (Gdma.disp_gdma_dsc_init c (disp_set_vrambufaddr A s)).s_sDscLCD
      = (Gdma.disp_gdma_dsc_init c (disp_set_vrambufaddr B s)).s_sDscLCD := by
  have hlA : (disp_set_vrambufaddr A s).s_sDscLCD.length = dscSlots c := hlen
  have hlB : (disp_set_vrambufaddr B s).s_sDscLCD.length = dscSlots c := hlen
  apply List.ext_getElem?
  intro k
  by_cases hk : k < dscSlots c
  · rw [gdma_built_getElem c _ hlB k hk]
    by_cases hact : ∃ j, j < c.CONFIG_TIMING_VACT ∧ activeSlot c j = k
    · obtain ⟨j, hj, rfl⟩ := hact
      rw [gdma_patch_at c B 3 _ _ j hj, gdma_built_getElem c _ hlA _ hk]
      refine congrArg some ?_
      apply gdma_cmdbuf_ext
      intro w
      show (if w = 3 then u16PtrAdd B (j * c.CONFIG_TIMING_HACT)
        else (Gdma.builtCmd c A (activeSlot c j) _).m_cmdbuf w)
        = (Gdma.builtCmd c B (activeSlot c j) _).m_cmdbuf w
      by_cases hw : w = 3
      · subst hw
        rw [if_pos rfl]
        exact (gdma_builtCmd_active c hint B j _ hj).symm
      · rw [if_neg hw]
        exact gdma_lineCmd_word c _ _ _ _ _ _ w hw
    · have hna : ∀ j, j < c.CONFIG_TIMING_VACT → activeSlot c j ≠ k :=
        fun j hj e => hact ⟨j, hj, e⟩
      rw [gdma_patch_other c B 3 _ _ k hna, gdma_built_getElem c _ hlA k hk]
      refine congrArg some ?_
      apply gdma_cmdbuf_ext
      intro w
      by_cases hw : w = 3
      · subst hw
        show (Gdma.builtCmd c A k _).m_cmdbuf 3 = (Gdma.builtCmd c B k _).m_cmdbuf 3
        rw [gdma_builtCmd_idle c hint A k _ hk hna, gdma_builtCmd_idle c hint B k _ hk hna]
      · exact gdma_lineCmd_word c _ _ _ _ _ _ w hw
  · have h1 : (Gdma.patch_loop c B 3 c.CONFIG_TIMING_VACT
        (Gdma.disp_gdma_dsc_init c (disp_set_vrambufaddr A s)).s_sDscLCD).length ≤ k := by
      rw [gdma_patch_length, gdma_built_length]
      omega
    have h2 : (Gdma.disp_gdma_dsc_init c (disp_set_vrambufaddr B s)).s_sDscLCD.length ≤ k := by
      rw [gdma_built_length]
      omega
    rw [List.getElem?_eq_none h1, List.getElem?_eq_none h2]


/-! ## Every reached chain is a built chain -/

theorem u16PtrAdd_congr (A B n : Nat) (h : A % 4294967296 = B % 4294967296) :
    u16PtrAdd A n = u16PtrAdd B n := by
  unfold u16PtrAdd
  omega

theorem pdma_patch_congr (c : Config) (A B : Nat) (h : A % 4294967296 = B % 4294967296)
    (n : Nat) (dsc : List Pdma.DSCT_T) :
    Pdma.patch_loop c A n dsc = Pdma.patch_loop c B n dsc := by
  induction n with
  | zero => rfl
  | succ n ih => rw [Pdma.patch_loop, Pdma.patch_loop, ih, u16PtrAdd_congr A B _ h]

theorem gdma_patch_congr (c : Config) (A B : Nat) (h : A % 4294967296 = B % 4294967296)
    (idx n : Nat) (dsc : List Gdma.S_CMDBUF) :
    Gdma.patch_loop c A idx n dsc = Gdma.patch_loop c B idx n dsc := by
  induction n with
  | zero => rfl
  | succ n ih => rw [Gdma.patch_loop, Gdma.patch_loop, ih, u16PtrAdd_congr A B _ h]

theorem pdma_built_first (c : Config) (s : DispState Pdma.DSCT_T)
    (hlen : s.s_sDscLCD.length = dscSlots c) (hint : DEF_TOTAL_VLINES c < 2147483648)
    (h0 : 0 < c.CONFIG_TIMING_VACT) (A : Nat) :
    ((Pdma.disp_pdma_dsc_init c (disp_set_vrambufaddr A s)).s_sDscLCD.getD (activeSlot c 0)
      Pdma.DSCT_T.zero).SA = A % 4294967296 := by
  have h := pdma_built_active_src c (disp_set_vrambufaddr A s) hlen hint 0 h0
  rw [Nat.zero_mul, Nat.zero_mul, Nat.add_zero] at h
  exact h

theorem gdma_built_first (c : Config) (s : DispState Gdma.S_CMDBUF)
    (hlen : s.s_sDscLCD.length = dscSlots c) (hint : DEF_TOTAL_VLINES c < 2147483648)
    (h0 : 0 < c.CONFIG_TIMING_VACT) (A : Nat) :
    Gdma.srcAddr ((Gdma.disp_gdma_dsc_init c (disp_set_vrambufaddr A s)).s_sDscLCD.getD
      (activeSlot c 0) Gdma.S_CMDBUF.zero) = A % 4294967296 := by
  have h := gdma_built_active_src c (disp_set_vrambufaddr A s) hlen hint 0 h0
  rw [Nat.zero_mul, Nat.zero_mul, Nat.add_zero] at h
  exact h

theorem pdma_event_on_built (c : Config) (s : DispState Pdma.DSCT_T)
    (hlen : s.s_sDscLCD.length = dscSlots c) (hint : DEF_TOTAL_VLINES c < 2147483648)
    (A : Nat) (t : DispState Pdma.DSCT_T)
    (ht : t.s_sDscLCD = (Pdma.disp_pdma_dsc_init c (disp_set_vrambufaddr A s)).s_sDscLCD) :
    (Pdma.nu_pdma_memfun_cb c Pdma.NU_PDMA_EVENT_TRANSFER_DONE t).s_sDscLCD
      = (Pdma.disp_pdma_dsc_init c (disp_set_vrambufaddr t.s_pu16BufAddr s)).s_sDscLCD := by
  rw [(pdma_handler_fields c _ t).2.1]
  have hp := pdma_patch_built c s hlen hint A t.s_pu16BufAddr
  by_cases hc : Pdma.NU_PDMA_EVENT_TRANSFER_DONE = Pdma.NU_PDMA_EVENT_TRANSFER_DONE
      ∧ Pdma.firstActiveSA c t ≠ t.s_pu16BufAddr % 4294967296
  · rw [if_pos hc, ht]
    exact hp
  · rw [if_neg hc]
    have hf : Pdma.firstActiveSA c t = t.s_pu16BufAddr % 4294967296 := by
      by_contra hne
      exact hc ⟨rfl, hne⟩
    rcases Nat.eq_zero_or_pos c.CONFIG_TIMING_VACT with h0 | h0
    · rw [h0] at hp
      rw [ht]
      exact hp
    · have hA : A % 4294967296 = t.s_pu16BufAddr % 4294967296 := by
        rw [← hf]
        unfold Pdma.firstActiveSA
        rw [ht]
        exact (pdma_built_first c s hlen hint h0 A).symm
      rw [ht, ← hp, ← pdma_patch_congr c A _ hA, pdma_patch_built c s hlen hint A A]

theorem gdma_event_on_built (c : Config) (s : DispState Gdma.S_CMDBUF)
    (hlen : s.s_sDscLCD.length = dscSlots c) (hint : DEF_TOTAL_VLINES c < 2147483648)
    (A : Nat) (t : DispState Gdma.S_CMDBUF)
    (ht : t.s_sDscLCD = (Gdma.disp_gdma_dsc_init c (disp_set_vrambufaddr A s)).s_sDscLCD) :
    (Gdma.GDMACH1_IRQHandler c true t).s_sDscLCD
      = (Gdma.disp_gdma_dsc_init c (disp_set_vrambufaddr t.s_pu16BufAddr s)).s_sDscLCD := by
  rw [(gdma_handler_fields c _ t).2.1]
  have hp := gdma_patch_built c s hlen hint A t.s_pu16BufAddr
  rcases Nat.eq_zero_or_pos c.CONFIG_TIMING_VACT with h0 | h0
  · rw [h0] at hp
    have hp2 : (Gdma.disp_gdma_dsc_init c (disp_set_vrambufaddr A s)).s_sDscLCD
        = (Gdma.disp_gdma_dsc_init c (disp_set_vrambufaddr t.s_pu16BufAddr s)).s_sDscLCD := hp
    rw [h0]
    split
    · rw [ht]
      exact hp2
    · rw [ht]
      exact hp2
  · have hh : Gdma.ActiveHeaders c t.s_sDscLCD := by
      rw [ht]
      exact gdma_built_headers c (disp_set_vrambufaddr A s) hlen
    rw [gdma_find_of_header _ (hh 0 h0)]
    have e3 : (2 + 1) % 4294967296 = 3 := by decide
    rw [e3]
    by_cases hc : true = true ∧ Gdma.firstActiveSrc c t ≠ t.s_pu16BufAddr % 4294967296
    · rw [if_pos hc, ht]
      exact hp
    · rw [if_neg hc]
      have hf : Gdma.firstActiveSrc c t = t.s_pu16BufAddr % 4294967296 := by
        by_contra hne
        exact hc ⟨rfl, hne⟩
      have hA : A % 4294967296 = t.s_pu16BufAddr % 4294967296 := by
        rw [← hf]
        unfold Gdma.firstActiveSrc
        rw [ht]
        exact (gdma_built_first c s hlen hint h0 A).symm
      rw [ht, ← hp, ← gdma_patch_congr c A _ hA, gdma_patch_built c s hlen hint A A]

theorem pdma_step_built (c : Config) (s : DispState Pdma.DSCT_T)
    (hlen : s.s_sDscLCD.length = dscSlots c) (hint : DEF_TOTAL_VLINES c < 2147483648)
    (e : Pdma.Step) (t : DispState Pdma.DSCT_T)
    (ht : ∃ A, t.s_sDscLCD
      = (Pdma.disp_pdma_dsc_init c (disp_set_vrambufaddr A s)).s_sDscLCD) :
    ∃ A, (Pdma.step c e t).s_sDscLCD
      = (Pdma.disp_pdma_dsc_init c (disp_set_vrambufaddr A s)).s_sDscLCD := by
  obtain ⟨A, hA⟩ := ht
  cases e with
  | call a =>
    refine ⟨A, ?_⟩
    cases a <;> exact hA
  | event ev =>
    by_cases hev : ev = Pdma.NU_PDMA_EVENT_TRANSFER_DONE
    · subst hev
      exact ⟨_, pdma_event_on_built c s hlen hint A t hA⟩
    · refine ⟨A, ?_⟩
      show (Pdma.nu_pdma_memfun_cb c ev t).s_sDscLCD = _
      rw [(pdma_handler_fields c ev t).2.1, if_neg (fun h => hev h.1)]
      exact hA

theorem gdma_step_built (c : Config) (s : DispState Gdma.S_CMDBUF)
    (hlen : s.s_sDscLCD.length = dscSlots c) (hint : DEF_TOTAL_VLINES c < 2147483648)
    (e : Gdma.Step) (t : DispState Gdma.S_CMDBUF)
    (ht : ∃ A, t.s_sDscLCD
      = (Gdma.disp_gdma_dsc_init c (disp_set_vrambufaddr A s)).s_sDscLCD) :
    ∃ A, (Gdma.step c e t).s_sDscLCD
      = (Gdma.disp_gdma_dsc_init c (disp_set_vrambufaddr A s)).s_sDscLCD := by
  obtain ⟨A, hA⟩ := ht
  cases e with
  | call a =>
    refine ⟨A, ?_⟩
    cases a <;> exact hA
  | event st =>
    cases st
    · refine ⟨A, ?_⟩
      show (Gdma.GDMACH1_IRQHandler c false t).s_sDscLCD = _
      rw [(gdma_handler_fields c false t).2.1, if_neg (fun h => absurd h.1 (by decide))]
      exact hA
    · exact ⟨_, gdma_event_on_built c s hlen hint A t hA⟩

theorem pdma_run_built (c : Config) (s : DispState Pdma.DSCT_T)
    (hlen : s.s_sDscLCD.length = dscSlots c) (hint : DEF_TOTAL_VLINES c < 2147483648)
    (steps : List Pdma.Step) : ∀ (t : DispState Pdma.DSCT_T),
    (∃ A, t.s_sDscLCD = (Pdma.disp_pdma_dsc_init c (disp_set_vrambufaddr A s)).s_sDscLCD) →
    ∃ A, (Pdma.run c steps t).s_sDscLCD
      = (Pdma.disp_pdma_dsc_init c (disp_set_vrambufaddr A s)).s_sDscLCD := by
  induction steps with
  | nil =>
    intro t ht
    exact ht
  | cons e rest ih =>
    intro t ht
    exact ih _ (pdma_step_built c s hlen hint e t ht)

theorem gdma_run_built (c : Config) (s : DispState Gdma.S_CMDBUF)
    (hlen : s.s_sDscLCD.length = dscSlots c) (hint : DEF_TOTAL_VLINES c < 2147483648)
    (steps : List Gdma.Step) : ∀ (t : DispState Gdma.S_CMDBUF),
    (∃ A, t.s_sDscLCD = (Gdma.disp_gdma_dsc_init c (disp_set_vrambufaddr A s)).s_sDscLCD) →
    ∃ A, (Gdma.run c steps t).s_sDscLCD
      = (Gdma.disp_gdma_dsc_init c (disp_set_vrambufaddr A s)).s_sDscLCD := by
  induction steps with
  | nil =>
    intro t ht
    exact ht
  | cons e rest ih =>
    intro t ht
    exact ih _ (gdma_step_built c s hlen hint e t ht)

theorem pdma_reached_built (c : Config) (s : DispState Pdma.DSCT_T)
    (hlen : s.s_sDscLCD.length = dscSlots c) (hint : DEF_TOTAL_VLINES c < 2147483648)
    (steps : List Pdma.Step) :
    ∃ A, (Pdma.reached c steps s).s_sDscLCD
      = (Pdma.disp_pdma_dsc_init c (disp_set_vrambufaddr A s)).s_sDscLCD :=
  pdma_run_built c s hlen hint steps _ ⟨s.s_pu16BufAddr, rfl⟩

theorem gdma_reached_built (c : Config) (s : DispState Gdma.S_CMDBUF)
    (hlen : s.s_sDscLCD.length = dscSlots c) (hint : DEF_TOTAL_VLINES c < 2147483648)
    (steps : List Gdma.Step) :
    ∃ A, (Gdma.reached c steps s).s_sDscLCD
      = (Gdma.disp_gdma_dsc_init c (disp_set_vrambufaddr A s)).s_sDscLCD :=
  gdma_run_built c s hlen hint steps _ ⟨s.s_pu16BufAddr, rfl⟩

/-! ## The frame of the completion handlers -/

theorem pdma_patch_frame (c : Config) (R n : Nat) (dsc : List Pdma.DSCT_T) (k : Nat) :
    ((Pdma.patch_loop c R n dsc).getD k Pdma.DSCT_T.zero).CTL
        = (dsc.getD k Pdma.DSCT_T.zero).CTL
    ∧ ((Pdma.patch_loop c R n dsc).getD k Pdma.DSCT_T.zero).DA
        = (dsc.getD k Pdma.DSCT_T.zero).DA
    ∧ ((Pdma.patch_loop c R n dsc).getD k Pdma.DSCT_T.zero).NEXT
        = (dsc.getD k Pdma.DSCT_T.zero).NEXT
    ∧ ((∀ j, j < n → activeSlot c j ≠ k) →
        (Pdma.patch_loop c R n dsc).getD k Pdma.DSCT_T.zero = dsc.getD k Pdma.DSCT_T.zero) := by
  by_cases hact : ∃ j, j < n ∧ activeSlot c j = k
  · obtain ⟨j, hj, rfl⟩ := hact
    rw [List.getD_eq_getElem?_getD, List.getD_eq_getElem?_getD, pdma_patch_at c R n dsc j hj]
    refine ⟨?_, ?_, ?_, ?_⟩
    · cases dsc[activeSlot c j]? <;> rfl
    · cases dsc[activeSlot c j]? <;> rfl
    · cases dsc[activeSlot c j]? <;> rfl
    · intro h
      exact absurd rfl (h j hj)
  · have hna : ∀ j, j < n → activeSlot c j ≠ k := fun j hj e => hact ⟨j, hj, e⟩
    have e : (Pdma.patch_loop c R n dsc).getD k Pdma.DSCT_T.zero
        = dsc.getD k Pdma.DSCT_T.zero := by
      rw [List.getD_eq_getElem?_getD, List.getD_eq_getElem?_getD, pdma_patch_other c R n dsc k hna]
    rw [e]
    exact ⟨rfl, rfl, rfl, fun _ => rfl⟩

theorem gdma_patch_frame (c : Config) (R idx n : Nat) (dsc : List Gdma.S_CMDBUF) (k : Nat) :
    (∀ w, w ≠ idx →
      ((Gdma.patch_loop c R idx n dsc).getD k Gdma.S_CMDBUF.zero).m_cmdbuf w
        = (dsc.getD k Gdma.S_CMDBUF.zero).m_cmdbuf w)
    ∧ ((∀ j, j < n → activeSlot c j ≠ k) →
        (Gdma.patch_loop c R idx n dsc).getD k Gdma.S_CMDBUF.zero
          = dsc.getD k Gdma.S_CMDBUF.zero) := by
  by_cases hact : ∃ j, j < n ∧ activeSlot c j = k
  · obtain ⟨j, hj, rfl⟩ := hact
    rw [List.getD_eq_getElem?_getD, List.getD_eq_getElem?_getD, gdma_patch_at c R idx n dsc j hj]
    refine ⟨?_, ?_⟩
    · intro w hw
      cases dsc[activeSlot c j]? with
      | none => rfl
      | some d =>
        show (if w = idx then _ else d.m_cmdbuf w) = d.m_cmdbuf w
        rw [if_neg hw]
    · intro h
      exact absurd rfl (h j hj)
  · have hna : ∀ j, j < n → activeSlot c j ≠ k := fun j hj e => hact ⟨j, hj, e⟩
    have e : (Gdma.patch_loop c R idx n dsc).getD k Gdma.S_CMDBUF.zero
        = dsc.getD k Gdma.S_CMDBUF.zero := by
      rw [List.getD_eq_getElem?_getD, List.getD_eq_getElem?_getD,
        gdma_patch_other c R idx n dsc k hna]
    rw [e]
    exact ⟨fun _ _ => rfl, fun _ => rfl⟩

theorem pdma_handler_frame (c : Config) (ev : Nat) (s : DispState Pdma.DSCT_T) (k : Nat) :
    ((Pdma.nu_pdma_memfun_cb c ev s).s_sDscLCD.getD k Pdma.DSCT_T.zero).CTL
        = (s.s_sDscLCD.getD k Pdma.DSCT_T.zero).CTL
    ∧ ((Pdma.nu_pdma_memfun_cb c ev s).s_sDscLCD.getD k Pdma.DSCT_T.zero).DA
        = (s.s_sDscLCD.getD k Pdma.DSCT_T.zero).DA
    ∧ ((Pdma.nu_pdma_memfun_cb c ev s).s_sDscLCD.getD k Pdma.DSCT_T.zero).NEXT
        = (s.s_sDscLCD.getD k Pdma.DSCT_T.zero).NEXT
    ∧ ((∀ j, j < c.CONFIG_TIMING_VACT → activeSlot c j ≠ k) →
        (Pdma.nu_pdma_memfun_cb c ev s).s_sDscLCD.getD k Pdma.DSCT_T.zero
          = s.s_sDscLCD.getD k Pdma.DSCT_T.zero) := by
  rw [(pdma_handler_fields c ev s).2.1]
  split
  · exact pdma_patch_frame c _ _ _ k
  · exact ⟨rfl, rfl, rfl, fun _ => rfl⟩

theorem gdma_handler_frame (c : Config) (st : Bool) (s : DispState Gdma.S_CMDBUF)
    (hhdr : Gdma.ActiveHeaders c s.s_sDscLCD) (k : Nat) :
    (∀ w, w ≠ 3 →
      ((Gdma.GDMACH1_IRQHandler c st s).s_sDscLCD.getD k Gdma.S_CMDBUF.zero).m_cmdbuf w
        = (s.s_sDscLCD.getD k Gdma.S_CMDBUF.zero).m_cmdbuf w)
    ∧ ((∀ j, j < c.CONFIG_TIMING_VACT → activeSlot c j ≠ k) →
        (Gdma.GDMACH1_IRQHandler c st s).s_sDscLCD.getD k Gdma.S_CMDBUF.zero
          = s.s_sDscLCD.getD k Gdma.S_CMDBUF.zero) := by
  rw [(gdma_handler_fields c st s).2.1]
  rcases Nat.eq_zero_or_pos c.CONFIG_TIMING_VACT with h0 | h0
  · rw [h0]
    split
    · exact ⟨fun _ _ => rfl, fun _ => rfl⟩
    · exact ⟨fun _ _ => rfl, fun _ => rfl⟩
  · rw [gdma_find_of_header _ (hhdr 0 h0)]
    have e3 : (2 + 1) % 4294967296 = 3 := by decide
    rw [e3]
    split
    · exact gdma_patch_frame c _ 3 _ _ k
    · exact ⟨fun _ _ => rfl, fun _ => rfl⟩

theorem gdma_words_fields (a b : Gdma.S_CMDBUF)
    (h : ∀ w, w ≠ 3 → a.m_cmdbuf w = b.m_cmdbuf w) (hb : b.m_cmdbuf 0 = Gdma.builtHeader) :
    a.m_cmdbuf 0 = Gdma.builtHeader
    ∧ Gdma.desAddr a = Gdma.desAddr b
    ∧ Gdma.linkAddr a = Gdma.linkAddr b
    ∧ Gdma.intrDone a = Gdma.intrDone b
    ∧ Gdma.srcCount a = Gdma.srcCount b
    ∧ Gdma.desCount a = Gdma.desCount b := by
  have h0 : a.m_cmdbuf 0 = Gdma.builtHeader := (h 0 (by decide)).trans hb
  refine ⟨h0, ?_, ?_, ?_, ?_, ?_⟩
  · unfold Gdma.desAddr
    rw [h0, hb, gdma_fieldPos_built.2.1]
    exact h 4 (by decide)
  · unfold Gdma.linkAddr
    rw [h0, hb, gdma_fieldPos_built.2.2.1, h 7 (by decide)]
  · unfold Gdma.intrDone
    rw [h0, hb, gdma_fieldPos_built.1, h 1 (by decide)]
  · unfold Gdma.srcCount
    rw [h0, hb, gdma_fieldPos_built2.2.1, h 5 (by decide)]
  · unfold Gdma.desCount
    rw [h0, hb, gdma_fieldPos_built2.2.1, h 5 (by decide)]

theorem slotOf_not_active (c : Config) (hint : DEF_TOTAL_VLINES c < 2147483648) (i : Nat)
    (h : E_HSTAGE) (hi : i < DEF_TOTAL_VLINES c)
    (hn : ¬ (Pdma.get_current_vstage c (i : Int) = .evVStageVACT ∧ h = .evHStageHACT)) :
    ∀ j, j < c.CONFIG_TIMING_VACT → activeSlot c j ≠ slotOf i h := by
  intro j hj e
  have d1 := slotOf_div (DEF_VACT_INDEX c + j) .evHStageHACT
  have d2 := slotOf_div i h
  unfold activeSlot at e
  rw [e] at d1
  have hi2 : i = DEF_VACT_INDEX c + j := d2.1.symm.trans d1.1
  have hh : h = .evHStageHACT := d2.2.symm.trans d1.2
  apply hn
  refine ⟨?_, hh⟩
  have hv : Pdma.get_current_vstage c (i : Int) = Pdma.vs c i := rfl
  rw [hv]
  exact (pdma_vs_vact c hint i hi).mpr (by omega)

theorem pdma_built_ring (c : Config) (s : DispState Pdma.DSCT_T)
    (hlen : s.s_sDscLCD.length = dscSlots c) (hpos : 0 < DEF_TOTAL_VLINES c) :
    (Pdma.disp_pdma_dsc_init c s).s_sDscLCD.length = dscSlots c
    ∧ (∀ k, k < dscSlots c →
        ((Pdma.disp_pdma_dsc_init c s).s_sDscLCD.getD k Pdma.DSCT_T.zero).NEXT
          = if k = s_end c then Pdma.ptrVal c s_head else Pdma.ptrVal c (k + 1))
    ∧ (∀ n, n < dscSlots c →
        Pdma.follow c (Pdma.disp_pdma_dsc_init c s).s_sDscLCD n (Pdma.ptrVal c s_head)
          = Pdma.ptrVal c n)
    ∧ Pdma.follow c (Pdma.disp_pdma_dsc_init c s).s_sDscLCD (dscSlots c) (Pdma.ptrVal c s_head)
        = Pdma.ptrVal c s_head
    ∧ (∀ k, k < dscSlots c →
        (((Pdma.disp_pdma_dsc_init c s).s_sDscLCD.getD k Pdma.DSCT_T.zero).CTL.TBINTDIS = false
          ↔ k = s_end c)) := by
  have hN : 0 < dscSlots c := by
    simp only [dscSlots, evHStageCNT]
    omega
  have hend : s_end c = dscSlots c - 1 := by simp only [s_end, s_head, zero_add]
  refine ⟨by rw [pdma_built_length, hlen], fun k hk => pdma_built_next c s hlen k hk,
    fun n hn => pdma_follow_built c s hlen n hn, ?_, ?_⟩
  · obtain ⟨m, hm⟩ : ∃ m, dscSlots c = m + 1 := ⟨dscSlots c - 1, by omega⟩
    rw [hm, Pdma.follow, pdma_follow_built c s hlen m (by omega), pdma_slotOfPtr_ptrVal,
      pdma_built_next c s hlen m (by omega), if_pos (by omega)]
  · intro k hk
    rw [pdma_built_getD c s hlen k hk, (pdma_builtDsc_fields c _ k).2.1]
    simp

theorem gdma_built_ring (c : Config) (s : DispState Gdma.S_CMDBUF)
    (hlen : s.s_sDscLCD.length = dscSlots c) (hpos : 0 < DEF_TOTAL_VLINES c)
    (halign : c.addr_s_sDscLCD % 4 = 0) :
    (Gdma.disp_gdma_dsc_init c s).s_sDscLCD.length = dscSlots c
    ∧ (∀ k, k < dscSlots c →
        Gdma.linkAddr ((Gdma.disp_gdma_dsc_init c s).s_sDscLCD.getD k Gdma.S_CMDBUF.zero)
          = if k = s_end c then Gdma.ptrVal c s_head else Gdma.ptrVal c (k + 1))
    ∧ (∀ n, n < dscSlots c →
        Gdma.follow c (Gdma.disp_gdma_dsc_init c s).s_sDscLCD n (Gdma.ptrVal c s_head)
          = Gdma.ptrVal c n)
    ∧ Gdma.follow c (Gdma.disp_gdma_dsc_init c s).s_sDscLCD (dscSlots c) (Gdma.ptrVal c s_head)
        = Gdma.ptrVal c s_head
    ∧ (∀ k, k < dscSlots c →
        (Gdma.intrDone ((Gdma.disp_gdma_dsc_init c s).s_sDscLCD.getD k Gdma.S_CMDBUF.zero) = true
          ↔ k = s_end c))
    ∧ (∀ k, k < dscSlots c →
        ((Gdma.disp_gdma_dsc_init c s).s_sDscLCD.getD k Gdma.S_CMDBUF.zero).m_cmdbuf 0
          = Gdma.builtHeader) := by
  have hN : 0 < dscSlots c := by
    simp only [dscSlots, evHStageCNT]
    omega
  have hend : s_end c = dscSlots c - 1 := by simp only [s_end, s_head, zero_add]
  have hlink : ∀ k, k < dscSlots c →
      Gdma.linkAddr ((Gdma.disp_gdma_dsc_init c s).s_sDscLCD.getD k Gdma.S_CMDBUF.zero)
        = if k = s_end c then Gdma.ptrVal c s_head else Gdma.ptrVal c (k + 1) := by
    intro k hk
    rw [gdma_built_link c s hlen k hk]
    split
    · exact gdma_ptrVal_aligned c halign _
    · exact gdma_ptrVal_aligned c halign _
  refine ⟨by rw [gdma_built_length, hlen], hlink,
    fun n hn => gdma_follow_built c s hlen halign n hn, ?_, ?_, ?_⟩
  · obtain ⟨m, hm⟩ : ∃ m, dscSlots c = m + 1 := ⟨dscSlots c - 1, by omega⟩
    rw [hm, Gdma.follow, gdma_follow_built c s hlen halign m (by omega), gdma_slotOfPtr_ptrVal,
      hlink m (by omega), if_pos (by omega)]
  · intro k hk
    have h : Gdma.intrDone
        ((Gdma.disp_gdma_dsc_init c s).s_sDscLCD.getD k Gdma.S_CMDBUF.zero)
        = decide (k = s_end c) := by
      rw [gdma_built_get c s hlen k hk]
      exact (gdma_lineCmd_fields c _ _ _ k _).2.2.2.2.2.2
    rw [h]
    simp
  · intro k hk
    rw [gdma_built_get c s hlen k hk]
    exact (gdma_lineCmd_fields c _ _ _ k _).1


/-- C21: the frame of the completion handlers, in every state reached from a built chain by
calls of the API and runs of the handler (sync configuration, both backends).  A run of
`nu_pdma_memfun_cb`, with any event code, leaves `CTL` (transfer count and interrupt flag),
`DA` and `NEXT` of every descriptor as they were, and leaves every descriptor other than the
horizontal-Active descriptors of the `VACT` active scanlines wholly as it was, so every
descriptor of a line not in the Active stage and every HFP, HSYNC and HBP descriptor.  A run
of `GDMACH1_IRQHandler` leaves every command word other than the source-address word
(word 3) as it was, hence header, destination address, link pointer, interrupt flag and
transfer counts, and leaves the other command buffers wholly as they were.  In every
reached state the chain has `dscSlots` descriptors, descriptor `k` links to descriptor
`k + 1` and the last one to `s_head`, the walk from `s_head` is at slot `n` after `n`
steps and back at `s_head` after `dscSlots` steps, and the interrupt is enabled in the
descriptor `s_end` and in no other. -/
theorem C21_handler_frame (c : Config) (sP : DispState Pdma.DSCT_T)
    (sG : DispState Gdma.S_CMDBUF)
    (hlenP : sP.s_sDscLCD.length = dscSlots c) (hlenG : sG.s_sDscLCD.length = dscSlots c)
    (hpos : 0 < DEF_TOTAL_VLINES c) (hint : DEF_TOTAL_VLINES c < 2147483648)
    (halign : c.addr_s_sDscLCD % 4 = 0)
    (stepsP : List Pdma.Step) (stepsG : List Gdma.Step) (ev : Nat) (st : Bool) :
    ((∀ k,
        ((Pdma.nu_pdma_memfun_cb c ev (Pdma.reached c stepsP sP)).s_sDscLCD.getD k
            Pdma.DSCT_T.zero).CTL
          = ((Pdma.reached c stepsP sP).s_sDscLCD.getD k Pdma.DSCT_T.zero).CTL
        ∧ ((Pdma.nu_pdma_memfun_cb c ev (Pdma.reached c stepsP sP)).s_sDscLCD.getD k
            Pdma.DSCT_T.zero).DA
          = ((Pdma.reached c stepsP sP).s_sDscLCD.getD k Pdma.DSCT_T.zero).DA
        ∧ ((Pdma.nu_pdma_memfun_cb c ev (Pdma.reached c stepsP sP)).s_sDscLCD.getD k
            Pdma.DSCT_T.zero).NEXT
          = ((Pdma.reached c stepsP sP).s_sDscLCD.getD k Pdma.DSCT_T.zero).NEXT
        ∧ ((∀ j, j < c.CONFIG_TIMING_VACT → activeSlot c j ≠ k) →
            (Pdma.nu_pdma_memfun_cb c ev (Pdma.reached c stepsP sP)).s_sDscLCD.getD k
                Pdma.DSCT_T.zero
              = (Pdma.reached c stepsP sP).s_sDscLCD.getD k Pdma.DSCT_T.zero))
      ∧ (∀ (i : Nat) (h : E_HSTAGE), i < DEF_TOTAL_VLINES c →
          ¬ (Pdma.get_current_vstage c (i : Int) = .evVStageVACT ∧ h = .evHStageHACT) →
          (Pdma.nu_pdma_memfun_cb c ev (Pdma.reached c stepsP sP)).s_sDscLCD.getD (slotOf i h)
              Pdma.DSCT_T.zero
            = (Pdma.reached c stepsP sP).s_sDscLCD.getD (slotOf i h) Pdma.DSCT_T.zero)
      ∧ (Pdma.reached c stepsP sP).s_sDscLCD.length = dscSlots c
      ∧ (∀ k, k < dscSlots c →
          ((Pdma.reached c stepsP sP).s_sDscLCD.getD k Pdma.DSCT_T.zero).NEXT
            = if k = s_end c then Pdma.ptrVal c s_head else Pdma.ptrVal c (k + 1))
      ∧ (∀ n, n < dscSlots c →
          Pdma.follow c (Pdma.reached c stepsP sP).s_sDscLCD n (Pdma.ptrVal c s_head)
            = Pdma.ptrVal c n)
      ∧ Pdma.follow c (Pdma.reached c stepsP sP).s_sDscLCD (dscSlots c) (Pdma.ptrVal c s_head)
          = Pdma.ptrVal c s_head
      ∧ (∀ k, k < dscSlots c →
          (((Pdma.reached c stepsP sP).s_sDscLCD.getD k Pdma.DSCT_T.zero).CTL.TBINTDIS = false
            ↔ k = s_end c)))
    ∧ ((∀ k,
        (∀ w, w ≠ 3 →
          ((Gdma.GDMACH1_IRQHandler c st (Gdma.reached c stepsG sG)).s_sDscLCD.getD k
              Gdma.S_CMDBUF.zero).m_cmdbuf w
            = ((Gdma.reached c stepsG sG).s_sDscLCD.getD k Gdma.S_CMDBUF.zero).m_cmdbuf w)
        ∧ ((∀ j, j < c.CONFIG_TIMING_VACT → activeSlot c j ≠ k) →
            (Gdma.GDMACH1_IRQHandler c st (Gdma.reached c stepsG sG)).s_sDscLCD.getD k
                Gdma.S_CMDBUF.zero
              = (Gdma.reached c stepsG sG).s_sDscLCD.getD k Gdma.S_CMDBUF.zero))
      ∧ (∀ k, k < dscSlots c →
          ((Gdma.GDMACH1_IRQHandler c st (Gdma.reached c stepsG sG)).s_sDscLCD.getD k
              Gdma.S_CMDBUF.zero).m_cmdbuf 0 = Gdma.builtHeader
          ∧ Gdma.desAddr ((Gdma.GDMACH1_IRQHandler c st (Gdma.reached c stepsG sG)).s_sDscLCD.getD
              k Gdma.S_CMDBUF.zero)
            = Gdma.desAddr ((Gdma.reached c stepsG sG).s_sDscLCD.getD k Gdma.S_CMDBUF.zero)
          ∧ Gdma.linkAddr ((Gdma.GDMACH1_IRQHandler c st (Gdma.reached c stepsG sG)).s_sDscLCD.getD
              k Gdma.S_CMDBUF.zero)
            = Gdma.linkAddr ((Gdma.reached c stepsG sG).s_sDscLCD.getD k Gdma.S_CMDBUF.zero)
          ∧ Gdma.intrDone ((Gdma.GDMACH1_IRQHandler c st (Gdma.reached c stepsG sG)).s_sDscLCD.getD
              k Gdma.S_CMDBUF.zero)
            = Gdma.intrDone ((Gdma.reached c stepsG sG).s_sDscLCD.getD k Gdma.S_CMDBUF.zero)
          ∧ Gdma.srcCount ((Gdma.GDMACH1_IRQHandler c st (Gdma.reached c stepsG sG)).s_sDscLCD.getD
              k Gdma.S_CMDBUF.zero)
            = Gdma.srcCount ((Gdma.reached c stepsG sG).s_sDscLCD.getD k Gdma.S_CMDBUF.zero)
          ∧ Gdma.desCount ((Gdma.GDMACH1_IRQHandler c st (Gdma.reached c stepsG sG)).s_sDscLCD.getD
              k Gdma.S_CMDBUF.zero)
            = Gdma.desCount ((Gdma.reached c stepsG sG).s_sDscLCD.getD k Gdma.S_CMDBUF.zero))
      ∧ (∀ (i : Nat) (h : E_HSTAGE), i < DEF_TOTAL_VLINES c →
          ¬ (Gdma.get_current_vstage c (i : Int) = .evVStageVACT ∧ h = .evHStageHACT) →
          (Gdma.GDMACH1_IRQHandler c st (Gdma.reached c stepsG sG)).s_sDscLCD.getD (slotOf i h)
              Gdma.S_CMDBUF.zero
            = (Gdma.reached c stepsG sG).s_sDscLCD.getD (slotOf i h) Gdma.S_CMDBUF.zero)
      ∧ (Gdma.reached c stepsG sG).s_sDscLCD.length = dscSlots c
      ∧ (∀ k, k < dscSlots c →
          Gdma.linkAddr ((Gdma.reached c stepsG sG).s_sDscLCD.getD k Gdma.S_CMDBUF.zero)
            = if k = s_end c then Gdma.ptrVal c s_head else Gdma.ptrVal c (k + 1))
      ∧ (∀ n, n < dscSlots c →
          Gdma.follow c (Gdma.reached c stepsG sG).s_sDscLCD n (Gdma.ptrVal c s_head)
            = Gdma.ptrVal c n)
      ∧ Gdma.follow c (Gdma.reached c stepsG sG).s_sDscLCD (dscSlots c) (Gdma.ptrVal c s_head)
          = Gdma.ptrVal c s_head
      ∧ (∀ k, k < dscSlots c →
          (Gdma.intrDone ((Gdma.reached c stepsG sG).s_sDscLCD.getD k Gdma.S_CMDBUF.zero) = true
            ↔ k = s_end c))) := by
  obtain ⟨A, hA⟩ := pdma_reached_built c sP hlenP hint stepsP
  obtain ⟨G, hG⟩ := gdma_reached_built c sG hlenG hint stepsG
  have rP := pdma_built_ring c (disp_set_vrambufaddr A sP) hlenP hpos
  have rG := gdma_built_ring c (disp_set_vrambufaddr G sG) hlenG hpos halign
  rw [← hA] at rP
  rw [← hG] at rG
  have hhdr : Gdma.ActiveHeaders c (Gdma.reached c stepsG sG).s_sDscLCD := by
    rw [hG]
    exact gdma_built_headers c (disp_set_vrambufaddr G sG) hlenG
  constructor
  · refine ⟨fun k => pdma_handler_frame c ev _ k, ?_, rP.1, rP.2.1, rP.2.2.1, rP.2.2.2.1,
      rP.2.2.2.2⟩
    intro i h hi hn
    exact (pdma_handler_frame c ev _ _).2.2.2 (slotOf_not_active c hint i h hi hn)
  · refine ⟨fun k => gdma_handler_frame c st _ hhdr k, ?_, ?_, rG.1, rG.2.1, rG.2.2.1,
      rG.2.2.2.1, rG.2.2.2.2.1⟩
    · intro k hk
      exact gdma_words_fields _ _ (gdma_handler_frame c st _ hhdr k).1 (rG.2.2.2.2.2 k hk)
    · intro i h hi hn
      have hn2 : ¬ (Pdma.get_current_vstage c (i : Int) = .evVStageVACT
          ∧ h = .evHStageHACT) := by
        rw [← vstage_eq c (i : Int)]
        exact hn
      exact (gdma_handler_frame c st _ hhdr _).2 (slotOf_not_active c hint i h hi hn2)

theorem C21_handler_frame_witness :
    (Pdma.startState tiny).s_sDscLCD.length = dscSlots tiny
    ∧ (Gdma.startState tiny).s_sDscLCD.length = dscSlots tiny
    ∧ 0 < DEF_TOTAL_VLINES tiny ∧ DEF_TOTAL_VLINES tiny < 2147483648
    ∧ tiny.addr_s_sDscLCD % 4 = 0
    ∧ (Pdma.reached tiny [.call (.set_vrambufaddr 536936460), .event 2]
        (Pdma.startState tiny)).s_sDscLCD.length = dscSlots tiny
    ∧ (Gdma.reached tiny [.call (.set_vrambufaddr 536936460), .event true]
        (Gdma.startState tiny)).s_sDscLCD.length = dscSlots tiny :=
  ⟨by decide, by decide, by decide, by decide, by decide,
    (C21_handler_frame tiny (Pdma.startState tiny) (Gdma.startState tiny) (by decide)
      (by decide) (by decide) (by decide) (by decide)
      [.call (.set_vrambufaddr 536936460), .event 2]
      [.call (.set_vrambufaddr 536936460), .event true] 2 true).1.2.2.1,
    (C21_handler_frame tiny (Pdma.startState tiny) (Gdma.startState tiny) (by decide)
      (by decide) (by decide) (by decide) (by decide)
      [.call (.set_vrambufaddr 536936460), .event 2]
      [.call (.set_vrambufaddr 536936460), .event true] 2 true).2.2.2.2.1⟩

/-- C25: builder and handler agree (sync configuration, both backends).  For all addresses
`A` and `B`: the chain built with base `A`, after the request of buffer `B` and a run of the
handler on a done event, is the chain built with base `B`.  Every chain reached by calls of
the API and runs of the handler is the chain built for some base, so its active-scanline
sources form the progression `first + j * HACT * 2` modulo `2 ^ 32`; a run of the handler on
a done event leaves the chain built for the requested buffer; and when the source of the
first active descriptor equals the requested buffer, the chain already is the chain built
for the requested buffer, so the comparison of the first active descriptor alone decides
rightly that nothing is to be rewritten. -/
theorem C25_builder_handler_agree (c : Config) (sP : DispState Pdma.DSCT_T)
    (sG : DispState Gdma.S_CMDBUF)
    (hlenP : sP.s_sDscLCD.length = dscSlots c) (hlenG : sG.s_sDscLCD.length = dscSlots c)
    (hint : DEF_TOTAL_VLINES c < 2147483648) (A B : Nat)
    (stepsP : List Pdma.Step) (stepsG : List Gdma.Step) :
    ((Pdma.nu_pdma_memfun_cb c Pdma.NU_PDMA_EVENT_TRANSFER_DONE
        (disp_set_vrambufaddr B
          (Pdma.disp_pdma_dsc_init c (disp_set_vrambufaddr A sP)))).s_sDscLCD
        = (Pdma.disp_pdma_dsc_init c (disp_set_vrambufaddr B sP)).s_sDscLCD
      ∧ (∃ A', (Pdma.reached c stepsP sP).s_sDscLCD
          = (Pdma.disp_pdma_dsc_init c (disp_set_vrambufaddr A' sP)).s_sDscLCD)
      ∧ Pdma.Progression c (Pdma.reached c stepsP sP).s_sDscLCD
      ∧ (Pdma.nu_pdma_memfun_cb c Pdma.NU_PDMA_EVENT_TRANSFER_DONE
          (Pdma.reached c stepsP sP)).s_sDscLCD
        = (Pdma.disp_pdma_dsc_init c
            (disp_set_vrambufaddr (Pdma.reached c stepsP sP).s_pu16BufAddr sP)).s_sDscLCD
      ∧ (Pdma.firstActiveSA c (Pdma.reached c stepsP sP)
            = (Pdma.reached c stepsP sP).s_pu16BufAddr % 4294967296 →
          (Pdma.reached c stepsP sP).s_sDscLCD
            = (Pdma.disp_pdma_dsc_init c
                (disp_set_vrambufaddr (Pdma.reached c stepsP sP).s_pu16BufAddr sP)).s_sDscLCD))
    ∧ ((Gdma.GDMACH1_IRQHandler c true
        (disp_set_vrambufaddr B
          (Gdma.disp_gdma_dsc_init c (disp_set_vrambufaddr A sG)))).s_sDscLCD
        = (Gdma.disp_gdma_dsc_init c (disp_set_vrambufaddr B sG)).s_sDscLCD
      ∧ (∃ A', (Gdma.reached c stepsG sG).s_sDscLCD
          = (Gdma.disp_gdma_dsc_init c (disp_set_vrambufaddr A' sG)).s_sDscLCD)
      ∧ Gdma.Progression c (Gdma.reached c stepsG sG).s_sDscLCD
      ∧ (Gdma.GDMACH1_IRQHandler c true (Gdma.reached c stepsG sG)).s_sDscLCD
        = (Gdma.disp_gdma_dsc_init c
            (disp_set_vrambufaddr (Gdma.reached c stepsG sG).s_pu16BufAddr sG)).s_sDscLCD
      ∧ (Gdma.firstActiveSrc c (Gdma.reached c stepsG sG)
            = (Gdma.reached c stepsG sG).s_pu16BufAddr % 4294967296 →
          (Gdma.reached c stepsG sG).s_sDscLCD
            = (Gdma.disp_gdma_dsc_init c
                (disp_set_vrambufaddr (Gdma.reached c stepsG sG).s_pu16BufAddr sG)).s_sDscLCD)) := by
  obtain ⟨P, hP⟩ := pdma_reached_built c sP hlenP hint stepsP
  obtain ⟨G, hG⟩ := gdma_reached_built c sG hlenG hint stepsG
  have eP := pdma_event_on_built c sP hlenP hint P _ hP
  have eG := gdma_event_on_built c sG hlenG hint G _ hG
  constructor
  · refine ⟨pdma_event_on_built c sP hlenP hint A _ rfl, ⟨P, hP⟩, ?_, eP, ?_⟩
    · rw [hP]
      exact pdma_built_progression c (disp_set_vrambufaddr P sP) hlenP hint
    · intro hf
      rw [← eP, (pdma_handler_fields c _ _).2.1, if_neg (fun h => h.2 hf)]
  · refine ⟨gdma_event_on_built c sG hlenG hint A _ rfl, ⟨G, hG⟩, ?_, eG, ?_⟩
    · rw [hG]
      exact gdma_built_progression c (disp_set_vrambufaddr G sG) hlenG hint
    · intro hf
      rw [← eG, (gdma_handler_fields c _ _).2.1, if_neg (fun h => h.2 hf)]

theorem C25_builder_handler_agree_witness :
    (Pdma.startState tiny).s_sDscLCD.length = dscSlots tiny
    ∧ (Gdma.startState tiny).s_sDscLCD.length = dscSlots tiny
    ∧ DEF_TOTAL_VLINES tiny < 2147483648
    ∧ (Pdma.nu_pdma_memfun_cb tiny Pdma.NU_PDMA_EVENT_TRANSFER_DONE
        (disp_set_vrambufaddr 536936460
          (Pdma.disp_pdma_dsc_init tiny
            (disp_set_vrambufaddr 536936448 (Pdma.startState tiny))))).s_sDscLCD
        = (Pdma.disp_pdma_dsc_init tiny
            (disp_set_vrambufaddr 536936460 (Pdma.startState tiny))).s_sDscLCD
    ∧ (Gdma.GDMACH1_IRQHandler tiny true
        (disp_set_vrambufaddr 536936460
          (Gdma.disp_gdma_dsc_init tiny
            (disp_set_vrambufaddr 536936448 (Gdma.startState tiny))))).s_sDscLCD
        = (Gdma.disp_gdma_dsc_init tiny
            (disp_set_vrambufaddr 536936460 (Gdma.startState tiny))).s_sDscLCD :=
  ⟨by decide, by decide, by decide,
    (C25_builder_handler_agree tiny (Pdma.startState tiny) (Gdma.startState tiny) (by decide)
      (by decide) (by decide) 536936448 536936460 [] []).1.1,
    (C25_builder_handler_agree tiny (Pdma.startState tiny) (Gdma.startState tiny) (by decide)
      (by decide) (by decide) 536936448 536936460 [] []).2.1⟩


/-! ## The index that GDMACH1_IRQHandler patches -/

theorem gdma_handler_index (d : Gdma.S_CMDBUF)
    (hb : Gdma.hdrBit (d.m_cmdbuf 0) Gdma.bitSRC_ADDR = true) :
    (Gdma.gdma_dsc_find_srcaddr_index d + 1) % 4294967296
        = Gdma.fieldPos (d.m_cmdbuf 0) Gdma.bitSRC_ADDR
    ∧ 1 ≤ Gdma.fieldPos (d.m_cmdbuf 0) Gdma.bitSRC_ADDR
    ∧ Gdma.fieldPos (d.m_cmdbuf 0) Gdma.bitSRC_ADDR ≤ 3
    ∧ Gdma.fieldPos (d.m_cmdbuf 0) Gdma.bitSRC_ADDR = 1 + popcount32 (d.m_cmdbuf 0 &&& 12) := by
  have h4 : Gdma.bitSRC_ADDR = 4 := rfl
  have hv := find_index_value d
  rw [h4] at hb
  rw [if_pos hb] at hv
  have hf := fieldPos_src (d.m_cmdbuf 0)
  have hp := popcount_and_12 (d.m_cmdbuf 0)
  simp only [hdrBit_eq] at hv
  rw [hv, hf, hp]
  refine ⟨?_, by omega, ?_, rfl⟩
  · split <;> split <;> rfl
  · split <;> split <;> decide

theorem gdma_handler_index_wraps (d : Gdma.S_CMDBUF)
    (hb : Gdma.hdrBit (d.m_cmdbuf 0) Gdma.bitSRC_ADDR = false) :
    Gdma.gdma_dsc_find_srcaddr_index d = 4294967295
    ∧ (Gdma.gdma_dsc_find_srcaddr_index d + 1) % 4294967296 = 0 := by
  have h4 : Gdma.bitSRC_ADDR = 4 := rfl
  have hv := find_index_value d
  rw [h4] at hb
  rw [hb] at hv
  have hv2 : Gdma.gdma_dsc_find_srcaddr_index d = 4294967295 := hv
  rw [hv2]
  exact ⟨rfl, by decide⟩

/-- C24 (counterexample): a command buffer whose header has no `SRC_ADDR_SET` bit (the header
that `disp_gdma_dsc_init` writes, without bit 4).  `gdma_dsc_find_srcaddr_index` returns
`0xFFFFFFFF`, the handler's index is `0xFFFFFFFF + 1 = 0` in `uint32_t`, the word compared
with the requested buffer is the header word, and the handler overwrites the header word
`m_cmdbuf[0]` of the active descriptors with buffer addresses. -/
theorem C24_header_overwritten :
    Gdma.gdma_dsc_find_srcaddr_index
        { m_cmdbuf := fun j => if j = 0 then 1073746253 else 0 } = 4294967295
    ∧ ((Gdma.uniformState tiny { m_cmdbuf := fun j => if j = 0 then 1073746253 else 0 }
          536936448).s_sDscLCD.getD (activeSlot tiny 0) Gdma.S_CMDBUF.zero).m_cmdbuf 0
        = 1073746253
    ∧ ((Gdma.GDMACH1_IRQHandler tiny true
          (Gdma.uniformState tiny { m_cmdbuf := fun j => if j = 0 then 1073746253 else 0 }
            536936448)).s_sDscLCD.getD (activeSlot tiny 0) Gdma.S_CMDBUF.zero).m_cmdbuf 0
        = 536936448
    ∧ ((Gdma.GDMACH1_IRQHandler tiny true
          (Gdma.uniformState tiny { m_cmdbuf := fun j => if j = 0 then 1073746253 else 0 }
            536936448)).s_sDscLCD.getD (activeSlot tiny 1) Gdma.S_CMDBUF.zero).m_cmdbuf 0
        = 536936454 := by
  decide

/-- C24 (amended): when the header of the first active descriptor has `SRC_ADDR_SET`
(bit 4) set, as every header written by `disp_gdma_dsc_init` has, the command-buffer index
that `GDMACH1_IRQHandler` compares and patches is the position of the source-address word,
`1 + popcount(header & 0xC)`, between 1 and 3; the handler then changes no command word at
another index, in particular no header word `m_cmdbuf[0]`, and changes no command buffer
other than the horizontal-Active ones of the active scanlines. -/
theorem C24_handler_index (c : Config) (st : Bool) (s : DispState Gdma.S_CMDBUF)
    (hb : Gdma.hdrBit ((s.s_sDscLCD.getD (activeSlot c 0) Gdma.S_CMDBUF.zero).m_cmdbuf 0)
      Gdma.bitSRC_ADDR = true) :
    (Gdma.gdma_dsc_find_srcaddr_index (s.s_sDscLCD.getD (activeSlot c 0) Gdma.S_CMDBUF.zero) + 1)
        % 4294967296
      = Gdma.fieldPos ((s.s_sDscLCD.getD (activeSlot c 0) Gdma.S_CMDBUF.zero).m_cmdbuf 0)
          Gdma.bitSRC_ADDR
    ∧ 1 ≤ Gdma.fieldPos ((s.s_sDscLCD.getD (activeSlot c 0) Gdma.S_CMDBUF.zero).m_cmdbuf 0)
          Gdma.bitSRC_ADDR
    ∧ Gdma.fieldPos ((s.s_sDscLCD.getD (activeSlot c 0) Gdma.S_CMDBUF.zero).m_cmdbuf 0)
          Gdma.bitSRC_ADDR ≤ 3
    ∧ Gdma.fieldPos ((s.s_sDscLCD.getD (activeSlot c 0) Gdma.S_CMDBUF.zero).m_cmdbuf 0)
          Gdma.bitSRC_ADDR
        = 1 + popcount32
            ((s.s_sDscLCD.getD (activeSlot c 0) Gdma.S_CMDBUF.zero).m_cmdbuf 0 &&& 12)
    ∧ (∀ k w,
        w ≠ Gdma.fieldPos ((s.s_sDscLCD.getD (activeSlot c 0) Gdma.S_CMDBUF.zero).m_cmdbuf 0)
          Gdma.bitSRC_ADDR →
        ((Gdma.GDMACH1_IRQHandler c st s).s_sDscLCD.getD k Gdma.S_CMDBUF.zero).m_cmdbuf w
          = (s.s_sDscLCD.getD k Gdma.S_CMDBUF.zero).m_cmdbuf w)
    ∧ (∀ k,
        ((Gdma.GDMACH1_IRQHandler c st s).s_sDscLCD.getD k Gdma.S_CMDBUF.zero).m_cmdbuf 0
          = (s.s_sDscLCD.getD k Gdma.S_CMDBUF.zero).m_cmdbuf 0)
    ∧ (∀ k, (∀ j, j < c.CONFIG_TIMING_VACT → activeSlot c j ≠ k) →
        (Gdma.GDMACH1_IRQHandler c st s).s_sDscLCD.getD k Gdma.S_CMDBUF.zero
          = s.s_sDscLCD.getD k Gdma.S_CMDBUF.zero) := by
  obtain ⟨i1, i2, i3, i4⟩ :=
    gdma_handler_index (s.s_sDscLCD.getD (activeSlot c 0) Gdma.S_CMDBUF.zero) hb
  have hfr : ∀ k,
      (∀ w,
        w ≠ Gdma.fieldPos ((s.s_sDscLCD.getD (activeSlot c 0) Gdma.S_CMDBUF.zero).m_cmdbuf 0)
          Gdma.bitSRC_ADDR →
        ((Gdma.GDMACH1_IRQHandler c st s).s_sDscLCD.getD k Gdma.S_CMDBUF.zero).m_cmdbuf w
          = (s.s_sDscLCD.getD k Gdma.S_CMDBUF.zero).m_cmdbuf w)
      ∧ ((∀ j, j < c.CONFIG_TIMING_VACT → activeSlot c j ≠ k) →
        (Gdma.GDMACH1_IRQHandler c st s).s_sDscLCD.getD k Gdma.S_CMDBUF.zero
          = s.s_sDscLCD.getD k Gdma.S_CMDBUF.zero) := by
    intro k
    rw [(gdma_handler_fields c st s).2.1, i1]
    split
    · exact gdma_patch_frame c _ _ _ _ k
    · exact ⟨fun _ _ => rfl, fun _ => rfl⟩
  refine ⟨i1, i2, i3, i4, fun k w hw => (hfr k).1 w hw, ?_, fun k hk => (hfr k).2 hk⟩
  intro k
  exact (hfr k).1 0 (by omega)

theorem C24_handler_index_witness :
    Gdma.hdrBit (((Gdma.uniformState tiny (Gdma.sampleCmd 536936448) 536936460).s_sDscLCD.getD
        (activeSlot tiny 0) Gdma.S_CMDBUF.zero).m_cmdbuf 0) Gdma.bitSRC_ADDR = true
    ∧ (Gdma.gdma_dsc_find_srcaddr_index
          ((Gdma.uniformState tiny (Gdma.sampleCmd 536936448) 536936460).s_sDscLCD.getD
            (activeSlot tiny 0) Gdma.S_CMDBUF.zero) + 1) % 4294967296 = 3
    ∧ ((Gdma.GDMACH1_IRQHandler tiny true
          (Gdma.uniformState tiny (Gdma.sampleCmd 536936448) 536936460)).s_sDscLCD.getD
            (activeSlot tiny 0) Gdma.S_CMDBUF.zero).m_cmdbuf 0
        = ((Gdma.uniformState tiny (Gdma.sampleCmd 536936448) 536936460).s_sDscLCD.getD
            (activeSlot tiny 0) Gdma.S_CMDBUF.zero).m_cmdbuf 0 :=
  ⟨by decide, by decide,
    (C24_handler_index tiny true (Gdma.uniformState tiny (Gdma.sampleCmd 536936448) 536936460)
      (by decide)).2.2.2.2.2.1 (activeSlot tiny 0)⟩


/-! ## The DE-only PDMA configuration -/

theorem de_loop_next (c : Config) (buf n : Nat) (st : PdmaDeOnly.BuildState) :
    (PdmaDeOnly.dsc_init_loop c buf n st).next = st.next + 2 * n := by
  induction n with
  | zero => rfl
  | succ n ih =>
    show (PdmaDeOnly.dsc_init_loop c buf n st).next + 1 + 1 = _
    rw [ih]
    omega

theorem de_loop_length (c : Config) (buf n : Nat) (st : PdmaDeOnly.BuildState) :
    (PdmaDeOnly.dsc_init_loop c buf n st).dsc.length = st.dsc.length := by
  induction n with
  | zero => rfl
  | succ n ih =>
    show ((List.set _ _ _).set _ _).length = _
    rw [List.length_set, List.length_set, ih]

theorem de_loop_get (c : Config) (buf n : Nat) (st : PdmaDeOnly.BuildState) (k : Nat)
    (hk : k < st.dsc.length) :
    (PdmaDeOnly.dsc_init_loop c buf n st).dsc[k]?
      = if st.next ≤ k ∧ k < st.next + 2 * n then
          some (if (k - st.next) % 2 = 0 then PdmaDeOnly.frontDsc c k
            else PdmaDeOnly.backendDsc c buf ((k - st.next) / 2) k)
        else st.dsc[k]? := by
  induction n with
  | zero =>
    have : ¬ (st.next ≤ k ∧ k < st.next + 2 * 0) := by omega
    rw [if_neg this]
    rfl
  | succ n ih =>
    have hn := de_loop_next c buf n st
    have hl := de_loop_length c buf n st
    show ((List.set (PdmaDeOnly.dsc_init_loop c buf n st).dsc
        (PdmaDeOnly.dsc_init_loop c buf n st).next
        (PdmaDeOnly.frontDsc c (PdmaDeOnly.dsc_init_loop c buf n st).next)).set
        ((PdmaDeOnly.dsc_init_loop c buf n st).next + 1)
        (PdmaDeOnly.backendDsc c buf n ((PdmaDeOnly.dsc_init_loop c buf n st).next + 1)))[k]? = _
    rw [hn, List.getElem?_set, List.getElem?_set, List.length_set, hl, ih]
    by_cases e1 : st.next + 2 * n + 1 = k
    · subst e1
      have hc : st.next ≤ st.next + 2 * n + 1
          ∧ st.next + 2 * n + 1 < st.next + 2 * (n + 1) := by omega
      have h2 : ¬ (st.next + 2 * n + 1 - st.next) % 2 = 0 := by omega
      have h3 : (st.next + 2 * n + 1 - st.next) / 2 = n := by omega
      rw [if_pos rfl, if_pos hk, if_pos hc, if_neg h2, h3]
    · rw [if_neg e1]
      by_cases e2 : st.next + 2 * n = k
      · subst e2
        have hc : st.next ≤ st.next + 2 * n ∧ st.next + 2 * n < st.next + 2 * (n + 1) := by
          omega
        have h2 : (st.next + 2 * n - st.next) % 2 = 0 := by omega
        rw [if_pos rfl, if_pos hk, if_pos hc, if_pos h2]
      · rw [if_neg e2]
        by_cases hc : st.next ≤ k ∧ k < st.next + 2 * n
        · have hc2 : st.next ≤ k ∧ k < st.next + 2 * (n + 1) := by omega
          rw [if_pos hc, if_pos hc2]
        · have hc2 : ¬ (st.next ≤ k ∧ k < st.next + 2 * (n + 1)) := by omega
          rw [if_neg hc, if_neg hc2]

theorem de_s_end (c : Config) : PdmaDeOnly.s_end c = 4 * c.CONFIG_TIMING_VACT := by
  simp only [PdmaDeOnly.s_end, PdmaDeOnly.dscSlots, PdmaDeOnly.DEF_TOTAL_VLINES, s_head,
    evHStageCNT]
  omega

theorem de_built_get (c : Config) (s : DispState Pdma.DSCT_T)
    (hlen : s.s_sDscLCD.length = PdmaDeOnly.dscSlots c) (k : Nat)
    (hk : k < PdmaDeOnly.dscSlots c) :
    (PdmaDeOnly.disp_pdma_dsc_init c s).s_sDscLCD.getD k Pdma.DSCT_T.zero
      = if k = PdmaDeOnly.s_end c then
          (((if k = 0 then PdmaDeOnly.blankDsc c 0
            else s.s_sDscLCD.getD k Pdma.DSCT_T.zero).setNEXT (Pdma.ptrVal c s_head)).clrTBINTDIS)
        else if k = 0 then PdmaDeOnly.blankDsc c 0
        else if k ≤ 2 * c.CONFIG_TIMING_VACT then
          (if (k - 1) % 2 = 0 then PdmaDeOnly.frontDsc c k
            else PdmaDeOnly.backendDsc c s.s_pu16BufAddr ((k - 1) / 2) k)
        else s.s_sDscLCD.getD k Pdma.DSCT_T.zero := by
  have hN : PdmaDeOnly.dscSlots c = 1 + 4 * c.CONFIG_TIMING_VACT := by
    simp only [PdmaDeOnly.dscSlots, PdmaDeOnly.DEF_TOTAL_VLINES, evHStageCNT]
  have hend := de_s_end c
  have hk0 : k < (s.s_sDscLCD.set s_head (PdmaDeOnly.blankDsc c s_head)).length := by
    rw [List.length_set, hlen]
    exact hk
  have hloop := de_loop_get c s.s_pu16BufAddr c.CONFIG_TIMING_VACT
    { dsc := s.s_sDscLCD.set s_head (PdmaDeOnly.blankDsc c s_head), next := s_head + 1 } k hk0
  have hst : ∀ k', k' < PdmaDeOnly.dscSlots c →
      (PdmaDeOnly.dsc_init_loop c s.s_pu16BufAddr c.CONFIG_TIMING_VACT
        { dsc := s.s_sDscLCD.set s_head (PdmaDeOnly.blankDsc c s_head),
          next := s_head + 1 }).dsc.getD k' Pdma.DSCT_T.zero
        = if k' = 0 then PdmaDeOnly.blankDsc c 0
          else if k' ≤ 2 * c.CONFIG_TIMING_VACT then
            (if (k' - 1) % 2 = 0 then PdmaDeOnly.frontDsc c k'
              else PdmaDeOnly.backendDsc c s.s_pu16BufAddr ((k' - 1) / 2) k')
          else s.s_sDscLCD.getD k' Pdma.DSCT_T.zero := by
    intro k' hk'
    have hk0' : k' < (s.s_sDscLCD.set s_head (PdmaDeOnly.blankDsc c s_head)).length := by
      rw [List.length_set, hlen]
      exact hk'
    have hl := de_loop_get c s.s_pu16BufAddr c.CONFIG_TIMING_VACT
      { dsc := s.s_sDscLCD.set s_head (PdmaDeOnly.blankDsc c s_head), next := s_head + 1 } k' hk0'
    rw [List.getD_eq_getElem?_getD, hl]
    simp only [s_head, zero_add]
    by_cases e0 : k' = 0
    · subst e0
      have hc : ¬ (1 ≤ 0 ∧ 0 < 1 + 2 * c.CONFIG_TIMING_VACT) := by omega
      rw [if_neg hc, if_pos rfl, List.getElem?_set, if_pos rfl, if_pos (by omega)]
      rfl
    · rw [if_neg e0]
      by_cases e1 : k' ≤ 2 * c.CONFIG_TIMING_VACT
      · have hc : 1 ≤ k' ∧ k' < 1 + 2 * c.CONFIG_TIMING_VACT := by omega
        rw [if_pos hc, if_pos e1]
        rfl
      · have hc : ¬ (1 ≤ k' ∧ k' < 1 + 2 * c.CONFIG_TIMING_VACT) := by omega
        have e2 : ¬ 0 = k' := fun h => e0 h.symm
        rw [if_neg hc, if_neg e1, List.getElem?_set, if_neg e2, List.getD_eq_getElem?_getD]
  have hll : (PdmaDeOnly.dsc_init_loop c s.s_pu16BufAddr c.CONFIG_TIMING_VACT
        { dsc := s.s_sDscLCD.set s_head (PdmaDeOnly.blankDsc c s_head),
          next := s_head + 1 }).dsc.length = PdmaDeOnly.dscSlots c := by
    rw [de_loop_length, List.length_set, hlen]
  generalize hL : (PdmaDeOnly.dsc_init_loop c s.s_pu16BufAddr c.CONFIG_TIMING_VACT
        { dsc := s.s_sDscLCD.set s_head (PdmaDeOnly.blankDsc c s_head),
          next := s_head + 1 }).dsc = L at hst hll
  have hd : (PdmaDeOnly.disp_pdma_dsc_init c s).s_sDscLCD
      = Pdma.storeAt (Pdma.storeAt L (PdmaDeOnly.s_end c)
          (fun d => d.setNEXT (Pdma.ptrVal c s_head))) (PdmaDeOnly.s_end c)
          (fun d => d.clrTBINTDIS) := by
    rw [← hL]
    rfl
  rw [hd, List.getD_eq_getElem?_getD, pdma_storeAt_get, pdma_storeAt_get]
  have hkL : k < L.length := by rw [hll]; exact hk
  by_cases e : k = PdmaDeOnly.s_end c
  · rw [if_pos e.symm, if_pos e.symm, if_pos e, List.getElem?_eq_getElem hkL]
    have := hst k hk
    rw [List.getD_eq_getElem?_getD, List.getElem?_eq_getElem hkL] at this
    have h2 : L[k] = _ := this
    show (L[k].setNEXT _).clrTBINTDIS = _
    rw [h2]
    by_cases e0 : k = 0
    · rw [if_pos e0, if_pos e0]
    · have e1 : ¬ k ≤ 2 * c.CONFIG_TIMING_VACT := by omega
      rw [if_neg e0, if_neg e1, if_neg e0]
  · have e' : ¬ PdmaDeOnly.s_end c = k := fun h => e h.symm
    rw [if_neg e', if_neg e', if_neg e, ← List.getD_eq_getElem?_getD]
    exact hst k hk

theorem de_built_written (c : Config) (s : DispState Pdma.DSCT_T)
    (hlen : s.s_sDscLCD.length = PdmaDeOnly.dscSlots c) (hv : 1 ≤ c.CONFIG_TIMING_VACT)
    (k : Nat) (hk : k ≤ 2 * c.CONFIG_TIMING_VACT) :
    ((PdmaDeOnly.disp_pdma_dsc_init c s).s_sDscLCD.getD k Pdma.DSCT_T.zero).NEXT
        = Pdma.ptrVal c (k + 1)
    ∧ ((PdmaDeOnly.disp_pdma_dsc_init c s).s_sDscLCD.getD k Pdma.DSCT_T.zero).CTL.TBINTDIS
        = true := by
  have hN : PdmaDeOnly.dscSlots c = 1 + 4 * c.CONFIG_TIMING_VACT := by
    simp only [PdmaDeOnly.dscSlots, PdmaDeOnly.DEF_TOTAL_VLINES, evHStageCNT]
  have hend := de_s_end c
  rw [de_built_get c s hlen k (by omega), if_neg (by omega)]
  by_cases e0 : k = 0
  · rw [if_pos e0, e0]
    exact ⟨rfl, rfl⟩
  · rw [if_neg e0, if_pos hk]
    split
    · exact ⟨rfl, rfl⟩
    · exact ⟨rfl, rfl⟩

theorem de_follow (c : Config) (s : DispState Pdma.DSCT_T)
    (hlen : s.s_sDscLCD.length = PdmaDeOnly.dscSlots c) (hv : 1 ≤ c.CONFIG_TIMING_VACT)
    (n : Nat) (hn : n ≤ 2 * c.CONFIG_TIMING_VACT + 1) :
    Pdma.follow c (PdmaDeOnly.disp_pdma_dsc_init c s).s_sDscLCD n (Pdma.ptrVal c s_head)
      = Pdma.ptrVal c n := by
  induction n with
  | zero => rfl
  | succ n ih =>
    rw [Pdma.follow, ih (by omega), pdma_slotOfPtr_ptrVal,
      (de_built_written c s hlen hv n (by omega)).1]

theorem de_built_backend (c : Config) (s : DispState Pdma.DSCT_T)
    (hlen : s.s_sDscLCD.length = PdmaDeOnly.dscSlots c) (j : Nat)
    (hj : j < c.CONFIG_TIMING_VACT) :
    (PdmaDeOnly.disp_pdma_dsc_init c s).s_sDscLCD.getD (1 + 2 * j) Pdma.DSCT_T.zero
        = PdmaDeOnly.frontDsc c (1 + 2 * j)
    ∧ (PdmaDeOnly.disp_pdma_dsc_init c s).s_sDscLCD.getD (PdmaDeOnly.backendSlot j)
          Pdma.DSCT_T.zero
        = PdmaDeOnly.backendDsc c s.s_pu16BufAddr j (PdmaDeOnly.backendSlot j) := by
  have hN : PdmaDeOnly.dscSlots c = 1 + 4 * c.CONFIG_TIMING_VACT := by
    simp only [PdmaDeOnly.dscSlots, PdmaDeOnly.DEF_TOTAL_VLINES, evHStageCNT]
  have hend := de_s_end c
  constructor
  · rw [de_built_get c s hlen _ (by omega), if_neg (by omega), if_neg (by omega),
      if_pos (by omega), if_pos (by omega)]
  · have e1 : ¬ (PdmaDeOnly.backendSlot j - 1) % 2 = 0 := by
      simp only [PdmaDeOnly.backendSlot]
      omega
    have e2 : (PdmaDeOnly.backendSlot j - 1) / 2 = j := by
      simp only [PdmaDeOnly.backendSlot]
      omega
    have e3 : PdmaDeOnly.backendSlot j = 2 + 2 * j := rfl
    rw [de_built_get c s hlen _ (by omega), if_neg (by omega), if_neg (by omega),
      if_pos (by omega), if_neg e1, e2]

/-- C27: what the DE-only `disp_pdma_dsc_init` leaves in `s_sDscLCD`, for at least one active
line.  The array has `1 + 4 * VACT` slots and `s_end` is slot `4 * VACT`, while the
function writes the `1 + 2 * VACT` descriptors of the slots `0` to `2 * VACT`: each of them
links to the next slot and has the interrupt disabled, so none of them links to `s_head`
and the last descriptor written, slot `2 * VACT`, is not `s_end` and links to the slot
`2 * VACT + 1`.  The slots from `2 * VACT + 1` to `4 * VACT - 1` keep what they held, and
the two stores through `s_end` change a slot that the function has not written.  The walk
from `s_head` is at slot `n` after `n` steps for `n` up to `2 * VACT + 1`, so it reaches
an unwritten slot and has not returned to `s_head` before. -/
theorem C27_de_only_chain (c : Config) (s : DispState Pdma.DSCT_T)
    (hlen : s.s_sDscLCD.length = PdmaDeOnly.dscSlots c) (hv : 1 ≤ c.CONFIG_TIMING_VACT) :
    PdmaDeOnly.dscSlots c = 1 + 4 * c.CONFIG_TIMING_VACT
    ∧ PdmaDeOnly.s_end c = 4 * c.CONFIG_TIMING_VACT
    ∧ 2 * c.CONFIG_TIMING_VACT < PdmaDeOnly.s_end c
    ∧ (∀ k, k ≤ 2 * c.CONFIG_TIMING_VACT →
        ((PdmaDeOnly.disp_pdma_dsc_init c s).s_sDscLCD.getD k Pdma.DSCT_T.zero).NEXT
          = Pdma.ptrVal c (k + 1)
        ∧ ((PdmaDeOnly.disp_pdma_dsc_init c s).s_sDscLCD.getD k Pdma.DSCT_T.zero).NEXT
          ≠ Pdma.ptrVal c s_head
        ∧ ((PdmaDeOnly.disp_pdma_dsc_init c s).s_sDscLCD.getD k Pdma.DSCT_T.zero).CTL.TBINTDIS
          = true)
    ∧ (∀ j, j < c.CONFIG_TIMING_VACT →
        (PdmaDeOnly.disp_pdma_dsc_init c s).s_sDscLCD.getD (1 + 2 * j) Pdma.DSCT_T.zero
          = PdmaDeOnly.frontDsc c (1 + 2 * j)
        ∧ (PdmaDeOnly.disp_pdma_dsc_init c s).s_sDscLCD.getD (PdmaDeOnly.backendSlot j)
            Pdma.DSCT_T.zero
          = PdmaDeOnly.backendDsc c s.s_pu16BufAddr j (PdmaDeOnly.backendSlot j))
    ∧ (∀ k, 2 * c.CONFIG_TIMING_VACT < k → k < PdmaDeOnly.s_end c →
        (PdmaDeOnly.disp_pdma_dsc_init c s).s_sDscLCD.getD k Pdma.DSCT_T.zero
          = s.s_sDscLCD.getD k Pdma.DSCT_T.zero)
    ∧ (PdmaDeOnly.disp_pdma_dsc_init c s).s_sDscLCD.getD (PdmaDeOnly.s_end c) Pdma.DSCT_T.zero
        = ((s.s_sDscLCD.getD (PdmaDeOnly.s_end c) Pdma.DSCT_T.zero).setNEXT
            (Pdma.ptrVal c s_head)).clrTBINTDIS
    ∧ (∀ n, n ≤ 2 * c.CONFIG_TIMING_VACT + 1 →
        Pdma.follow c (PdmaDeOnly.disp_pdma_dsc_init c s).s_sDscLCD n (Pdma.ptrVal c s_head)
          = Pdma.ptrVal c n)
    ∧ (∀ n, 0 < n → n ≤ 2 * c.CONFIG_TIMING_VACT + 1 →
        Pdma.follow c (PdmaDeOnly.disp_pdma_dsc_init c s).s_sDscLCD n (Pdma.ptrVal c s_head)
          ≠ Pdma.ptrVal c s_head) := by
  have hN : PdmaDeOnly.dscSlots c = 1 + 4 * c.CONFIG_TIMING_VACT := by
    simp only [PdmaDeOnly.dscSlots, PdmaDeOnly.DEF_TOTAL_VLINES, evHStageCNT]
  have hend := de_s_end c
  have hptr : ∀ a b, Pdma.ptrVal c a = Pdma.ptrVal c b → a = b := by
    intro a b h
    simp only [Pdma.ptrVal, Pdma.sizeof_DSCT_T] at h
    omega
  refine ⟨hN, hend, by omega, ?_, ?_, ?_, ?_, fun n hn => de_follow c s hlen hv n hn, ?_⟩
  · intro k hk
    have h := de_built_written c s hlen hv k hk
    refine ⟨h.1, ?_, h.2⟩
    rw [h.1]
    intro e
    have := hptr _ _ e
    simp only [s_head] at this
    omega
  · intro j hj
    exact de_built_backend c s hlen j hj
  · intro k h1 h2
    rw [de_built_get c s hlen k (by omega), if_neg (by omega), if_neg (by omega),
      if_neg (by omega)]
  · rw [de_built_get c s hlen _ (by omega), if_pos rfl, if_neg (by omega)]
  · intro n h0 hn e
    rw [de_follow c s hlen hv n hn] at e
    have := hptr _ _ e
    simp only [s_head] at this
    omega

theorem C27_de_only_chain_witness :
    (PdmaDeOnly.startState tiny).s_sDscLCD.length = PdmaDeOnly.dscSlots tiny
    ∧ 1 ≤ tiny.CONFIG_TIMING_VACT
    ∧ PdmaDeOnly.s_end tiny = 8
    ∧ ((PdmaDeOnly.disp_pdma_dsc_init tiny (PdmaDeOnly.startState tiny)).s_sDscLCD.getD 4
        Pdma.DSCT_T.zero).NEXT = Pdma.ptrVal tiny 5
    ∧ (PdmaDeOnly.disp_pdma_dsc_init tiny (PdmaDeOnly.startState tiny)).s_sDscLCD.getD 5
        Pdma.DSCT_T.zero = Pdma.DSCT_T.zero
    ∧ Pdma.follow tiny (PdmaDeOnly.disp_pdma_dsc_init tiny
        (PdmaDeOnly.startState tiny)).s_sDscLCD 5 (Pdma.ptrVal tiny s_head)
        = Pdma.ptrVal tiny 5 :=
  ⟨by decide, by decide,
    (C27_de_only_chain tiny (PdmaDeOnly.startState tiny) (by decide) (by decide)).2.1,
    ((C27_de_only_chain tiny (PdmaDeOnly.startState tiny) (by decide) (by decide)).2.2.2.1 4
      (by decide)).1,
    ((C27_de_only_chain tiny (PdmaDeOnly.startState tiny) (by decide)
      (by decide)).2.2.2.2.2.1 5 (by decide) (by decide)).trans (by decide),
    (C27_de_only_chain tiny (PdmaDeOnly.startState tiny) (by decide)
      (by decide)).2.2.2.2.2.2.2.1 5 (by decide)⟩

theorem de_handler_frame (c : Config) (ev : Nat) (t : DispState Pdma.DSCT_T) :
    (PdmaDeOnly.nu_pdma_memfun_cb c ev t).s_sDscLCD = t.s_sDscLCD := by
  unfold PdmaDeOnly.nu_pdma_memfun_cb
  have h0 : PdmaDeOnly.s_au32VTiming c .evVStageVACT = 0 := rfl
  simp only [h0]
  split_ifs <;> rfl

/-- C28: what the DE-only `nu_pdma_memfun_cb` does.  Its loop bound
`s_au32VTiming[evVStageVACT]` is an element of the table without an initialiser, so zero:
the loop does not run, and a run of the callback, with any event code and in any state,
leaves every descriptor as it was.  So after the chain is built with a buffer, another
buffer `R` is requested and a done event arrives, the Backend descriptor of every active
line `j` still has the source `&pu16Buf[j * HACT]` of the buffer the chain was built with.
The descriptor the callback compares, `m_dscV[0].m_dscH[evHStageHACT]`, is slot 4, and
the slot `4 + 4 * j` its loop would write for line `j` is not the slot `2 + 2 * j` of the
Backend descriptor of line `j`. -/
theorem C28_de_only_handler (c : Config) (s : DispState Pdma.DSCT_T) (R ev : Nat)
    (hlen : s.s_sDscLCD.length = PdmaDeOnly.dscSlots c) :
    PdmaDeOnly.s_au32VTiming c .evVStageVACT = 0
    ∧ (∀ t : DispState Pdma.DSCT_T,
        (PdmaDeOnly.nu_pdma_memfun_cb c ev t).s_sDscLCD = t.s_sDscLCD)
    ∧ (PdmaDeOnly.nu_pdma_memfun_cb c ev
        (disp_set_vrambufaddr R (PdmaDeOnly.disp_pdma_dsc_init c s))).s_sDscLCD
        = (PdmaDeOnly.disp_pdma_dsc_init c s).s_sDscLCD
    ∧ (∀ j, j < c.CONFIG_TIMING_VACT →
        ((PdmaDeOnly.nu_pdma_memfun_cb c ev
          (disp_set_vrambufaddr R (PdmaDeOnly.disp_pdma_dsc_init c s))).s_sDscLCD.getD
            (PdmaDeOnly.backendSlot j) Pdma.DSCT_T.zero).SA
          = u16PtrAdd s.s_pu16BufAddr (j * c.CONFIG_TIMING_HACT))
    ∧ PdmaDeOnly.slotOf PdmaDeOnly.DEF_VACT_INDEX .evHStageHACT = 4
    ∧ (∀ j, PdmaDeOnly.slotOf (PdmaDeOnly.DEF_VACT_INDEX + j) .evHStageHACT = 4 + 4 * j
        ∧ PdmaDeOnly.backendSlot j = 2 + 2 * j
        ∧ PdmaDeOnly.slotOf (PdmaDeOnly.DEF_VACT_INDEX + j) .evHStageHACT
            ≠ PdmaDeOnly.backendSlot j) := by
  refine ⟨rfl, fun t => de_handler_frame c ev t, de_handler_frame c ev _, ?_, rfl, ?_⟩
  · intro j hj
    rw [de_handler_frame c ev _]
    have h := (de_built_backend c s hlen j hj).2
    show ((PdmaDeOnly.disp_pdma_dsc_init c s).s_sDscLCD.getD (PdmaDeOnly.backendSlot j)
      Pdma.DSCT_T.zero).SA = _
    rw [h]
    rfl
  · intro j
    have e1 : PdmaDeOnly.slotOf (PdmaDeOnly.DEF_VACT_INDEX + j) .evHStageHACT = 4 + 4 * j := by
      simp only [PdmaDeOnly.slotOf, PdmaDeOnly.DEF_VACT_INDEX, evHStageCNT, E_HSTAGE.val]
      omega
    refine ⟨e1, rfl, ?_⟩
    rw [e1]
    simp only [PdmaDeOnly.backendSlot]
    omega

theorem C28_de_only_handler_witness :
    (PdmaDeOnly.startState tiny).s_sDscLCD.length = PdmaDeOnly.dscSlots tiny
    ∧ ((PdmaDeOnly.nu_pdma_memfun_cb tiny Pdma.NU_PDMA_EVENT_TRANSFER_DONE
        (disp_set_vrambufaddr 536936460
          (PdmaDeOnly.disp_pdma_dsc_init tiny (PdmaDeOnly.startState tiny)))).s_sDscLCD.getD
            (PdmaDeOnly.backendSlot 0) Pdma.DSCT_T.zero).SA = 536936448
    ∧ ((PdmaDeOnly.nu_pdma_memfun_cb tiny Pdma.NU_PDMA_EVENT_TRANSFER_DONE
        (disp_set_vrambufaddr 536936460
          (PdmaDeOnly.disp_pdma_dsc_init tiny (PdmaDeOnly.startState tiny)))).s_sDscLCD.getD
            (PdmaDeOnly.backendSlot 1) Pdma.DSCT_T.zero).SA = 536936454 :=
  ⟨by decide,
    ((C28_de_only_handler tiny (PdmaDeOnly.startState tiny) 536936460
      Pdma.NU_PDMA_EVENT_TRANSFER_DONE (by decide)).2.2.2.1 0 (by decide)).trans (by decide),
    ((C28_de_only_handler tiny (PdmaDeOnly.startState tiny) 536936460
      Pdma.NU_PDMA_EVENT_TRANSFER_DONE (by decide)).2.2.2.1 1 (by decide)).trans (by decide)⟩


/-! ## The writes of the builders, one by one -/

theorem pdma_body_dsc (c : Config) (V : E_VSTAGE) (evH : E_HSTAGE) (st : Pdma.BuildState) :
    (Pdma.dsc_init_body c V evH st).dsc
        = st.dsc.set st.next (Pdma.lineDsc c V evH st.pu16Buf st.next)
    ∧ (Pdma.dsc_init_body c V evH st).next = st.next + 1 :=
  ⟨rfl, rfl⟩

theorem gdma_body_dsc (c : Config) (V : E_VSTAGE) (evH : E_HSTAGE) (st : Gdma.BuildState) :
    (Gdma.dsc_init_body c V evH st).dsc
        = Gdma.storeAt st.dsc st.next (Gdma.lineCmd c V evH st.pu16Buf st.next)
    ∧ (Gdma.dsc_init_body c V evH st).next = st.next + 1 :=
  ⟨rfl, rfl⟩

theorem pdma_hloop_take_succ (c : Config) (V : E_VSTAGE) (evH : E_HSTAGE)
    (st : Pdma.BuildState) :
    Pdma.dsc_init_hloop c V (hStages.take (evH.val + 1)) st
      = Pdma.dsc_init_body c V evH (Pdma.dsc_init_hloop c V (hStages.take evH.val) st) := by
  cases evH <;> rfl

theorem gdma_hloop_take_succ (c : Config) (V : E_VSTAGE) (evH : E_HSTAGE)
    (st : Gdma.BuildState) :
    Gdma.dsc_init_hloop c V (hStages.take (evH.val + 1)) st
      = Gdma.dsc_init_body c V evH (Gdma.dsc_init_hloop c V (hStages.take evH.val) st) := by
  cases evH <;> rfl

theorem getElem_opt_set_at {α : Type} (l : List α) (p k : Nat) (a : α) :
    (l.set p a)[k]? = if k = p then (if k < l.length then some a else none) else l[k]? := by
  rw [List.getElem?_set]
  by_cases h : k = p
  · subst h
    simp only [if_true]
  · rw [if_neg h, if_neg (fun e => h e.symm)]

theorem pdma_take_get (c : Config) (V : E_VSTAGE) (evH : E_HSTAGE) (st : Pdma.BuildState)
    (k : Nat) :
    (Pdma.dsc_init_hloop c V (hStages.take evH.val) st).dsc[k]?
      = if st.next ≤ k ∧ k < st.next + evH.val then
          (if k < st.dsc.length then
            some (Pdma.lineDsc c V (E_HSTAGE.ofVal (k - st.next)) st.pu16Buf k)
          else none)
        else st.dsc[k]? := by
  have hb : (Pdma.dsc_init_body c V .evHStageHFP st).pu16Buf = st.pu16Buf := by
    cases V <;> rfl
  have hb2 : (Pdma.dsc_init_body c V .evHStageHSYNC
      (Pdma.dsc_init_body c V .evHStageHFP st)).pu16Buf = st.pu16Buf := by
    cases V <;> rfl
  cases evH
  · show st.dsc[k]? = _
    rw [if_neg]
    simp only [E_HSTAGE.val]
    omega
  · show (st.dsc.set st.next (Pdma.lineDsc c V .evHStageHFP st.pu16Buf st.next))[k]? = _
    rw [getElem_opt_set_at]
    simp only [E_HSTAGE.val]
    by_cases e : k = st.next
    · subst e
      have hc : st.next ≤ st.next ∧ st.next < st.next + 1 := by omega
      rw [if_pos rfl, if_pos hc, Nat.sub_self]
      rfl
    · have hc : ¬ (st.next ≤ k ∧ k < st.next + 1) := by omega
      rw [if_neg e, if_neg hc]
  · show ((st.dsc.set st.next (Pdma.lineDsc c V .evHStageHFP st.pu16Buf st.next)).set
      (st.next + 1) (Pdma.lineDsc c V .evHStageHSYNC
        (Pdma.dsc_init_body c V .evHStageHFP st).pu16Buf (st.next + 1)))[k]? = _
    rw [hb, getElem_opt_set_at, getElem_opt_set_at, List.length_set]
    simp only [E_HSTAGE.val]
    by_cases e1 : k = st.next + 1
    · subst e1
      have hc : st.next ≤ st.next + 1 ∧ st.next + 1 < st.next + 2 := by omega
      have e3 : st.next + 1 - st.next = 1 := by omega
      rw [if_pos rfl, if_pos hc, e3]
      rfl
    · rw [if_neg e1]
      by_cases e : k = st.next
      · subst e
        have hc : st.next ≤ st.next ∧ st.next < st.next + 2 := by omega
        rw [if_pos rfl, if_pos hc, Nat.sub_self]
        rfl
      · have hc : ¬ (st.next ≤ k ∧ k < st.next + 2) := by omega
        rw [if_neg e, if_neg hc]
  · show (((st.dsc.set st.next (Pdma.lineDsc c V .evHStageHFP st.pu16Buf st.next)).set
      (st.next + 1) (Pdma.lineDsc c V .evHStageHSYNC
        (Pdma.dsc_init_body c V .evHStageHFP st).pu16Buf (st.next + 1))).set
      (st.next + 1 + 1) (Pdma.lineDsc c V .evHStageHBP
        (Pdma.dsc_init_body c V .evHStageHSYNC
          (Pdma.dsc_init_body c V .evHStageHFP st)).pu16Buf (st.next + 1 + 1)))[k]? = _
    rw [hb, hb2, getElem_opt_set_at, getElem_opt_set_at, getElem_opt_set_at, List.length_set,
      List.length_set]
    simp only [E_HSTAGE.val]
    by_cases e2 : k = st.next + 1 + 1
    · subst e2
      have hc : st.next ≤ st.next + 1 + 1 ∧ st.next + 1 + 1 < st.next + 3 := by omega
      have e3 : st.next + 1 + 1 - st.next = 2 := by omega
      rw [if_pos rfl, if_pos hc, e3]
      rfl
    · rw [if_neg e2]
      by_cases e1 : k = st.next + 1
      · subst e1
        have hc : st.next ≤ st.next + 1 ∧ st.next + 1 < st.next + 3 := by omega
        have e3 : st.next + 1 - st.next = 1 := by omega
        rw [if_pos rfl, if_pos hc, e3]
        rfl
      · rw [if_neg e1]
        by_cases e : k = st.next
        · subst e
          have hc : st.next ≤ st.next ∧ st.next < st.next + 3 := by omega
          rw [if_pos rfl, if_pos hc, Nat.sub_self]
          rfl
        · have hc : ¬ (st.next ≤ k ∧ k < st.next + 3) := by omega
          rw [if_neg e, if_neg hc]

theorem gdma_take_get (c : Config) (V : E_VSTAGE) (evH : E_HSTAGE) (st : Gdma.BuildState)
    (k : Nat) :
    (Gdma.dsc_init_hloop c V (hStages.take evH.val) st).dsc[k]?
      = if st.next ≤ k ∧ k < st.next + evH.val then
          (st.dsc[k]?).map (Gdma.lineCmd c V (E_HSTAGE.ofVal (k - st.next)) st.pu16Buf k)
        else st.dsc[k]? := by
  have hb : (Gdma.dsc_init_body c V .evHStageHFP st).pu16Buf = st.pu16Buf := by
    cases V <;> rfl
  have hb2 : (Gdma.dsc_init_body c V .evHStageHSYNC
      (Gdma.dsc_init_body c V .evHStageHFP st)).pu16Buf = st.pu16Buf := by
    cases V <;> rfl
  cases evH
  · show st.dsc[k]? = _
    rw [if_neg]
    simp only [E_HSTAGE.val]
    omega
  · show (Gdma.storeAt st.dsc st.next
      (Gdma.lineCmd c V .evHStageHFP st.pu16Buf st.next))[k]? = _
    rw [gdma_storeAt_get]
    simp only [E_HSTAGE.val]
    by_cases e : st.next = k
    · subst e
      have hc : st.next ≤ st.next ∧ st.next < st.next + 1 := by omega
      rw [if_pos rfl, if_pos hc, Nat.sub_self]
      rfl
    · have hc : ¬ (st.next ≤ k ∧ k < st.next + 1) := by omega
      rw [if_neg e, if_neg hc]
  · show (Gdma.storeAt (Gdma.storeAt st.dsc st.next
      (Gdma.lineCmd c V .evHStageHFP st.pu16Buf st.next)) (st.next + 1)
      (Gdma.lineCmd c V .evHStageHSYNC
        (Gdma.dsc_init_body c V .evHStageHFP st).pu16Buf (st.next + 1)))[k]? = _
    rw [hb, gdma_storeAt_get, gdma_storeAt_get]
    simp only [E_HSTAGE.val]
    by_cases e1 : st.next + 1 = k
    · subst e1
      have hc : st.next ≤ st.next + 1 ∧ st.next + 1 < st.next + 2 := by omega
      have e3 : st.next + 1 - st.next = 1 := by omega
      have e4 : ¬ st.next = st.next + 1 := by omega
      rw [if_pos rfl, if_neg e4, if_pos hc, e3]
      rfl
    · rw [if_neg e1]
      by_cases e : st.next = k
      · subst e
        have hc : st.next ≤ st.next ∧ st.next < st.next + 2 := by omega
        rw [if_pos rfl, if_pos hc, Nat.sub_self]
        rfl
      · have hc : ¬ (st.next ≤ k ∧ k < st.next + 2) := by omega
        rw [if_neg e, if_neg hc]
  · show (Gdma.storeAt (Gdma.storeAt (Gdma.storeAt st.dsc st.next
      (Gdma.lineCmd c V .evHStageHFP st.pu16Buf st.next)) (st.next + 1)
      (Gdma.lineCmd c V .evHStageHSYNC
        (Gdma.dsc_init_body c V .evHStageHFP st).pu16Buf (st.next + 1))) (st.next + 1 + 1)
      (Gdma.lineCmd c V .evHStageHBP
        (Gdma.dsc_init_body c V .evHStageHSYNC
          (Gdma.dsc_init_body c V .evHStageHFP st)).pu16Buf (st.next + 1 + 1)))[k]? = _
    rw [hb, hb2, gdma_storeAt_get, gdma_storeAt_get, gdma_storeAt_get]
    simp only [E_HSTAGE.val]
    by_cases e2 : st.next + 1 + 1 = k
    · subst e2
      have hc : st.next ≤ st.next + 1 + 1 ∧ st.next + 1 + 1 < st.next + 3 := by omega
      have e3 : st.next + 1 + 1 - st.next = 2 := by omega
      have e4 : ¬ st.next + 1 = st.next + 1 + 1 := by omega
      have e5 : ¬ st.next = st.next + 1 + 1 := by omega
      rw [if_pos rfl, if_neg e4, if_neg e5, if_pos hc, e3]
      rfl
    · rw [if_neg e2]
      by_cases e1 : st.next + 1 = k
      · subst e1
        have hc : st.next ≤ st.next + 1 ∧ st.next + 1 < st.next + 3 := by omega
        have e3 : st.next + 1 - st.next = 1 := by omega
        have e4 : ¬ st.next = st.next + 1 := by omega
        rw [if_pos rfl, if_neg e4, if_pos hc, e3]
        rfl
      · rw [if_neg e1]
        by_cases e : st.next = k
        · subst e
          have hc : st.next ≤ st.next ∧ st.next < st.next + 3 := by omega
          rw [if_pos rfl, if_pos hc, Nat.sub_self]
          rfl
        · have hc : ¬ (st.next ≤ k ∧ k < st.next + 3) := by omega
          rw [if_neg e, if_neg hc]

theorem pdma_stateAt_get (c : Config) (a0 : List Pdma.DSCT_T) (B i : Nat) (evH : E_HSTAGE)
    (k : Nat) :
    (Pdma.stateAt c a0 B i evH).dsc[k]?
      = if k < slotOf i evH then
          (if k < a0.length then
            some (Pdma.lineDsc c (Pdma.vs c (k / 4)) (E_HSTAGE.ofVal (k % 4))
              (lineBuf c (Pdma.vs c) B (k / 4)) k)
          else none)
        else a0[k]? := by
  have hval : evH.val < 4 := by cases evH <;> decide
  have hs : slotOf i evH = 4 * i + evH.val := by simp only [slotOf, evHStageCNT]
  have hv : Pdma.get_current_vstage c (i : Int) = Pdma.vs c i := rfl
  unfold Pdma.stateAt
  rw [pdma_take_get, pdma_vloop_next, pdma_vloop_buf, pdma_vloop_length,
    pdma_vloop_get c i _ rfl k, hs, hv]
  simp only [s_head, zero_add]
  by_cases h1 : k < 4 * i
  · have hc : ¬ (4 * i ≤ k ∧ k < 4 * i + evH.val) := by omega
    have h3 : k < 4 * i + evH.val := by omega
    simp only [if_neg hc, if_pos h1, if_pos h3]
  · by_cases h2 : k < 4 * i + evH.val
    · have hc : 4 * i ≤ k ∧ k < 4 * i + evH.val := by omega
      have e1 : k / 4 = i := by omega
      have e2 : k % 4 = k - 4 * i := by omega
      simp only [if_pos hc, if_pos h2, e1, e2]
    · have hc : ¬ (4 * i ≤ k ∧ k < 4 * i + evH.val) := by omega
      simp only [if_neg hc, if_neg h2, if_neg h1]

theorem gdma_stateAt_get (c : Config) (g0 : List Gdma.S_CMDBUF) (B i : Nat) (evH : E_HSTAGE)
    (k : Nat) :
    (Gdma.stateAt c g0 B i evH).dsc[k]?
      = if k < slotOf i evH then (g0[k]?).map (Gdma.builtCmd c B k) else g0[k]? := by
  have hval : evH.val < 4 := by cases evH <;> decide
  have hs : slotOf i evH = 4 * i + evH.val := by simp only [slotOf, evHStageCNT]
  have hv : Gdma.get_current_vstage c (i : Int) = Gdma.vs c i := rfl
  unfold Gdma.stateAt
  rw [gdma_take_get, gdma_vloop_next, gdma_vloop_buf, gdma_vloop_get c i _ rfl k, hs, hv]
  simp only [s_head, zero_add]
  by_cases h1 : k < 4 * i
  · have hc : ¬ (4 * i ≤ k ∧ k < 4 * i + evH.val) := by omega
    have h3 : k < 4 * i + evH.val := by omega
    simp only [if_neg hc, if_pos h1, if_pos h3]
  · by_cases h2 : k < 4 * i + evH.val
    · have hc : 4 * i ≤ k ∧ k < 4 * i + evH.val := by omega
      have e1 : k / 4 = i := by omega
      have e2 : k % 4 = k - 4 * i := by omega
      simp only [if_pos hc, if_pos h2, if_neg h1]
      unfold Gdma.builtCmd
      rw [e1, e2]
    · have hc : ¬ (4 * i ≤ k ∧ k < 4 * i + evH.val) := by omega
      simp only [if_neg hc, if_neg h2, if_neg h1]

/-- C1: in the sync configuration, for every timing table, `disp_pdma_dsc_init` and
`disp_gdma_dsc_init` each write exactly `4 * (VFP+VPW+VBP+VACT)` descriptors (1244 for the
shipped timing), one per (scanline, horizontal stage) pair in scanline-major order.  When the
iteration for scanline `i` and stage `evH` begins, `next` is at slot `4 * i + evH`, the slots
below it hold the descriptors of the pairs before `(i, evH)` (slot `k` that of line `k / 4`
and stage `k % 4`) and the slots from it on still hold what the array held; the iteration
stores one descriptor, that of `(i, evH)`, into that slot and steps `next` by one.  After the
loops the slots below `4 * total` hold the descriptors written, every other slot is
untouched and `next` is `4 * total` slots after `s_head`.  The last iteration (line
`total - 1`, stage HACT) writes `s_end`, the slot `4 * total - 1` of the statically sized
array, and on that array every slot has been written. -/
theorem C1_chain_length (c : Config) (a0 : List Pdma.DSCT_T) (g0 : List Gdma.S_CMDBUF)
    (B : Nat) :
    dscSlots c = 4 * (c.CONFIG_TIMING_VFP + c.CONFIG_TIMING_VPW + c.CONFIG_TIMING_VBP
      + c.CONFIG_TIMING_VACT)
    ∧ (∀ e m d a f, dscSlots (shipped e m d a f) = 1244)
    ∧ (∀ i evH, i < DEF_TOTAL_VLINES c →
        (Pdma.dsc_init_hloop c (Pdma.get_current_vstage c (i : Int)) (hStages.take evH.val)
          (Pdma.dsc_init_vloop c i { dsc := a0, next := s_head, pu16Buf := B })).next
          = slotOf i evH
        ∧ hStages.drop evH.val = evH :: hStages.drop (evH.val + 1)
        ∧ slotOf i evH < dscSlots c)
    ∧ (Pdma.dsc_init_vloop c (DEF_TOTAL_VLINES c)
        { dsc := a0, next := s_head, pu16Buf := B }).next = s_head + dscSlots c
    ∧ (∀ i evH, i < DEF_TOTAL_VLINES c →
        (Gdma.dsc_init_hloop c (Gdma.get_current_vstage c (i : Int)) (hStages.take evH.val)
          (Gdma.dsc_init_vloop c i { dsc := g0, next := s_head, pu16Buf := B })).next
          = slotOf i evH
        ∧ hStages.drop evH.val = evH :: hStages.drop (evH.val + 1)
        ∧ slotOf i evH < dscSlots c)
    ∧ (Gdma.dsc_init_vloop c (DEF_TOTAL_VLINES c)
        { dsc := g0, next := s_head, pu16Buf := B }).next = s_head + dscSlots c
    ∧ (0 < DEF_TOTAL_VLINES c →
        slotOf (DEF_TOTAL_VLINES c - 1) .evHStageHACT = s_end c
        ∧ s_end c = 4 * DEF_TOTAL_VLINES c - 1)
    ∧ (∀ (i : Nat) (evH : E_HSTAGE),
        (Pdma.dsc_init_body c (Pdma.get_current_vstage c (i : Int)) evH
            (Pdma.stateAt c a0 B i evH)).dsc
          = (Pdma.stateAt c a0 B i evH).dsc.set (slotOf i evH)
              (Pdma.lineDsc c (Pdma.get_current_vstage c (i : Int)) evH
                (lineBuf c (Pdma.vs c) B i) (slotOf i evH))
        ∧ (Pdma.dsc_init_body c (Pdma.get_current_vstage c (i : Int)) evH
            (Pdma.stateAt c a0 B i evH)).next = slotOf i evH + 1
        ∧ Pdma.dsc_init_hloop c (Pdma.get_current_vstage c (i : Int))
            (hStages.take (evH.val + 1))
            (Pdma.dsc_init_vloop c i { dsc := a0, next := s_head, pu16Buf := B })
          = Pdma.dsc_init_body c (Pdma.get_current_vstage c (i : Int)) evH
              (Pdma.stateAt c a0 B i evH)
        ∧ Pdma.dsc_init_vloop c (i + 1) { dsc := a0, next := s_head, pu16Buf := B }
          = Pdma.dsc_init_body c (Pdma.get_current_vstage c (i : Int)) .evHStageHACT
              (Pdma.stateAt c a0 B i .evHStageHACT)
        ∧ (∀ k, (Pdma.stateAt c a0 B i evH).dsc[k]?
            = if k < slotOf i evH then
                (if k < a0.length then
                  some (Pdma.lineDsc c (Pdma.vs c (k / 4)) (E_HSTAGE.ofVal (k % 4))
                    (lineBuf c (Pdma.vs c) B (k / 4)) k)
                else none)
              else a0[k]?))
    ∧ (∀ k, (Pdma.dsc_init_vloop c (DEF_TOTAL_VLINES c)
          { dsc := a0, next := s_head, pu16Buf := B }).dsc[k]?
        = if k < dscSlots c then
            (if k < a0.length then
              some (Pdma.lineDsc c (Pdma.vs c (k / 4)) (E_HSTAGE.ofVal (k % 4))
                (lineBuf c (Pdma.vs c) B (k / 4)) k)
            else none)
          else a0[k]?)
    ∧ (∀ (i : Nat) (evH : E_HSTAGE),
        (Gdma.dsc_init_body c (Gdma.get_current_vstage c (i : Int)) evH
            (Gdma.stateAt c g0 B i evH)).dsc
          = Gdma.storeAt (Gdma.stateAt c g0 B i evH).dsc (slotOf i evH)
              (Gdma.lineCmd c (Gdma.get_current_vstage c (i : Int)) evH
                (lineBuf c (Gdma.vs c) B i) (slotOf i evH))
        ∧ (Gdma.dsc_init_body c (Gdma.get_current_vstage c (i : Int)) evH
            (Gdma.stateAt c g0 B i evH)).next = slotOf i evH + 1
        ∧ Gdma.dsc_init_hloop c (Gdma.get_current_vstage c (i : Int))
            (hStages.take (evH.val + 1))
            (Gdma.dsc_init_vloop c i { dsc := g0, next := s_head, pu16Buf := B })
          = Gdma.dsc_init_body c (Gdma.get_current_vstage c (i : Int)) evH
              (Gdma.stateAt c g0 B i evH)
        ∧ Gdma.dsc_init_vloop c (i + 1) { dsc := g0, next := s_head, pu16Buf := B }
          = Gdma.dsc_init_body c (Gdma.get_current_vstage c (i : Int)) .evHStageHACT
              (Gdma.stateAt c g0 B i .evHStageHACT)
        ∧ (∀ k, (Gdma.stateAt c g0 B i evH).dsc[k]?
            = if k < slotOf i evH then (g0[k]?).map (Gdma.builtCmd c B k) else g0[k]?))
    ∧ (∀ k, (Gdma.dsc_init_vloop c (DEF_TOTAL_VLINES c)
          { dsc := g0, next := s_head, pu16Buf := B }).dsc[k]?
        = if k < dscSlots c then (g0[k]?).map (Gdma.builtCmd c B k) else g0[k]?)
    ∧ (∀ (sP : DispState Pdma.DSCT_T) (sG : DispState Gdma.S_CMDBUF),
        sP.s_sDscLCD.length = dscSlots c → sG.s_sDscLCD.length = dscSlots c →
        (Pdma.disp_pdma_dsc_init c sP).s_sDscLCD.length = dscSlots c
        ∧ (Gdma.disp_gdma_dsc_init c sG).s_sDscLCD.length = dscSlots c
        ∧ ∀ k, k < dscSlots c →
          (Pdma.disp_pdma_dsc_init c sP).s_sDscLCD[k]?
            = some (Pdma.builtDsc c sP.s_pu16BufAddr k)
          ∧ (Gdma.disp_gdma_dsc_init c sG).s_sDscLCD[k]?
            = some (Gdma.builtCmd c sG.s_pu16BufAddr k
                (sG.s_sDscLCD.getD k Gdma.S_CMDBUF.zero))) := by
  have hval : ∀ evH : E_HSTAGE, evH.val < 4 := by
    intro evH
    cases evH <;> decide
  have hN : dscSlots c = 4 * DEF_TOTAL_VLINES c := by
    simp only [dscSlots, evHStageCNT]
  refine ⟨?_, ?_, ?_, ?_, ?_, ?_, ?_, ?_, ?_, ?_, ?_, ?_⟩
  · simp only [dscSlots, DEF_TOTAL_VLINES, evHStageCNT]
    omega
  · intro e m d a f
    simp only [dscSlots, DEF_TOTAL_VLINES, shipped, evHStageCNT]
  · intro i evH hi
    refine ⟨?_, hStages_take_next evH, ?_⟩
    · rw [pdma_hloop_next, pdma_vloop_next, hStages_take_length]
      simp only [s_head, slotOf, evHStageCNT]
      omega
    · have := hval evH
      simp only [slotOf, dscSlots, evHStageCNT]
      omega
  · rw [pdma_vloop_next]
    simp only [s_head, dscSlots, evHStageCNT]
  · intro i evH hi
    refine ⟨?_, hStages_take_next evH, ?_⟩
    · rw [gdma_hloop_next, gdma_vloop_next, hStages_take_length]
      simp only [s_head, slotOf, evHStageCNT]
      omega
    · have := hval evH
      simp only [slotOf, dscSlots, evHStageCNT]
      omega
  · rw [gdma_vloop_next]
    simp only [s_head, dscSlots, evHStageCNT]
  · intro hpos
    simp only [slotOf, s_end, s_head, dscSlots, evHStageCNT, E_HSTAGE.val]
    omega
  · intro i evH
    have hs := pdma_stateAt c a0 B i evH
    refine ⟨?_, ?_, pdma_hloop_take_succ c _ evH _, ?_, fun k => pdma_stateAt_get c a0 B i evH k⟩
    · rw [(pdma_body_dsc c _ evH _).1, hs.1, hs.2]
    · rw [(pdma_body_dsc c _ evH _).2, hs.1]
    · exact pdma_hloop_take_succ c _ .evHStageHACT _
  · intro k
    rw [pdma_vloop_get c _ _ rfl k, hN]
  · intro i evH
    have hs := gdma_stateAt c g0 B i evH
    refine ⟨?_, ?_, gdma_hloop_take_succ c _ evH _, ?_, fun k => gdma_stateAt_get c g0 B i evH k⟩
    · rw [(gdma_body_dsc c _ evH _).1, hs.1, hs.2, vs_eq]
    · rw [(gdma_body_dsc c _ evH _).2, hs.1]
    · exact gdma_hloop_take_succ c _ .evHStageHACT _
  · intro k
    rw [gdma_vloop_get c _ _ rfl k, hN]
  · intro sP sG hP hG
    refine ⟨by rw [pdma_built_length, hP], by rw [gdma_built_length, hG], ?_⟩
    intro k hk
    exact ⟨pdma_built_get c sP hP k hk, gdma_built_getElem c sG hG k hk⟩


/-! ## Transfer counts that do not fit 16 bits -/

/-- C18 (counterexample): the small timing table with `HACT = 70000`.  The PDMA descriptor of
the horizontal-Active stage of line 0 carries the count 70000, but the GDMA command buffer
of the same stage carries `70000 mod 65536 = 4464` in both halves of `XSIZE`, because
`disp_gdma_dsc_init` passes `(uint16_t)u32XferCount`; the line then transfers
`1 + 1 + 1 + 4464 = 4467` units in the GDMA chain, not `1 + 1 + 1 + 70000`, and the ring
`4467 * 5`. -/
theorem C18_gdma_count_truncated :
    s_au32HTiming wideLine .evHStageHACT = 70000
    ∧ ((Pdma.disp_pdma_dsc_init wideLine (Pdma.startState wideLine)).s_sDscLCD.getD
        (slotOf 0 .evHStageHACT) Pdma.DSCT_T.zero).CTL.TXCNT = 70000
    ∧ Gdma.srcCount ((Gdma.disp_gdma_dsc_init wideLine (Gdma.startState wideLine)).s_sDscLCD.getD
        (slotOf 0 .evHStageHACT) Gdma.S_CMDBUF.zero) = 4464
    ∧ Gdma.desCount ((Gdma.disp_gdma_dsc_init wideLine (Gdma.startState wideLine)).s_sDscLCD.getD
        (slotOf 0 .evHStageHACT) Gdma.S_CMDBUF.zero) = 4464
    ∧ Gdma.lineCount (Gdma.disp_gdma_dsc_init wideLine (Gdma.startState wideLine)).s_sDscLCD 0
        = 4467
    ∧ wideLine.CONFIG_TIMING_HFP + wideLine.CONFIG_TIMING_HPW + wideLine.CONFIG_TIMING_HBP
        + wideLine.CONFIG_TIMING_HACT = 70003
    ∧ Gdma.ringCount (Gdma.disp_gdma_dsc_init wideLine (Gdma.startState wideLine)).s_sDscLCD
        = 4467 * 5 := by
  have hP : (Pdma.startState wideLine).s_sDscLCD.length = dscSlots wideLine := by decide
  have hG : (Gdma.startState wideLine).s_sDscLCD.length = dscSlots wideLine := by decide
  have hi : 0 < DEF_TOTAL_VLINES wideLine := by decide
  have g := fun h => gdma_built_counts wideLine (Gdma.startState wideLine) hG 0 h hi
  refine ⟨rfl, ?_, ?_, ?_, ?_, by decide, ?_⟩
  · rw [(pdma_built_ctl wideLine (Pdma.startState wideLine) hP 0 .evHStageHACT hi).1]
    rfl
  · rw [(g .evHStageHACT).1]
    decide
  · rw [(g .evHStageHACT).2.1]
    decide
  · unfold Gdma.lineCount hStages
    simp only [List.map_cons, List.map_nil, List.sum_cons, List.sum_nil]
    rw [(g .evHStageHFP).1, (g .evHStageHSYNC).1, (g .evHStageHBP).1, (g .evHStageHACT).1]
    decide
  · rw [gdma_built_ringCount wideLine (Gdma.startState wideLine) hG]
    decide

end Disp
